import Mathlib

/-!
# Argyll instrument drivers: HCFR colorimeter and Spectrolino / SpectroScan

A shallow embedding of `spectro/hcfr.c` and `spectro/ss.c`.

* C `int` values are `Int`; `unsigned int` arithmetic is reduced modulo `2^32`
  explicitly (`u32`).
* C `double` values are rationals: results about them are results about the
  exact real-number formula the code writes down.
* The headers (`inst.h`, `hcfr.h`, `icoms.h`, `ss.h`, `ss_imp.h`) are not part
  of the sources at hand.  Numeric constants declared there are taken as a
  parameter record; enumerations that the drivers only ever compare for
  equality are inductive types carrying the enumerator names of the source.
* The instrument and the transport are external: their answers are inputs.
-/

namespace Argyll

/-! ## C integers -/

/-- Bit pattern of a C `int` read as a 32 bit `unsigned int`. -/
def u32 (x : Int) : Int := x % 4294967296

/-- A 32 bit pattern read back as a two's complement `int`. -/
def s32 (x : Int) : Int :=
  if u32 x < 2147483648 then u32 x else u32 x - 4294967296

/-- C `a & b` on `int`: the bitwise and of two's complement integers. -/
def iand (a b : Int) : Int := Int.land a b

/-- C `a | b` on `int`: the bitwise or of two's complement integers. -/
def ior (a b : Int) : Int := Int.lor a b

/-! ## C strings -/

/-- The characters of a buffer up to, not including, its first NUL. -/
def cstr (buf : List Char) : List Char :=
  buf.takeWhile (fun c => c.toNat != 0)

/-- C `strlen`. -/
def strlen (buf : List Char) : Nat := (cstr buf).length

/-- C `strncmp(a, b, n) == 0`. -/
def strncmp_eq (a b : List Char) (n : Nat) : Bool :=
  (cstr a).take n == (cstr b).take n

/-- C `isspace` in the "C" locale. -/
def isspace (c : Char) : Bool :=
  c.toNat == 32 || (9 ≤ c.toNat && c.toNat ≤ 13)

/-- C `isdigit`. -/
def isdigit (c : Char) : Bool := 48 ≤ c.toNat && c.toNat ≤ 57

/-- The digit run at the head of a string, accumulated in base ten. -/
def atoi_digits : List Char → Nat → Nat
  | [], acc => acc
  | c :: cs, acc =>
    if isdigit c then atoi_digits cs (acc * 10 + (c.toNat - 48)) else acc

/-- After the white space: an optional sign, then the digit run. -/
def atoi_signed : List Char → Int
  | [] => 0
  | c :: cs =>
    if c.toNat = 45 then - Int.ofNat (atoi_digits cs 0)
    else if c.toNat = 43 then Int.ofNat (atoi_digits cs 0)
    else Int.ofNat (atoi_digits (c :: cs) 0)

/-- C `atoi` (on the short strings used here no overflow can occur). -/
def atoi (s : List Char) : Int := atoi_signed ((cstr s).dropWhile isspace)

/-- The three characters `strncpy(vbuf, bp, 3)` leaves in `vbuf` (with
`vbuf[3] = 0`), seen as a C string. -/
def strncpy3 (bp : List Char) : List Char := cstr (bp.take 3)

/-! ## Header constants -/

/-- Numeric constants of `inst.h`, `hcfr.h` and `icoms.h` used by `hcfr.c`. -/
structure Consts where
  inst_ok : Int
  inst_internal_error : Int
  inst_coms_fail : Int
  inst_unknown_model : Int
  inst_protocol_error : Int
  inst_user_abort : Int
  inst_user_term : Int
  inst_user_trig : Int
  inst_user_cmnd : Int
  inst_misread : Int
  inst_hardware_fail : Int
  inst_other_error : Int
  inst_imask : Int
  inst_mask : Int
  HCFR_OK : Int
  HCFR_CALIB_CALC : Int
  HCFR_COMS_FAIL : Int
  HCFR_UNKNOWN_MODEL : Int
  HCFR_DATA_PARSE_ERROR : Int
  HCFR_USER_ABORT : Int
  HCFR_USER_TERM : Int
  HCFR_USER_TRIG : Int
  HCFR_USER_CMND : Int
  HCFR_BAD_READING : Int
  HCFR_BAD_FIRMWARE : Int
  ICOM_OK : Int
  ICOM_USERM : Int
  ICOM_USER : Int
  ICOM_TERM : Int
  ICOM_TRIG : Int
  ICOM_CMND : Int

/-- The `case` labels of the `switch` in `hcfr_interp_code`, in source order. -/
def Consts.labels (K : Consts) : List Int :=
  [K.HCFR_OK, K.HCFR_CALIB_CALC, K.HCFR_COMS_FAIL, K.HCFR_UNKNOWN_MODEL,
   K.HCFR_DATA_PARSE_ERROR, K.HCFR_USER_ABORT, K.HCFR_USER_TERM, K.HCFR_USER_TRIG,
   K.HCFR_USER_CMND, K.HCFR_BAD_READING, K.HCFR_BAD_FIRMWARE]

/-- What the header has to satisfy for the `switch` to compile and for a
subcode to survive the mask: the labels are pairwise distinct and each lies
inside `inst_imask`. -/
def Consts.WF (K : Consts) : Prop :=
  K.labels.Nodup ∧ ∀ c ∈ K.labels, iand c K.inst_imask = c

instance (K : Consts) : Decidable K.WF := by
  unfold Consts.WF; exact inferInstance

/-- One assignment of the constants: abstract class in bits 16 to 23, instrument
subcode in the low 16 bits, user keys in bits 16 to 19 of the transport status. -/
def sampleConsts : Consts where
  inst_ok := 0x000000
  inst_internal_error := 0x030000
  inst_coms_fail := 0x040000
  inst_unknown_model := 0x050000
  inst_protocol_error := 0x060000
  inst_user_abort := 0x070000
  inst_user_term := 0x080000
  inst_user_trig := 0x090000
  inst_user_cmnd := 0x0A0000
  inst_misread := 0x0B0000
  inst_hardware_fail := 0x130000
  inst_other_error := 0x150000
  inst_imask := 0x00ffff
  inst_mask := 0xff0000
  HCFR_OK := 0x00
  HCFR_CALIB_CALC := 0x03
  HCFR_COMS_FAIL := 0x62
  HCFR_UNKNOWN_MODEL := 0x63
  HCFR_DATA_PARSE_ERROR := 0x64
  HCFR_USER_ABORT := 0x65
  HCFR_USER_TERM := 0x66
  HCFR_USER_TRIG := 0x67
  HCFR_USER_CMND := 0x68
  HCFR_BAD_READING := 0x01
  HCFR_BAD_FIRMWARE := 0x02
  ICOM_OK := 0x000000
  ICOM_USERM := 0x0F0000
  ICOM_USER := 0x010000
  ICOM_TERM := 0x020000
  ICOM_TRIG := 0x030000
  ICOM_CMND := 0x040000

/-! ## hcfr.c -/

/-- Source: `icoms2hcfr_err`. -/
def icoms2hcfr_err (K : Consts) (se : Int) : Int :=
  if iand se K.ICOM_USERM ≠ 0 then
    let se1 := iand se K.ICOM_USERM
    if se1 = K.ICOM_USER then K.HCFR_USER_ABORT
    else if se1 = K.ICOM_TERM then K.HCFR_USER_TERM
    else if se1 = K.ICOM_TRIG then K.HCFR_USER_TRIG
    else if se1 = K.ICOM_CMND then K.HCFR_USER_CMND
    else if se1 ≠ K.ICOM_OK then K.HCFR_COMS_FAIL
    else K.HCFR_OK
  else if se ≠ K.ICOM_OK then K.HCFR_COMS_FAIL
  else K.HCFR_OK

/-- Source: `hcfr_interp_code`; the `switch` is read top to bottom. -/
def hcfr_interp_code (K : Consts) (ec0 : Int) : Int :=
  let ec := iand ec0 K.inst_imask
  if ec = K.HCFR_OK then K.inst_ok
  else if ec = K.HCFR_CALIB_CALC then ior K.inst_internal_error ec
  else if ec = K.HCFR_COMS_FAIL then ior K.inst_coms_fail ec
  else if ec = K.HCFR_UNKNOWN_MODEL then ior K.inst_unknown_model ec
  else if ec = K.HCFR_DATA_PARSE_ERROR then ior K.inst_protocol_error ec
  else if ec = K.HCFR_USER_ABORT then ior K.inst_user_abort ec
  else if ec = K.HCFR_USER_TERM then ior K.inst_user_term ec
  else if ec = K.HCFR_USER_TRIG then ior K.inst_user_trig ec
  else if ec = K.HCFR_USER_CMND then ior K.inst_user_cmnd ec
  else if ec = K.HCFR_BAD_READING then ior K.inst_misread ec
  else if ec = K.HCFR_BAD_FIRMWARE then ior K.inst_hardware_fail ec
  else ior K.inst_other_error ec

/-- Source: `hcfr_command`; `se` is the status `write_read` returned. -/
def hcfr_command (K : Consts) (se : Int) : Int :=
  if se ≠ 0 then hcfr_interp_code K (icoms2hcfr_err K se)
  else hcfr_interp_code K K.HCFR_OK

/-- The field `atoi` reads at character offset `off` of the reply. -/
def field (buf : List Char) (off : Nat) : Int := atoi (strncpy3 (buf.drop off))

/-- Loop body of `hcfr_get_rgb`, lines 255 to 258: the denominator of the
group whose first field is at `bp`. -/
def decode_den (bp : List Char) : Int :=
  let den0 := u32 (field bp 0)
  let den1 := u32 (u32 (den0 * 256) + field bp 3)
  let den2 := u32 (u32 (den1 * 256) + field bp 6)
  u32 (u32 (den2 * 256) + field bp 9)

/-- Loop body of `hcfr_get_rgb`, lines 260 and 261: the numerator. -/
def decode_num (bp : List Char) : Int :=
  let num0 := u32 (field bp 12)
  u32 (u32 (num0 * 256) + field bp 15)

/-- Field `div`, read at `buf + 6`. -/
def hcfr_div (buf : List Char) : Int := field buf 6

/-- Field `mul`, read at `buf + 9`. -/
def hcfr_mul (buf : List Char) : Int := field buf 9

/-- Array `vals[i]` after the loop of `hcfr_get_rgb`: group `i` starts at
`buf + 12 + 18 * i`. -/
def hcfr_vals (buf : List Char) (i : Nat) : ℚ :=
  let bp := buf.drop (12 + 18 * i)
  if decode_den bp = 0 then -1
  else 1000000 * (decode_num bp : ℚ) * (hcfr_mul buf : ℚ) * (hcfr_div buf : ℚ)
        / (decode_den bp : ℚ)

/-- The tag `"RGB_1:"`. -/
def tagRGB1 : List Char := "RGB_1:".toList

/-- The tag `"RGB_2:"`. -/
def tagRGB2 : List Char := "RGB_2:".toList

/-- Source: `hcfr_get_rgb`.  Inputs: the `gotcoms` flag, the transport
status `se` and reply buffer `buf` of the one command exchange, and the caller's
array `rgb`.  Output: the return code and the array on return. -/
def hcfr_get_rgb (K : Consts) (gotcoms se : Int) (buf : List Char) (rgb : Nat → ℚ) :
    Int × (Nat → ℚ) :=
  if gotcoms = 0 then (K.inst_internal_error, rgb)
  else if hcfr_command K se ≠ K.inst_ok then (hcfr_command K se, rgb)
  else if strlen buf < 156 then (hcfr_interp_code K K.HCFR_BAD_READING, rgb)
  else if strncmp_eq buf tagRGB1 6 then
    (K.inst_ok, fun i => if i < 3 then hcfr_vals buf i else rgb i)
  else if ¬ strncmp_eq buf tagRGB2 6 then (hcfr_interp_code K K.HCFR_BAD_READING, rgb)
  else
    (K.inst_ok,
      fun i => if i < 3 then (1 / 2 : ℚ) * (hcfr_vals buf i + hcfr_vals buf (i + 4)) else rgb i)

/-! ### Reading the reply by the book -/

/-- The four denominator fields of group `i` read as one big-endian base 256
number, without any reduction. -/
def be_den (buf : List Char) (i : Nat) : Int :=
  let bp := buf.drop (12 + 18 * i)
  field bp 0 * 16777216 + field bp 3 * 65536 + field bp 6 * 256 + field bp 9

/-- The two numerator fields of group `i` read as one big-endian base 256
number, without any reduction. -/
def be_num (buf : List Char) (i : Nat) : Int :=
  let bp := buf.drop (12 + 18 * i)
  field bp 12 * 256 + field bp 15

/-- A byte written as a zero padded three digit decimal field. -/
def enc3 (b : Nat) : List Char :=
  [Char.ofNat (48 + b / 100), Char.ofNat (48 + b / 10 % 10), Char.ofNat (48 + b % 10)]

/-- A denominator written as four bytes and a numerator as two bytes, most
significant byte first, each byte as a three digit field. -/
def encode_group (d n : Nat) : List Char :=
  enc3 (d / 16777216 % 256) ++ enc3 (d / 65536 % 256) ++ enc3 (d / 256 % 256) ++ enc3 (d % 256)
    ++ enc3 (n / 256 % 256) ++ enc3 (n % 256)

/-! ## ss.c: types and constants -/

/-- Instrument types (`insttypes.h`) that `ss.c` names; `instOther` stands for
the remaining enumerators. -/
inductive instType
  | instUnknown
  | instSpectrolino
  | instSpectroScan
  | instSpectroScanT
  | instOther (n : Nat)
  deriving DecidableEq, Repr

/-- Calibration types (`inst.h`) that `ss.c` names; `inst_calt_other` stands
for the remaining enumerators. -/
inductive inst_cal_type
  | inst_calt_none
  | inst_calt_unknown
  | inst_calt_all
  | inst_calt_ref_white
  | inst_calt_trans_white
  | inst_calt_other (n : Nat)
  deriving DecidableEq, Repr

/-- Calibration conditions (`inst.h`) that `ss.c` names. -/
inductive inst_cal_cond
  | inst_calc_none
  | inst_calc_man_ref_white
  | inst_calc_man_trans_white
  | inst_calc_change_filter
  | inst_calc_message
  | inst_calc_other (n : Nat)
  deriving DecidableEq, Repr

/-- Table modes passed to `ss_do_SetTableMode`. -/
inductive ss_tmt
  | ss_tmt_Reflectance
  | ss_tmt_Transmission
  deriving DecidableEq, Repr

/-- Control types passed to `so_do_MeasControlDownload` by the calibration
and by `ss_init_coms`. -/
inductive ss_ctt
  | ss_ctt_RemissionMeas
  | ss_ctt_EmissionMeas
  | ss_ctt_ProtokolWithXonXoff
  | ss_ctt_ProtokolWithHardwareHS
  | ss_ctt_ProtokolWithoutXonXoff
  | ss_ctt_SetBaud9600
  | ss_ctt_SetBaud19200
  | ss_ctt_SetBaud57600
  | ss_ctt_SetBaud2400
  | ss_ctt_SetBaud1200
  | ss_ctt_SetBaud600
  | ss_ctt_SetBaud300
  deriving DecidableEq, Repr

/-- The values of `inst_opt_mode` (`inst.h`) that select a trigger; `other`
stands for every other option. -/
inductive inst_opt_mode
  | inst_opt_trig_prog
  | inst_opt_trig_keyb
  | inst_opt_trig_keyb_switch
  | inst_opt_other (n : Nat)
  deriving DecidableEq, Repr

/-- Baud rates (`icoms.h`) in the table of `ss_init_coms`; `baud_other` stands
for the remaining enumerators. -/
inductive baud_rate
  | baud_9600
  | baud_19200
  | baud_57600
  | baud_2400
  | baud_1200
  | baud_600
  | baud_300
  | baud_other (n : Nat)
  deriving DecidableEq, Repr

/-- Flow control settings (`icoms.h`). -/
inductive flow_control
  | fc_nc
  | fc_none
  | fc_XonXOff
  | fc_Hardware
  | fc_other (n : Nat)
  deriving DecidableEq, Repr

/-- Baud rate codes passed to `ss_do_ChangeBaudRate`. -/
inductive ss_bt
  | ss_bt_9600
  | ss_bt_19200
  | ss_bt_57600
  | ss_bt_2400
  | ss_bt_1200
  | ss_bt_600
  | ss_bt_300
  deriving DecidableEq, Repr

/-- Handshake codes passed to `ss_do_ChangeHandshake`. -/
inductive ss_hst
  | ss_hst_None
  | ss_hst_XonXOff
  | ss_hst_Hardware
  deriving DecidableEq, Repr

/-- Target types reported by `so_do_TargetIdRequest`: the one `ss.c` names and
the rest. -/
inductive ss_ttt
  | ss_ttt_Spectrolino
  | ss_ttt_other (n : Nat)
  deriving DecidableEq, Repr

/-- Switch states passed to `so_do_TargetOnOffStDownload`. -/
inductive ss_toost
  | ss_toost_Activated
  | ss_toost_Deactivated
  deriving DecidableEq, Repr

/-- Measurement modes passed to `so_do_ExecRefMeasurement`. -/
inductive ss_mmt
  | ss_mmt_WhiteCalWithWarn
  | ss_mmt_EmissionCal
  deriving DecidableEq, Repr

/-- White base types: the one `ss.c` names and the rest. -/
inductive ss_wbt
  | ss_wbt_Abs
  | ss_wbt_other (n : Nat)
  deriving DecidableEq, Repr

/-- Numeric constants of `inst.h`, `ss_imp.h` and `time.h` used by the parts
of `ss.c` embedded here: mode fields, capability bits, abstract codes and
their class mask, instrument notification and error codes, reply codes, the
clock rate, and the trigger key of `icoms.h`. -/
structure SsConsts where
  inst_mode_illum_mask : Int
  inst_mode_sub_mask : Int
  inst_mode_measurement_mask : Int
  inst_mode_reflection : Int
  inst_mode_transmission : Int
  inst_mode_emission : Int
  inst_mode_spot : Int
  inst_mode_ref_spot : Int
  inst_mode_ref_strip : Int
  inst_mode_ref_xy : Int
  inst_mode_trans_spot : Int
  inst_mode_trans_strip : Int
  inst_mode_trans_xy : Int
  inst_mode_emis_spot : Int
  inst_mode_emis_disp : Int
  inst_mode_emis_illum : Int
  inst_mode_colorimeter : Int
  inst_mode_spectral : Int
  inst_ref_spot : Int
  inst_ref_strip : Int
  inst_ref_xy : Int
  inst_trans_spot : Int
  inst_trans_strip : Int
  inst_trans_xy : Int
  inst_emis_spot : Int
  inst_emis_disp : Int
  inst_emis_illum : Int
  inst_colorimeter : Int
  inst_spectral : Int
  inst_ok : Int
  inst_notify : Int
  inst_cal_setup : Int
  inst_unsupported : Int
  inst_needs_cal : Int
  inst_wrong_config : Int
  ss_et_WhiteMeasOK : Int
  ss_et_EmissionCalOK : Int
  ss_aft_NoFilter : Int
  inst_mask : Int
  inst_internal_error : Int
  inst_coms_fail : Int
  inst_unknown_model : Int
  inst_user_abort : Int
  inst_user_term : Int
  inst_user_trig : Int
  inst_user_cmnd : Int
  ss_AnsPFX : Int
  ss_ParameterAnswer : Int
  ss_et_UserAbort : Int
  ss_et_UserTerm : Int
  ss_et_UserTrig : Int
  ss_et_UserCmnd : Int
  ss_ot_TenDeg : Int
  ss_nmt_NewMeas : Int
  inst2_xy_position : Int
  CLOCKS_PER_SEC : Int
  ICOM_TRIG : Int

/-- One assignment of the constants: illumination class in the low nibble of a
mode, access sub-mode in the next nibble, each combined mode the bitwise or of
its two parts, one capability bit per geometry. -/
def sampleSs : SsConsts where
  inst_mode_illum_mask := 0x000f
  inst_mode_sub_mask := 0x00f0
  inst_mode_measurement_mask := 0x00ff
  inst_mode_reflection := 0x0001
  inst_mode_transmission := 0x0002
  inst_mode_emission := 0x0003
  inst_mode_spot := 0x0010
  inst_mode_ref_spot := 0x0011
  inst_mode_ref_strip := 0x0021
  inst_mode_ref_xy := 0x0031
  inst_mode_trans_spot := 0x0012
  inst_mode_trans_strip := 0x0022
  inst_mode_trans_xy := 0x0032
  inst_mode_emis_spot := 0x0013
  inst_mode_emis_disp := 0x0043
  inst_mode_emis_illum := 0x0053
  inst_mode_colorimeter := 0x0000
  inst_mode_spectral := 0x0100
  inst_ref_spot := 0x00000001
  inst_ref_strip := 0x00000002
  inst_ref_xy := 0x00000004
  inst_trans_spot := 0x00000010
  inst_trans_strip := 0x00000020
  inst_trans_xy := 0x00000040
  inst_emis_spot := 0x00000100
  inst_emis_disp := 0x00000200
  inst_emis_illum := 0x00000400
  inst_colorimeter := 0x00100000
  inst_spectral := 0x00200000
  inst_ok := 0x000000
  inst_notify := 0x010000
  inst_cal_setup := 0x0F0000
  inst_unsupported := 0x100000
  inst_needs_cal := 0x0E0000
  inst_wrong_config := 0x120000
  ss_et_WhiteMeasOK := 0x13
  ss_et_EmissionCalOK := 0x19
  ss_aft_NoFilter := 1
  inst_mask := 0xff0000
  inst_internal_error := 0x030000
  inst_coms_fail := 0x040000
  inst_unknown_model := 0x050000
  inst_user_abort := 0x070000
  inst_user_term := 0x080000
  inst_user_trig := 0x090000
  inst_user_cmnd := 0x0A0000
  ss_AnsPFX := 0xD1
  ss_ParameterAnswer := 0x0B
  ss_et_UserAbort := 0xE0
  ss_et_UserTerm := 0xE1
  ss_et_UserTrig := 0xE2
  ss_et_UserCmnd := 0xE3
  ss_ot_TenDeg := 1
  ss_nmt_NewMeas := 1
  inst2_xy_position := 0x08
  CLOCKS_PER_SEC := 1000
  ICOM_TRIG := 0x030000

/-- The fields of the handle `ss` read or written by the functions embedded
here.  Flags are C `int`s: zero is false, anything else true. -/
structure ss where
  itype : instType
  cap : Int
  mode : Int
  nextmode : Int
  calcount : Int
  need_w_cal : Int
  need_t_cal : Int
  noautocalib : Int
  filt : Int
  dstd : Int
  wbase : ss_wbt
  illum : Int
  obsv : Int
  tref : Nat → ℚ
  cill : Nat → ℚ
  compen : Int := 0
  comp : Nat → ℚ := fun _ => 0
  gotcoms : Int := 0
  snerr : Int := 0
  trig : inst_opt_mode := inst_opt_mode.inst_opt_trig_prog
  offline : Int := 0
  cap2 : Int := 0

/-- Source: table `filter_desc`. -/
def filter_desc : List String :=
  ["Filter not defined", "No Filter (U)", "Polarizing Filter", "D65 Filter",
   "(Unknown Filter)", "UV cut Filter", "Custon Filter"]

/-! ## ss.c: calibration bookkeeping -/

/-- Source: `inc_calcount`; `calcount++` wraps as a 32 bit `int` (overflow is
undefined in C; the results below do not depend on what it does). -/
def inc_calcount (K : SsConsts) (p : ss) : ss :=
  let p1 := { p with calcount := s32 (p.calcount + 1) }
  if iand p1.mode K.inst_mode_illum_mask = K.inst_mode_reflection ∧ 50 ≤ p1.calcount then
    { p1 with need_w_cal := 1 }
  else if iand p1.mode K.inst_mode_illum_mask = K.inst_mode_transmission
      ∧ iand p1.mode K.inst_mode_sub_mask ≠ K.inst_mode_spot
      ∧ 10 ≤ p1.calcount then
    { p1 with need_t_cal := 1 }
  else p1

/-- Source: `ss_init_inst`, lines 405 to 424: the capability mask set for an
instrument type. -/
def ss_init_cap (K : SsConsts) (itype : instType) : Int :=
  let cap0 := ior (ior (ior (ior (ior K.inst_ref_spot K.inst_emis_spot) K.inst_emis_disp)
    K.inst_emis_illum) K.inst_colorimeter) K.inst_spectral
  let cap1 := if itype = instType.instSpectrolino then ior cap0 K.inst_trans_spot else cap0
  let cap2 := if itype = instType.instSpectroScan ∨ itype = instType.instSpectroScanT
    then ior cap1 K.inst_ref_xy else cap1
  if itype = instType.instSpectroScanT then ior cap2 K.inst_trans_spot else cap2

/-- Source: `ss_needs_calibration`. -/
def ss_needs_calibration (p : ss) : inst_cal_type :=
  if p.need_w_cal ≠ 0 ∧ p.noautocalib = 0 then inst_cal_type.inst_calt_ref_white
  else if p.need_t_cal ≠ 0 ∧ p.noautocalib = 0 then inst_cal_type.inst_calt_trans_white
  else inst_cal_type.inst_calt_none

/-- Source: `ss_set_mode`; returns the code and the handle. -/
def ss_set_mode (K : SsConsts) (p : ss) (m : Int) : Int × ss :=
  let cap := p.cap
  let mm := iand m K.inst_mode_measurement_mask
  let geomOk : Bool :=
    if mm = K.inst_mode_ref_spot then decide (iand cap K.inst_ref_spot ≠ 0)
    else if mm = K.inst_mode_ref_strip then decide (iand cap K.inst_ref_strip ≠ 0)
    else if mm = K.inst_mode_ref_xy then decide (iand cap K.inst_ref_xy ≠ 0)
    else if mm = K.inst_mode_trans_spot then decide (iand cap K.inst_trans_spot ≠ 0)
    else if mm = K.inst_mode_trans_strip then decide (iand cap K.inst_trans_strip ≠ 0)
    else if mm = K.inst_mode_trans_xy then decide (iand cap K.inst_trans_xy ≠ 0)
    else if mm = K.inst_mode_emis_spot then decide (iand cap K.inst_emis_spot ≠ 0)
    else if mm = K.inst_mode_emis_disp then decide (iand cap K.inst_emis_disp ≠ 0)
    else if mm = K.inst_mode_emis_illum then decide (iand cap K.inst_emis_illum ≠ 0)
    else false
  if geomOk = false then (K.inst_unsupported, p)
  else if iand m K.inst_mode_colorimeter ≠ 0 ∧ iand cap K.inst_colorimeter = 0 then
    (K.inst_unsupported, p)
  else if iand m K.inst_mode_spectral ≠ 0 ∧ iand cap K.inst_spectral = 0 then
    (K.inst_unsupported, p)
  else
    let p1 := { p with nextmode := m }
    let nc := iand p1.nextmode K.inst_mode_illum_mask
    let oc := iand p1.mode K.inst_mode_illum_mask
    if (nc = K.inst_mode_reflection ∧ oc ≠ K.inst_mode_reflection)
        ∨ (nc = K.inst_mode_emission ∧ oc ≠ K.inst_mode_emission)
        ∨ (nc = K.inst_mode_transmission ∧ oc ≠ K.inst_mode_transmission) then
      let p2 := { p1 with mode := p1.nextmode, need_w_cal := 1 }
      if iand p2.mode K.inst_mode_illum_mask = K.inst_mode_transmission then
        (K.inst_ok, { p2 with need_t_cal := 1 })
      else (K.inst_ok, p2)
    else (K.inst_ok, p1)

/-! ## ss.c: the instrument as seen by the calibration -/

/-- The instrument commands (`ss_imp.c`) the calibration and the grid scan
send, with the arguments that tell them apart. -/
inductive SsCmd
  | ss_do_SetTableMode (tm : ss_tmt)
  | so_do_MeasControlDownload (ct : ss_ctt)
  | so_do_ParameterDownload (dstd : Int) (wb : ss_wbt) (illum obsv : Int)
  | so_do_WhiteReferenceRequest (filt : Int)
  | ss_do_MoveToWhiteRefPos
  | ss_do_MoveDown
  | ss_do_MoveUp
  | so_do_ExecRefMeasurement (mm : ss_mmt)
  | so_do_ParameterRequest
  | so_do_ExecMeasurement
  | so_do_SpecParameterRequest
  | so_do_IllumTabRequest (illum : Int)
  | ss_do_MoveAndMeasure (ix iy : ℚ)
  | so_do_CParameterRequest
  | so_do_TargetOnOffStDownload (t : ss_toost)
  | so_do_NewMeasureRequest
  | ss_do_SetDeviceOnline
  deriving DecidableEq, Repr

/-- What a command hands back: its return code and the output parameters
the callers read (reported filter, spectrum or illuminant table, white
reference name, colour triple, new-measurement state).  Output parameters are
stored whatever the code. -/
structure Reply where
  code : Int
  af : Int
  spec : Nat → ℚ
  id : String
  col : Nat → ℚ := fun _ => 0
  nm : Int := 0

/-- The instrument: its answer to a command, given the commands sent before. -/
abbrev Instrument := List SsCmd → SsCmd → Reply

/-- State of one call of `ss_calibrate_imp`: the handle, the caller's `*calc`
(field `cond`) and `id`, the local `rv`, and the commands sent so far. -/
structure CalSt where
  p : ss
  cond : inst_cal_cond
  id : String
  rv : Int
  log : List SsCmd

/-- Control flow inside `ss_calibrate_imp`: `ret` is a `return` statement with
its value, `go` falls through to the next statement. -/
inductive Flow
  | ret (code : Int) (s : CalSt)
  | go (s : CalSt)

/-- Sequencing: nothing runs after a `return`. -/
def Flow.bind (f : Flow) (k : CalSt → Flow) : Flow :=
  match f with
  | Flow.ret code s => Flow.ret code s
  | Flow.go s => k s

/-- Send one command: the reply and the state with the command logged and `rv`
assigned. -/
def send (dev : Instrument) (c : SsCmd) (s : CalSt) : Reply × CalSt :=
  (dev s.log c, { s with rv := (dev s.log c).code, log := s.log ++ [c] })

/-- The statement `if ((rv = CMD) != expect) return rv;`. -/
def cmd_expect (dev : Instrument) (c : SsCmd) (expect : Int) (s : CalSt) : Flow :=
  if (send dev c s).1.code ≠ expect then Flow.ret (send dev c s).1.code (send dev c s).2
  else Flow.go (send dev c s).2

/-- The statement `if ((rv = CMD) != inst_ok) return rv;`. -/
def cmd_ok (K : SsConsts) (dev : Instrument) (c : SsCmd) (s : CalSt) : Flow :=
  cmd_expect dev c K.inst_ok s

/-- Illumination class of the active mode. -/
def illum_class (K : SsConsts) (p : ss) : Int := iand p.mode K.inst_mode_illum_mask

/-- Source: `ss_calibrate_imp`, lines 1154 to 1163: the specific calibration
a request stands for. -/
def resolve_calt (K : SsConsts) (p : ss) (caltp : inst_cal_type) : inst_cal_type :=
  if caltp = inst_cal_type.inst_calt_all then
    if p.need_w_cal ≠ 0 then inst_cal_type.inst_calt_ref_white
    else if illum_class K p = K.inst_mode_transmission ∧ p.need_t_cal ≠ 0 then
      inst_cal_type.inst_calt_trans_white
    else inst_cal_type.inst_calt_ref_white
  else caltp

/-- Source: `ss_calibrate_imp`, lines 1211 to 1253: the white calibration and
the filter check (the body of the `for (;;)`, which is left on its first
round by `break` or `return`).  `filter_desc[p->filt]` with an index outside
the table, undefined in C, is the empty string here. -/
def cal_white_loop (K : SsConsts) (dev : Instrument) (s : CalSt) : Flow :=
  (if s.p.itype ≠ instType.instSpectrolino then
      (cmd_ok K dev SsCmd.ss_do_MoveToWhiteRefPos s).bind (cmd_ok K dev SsCmd.ss_do_MoveDown)
    else Flow.go s).bind fun s1 =>
  (cmd_expect dev (SsCmd.so_do_ExecRefMeasurement ss_mmt.ss_mmt_WhiteCalWithWarn)
      (ior K.inst_notify K.ss_et_WhiteMeasOK) s1).bind fun s2 =>
  (if s2.p.itype ≠ instType.instSpectrolino then
      cmd_ok K dev SsCmd.ss_do_MoveUp { s2 with rv := K.inst_ok }
    else Flow.go { s2 with rv := K.inst_ok }).bind fun s3 =>
  if (send dev SsCmd.so_do_ParameterRequest s3).1.code ≠ K.inst_ok then
    Flow.ret (send dev SsCmd.so_do_ParameterRequest s3).1.code
      (send dev SsCmd.so_do_ParameterRequest s3).2
  else if (send dev SsCmd.so_do_ParameterRequest s3).1.af = s3.p.filt then
    Flow.go (send dev SsCmd.so_do_ParameterRequest s3).2
  else
    Flow.ret K.inst_cal_setup
      { (send dev SsCmd.so_do_ParameterRequest s3).2 with
        id := filter_desc.getD s3.p.filt.toNat "",
        cond := inst_cal_cond.inst_calc_change_filter }

/-- Source: `ss_calibrate_imp`, lines 1256 to 1272: the dark calibration of
the emission and emulated transmission modes. -/
def cal_dark (K : SsConsts) (dev : Instrument) (s : CalSt) : Flow :=
  if illum_class K s.p = K.inst_mode_emission
      ∨ (illum_class K s.p = K.inst_mode_transmission ∧ s.p.itype = instType.instSpectrolino) then
    (cmd_ok K dev (SsCmd.so_do_MeasControlDownload ss_ctt.ss_ctt_EmissionMeas) s).bind fun s1 =>
    (if s1.p.noautocalib = 0 then
        cmd_expect dev (SsCmd.so_do_ExecRefMeasurement ss_mmt.ss_mmt_EmissionCal)
          (ior K.inst_notify K.ss_et_EmissionCalOK) s1
      else Flow.go s1).bind fun s2 =>
    Flow.go { s2 with rv := K.inst_ok }
  else Flow.go s

/-- Source: `ss_calibrate_imp`, lines 1177 to 1297: the reflective white
calibration. -/
def cal_ref_white (K : SsConsts) (dev : Instrument) (s : CalSt) : Flow :=
  let s0 : CalSt :=
    if illum_class K s.p = K.inst_mode_emission then
      { s with p := { s.p with filt := K.ss_aft_NoFilter } }
    else s
  (if s0.p.itype = instType.instSpectroScanT then
      cmd_ok K dev (SsCmd.ss_do_SetTableMode ss_tmt.ss_tmt_Reflectance) s0
    else cmd_ok K dev (SsCmd.so_do_MeasControlDownload ss_ctt.ss_ctt_RemissionMeas) s0).bind
  fun s1 =>
  (cmd_ok K dev (SsCmd.so_do_ParameterDownload s1.p.dstd ss_wbt.ss_wbt_Abs s1.p.illum s1.p.obsv)
      s1).bind fun s2 =>
  (if (send dev (SsCmd.so_do_WhiteReferenceRequest s2.p.filt) s2).1.code ≠ K.inst_ok then
      Flow.ret (send dev (SsCmd.so_do_WhiteReferenceRequest s2.p.filt) s2).1.code
        { (send dev (SsCmd.so_do_WhiteReferenceRequest s2.p.filt) s2).2 with
          id := (send dev (SsCmd.so_do_WhiteReferenceRequest s2.p.filt) s2).1.id }
    else
      Flow.go
        { (send dev (SsCmd.so_do_WhiteReferenceRequest s2.p.filt) s2).2 with
          id := (send dev (SsCmd.so_do_WhiteReferenceRequest s2.p.filt) s2).1.id }).bind
  fun s3 =>
  (if s3.p.noautocalib = 0 then
      if s3.p.itype = instType.instSpectrolino
          ∧ s3.cond ≠ inst_cal_cond.inst_calc_man_ref_white then
        Flow.ret K.inst_cal_setup { s3 with cond := inst_cal_cond.inst_calc_man_ref_white }
      else
        (cal_white_loop K dev s3).bind fun s4 =>
        (cal_dark K dev s4).bind fun s5 =>
        Flow.go { s5 with p := { s5.p with calcount := 0, need_w_cal := 0 } }
    else Flow.go s3).bind fun s6 =>
  if illum_class K s6.p = K.inst_mode_transmission ∧ s6.p.itype = instType.instSpectroScanT then
    if illum_class K s6.p = K.inst_mode_transmission then
      cmd_ok K dev (SsCmd.ss_do_SetTableMode ss_tmt.ss_tmt_Transmission) s6
    else Flow.go s6
  else Flow.go s6

/-- Source: `ss_calibrate_imp`, lines 1342 to 1345: some sample of the
reference spectrum is below `0.0001`. -/
def tref_low (tref : Nat → ℚ) : Bool :=
  (List.range 36).any fun i => decide (tref i < 1 / 10000)

/-- Source: `ss_calibrate_imp`, lines 1313 to 1372: the transmission white
calibration. -/
def cal_trans_white (K : SsConsts) (dev : Instrument) (s : CalSt) : Flow :=
  if s.p.itype = instType.instSpectrolino then
    if s.cond ≠ inst_cal_cond.inst_calc_man_trans_white then
      Flow.ret K.inst_cal_setup { s with cond := inst_cal_cond.inst_calc_man_trans_white }
    else
      (cmd_ok K dev SsCmd.so_do_ExecMeasurement s).bind fun s1 =>
      (if (send dev SsCmd.so_do_SpecParameterRequest s1).1.code ≠ K.inst_ok then
          Flow.ret (send dev SsCmd.so_do_SpecParameterRequest s1).1.code
            { (send dev SsCmd.so_do_SpecParameterRequest s1).2 with
              p := { s1.p with tref := (send dev SsCmd.so_do_SpecParameterRequest s1).1.spec } }
        else
          Flow.go
            { (send dev SsCmd.so_do_SpecParameterRequest s1).2 with
              p := { s1.p with tref := (send dev SsCmd.so_do_SpecParameterRequest s1).1.spec } }).bind
      fun s2 =>
      let s3 : CalSt :=
        if tref_low s2.p.tref then
          { s2 with
            cond := inst_cal_cond.inst_calc_message,
            id := "Warning: Transmission light source is low at some wavelengths!",
            rv := K.inst_ok }
        else s2
      (if (send dev (SsCmd.so_do_IllumTabRequest s3.p.illum) s3).1.code ≠ K.inst_ok then
          Flow.ret (send dev (SsCmd.so_do_IllumTabRequest s3.p.illum) s3).1.code
            { (send dev (SsCmd.so_do_IllumTabRequest s3.p.illum) s3).2 with
              p := { s3.p with cill := (send dev (SsCmd.so_do_IllumTabRequest s3.p.illum) s3).1.spec } }
        else
          Flow.go
            { (send dev (SsCmd.so_do_IllumTabRequest s3.p.illum) s3).2 with
              p := { s3.p with cill := (send dev (SsCmd.so_do_IllumTabRequest s3.p.illum) s3).1.spec } }).bind
      fun s4 =>
      Flow.go { s4 with p := { s4.p with calcount := 0, need_t_cal := 0 } }
  else
    (cmd_expect dev (SsCmd.so_do_ExecRefMeasurement ss_mmt.ss_mmt_WhiteCalWithWarn)
        (ior K.inst_notify K.ss_et_WhiteMeasOK) s).bind fun s1 =>
    Flow.go { s1 with rv := K.inst_ok, p := { s1.p with calcount := 0, need_t_cal := 0 } }

/-- The value a `Flow` leaves when the function ends: a `return` gives its
code, falling off the end is the final `return rv`. -/
def Flow.finish (f : Flow) : CalSt :=
  match f with
  | Flow.ret code s => { s with rv := code }
  | Flow.go s => s

/-- Source: `ss_calibrate_imp`.  The result holds the return code in `rv`, the
handle, the caller's `*calc` (field `cond`) and `id`, and the commands sent.
The function starts with `id[0] = 0`, so the `id` passed in is not an input. -/
def ss_calibrate_imp (K : SsConsts) (dev : Instrument) (p : ss) (caltp : inst_cal_type)
    (cond : inst_cal_cond) (log : List SsCmd) : CalSt :=
  let s0 : CalSt := { p := p, cond := cond, id := "", rv := K.inst_ok, log := log }
  let calt := resolve_calt K p caltp
  if calt ≠ inst_cal_type.inst_calt_ref_white
      ∧ (illum_class K p ≠ K.inst_mode_transmission
          ∨ calt ≠ inst_cal_type.inst_calt_trans_white) then
    { s0 with rv := K.inst_unsupported }
  else
    Flow.finish <|
      (if calt = inst_cal_type.inst_calt_ref_white then cal_ref_white K dev s0
        else Flow.go s0).bind fun s1 =>
      let calt2 :=
        if caltp = inst_cal_type.inst_calt_all
            ∧ illum_class K s1.p = K.inst_mode_transmission ∧ s1.p.need_t_cal ≠ 0 then
          inst_cal_type.inst_calt_trans_white
        else calt
      if illum_class K s1.p = K.inst_mode_transmission
          ∧ calt2 = inst_cal_type.inst_calt_trans_white then
        cal_trans_white K dev s1
      else Flow.go s1

/-- Source: `ss_calibrate`. -/
def ss_calibrate (K : SsConsts) (dev : Instrument) (p : ss) (calt : inst_cal_type)
    (cond : inst_cal_cond) (log : List SsCmd) : CalSt :=
  ss_calibrate_imp K dev p calt cond log

/-! ## ss.c: the reflective white calibration in two parts -/

/-- Source: `ss_calibrate_imp`, lines 1177 to 1276: the reflective white
calibration up to and including the reset of `calcount` and `need_w_cal`. -/
def cal_ref_white_core (K : SsConsts) (dev : Instrument) (s : CalSt) : Flow :=
  let s0 : CalSt :=
    if illum_class K s.p = K.inst_mode_emission then
      { s with p := { s.p with filt := K.ss_aft_NoFilter } }
    else s
  (if s0.p.itype = instType.instSpectroScanT then
      cmd_ok K dev (SsCmd.ss_do_SetTableMode ss_tmt.ss_tmt_Reflectance) s0
    else cmd_ok K dev (SsCmd.so_do_MeasControlDownload ss_ctt.ss_ctt_RemissionMeas) s0).bind
  fun s1 =>
  (cmd_ok K dev (SsCmd.so_do_ParameterDownload s1.p.dstd ss_wbt.ss_wbt_Abs s1.p.illum s1.p.obsv)
      s1).bind fun s2 =>
  (if (send dev (SsCmd.so_do_WhiteReferenceRequest s2.p.filt) s2).1.code ≠ K.inst_ok then
      Flow.ret (send dev (SsCmd.so_do_WhiteReferenceRequest s2.p.filt) s2).1.code
        { (send dev (SsCmd.so_do_WhiteReferenceRequest s2.p.filt) s2).2 with
          id := (send dev (SsCmd.so_do_WhiteReferenceRequest s2.p.filt) s2).1.id }
    else
      Flow.go
        { (send dev (SsCmd.so_do_WhiteReferenceRequest s2.p.filt) s2).2 with
          id := (send dev (SsCmd.so_do_WhiteReferenceRequest s2.p.filt) s2).1.id }).bind
  fun s3 =>
  if s3.p.noautocalib = 0 then
    if s3.p.itype = instType.instSpectrolino
        ∧ s3.cond ≠ inst_cal_cond.inst_calc_man_ref_white then
      Flow.ret K.inst_cal_setup { s3 with cond := inst_cal_cond.inst_calc_man_ref_white }
    else
      (cal_white_loop K dev s3).bind fun s4 =>
      (cal_dark K dev s4).bind fun s5 =>
      Flow.go { s5 with p := { s5.p with calcount := 0, need_w_cal := 0 } }
  else Flow.go s3

/-- Source: `ss_calibrate_imp`, lines 1278 to 1296: the instrument is put back
in the desired mode. -/
def cal_ref_white_restore (K : SsConsts) (dev : Instrument) (s6 : CalSt) : Flow :=
  if illum_class K s6.p = K.inst_mode_transmission ∧ s6.p.itype = instType.instSpectroScanT then
    if illum_class K s6.p = K.inst_mode_transmission then
      cmd_ok K dev (SsCmd.ss_do_SetTableMode ss_tmt.ss_tmt_Transmission) s6
    else Flow.go s6
  else Flow.go s6

/-! ## Measurement values -/

/-- The fields of `xspect` (`xspect.h`) the code embedded here reads or
writes. -/
structure xspect where
  spec_n : Int
  spec_wl_short : ℚ
  spec_wl_long : ℚ
  norm : ℚ
  spec : Nat → ℚ

/-- The fields of `ipatch` (`inst.h`) the code embedded here reads or
writes. -/
structure ipatch where
  XYZ_v : Int
  XYZ : Nat → ℚ
  aXYZ_v : Int
  aXYZ : Nat → ℚ
  Lab_v : Int
  sp : xspect
  duration : ℚ

/-! ## hcfr.c: reading a sample -/

/-- The fields of the handle `hcfr` read by `hcfr_read_sample`. -/
structure hcfr where
  gotcoms : Int
  trig : inst_opt_mode
  cal_mode : Int
  crt : Nat → Nat → ℚ
  lcd : Nat → Nat → ℚ

/-- What one call of `hcfr_read_sample` leaves: the return code, the caller's
`*val`, and the number of commands sent to the instrument. -/
structure ReadOut where
  code : Int
  val : ipatch
  cmds : Nat

/-- Source: `hcfr_read_sample`.  Inputs: the library routine `icmMulBy3x3`
(matrix and vector to the destination array), the handle, the value `poll`
that `icoms_poll_user` returns (asked for in keyboard-trigger mode only), the
transport status `se` and reply `buf` of the command exchange made by
`hcfr_get_rgb`, the indeterminate contents `rgb` of the local array, and the
caller's `*val`.  `hcfr_get_rgb` sends its one command unless `gotcoms` is
zero. -/
def hcfr_read_sample (K : Consts)
    (icmMulBy3x3 : (Nat → Nat → ℚ) → (Nat → ℚ) → (Nat → ℚ))
    (p : hcfr) (poll se : Int) (buf : List Char) (rgb : Nat → ℚ) (val : ipatch) : ReadOut :=
  if p.trig = inst_opt_mode.inst_opt_trig_keyb ∧ poll ≠ K.ICOM_TRIG then
    { code := hcfr_interp_code K (icoms2hcfr_err K poll), val := val, cmds := 0 }
  else
    let user_trig : Bool := decide (p.trig = inst_opt_mode.inst_opt_trig_keyb)
    let cmds : Nat := if p.gotcoms = 0 then 0 else 1
    let g := hcfr_get_rgb K p.gotcoms se buf rgb
    if g.1 ≠ K.inst_ok then { code := g.1, val := val, cmds := cmds }
    else
      let aXYZ : Nat → ℚ :=
        if p.cal_mode = 0 then icmMulBy3x3 p.crt g.2
        else if p.cal_mode = 1 then icmMulBy3x3 p.lcd g.2
        else fun i => if i < 3 then g.2 i else val.aXYZ i
      { code := if user_trig then K.inst_user_trig else K.inst_ok,
        val := { val with
          aXYZ := aXYZ, aXYZ_v := 1, XYZ_v := 0, Lab_v := 0,
          sp := { val.sp with spec_n := 0 }, duration := 0 },
        cmds := cmds }

/-! ## hcfr.c: establishing communications -/

/-- Source: `hcfr_break`; `se` is the status `usb_control` returned. -/
def hcfr_break (K : Consts) (se : Int) : Int :=
  hcfr_interp_code K (icoms2hcfr_err K se)

/-- Source: `hcfr_init_coms`.  Inputs: the handle, what `is_usb_portno`
returns for the port, and the status `se` of the `usb_control` exchange made by
`hcfr_break`.  Returns the code and the handle. -/
def hcfr_init_coms (K : Consts) (p : hcfr) (is_usb_portno : instType) (se : Int) :
    Int × hcfr :=
  if is_usb_portno = instType.instUnknown then (K.HCFR_UNKNOWN_MODEL, p)
  else if hcfr_break K se ≠ K.inst_ok then (hcfr_break K se, p)
  else (K.inst_ok, { p with gotcoms := 1 })

/-! ## ss.c: the compensation filter -/

/-- Source: `ss_comp_filter`.  `filtername` is `none` for a `NULL` pointer;
`read_xspect` (`xspect.c`) is a parameter: its return value and the structure
it fills for a file name.  Returns the code and the handle. -/
def ss_comp_filter (K : SsConsts) (read_xspect : String → Int × xspect) (p : ss)
    (filtername : Option String) : Int × ss :=
  match filtername with
  | none => (K.inst_ok, { p with compen := 0 })
  | some name =>
    if (read_xspect name).1 ≠ 0 then (K.inst_wrong_config, p)
    else if (read_xspect name).2.spec_n ≠ 36 ∨ (read_xspect name).2.spec_wl_short ≠ 380
        ∨ (read_xspect name).2.spec_wl_long ≠ 730 then
      (K.inst_wrong_config, p)
    else
      (K.inst_ok,
        { p with
          comp := fun i => if i < 36 then (read_xspect name).2.spec i else p.comp i,
          compen := 1 })

/-! ## ss.c: the grid scan -/

/-- The numeric arguments of `ss_read_xy`. -/
structure XyArgs where
  pis : Int
  sip : Int
  npatch : Int
  ox : ℚ
  oy : ℚ
  ax : ℚ
  ay : ℚ
  aax : ℚ
  aay : ℚ
  px : ℚ
  py : ℚ

/-- State of one call of `ss_read_xy`: the handle, the array `vals`, the local
`rv` (on a `return`, the value returned) and the commands sent; and two traces
kept for the statements below: the cells `(apass, astep)` of the rounds of the
loop so far, and the patch indices for which `ss_do_MoveAndMeasure` was
called. -/
structure XySt where
  p : ss
  vals : Int → ipatch
  rv : Int
  log : List SsCmd
  cells : List (Int × Int)
  meas : List Int

/-- Source: `ss_read_xy`, lines 598 to 609: the flag `fstep`. -/
def fstep (a : XyArgs) : Bool := decide (|a.px| > |a.ax|)

/-- Source: `ss_read_xy`, lines 598 to 609: the value `cstep`. -/
def cstep (a : XyArgs) : Int :=
  if |a.px| > |a.ax| then (if a.px > 0 then 0 else a.sip - 1)
  else (if a.ax > 0 then 0 else a.pis - 1)

/-- Source: `ss_read_xy`, lines 619 to 625: the step actually used. -/
def astep (a : XyArgs) (fs : Bool) (step pass : Int) : Int :=
  if fs then (if iand pass 1 ≠ 0 then a.sip - 1 - step else step) else step

/-- Source: `ss_read_xy`, lines 619 to 625: the pass actually used. -/
def apass (a : XyArgs) (fs : Bool) (step pass : Int) : Int :=
  if fs then pass else (if iand step 1 ≠ 0 then a.pis - 1 - pass else pass)

/-- Source: `ss_read_xy`, lines 654 to 697: one measurement into
`vals[patch]`.  The flag returned says whether the function returns here. -/
def xy_measure (K : SsConsts) (dev : Instrument) (st : XySt) (patch : Int) (ix iy : ℚ) :
    Bool × XySt :=
  let v0 : ipatch :=
    { st.vals patch with
      XYZ_v := 0, aXYZ_v := 0, Lab_v := 0,
      sp := { (st.vals patch).sp with spec_n := 0 }, duration := 0 }
  let r1 := dev st.log (SsCmd.ss_do_MoveAndMeasure ix iy)
  let st1 : XySt :=
    { st with
      vals := Function.update st.vals patch v0, rv := r1.code,
      log := st.log ++ [SsCmd.ss_do_MoveAndMeasure ix iy], meas := st.meas ++ [patch] }
  if r1.code ≠ K.inst_ok then (true, st1)
  else
    let v1 : ipatch :=
      { v0 with
        sp := { spec_n := 36, spec_wl_short := 380, spec_wl_long := 730, norm := 100,
                spec := fun i => if i < 36 then 100 * r1.spec i else v0.sp.spec i } }
    let r2 := dev st1.log SsCmd.so_do_CParameterRequest
    let st2 : XySt :=
      { st1 with
        vals := Function.update st.vals patch v1, rv := r2.code,
        log := st1.log ++ [SsCmd.so_do_CParameterRequest] }
    if r2.code ≠ K.inst_ok then (true, st2)
    else
      (false,
        { st2 with
          vals := Function.update st.vals patch
            { v1 with XYZ_v := 1, XYZ := fun i => if i < 3 then r2.col i else v1.XYZ i },
          p := inc_calcount K st2.p })

/-- Source: `ss_read_xy`, lines 615 to 698: the body of the loop up to the
advance of the counters.  The flag returned says whether the function returns
in this round. -/
def xy_body (K : SsConsts) (dev : Instrument) (a : XyArgs) (fs : Bool) (cs : Int)
    (step pass : Int) (st : XySt) : Bool × XySt :=
  let patch := apass a fs step pass * a.sip + astep a fs step pass
  let st0 : XySt :=
    { st with cells := st.cells ++ [(apass a fs step pass, astep a fs step pass)] }
  if patch < a.npatch then
    let ix0 := a.ox + (apass a fs step pass : ℚ) * a.ax + (astep a fs step pass : ℚ) * a.px
    let iy0 := a.oy + (apass a fs step pass : ℚ) * a.ay + (astep a fs step pass : ℚ) * a.py
    let ix := if iand step 1 = 1 then ix0 + a.aax else ix0
    let iy := if iand step 1 = 1 then iy0 + a.aay else iy0
    if (if fs then astep a fs step pass = cs else apass a fs step pass = cs)
        ∧ (st.p.need_w_cal ≠ 0 ∨ st.p.need_t_cal ≠ 0) ∧ st.p.noautocalib = 0 then
      let c := ss_calibrate_imp K dev st.p inst_cal_type.inst_calt_all
        inst_cal_cond.inst_calc_none st.log
      if c.rv ≠ K.inst_ok then
        (true,
          { st0 with
            p := c.p, log := c.log,
            rv := if c.rv = K.inst_cal_setup then K.inst_needs_cal else c.rv })
      else xy_measure K dev { st0 with p := c.p, log := c.log, rv := c.rv } patch ix iy
    else xy_measure K dev st0 patch ix iy
  else (false, st0)

/-- Source: `ss_read_xy`, lines 700 to 711: the counters `(step, pass)` of the
next round. -/
def xy_next (a : XyArgs) (fs : Bool) (step pass : Int) : Int × Int :=
  if fs then (if step + 1 ≥ a.sip then (0, pass + 1) else (step + 1, pass))
  else (if pass + 1 ≥ a.pis then (step + 1, 0) else (step, pass + 1))

/-- Source: `ss_read_xy`, lines 614 to 712: the `for` loop with `n` rounds left
to go. -/
def xy_loop (K : SsConsts) (dev : Instrument) (a : XyArgs) (fs : Bool) (cs : Int) :
    Nat → Int → Int → XySt → XySt
  | 0, _, _, st => st
  | n + 1, step, pass, st =>
    if (xy_body K dev a fs cs step pass st).1 then (xy_body K dev a fs cs step pass st).2
    else
      xy_loop K dev a fs cs n (xy_next a fs step pass).1 (xy_next a fs step pass).2
        (xy_body K dev a fs cs step pass st).2

/-- Source: `ss_read_xy`.  The strip names are not used by the function.
`tries = sip * pis` is a C `int`; the loop runs `tries` rounds when that is
positive and none otherwise.  `patch` never exceeds `tries - 1`. -/
def ss_read_xy (K : SsConsts) (dev : Instrument) (p : ss) (a : XyArgs) (vals : Int → ipatch)
    (log : List SsCmd) : XySt :=
  if p.itype ≠ instType.instSpectroScan ∧ p.itype ≠ instType.instSpectroScanT then
    { p := p, vals := vals, rv := K.inst_unsupported, log := log, cells := [], meas := [] }
  else
    xy_loop K dev a (fstep a) (cstep a) (s32 (a.sip * a.pis)).toNat 0 0
      { p := p, vals := vals, rv := K.inst_ok, log := log, cells := [], meas := [] }

/-! ## hcfr.c: the calibration matrices -/

/-- A `double[3][3]` array given by its three rows. -/
def mat3 (r0 r1 r2 : List ℚ) : Nat → Nat → ℚ := fun i j =>
  match i with
  | 0 => r0.getD j 0
  | 1 => r1.getD j 0
  | 2 => r2.getD j 0
  | _ => 0

/-- Source: `hcfr_comp_matrix`, lines 301 to 321: `tmat`, the sensor readings
of the red, green and blue CRT test patches (one patch per column). -/
def tmat_crt : Nat → Nat → ℚ :=
  mat3 [7171.880890, 626.299108, 130.620298]
       [853.740337, 3749.843127, 462.894673]
       [308.216218, 1591.104086, 2757.654019]

/-- Source: `hcfr_comp_matrix`, lines 305 to 325: `xmat`, the reference XYZ
of the CRT test patches. -/
def xmat_crt : Nat → Nat → ℚ :=
  mat3 [21.988601, 13.677691, 6.387302]
       [12.131219, 28.870823, 2.755360]
       [1.312786, 5.636190, 33.588242]

/-- Source: `hcfr_comp_matrix`, lines 337 to 357: `tmat` for the LCD. -/
def tmat_lcd : Nat → Nat → ℚ :=
  mat3 [3994.356609, 1445.920285, 829.727493]
       [1159.679928, 3382.116329, 1795.182031]
       [818.430397, 1764.558523, 3820.123872]

/-- Source: `hcfr_comp_matrix`, lines 341 to 361: `xmat` for the LCD. -/
def xmat_lcd : Nat → Nat → ℚ :=
  mat3 [51.875052, 37.482638, 25.098392]
       [30.640815, 64.670821, 23.719352]
       [4.712397, 14.554874, 108.134087]

/-- Source: `hcfr_comp_matrix`.  The library routines are parameters:
`icmInverse3x3` gives its return value and the array it fills, `icmMul3x3_2`
the destination array for its two sources.  Returns the code and the
handle. -/
def hcfr_comp_matrix (K : Consts)
    (icmInverse3x3 : (Nat → Nat → ℚ) → Int × (Nat → Nat → ℚ))
    (icmMul3x3_2 : (Nat → Nat → ℚ) → (Nat → Nat → ℚ) → (Nat → Nat → ℚ))
    (p : hcfr) : Int × hcfr :=
  if (icmInverse3x3 tmat_crt).1 ≠ 0 then (hcfr_interp_code K K.HCFR_CALIB_CALC, p)
  else
    let p1 : hcfr := { p with crt := icmMul3x3_2 xmat_crt (icmInverse3x3 tmat_crt).2 }
    if (icmInverse3x3 tmat_lcd).1 ≠ 0 then (hcfr_interp_code K K.HCFR_CALIB_CALC, p1)
    else
      (K.inst_ok, { p1 with lcd := icmMul3x3_2 xmat_lcd (icmInverse3x3 tmat_lcd).2 })

/-! ## ss.c: establishing communications -/

/-- What `ss_init_coms` does on the serial line: port settings, the two
probes of the negotiation (each is `ss_init_send`, the request, `ss_command`
and the reading of the first reply byte by `ss_sub_1`), and the commands that
finalise the link and identify the device. -/
inductive ComEv
  | set_ser_port (fc : flow_control) (br : baud_rate)
  | ss_OutputStatus
  | ss_ParameterRequest
  | so_do_MeasControlDownload (ct : ss_ctt)
  | ss_do_SetDeviceOnline
  | ss_do_ChangeHandshake (hs : ss_hst)
  | ss_do_ChangeBaudRate (bt : ss_bt)
  | ss_do_ScanSpectrolino
  | ss_do_OutputType
  | so_do_TargetIdRequest
  deriving DecidableEq, Repr

/-- What comes back from the line: the code a command returns, the value of
`ss_sub_1` and of `p->snerr` after a probe, the device name and the target
type of the identity queries. -/
structure ComAns where
  code : Int
  sub1 : Int
  snerr : Int
  devn : List Char
  tt : ss_ttt

/-- The line and the device behind it: the answer to an action, given the
actions before it. -/
abbrev Line := List ComEv → ComEv → ComAns

/-- State of one call of `ss_init_coms`: the handle, the actions on the line
so far, and the number of calls of `clock()` so far. -/
structure ComSt where
  p : ss
  log : List ComEv
  nclk : Nat

/-- Source: `ss_init_coms`, the table `brt`. -/
def brt : List baud_rate :=
  [baud_rate.baud_9600, baud_rate.baud_19200, baud_rate.baud_57600, baud_rate.baud_2400,
   baud_rate.baud_1200, baud_rate.baud_600, baud_rate.baud_300]

/-- Source: `ss_init_coms`, the table `ssbrc`. -/
def ssbrc : List ss_bt :=
  [ss_bt.ss_bt_9600, ss_bt.ss_bt_19200, ss_bt.ss_bt_57600, ss_bt.ss_bt_2400,
   ss_bt.ss_bt_1200, ss_bt.ss_bt_600, ss_bt.ss_bt_300]

/-- Source: `ss_init_coms`, the table `sobrc`. -/
def sobrc : List ss_ctt :=
  [ss_ctt.ss_ctt_SetBaud9600, ss_ctt.ss_ctt_SetBaud19200, ss_ctt.ss_ctt_SetBaud57600,
   ss_ctt.ss_ctt_SetBaud2400, ss_ctt.ss_ctt_SetBaud1200, ss_ctt.ss_ctt_SetBaud600,
   ss_ctt.ss_ctt_SetBaud300]

/-- Source: `ss_init_coms`, lines 145 to 150 and 153 to 158: the first index
below 7 whose table entry is `br`, or `dflt` when there is none. -/
def brt_index (br : baud_rate) (dflt : Nat) : Nat :=
  if brt.indexOf br < 7 then brt.indexOf br else dflt

/-- The C conversion `(long)x` of a `double`: truncation towards zero. -/
def ctrunc (x : ℚ) : Int := if 0 ≤ x then ⌊x⌋ else ⌈x⌉

/-- Source: `ss_init_coms`, line 161: the tick to give up on, `c0` being the
value of `clock()`. -/
def etime (K : SsConsts) (c0 : Int) (tout : ℚ) : Int :=
  c0 + ctrunc ((K.CLOCKS_PER_SEC : ℚ) * tout + 1 / 2)

/-- The test `p->snerr == ss_et_UserAbort || ... || p->snerr == ss_et_UserCmnd`
of lines 179 to 182 and 193 to 196. -/
def user_snerr (K : SsConsts) (snerr : Int) : Prop :=
  snerr = K.ss_et_UserAbort ∨ snerr = K.ss_et_UserTerm ∨ snerr = K.ss_et_UserTrig
    ∨ snerr = K.ss_et_UserCmnd

instance (K : SsConsts) (snerr : Int) : Decidable (user_snerr K snerr) := by
  unfold user_snerr; exact inferInstance

/-- Source: `ss_init_coms`, lines 167 to 204: the `for` loop over the baud
rates, `i` being the index tried next and `et` the tick to give up on.  The
loop has no bound of its own: the first argument is the number of rounds
allowed, and `none` means that it was not enough. -/
def ss_probe (K : SsConsts) (line : Line) (clk : Nat → Int) (et : Int) :
    Nat → Nat → ComSt → Option ComSt
  | 0, _, _ => none
  | fuel + 1, i, st =>
    if clk st.nclk < et then
      let log1 := st.log ++ [ComEv.set_ser_port flow_control.fc_none (brt.getD i baud_rate.baud_9600)]
      let a1 := line log1 ComEv.ss_OutputStatus
      let log2 := log1 ++ [ComEv.ss_OutputStatus]
      if a1.sub1 = K.ss_AnsPFX ∨ user_snerr K a1.snerr then
        some { p := { st.p with itype := instType.instSpectroScan, snerr := a1.snerr },
               log := log2, nclk := st.nclk + 1 }
      else
        let a2 := line log2 ComEv.ss_ParameterRequest
        let log3 := log2 ++ [ComEv.ss_ParameterRequest]
        if a2.sub1 = K.ss_ParameterAnswer ∨ user_snerr K a2.snerr then
          some { p := { st.p with itype := instType.instSpectrolino, snerr := a2.snerr },
                 log := log3, nclk := st.nclk + 1 }
        else
          ss_probe K line clk et fuel (if i + 1 ≥ 7 then 0 else i + 1)
            { p := { st.p with snerr := a2.snerr }, log := log3, nclk := st.nclk + 1 }
    else some { st with nclk := st.nclk + 1 }

/-- Source: `ss_init_coms`, lines 226 to 252: finalising the link, with the
flow control `fc` and the codes `fcc1`, `fcc2` chosen at the start and the
index `bi` of the requested baud rate.  Returns `ev` and the actions so far.
`p->snerr`, which these commands set as well, is not read again and is not
followed here. -/
def ss_link (K : SsConsts) (line : Line) (fc : flow_control) (fcc1 : ss_ctt) (fcc2 : ss_hst)
    (bi : Nat) (st : ComSt) : Int × List ComEv :=
  if st.p.itype = instType.instSpectrolino then
    if (line st.log (ComEv.so_do_MeasControlDownload fcc1)).code ≠ K.inst_ok then
      ((line st.log (ComEv.so_do_MeasControlDownload fcc1)).code,
        st.log ++ [ComEv.so_do_MeasControlDownload fcc1])
    else
      (K.inst_ok,
        st.log ++ [ComEv.so_do_MeasControlDownload fcc1,
          ComEv.so_do_MeasControlDownload (sobrc.getD bi ss_ctt.ss_ctt_SetBaud9600),
          ComEv.set_ser_port fc (brt.getD bi baud_rate.baud_9600)])
  else
    if (line (st.log ++ [ComEv.ss_do_SetDeviceOnline]) (ComEv.ss_do_ChangeHandshake fcc2)).code
        ≠ K.inst_ok then
      ((line (st.log ++ [ComEv.ss_do_SetDeviceOnline]) (ComEv.ss_do_ChangeHandshake fcc2)).code,
        st.log ++ [ComEv.ss_do_SetDeviceOnline, ComEv.ss_do_ChangeHandshake fcc2])
    else
      ((line (st.log ++ [ComEv.ss_do_SetDeviceOnline, ComEv.ss_do_ChangeHandshake fcc2,
            ComEv.ss_do_ChangeBaudRate (ssbrc.getD bi ss_bt.ss_bt_9600),
            ComEv.set_ser_port fc (brt.getD bi baud_rate.baud_9600)])
          ComEv.ss_do_ScanSpectrolino).code,
        st.log ++ [ComEv.ss_do_SetDeviceOnline, ComEv.ss_do_ChangeHandshake fcc2,
          ComEv.ss_do_ChangeBaudRate (ssbrc.getD bi ss_bt.ss_bt_9600),
          ComEv.set_ser_port fc (brt.getD bi baud_rate.baud_9600),
          ComEv.ss_do_ScanSpectrolino])

/-- Source: `ss_init_coms`, lines 258 to 275: the type found by
`ss_do_OutputType`, whose answer is `a`. -/
def scan_type (K : SsConsts) (a : ComAns) : instType :=
  if a.code = K.inst_ok then
    if strncmp_eq a.devn "SpectroScanT".toList 12 then instType.instSpectroScanT
    else if strncmp_eq a.devn "SpectroScan".toList 11 then instType.instSpectroScan
    else instType.instUnknown
  else instType.instUnknown

/-- Source: `ss_init_coms`, lines 258 to 309: identifying the device, `log`
being the actions so far. -/
def ss_identify (K : SsConsts) (line : Line) (st : ComSt) (log : List ComEv) : Int × ComSt :=
  let it1 := scan_type K (line log ComEv.ss_do_OutputType)
  let b := line (log ++ [ComEv.ss_do_OutputType]) ComEv.so_do_TargetIdRequest
  if b.code = K.inst_ok
      ∧ (b.tt ≠ ss_ttt.ss_ttt_Spectrolino ∨ strncmp_eq b.devn "Spectrolino".toList 11 = false)
      then
    (K.inst_unknown_model,
      { st with
        p := { st.p with itype := it1 },
        log := log ++ [ComEv.ss_do_OutputType, ComEv.so_do_TargetIdRequest] })
  else
    (K.inst_ok,
      { st with
        p := { st.p with
          itype :=
            if b.code = K.inst_ok ∧ it1 = instType.instUnknown then instType.instSpectrolino
            else it1,
          gotcoms := 1 },
        log := log ++ [ComEv.ss_do_OutputType, ComEv.so_do_TargetIdRequest] })

/-- Source: `ss_init_coms`, lines 226 to 309: what follows the negotiation. -/
def ss_finalise (K : SsConsts) (line : Line) (fc : flow_control) (fcc1 : ss_ctt)
    (fcc2 : ss_hst) (bi : Nat) (st : ComSt) : Int × ComSt :=
  if (ss_link K line fc fcc1 fcc2 bi st).1 ≠ K.inst_ok then
    ((ss_link K line fc fcc1 fcc2 bi st).1,
      { st with log := (ss_link K line fc fcc1 fcc2 bi st).2 })
  else ss_identify K line st (ss_link K line fc fcc1 fcc2 bi st).2

/-- Source: `ss_init_coms`, lines 125 to 139: the flow control used in the
end and the codes `fcc1` and `fcc2` that stand for it. -/
def flow_codes (fc : flow_control) : flow_control × ss_ctt × ss_hst :=
  let fc1 := if fc = flow_control.fc_nc then flow_control.fc_Hardware else fc
  if fc1 = flow_control.fc_XonXOff then
    (fc1, ss_ctt.ss_ctt_ProtokolWithXonXoff, ss_hst.ss_hst_XonXOff)
  else if fc1 = flow_control.fc_Hardware then
    (fc1, ss_ctt.ss_ctt_ProtokolWithHardwareHS, ss_hst.ss_hst_Hardware)
  else (flow_control.fc_none, ss_ctt.ss_ctt_ProtokolWithoutXonXoff, ss_hst.ss_hst_None)

/-- Source: `ss_init_coms`.  Inputs besides the arguments `br`, `fc`, `tout`:
the line, the values `clk n` of the successive calls of `clock()`, the current
baud rate `p->icom->br` of the transport, and the number of rounds allowed to
the negotiation loop (`none`: not enough).  The port number is passed on
unchanged to every `set_ser_port` and is left out. -/
def ss_init_coms (K : SsConsts) (line : Line) (clk : Nat → Int) (icom_br : baud_rate)
    (fuel : Nat) (p : ss) (br : baud_rate) (fc : flow_control) (tout : ℚ) :
    Option (Int × ComSt) :=
  let bi := brt_index br 0
  let ci := brt_index icom_br bi
  let et := etime K (clk 0) tout
  let st0 : ComSt := { p := p, log := [], nclk := 2 }
  let negotiated : Option (Option Int × ComSt) :=
    if clk 1 < et then
      (ss_probe K line clk et fuel ci st0).map fun st1 =>
        if st1.p.snerr = K.ss_et_UserAbort then (some K.inst_user_abort, st1)
        else if st1.p.snerr = K.ss_et_UserTerm then (some K.inst_user_term, st1)
        else if st1.p.snerr = K.ss_et_UserTrig then (some K.inst_user_trig, st1)
        else if st1.p.snerr = K.ss_et_UserCmnd then (some K.inst_user_cmnd, st1)
        else (none, st1)
    else some (none, st0)
  negotiated.map fun r =>
    match r.1 with
    | some code => (code, r.2)
    | none =>
      if clk r.2.nclk ≥ et then (K.inst_coms_fail, { r.2 with nclk := r.2.nclk + 1 })
      else
        ss_finalise K line (flow_codes fc).1 (flow_codes fc).2.1 (flow_codes fc).2.2 bi
          { r.2 with nclk := r.2.nclk + 1 }
/-! ## ss.c: reading one sample -/

/-- Source: the table `obsv[2][3][36]`, lines 739 to 805: observer weightings
for the 36 samples of the spectrum; first index 0 for the 2 degree and 1 for
the 10 degree observer, second index X, Y, Z. -/
def obsv_table : List (List (List ℚ)) :=
  [
   [
    [0.001393497640, 0.004448031900, 0.014518206300, 0.045720800000, 0.138923633000,
     0.279645970000, 0.344841960000, 0.335387990000, 0.288918940000, 0.196038970000,
     0.097089264500, 0.033433134500, 0.006117900200, 0.011512466000, 0.065321232000,
     0.166161125000, 0.291199155000, 0.434290495000, 0.594727005000, 0.761531500000,
     0.914317000000, 1.023460340000, 1.058604000000, 0.999075000000, 0.851037990000,
     0.644076660000, 0.449047000000, 0.285682340000, 0.166610680000, 0.089139475000,
     0.047203532000, 0.023272100000, 0.011556993000, 0.005897781550, 0.002960988050,
     0.001468472565],
    [0.000040014416, 0.000126320071, 0.000402526680, 0.001272963400, 0.004268400000,
     0.011759799700, 0.023092867000, 0.038306468000, 0.060303866000, 0.091762739000,
     0.139594730000, 0.210065540000, 0.326613130000, 0.504776000000, 0.706552500000,
     0.859214005000, 0.951809665000, 0.993340440000, 0.993019710000, 0.950281660000,
     0.868557660000, 0.756550000000, 0.630964340000, 0.503366340000, 0.380962000000,
     0.266444660000, 0.175871340000, 0.108002605000, 0.061709066000, 0.032657466000,
     0.017165009000, 0.008419183400, 0.004173919800, 0.002129796800, 0.001069267000,
     0.000530292340],
    [0.006568973000, 0.021026087500, 0.068865635000, 0.218090190000, 0.668415545000,
     1.366703205000, 1.731816230000, 1.769890130000, 1.658588340000, 1.288104470000,
     0.818359800000, 0.471791600000, 0.275824200000, 0.159485840000, 0.080436864500,
     0.042599734500, 0.020750932000, 0.009028633450, 0.004015999900, 0.002160166550,
     0.001629500100, 0.001143333400, 0.000804400000, 0.000372600000, 0.000180700000,
     0.000054966665, 0.000019933332, 0.000002266667, 0.000000000000, 0.000000000000,
     0.000000000000, 0.000000000000, 0.000000000000, 0.000000000000, 0.000000000000,
     0.000000000000]
   ],
   [
    [0.000221161200, 0.002892312000, 0.021223545000, 0.087243800000, 0.203891450000,
     0.313689500000, 0.379737550000, 0.368800750000, 0.301126300000, 0.194835400000,
     0.082524250000, 0.018557800000, 0.006085000000, 0.039474500000, 0.119180250000,
     0.237142500000, 0.377122750000, 0.531279950000, 0.705108350000, 0.876453800000,
     1.013894200000, 1.113552000000, 1.119829000000, 1.026837000000, 0.855199200000,
     0.646495700000, 0.434312700000, 0.270230400000, 0.154505300000, 0.082548760000,
     0.041674230000, 0.020379080000, 0.009795728000, 0.004661858000, 0.002225776000,
     0.001069074500],
    [0.000023956650, 0.000309054000, 0.002220395000, 0.009005150000, 0.021600050000,
     0.038992450000, 0.062072600000, 0.089764700000, 0.128515350000, 0.185550850000,
     0.255690850000, 0.342051100000, 0.461805650000, 0.607378100000, 0.759122200000,
     0.874795100000, 0.958787300000, 0.991541600000, 0.995046500000, 0.953158750000,
     0.869616900000, 0.775837500000, 0.657942650000, 0.527902700000, 0.399013000000,
     0.283553200000, 0.181354350000, 0.108672400000, 0.061082550000, 0.032323865000,
     0.016231270000, 0.007919470000, 0.003803046000, 0.001810832500, 0.000865886500,
     0.000416835450],
    [0.000975787600, 0.012867500000, 0.095777190000, 0.402301600000, 0.971629200000,
     1.549938000000, 1.948388000000, 1.984670000000, 1.739857000000, 1.308151000000,
     0.781796500000, 0.422593900000, 0.222878650000, 0.115174050000, 0.061302800000,
     0.030879300000, 0.013841200000, 0.004144350000, 0.000189450000, 0.000000000000,
     0.000000000000, 0.000000000000, 0.000000000000, 0.000000000000, 0.000000000000,
     0.000000000000, 0.000000000000, 0.000000000000, 0.000000000000, 0.000000000000,
     0.000000000000, 0.000000000000, 0.000000000000, 0.000000000000, 0.000000000000,
     0.000000000000]
   ]
  ]

/-- The entry `obsv[tix][j][i]` of the table. -/
def obsv (tix j i : Nat) : ℚ := ((obsv_table.getD tix []).getD j []).getD i 0

/-- State of one call of `ss_read_sample`: the handle, the caller's `*val`,
the locals `rv`, `user_trig` and `switch_trig`, and the commands sent so
far. -/
structure RsSt where
  p : ss
  val : ipatch
  rv : Int
  log : List SsCmd
  user_trig : Int
  switch_trig : Int

/-- Control flow inside `ss_read_sample`: `ret` is a `return` statement with
its value, `go` falls through to the next statement. -/
inductive RsFlow
  | ret (code : Int) (s : RsSt)
  | go (s : RsSt)

/-- Sequencing: nothing runs after a `return`. -/
def RsFlow.bind (f : RsFlow) (k : RsSt → RsFlow) : RsFlow :=
  match f with
  | RsFlow.ret code s => RsFlow.ret code s
  | RsFlow.go s => k s

/-- The statement `if ((rv = CMD) != inst_ok) return rv;`. -/
def rs_cmd (K : SsConsts) (dev : Instrument) (c : SsCmd) (st : RsSt) : RsFlow :=
  if (dev st.log c).code ≠ K.inst_ok then
    RsFlow.ret (dev st.log c).code { st with rv := (dev st.log c).code, log := st.log ++ [c] }
  else RsFlow.go { st with rv := (dev st.log c).code, log := st.log ++ [c] }

/-- Source: `ss_read_sample`, lines 828 to 841: the calibration that is done
first when one is due. -/
def rs_calibrate (K : SsConsts) (dev : Instrument) (st : RsSt) : RsFlow :=
  if (st.p.need_w_cal ≠ 0 ∨ st.p.need_t_cal ≠ 0) ∧ st.p.noautocalib = 0 then
    if (ss_calibrate_imp K dev st.p inst_cal_type.inst_calt_all inst_cal_cond.inst_calc_none
        st.log).rv ≠ K.inst_ok then
      RsFlow.ret
        (if (ss_calibrate_imp K dev st.p inst_cal_type.inst_calt_all
              inst_cal_cond.inst_calc_none st.log).rv = K.inst_cal_setup
          then K.inst_needs_cal
          else (ss_calibrate_imp K dev st.p inst_cal_type.inst_calt_all
              inst_cal_cond.inst_calc_none st.log).rv)
        { st with
          p := (ss_calibrate_imp K dev st.p inst_cal_type.inst_calt_all
              inst_cal_cond.inst_calc_none st.log).p,
          log := (ss_calibrate_imp K dev st.p inst_cal_type.inst_calt_all
              inst_cal_cond.inst_calc_none st.log).log,
          rv := (ss_calibrate_imp K dev st.p inst_cal_type.inst_calt_all
              inst_cal_cond.inst_calc_none st.log).rv }
    else
      RsFlow.go
        { st with
          p := (ss_calibrate_imp K dev st.p inst_cal_type.inst_calt_all
              inst_cal_cond.inst_calc_none st.log).p,
          log := (ss_calibrate_imp K dev st.p inst_cal_type.inst_calt_all
              inst_cal_cond.inst_calc_none st.log).log,
          rv := (ss_calibrate_imp K dev st.p inst_cal_type.inst_calt_all
              inst_cal_cond.inst_calc_none st.log).rv }
  else RsFlow.go st

/-- Source: `ss_read_sample`, lines 853 to 868: the `for (;;)` that waits for
the measurement switch or a key.  The loop has no bound of its own: the first
argument is the number of rounds allowed, and `none` means that it was not
enough. -/
def rs_poll (K : SsConsts) (dev : Instrument) : Nat → RsSt → Option RsFlow
  | 0, _ => none
  | fuel + 1, st =>
    if (dev st.log SsCmd.so_do_NewMeasureRequest).code ≠ K.inst_ok then
      if iand (dev st.log SsCmd.so_do_NewMeasureRequest).code K.inst_mask ≠ K.inst_user_trig then
        some (RsFlow.ret (dev st.log SsCmd.so_do_NewMeasureRequest).code
          { st with
            rv := (dev st.log SsCmd.so_do_NewMeasureRequest).code,
            log := st.log ++ [SsCmd.so_do_NewMeasureRequest] })
      else
        some (RsFlow.go
          { st with
            rv := (dev st.log SsCmd.so_do_NewMeasureRequest).code,
            log := st.log ++ [SsCmd.so_do_NewMeasureRequest],
            user_trig := 1 })
    else if (dev st.log SsCmd.so_do_NewMeasureRequest).nm = K.ss_nmt_NewMeas then
      some (RsFlow.go
        { st with
          rv := (dev st.log SsCmd.so_do_NewMeasureRequest).code,
          log := st.log ++ [SsCmd.so_do_NewMeasureRequest],
          switch_trig := 1 })
    else
      rs_poll K dev fuel
        { st with
          rv := (dev st.log SsCmd.so_do_NewMeasureRequest).code,
          log := st.log ++ [SsCmd.so_do_NewMeasureRequest] }

/-- Source: `ss_read_sample`, lines 843 to 889: waiting for the trigger.
`icoms2ss_err` and `ss_inst_err` (`ss_imp.c`; the latter reads `p->snerr`) are
parameters, `se` is what `icoms_poll_user` returns (asked for in
keyboard-trigger mode only), `fuel` bounds the polling loop. -/
def rs_trigger (K : SsConsts) (dev : Instrument) (icoms2ss_err ss_inst_err : Int → Int)
    (se : Int) (fuel : Nat) (st : RsSt) : Option RsFlow :=
  if st.p.trig = inst_opt_mode.inst_opt_trig_keyb_switch then
    match rs_cmd K dev (SsCmd.so_do_TargetOnOffStDownload ss_toost.ss_toost_Activated) st with
    | RsFlow.ret code s => some (RsFlow.ret code s)
    | RsFlow.go s1 =>
      (rs_poll K dev fuel s1).map fun f =>
        f.bind (rs_cmd K dev (SsCmd.so_do_TargetOnOffStDownload ss_toost.ss_toost_Deactivated))
  else if st.p.trig = inst_opt_mode.inst_opt_trig_keyb then
    if se ≠ K.ICOM_TRIG then
      some (RsFlow.ret (ss_inst_err (icoms2ss_err se))
        { st with p := { st.p with snerr := icoms2ss_err se } })
    else some (RsFlow.go { st with user_trig := 1 })
  else some (RsFlow.go st)

/-- Source: `ss_xy_locate_end`, which `p->xy_locate_end` points to; its
return value is left in `rv`. -/
def ss_xy_locate_end (K : SsConsts) (dev : Instrument) (st : RsSt) : RsSt :=
  if iand st.p.cap2 K.inst2_xy_position ≠ 0 then
    { st with
      rv := (dev st.log SsCmd.ss_do_SetDeviceOnline).code,
      log := st.log ++ [SsCmd.ss_do_SetDeviceOnline],
      p := { st.p with offline := 0 } }
  else { st with rv := K.inst_ok }

/-- Source: `ss_read_sample`, lines 891 to 925: the measurement triggered in
software when the switch has not been used. -/
def rs_measure (K : SsConsts) (dev : Instrument) (st : RsSt) : RsFlow :=
  if st.switch_trig = 0 then
    (if st.p.itype ≠ instType.instSpectrolino ∧ st.p.offline ≠ 0 then
        if (ss_xy_locate_end K dev st).rv ≠ K.inst_ok then
          RsFlow.ret (ss_xy_locate_end K dev st).rv (ss_xy_locate_end K dev st)
        else RsFlow.go (ss_xy_locate_end K dev st)
      else RsFlow.go st).bind fun s1 =>
    (if s1.p.itype ≠ instType.instSpectrolino
          ∧ illum_class K s1.p ≠ K.inst_mode_transmission then
        rs_cmd K dev SsCmd.ss_do_MoveDown s1
      else RsFlow.go s1).bind fun s2 =>
    (rs_cmd K dev SsCmd.so_do_ExecMeasurement s2).bind fun s3 =>
    (rs_cmd K dev SsCmd.so_do_NewMeasureRequest s3).bind fun s4 =>
    if s4.p.itype ≠ instType.instSpectrolino
        ∧ illum_class K s4.p ≠ K.inst_mode_transmission then
      rs_cmd K dev SsCmd.ss_do_MoveUp s4
    else RsFlow.go s4
  else RsFlow.go st

/-- The spectrum written to `val->sp`: 36 samples from 380 to 730 nm, with the
normalisation `norm` and each sample of `spec` scaled by `scale`. -/
def sp_out (norm scale : ℚ) (spec : Nat → ℚ) (old : xspect) : xspect :=
  { spec_n := 36, spec_wl_short := 380, spec_wl_long := 730, norm := norm,
    spec := fun i => if i < 36 then scale * spec i else old.spec i }

/-- Source: `ss_read_sample`, lines 945 to 951: the raw spectrum divided by the
transmission white reference. -/
def trans_spec (tref spec : Nat → ℚ) : Nat → ℚ := fun i =>
  if i < 36 then (if tref i ≥ 1 / 10000 then spec i / tref i else 0) else spec i

/-- Source: `ss_read_sample`, lines 970 to 975: the normalisation factor.  A
division by zero, which gives an infinity or a NaN in C, gives 0 here. -/
def trans_norm (tix : Nat) (tref cill : Nat → ℚ) : ℚ :=
  100 / (List.range 36).foldl
    (fun norm i => if tref i ≥ 1 / 10000 then norm + obsv tix 1 i * cill i else norm) 0

/-- Source: `ss_read_sample`, lines 977 to 983: the sums over the samples,
added to the array `XYZ`; `spec` is the spectrum already divided by the
reference. -/
def trans_sum (tix : Nat) (tref cill spec : Nat → ℚ) (XYZ : Nat → ℚ) : Nat → ℚ :=
  (List.range 36).foldl
    (fun acc i =>
      if tref i ≥ 1 / 10000 then
        fun j => if j < 3 then acc j + obsv tix j i * cill i * spec i else acc j
      else acc) XYZ

/-- Source: `ss_read_sample`, lines 961 to 985: `val->XYZ` after the
conversion; `spec` is the spectrum already divided by the reference, `XYZ` the
array before. -/
def trans_XYZ (tix : Nat) (tref cill spec : Nat → ℚ) (XYZ : Nat → ℚ) : Nat → ℚ := fun j =>
  if j < 3 then
    trans_sum tix tref cill spec (fun k => if k < 3 then 0 else XYZ k) j * trans_norm tix tref cill
  else XYZ j

/-- Source: `ss_read_sample`, lines 931 to 987: the emulated spot transmission
conversion. -/
def rs_trans (K : SsConsts) (dev : Instrument) (st : RsSt) : RsFlow :=
  (rs_cmd K dev SsCmd.so_do_SpecParameterRequest st).bind fun s1 =>
  RsFlow.go
    { s1 with
      val :=
        { s1.val with
          sp :=
            if iand s1.p.mode K.inst_mode_spectral ≠ 0 then
              sp_out 100 100
                (trans_spec s1.p.tref (dev st.log SsCmd.so_do_SpecParameterRequest).spec)
                s1.val.sp
            else s1.val.sp,
          XYZ :=
            trans_XYZ (if s1.p.obsv = K.ss_ot_TenDeg then 1 else 0) s1.p.tref s1.p.cill
              (trans_spec s1.p.tref (dev st.log SsCmd.so_do_SpecParameterRequest).spec)
              s1.val.XYZ,
          XYZ_v := 1 } }

/-- Source: `ss_read_sample`, lines 1043 to 1047: the sums of the filter
compensated conversion. -/
def comp_sum (tix : Nat) (spec : Nat → ℚ) : Nat → ℚ :=
  (List.range 36).foldl
    (fun acc i => fun j => if j < 3 then acc j + obsv tix j i * spec i else acc j)
    (fun _ => 0)

/-- Source: `ss_read_sample`, lines 993 to 1063: the conversion with filter
compensation; `st` is the state after the test `p->compen |= 0`. -/
def rs_comp (K : SsConsts) (dev : Instrument) (st : RsSt) : RsFlow :=
  (rs_cmd K dev SsCmd.so_do_CParameterRequest st).bind fun s1 =>
  (rs_cmd K dev SsCmd.so_do_SpecParameterRequest s1).bind fun s2 =>
  RsFlow.go
    { s2 with
      val :=
        if illum_class K s2.p = K.inst_mode_emission then
          { s2.val with
            sp :=
              if iand s2.p.mode K.inst_mode_spectral ≠ 0 then
                sp_out 1 1
                  (fun i => (dev s1.log SsCmd.so_do_SpecParameterRequest).spec i * s2.p.comp i)
                  s2.val.sp
              else s2.val.sp,
            aXYZ_v := 1,
            aXYZ := fun j =>
              if j < 3 then
                comp_sum (if s2.p.obsv = K.ss_ot_TenDeg then 1 else 0)
                  (fun i => (dev s1.log SsCmd.so_do_SpecParameterRequest).spec i * s2.p.comp i) j
                  * 683.226
              else s2.val.aXYZ j }
        else
          { s2.val with
            sp :=
              if iand s2.p.mode K.inst_mode_spectral ≠ 0 then
                sp_out 100 100
                  (fun i => (dev s1.log SsCmd.so_do_SpecParameterRequest).spec i * s2.p.comp i)
                  s2.val.sp
              else s2.val.sp,
            XYZ_v := 1,
            XYZ := fun j =>
              if j < 3 then
                comp_sum (if s2.p.obsv = K.ss_ot_TenDeg then 1 else 0)
                  (fun i => (dev s1.log SsCmd.so_do_SpecParameterRequest).spec i * s2.p.comp i) j
              else s2.val.XYZ j } }

/-- Source: `ss_read_sample`, lines 1065 to 1113: the values as the instrument
computes them. -/
def rs_plain (K : SsConsts) (dev : Instrument) (st : RsSt) : RsFlow :=
  (rs_cmd K dev SsCmd.so_do_CParameterRequest st).bind fun s1 =>
  (RsFlow.go
    { s1 with
      val :=
        if illum_class K s1.p = K.inst_mode_emission then
          { s1.val with
            aXYZ_v := 1,
            aXYZ := fun j =>
              if j < 3 then (dev st.log SsCmd.so_do_CParameterRequest).col j
              else s1.val.aXYZ j }
        else
          { s1.val with
            XYZ_v := 1,
            XYZ := fun j =>
              if j < 3 then (dev st.log SsCmd.so_do_CParameterRequest).col j
              else s1.val.XYZ j } }).bind fun s2 =>
  if iand s2.p.mode K.inst_mode_spectral ≠ 0 then
    (rs_cmd K dev SsCmd.so_do_SpecParameterRequest s2).bind fun s3 =>
    RsFlow.go
      { s3 with
        val :=
          { s3.val with
            sp :=
              if illum_class K s3.p = K.inst_mode_emission then
                sp_out 1 1 (dev s2.log SsCmd.so_do_SpecParameterRequest).spec s3.val.sp
              else sp_out 100 100 (dev s2.log SsCmd.so_do_SpecParameterRequest).spec s3.val.sp } }
  else RsFlow.go s2

/-- Source: `ss_read_sample`, lines 927 to 1114: the three ways to get the
XYZ.  The test `p->compen |= 0` of the second assigns `p->compen | 0` to
`p->compen`. -/
def rs_convert (K : SsConsts) (dev : Instrument) (st : RsSt) : RsFlow :=
  if illum_class K st.p = K.inst_mode_transmission ∧ st.p.itype = instType.instSpectrolino then
    rs_trans K dev st
  else if ior st.p.compen 0 ≠ 0 then
    rs_comp K dev { st with p := { st.p with compen := ior st.p.compen 0 } }
  else rs_plain K dev { st with p := { st.p with compen := ior st.p.compen 0 } }

/-- What one call of `ss_read_sample` leaves: the return code, the caller's
`*val` (`none` for a `NULL` pointer), the handle and the commands sent. -/
structure RsOut where
  code : Int
  val : Option ipatch
  p : ss
  log : List SsCmd

/-- The end of `ss_read_sample`: a `return` met on the way, or lines 1115 and
1116. -/
def RsFlow.finish (K : SsConsts) (f : RsFlow) : RsOut :=
  match f with
  | RsFlow.ret code s => { code := code, val := some s.val, p := s.p, log := s.log }
  | RsFlow.go s =>
    { code := if s.user_trig ≠ 0 then K.inst_user_trig else s.rv,
      val := some s.val, p := s.p, log := s.log }

/-- Source: `ss_read_sample`, lines 826 to 889: the calibration when due, and
the wait for the trigger. -/
def rs_start (K : SsConsts) (dev : Instrument) (icoms2ss_err ss_inst_err : Int → Int)
    (se : Int) (fuel : Nat) (st : RsSt) : Option RsFlow :=
  match rs_calibrate K dev st with
  | RsFlow.ret code s => some (RsFlow.ret code s)
  | RsFlow.go s1 => rs_trigger K dev icoms2ss_err ss_inst_err se fuel s1

/-- Source: `ss_read_sample`.  Inputs besides the handle and `val` (`none`
for a `NULL` pointer): the instrument and the commands sent before the call,
the routines `icoms2ss_err` and `ss_inst_err` of `ss_imp.c`, what
`icoms_poll_user` returns, and the number of rounds allowed to the polling
loop of the switch trigger (`none`: not enough).  The strip name is not used by
the function. -/
def ss_read_sample (K : SsConsts) (dev : Instrument) (icoms2ss_err ss_inst_err : Int → Int)
    (se : Int) (fuel : Nat) (p : ss) (val : Option ipatch) (log : List SsCmd) :
    Option RsOut :=
  match val with
  | none => some { code := K.inst_internal_error, val := none, p := p, log := log }
  | some v =>
    (rs_start K dev icoms2ss_err ss_inst_err se fuel
      { p := p,
        val :=
          { v with
            XYZ_v := 0, aXYZ_v := 0, Lab_v := 0, sp := { v.sp with spec_n := 0 },
            duration := 0 },
        rv := K.inst_ok, log := log, user_trig := 0, switch_trig := 0 }).map fun f =>
      RsFlow.finish K
        (f.bind fun s2 =>
          (rs_measure K dev s2).bind fun s3 =>
            rs_convert K dev { s3 with p := inc_calcount K s3.p })

/-! ## Proof vocabulary and test inputs -/

/-- A field of three zero digits repeated: padding for test replies. -/
def zeros (n : Nat) : List Char := List.replicate n (Char.ofNat 48)

/-- One-sensor reply, `div = mul = 1`, group 0 with denominator fields
`256 000 000 001` and numerator fields `000 001`, zero padding up to 156. -/
def replyWrap : List Char := "RGB_1:001001256000000001000001".toList ++ zeros 126

/-- Two-sensor reply, `div = mul = 1`: group 0 has denominator 0 and numerator 1,
group 4 has denominator 1 and numerator 1, every other field is `000`. -/
def replyTwoSensor : List Char :=
  "RGB_2:001001000000000000000001".toList ++ zeros 54
    ++ "000000000001000001".toList ++ zeros 54

/-- One-sensor reply of length 156 whose `div` field is `abc`; `mul = 1`, group
0 has denominator 1 and numerator 1. -/
def replyLetters : List Char := "RGB_1:abc001000000000001000001".toList ++ zeros 126

/-- Shortest accepted reply: the tag and 150 zero digits. -/
def reply156 : List Char := "RGB_2:".toList ++ zeros 150

/-- One character short: a valid tag and 149 zero digits. -/
def reply155 : List Char := "RGB_1:".toList ++ zeros 149

/-- An array `rgb` holding zeros on entry. -/
def rgb0 : Nat → ℚ := fun _ => 0

/-- A handle of the given instrument type and active mode, freshly calibrated:
capabilities as `ss_init_inst` sets them, count 0, no calibration needed,
auto-calibration enabled. -/
def ssHandle (itype : instType) (mode : Int) : ss where
  itype := itype
  cap := ss_init_cap sampleSs itype
  mode := mode
  nextmode := mode
  calcount := 0
  need_w_cal := 0
  need_t_cal := 0
  noautocalib := 0
  filt := 1
  dstd := 0
  wbase := ss_wbt.ss_wbt_Abs
  illum := 0
  obsv := 0
  tref := fun _ => 0
  cill := fun _ => 0

/-- An instrument on which every command succeeds: the reference measurements
answer with their notification codes, everything else with `inst_ok`; the
filter reported is filter 1. -/
def devGood : Instrument := fun _ c =>
  match c with
  | SsCmd.so_do_ExecRefMeasurement ss_mmt.ss_mmt_WhiteCalWithWarn =>
      { code := 0x010013, af := 1, spec := fun _ => 1, id := "" }
  | SsCmd.so_do_ExecRefMeasurement ss_mmt.ss_mmt_EmissionCal =>
      { code := 0x010019, af := 1, spec := fun _ => 1, id := "" }
  | _ => { code := 0, af := 1, spec := fun _ => 1, id := "White 1" }

/-- A property of every way a piece of code can end: `R` for each `return`,
`G` for falling through. -/
def Flow.Sat (R : Int → CalSt → Prop) (G : CalSt → Prop) : Flow → Prop
  | Flow.ret code s => R code s
  | Flow.go s => G s

/-- What no statement of the calibration changes, and the only way it changes
the rest: flags are only ever cleared, the count only ever zeroed, the log only
ever extended. -/
structure Frame (s t : CalSt) : Prop where
  itype : t.p.itype = s.p.itype
  mode : t.p.mode = s.p.mode
  nextmode : t.p.nextmode = s.p.nextmode
  noautocalib : t.p.noautocalib = s.p.noautocalib
  cap : t.p.cap = s.p.cap
  need_w : t.p.need_w_cal = s.p.need_w_cal ∨ t.p.need_w_cal = 0
  need_t : t.p.need_t_cal = s.p.need_t_cal ∨ t.p.need_t_cal = 0
  calcount : t.p.calcount = s.p.calcount ∨ t.p.calcount = 0
  log : ∃ l, t.log = s.log ++ l

/-- A piece of the calibration started in state `s`: every way it ends leaves
a state framed by `s`, and, granted `H`, no `return` in it yields `inst_ok`. -/
def Blk (K : SsConsts) (H : Prop) (s : CalSt) (f : Flow) : Prop :=
  f.Sat (fun code t => Frame s t ∧ (H → code ≠ K.inst_ok)) (fun t => Frame s t)

/-- The hypothesis on the instrument used below: a reference measurement never
answers with plain `inst_ok`. -/
def RefNeverOk (K : SsConsts) (dev : Instrument) : Prop :=
  ∀ (log : List SsCmd) (mm : ss_mmt),
    (dev log (SsCmd.so_do_ExecRefMeasurement mm)).code ≠ K.inst_ok

/-- The command that opens the reflective white calibration. -/
def firstRefCmd (itype : instType) : SsCmd :=
  if itype = instType.instSpectroScanT then SsCmd.ss_do_SetTableMode ss_tmt.ss_tmt_Reflectance
  else SsCmd.so_do_MeasControlDownload ss_ctt.ss_ctt_RemissionMeas

/-- An instrument that answers every command, reference measurements
included, with plain `inst_ok`. -/
def devPlainOk : Instrument := fun _ _ => { code := 0, af := 1, spec := fun _ => 1, id := "" }

/-- The three commands that precede the check of the caller's condition in
the reflective white calibration. -/
def refPrepCmds (K : SsConsts) (p : ss) : List SsCmd :=
  [firstRefCmd p.itype,
   SsCmd.so_do_ParameterDownload p.dstd ss_wbt.ss_wbt_Abs p.illum p.obsv,
   SsCmd.so_do_WhiteReferenceRequest
     (if illum_class K p = K.inst_mode_emission then K.ss_aft_NoFilter else p.filt)]

/-- An instrument that does not answer: every command returns the
communication failure code `0x040031`. -/
def devDown : Instrument := fun _ _ =>
  { code := 0x040031, af := 0, spec := fun _ => 0, id := "" }

/-- An instrument on which everything succeeds until the table has been put
in transmission mode; the white measurement that follows is interrupted by
the user (code `0x070035`). -/
def devTransAbort : Instrument := fun log c =>
  if c = SsCmd.so_do_ExecRefMeasurement ss_mmt.ss_mmt_WhiteCalWithWarn
      ∧ SsCmd.ss_do_SetTableMode ss_tmt.ss_tmt_Transmission ∈ log then
    { code := 0x070035, af := 1, spec := fun _ => 1, id := "" }
  else devGood log c

/-- Flags and count as they were. -/
def Same (s t : CalSt) : Prop :=
  t.p.need_w_cal = s.p.need_w_cal ∧ t.p.need_t_cal = s.p.need_t_cal
    ∧ t.p.calcount = s.p.calcount

/-- The value of a `return`: `inst_cal_setup`, or the code the instrument gave
to the last command sent. -/
def RetOf (K : SsConsts) (dev : Instrument) (code : Int) (t : CalSt) : Prop :=
  code = K.inst_cal_setup ∨ ∃ pre cmd, t.log = pre ++ [cmd] ∧ code = (dev pre cmd).code

/-- A piece of the calibration that gives no credit: every `return` in it, and
falling through it, leaves flags and count as they were, and every `return`
hands back `inst_cal_setup` or the code of the last command. -/
def NoCredit (K : SsConsts) (dev : Instrument) (s : CalSt) (f : Flow) : Prop :=
  f.Sat (fun code t => Same s t ∧ RetOf K dev code t) (fun t => Same s t)

/-- An instrument that accepts the first two preparatory commands and does
not answer the white-reference request (communication failure `0x040031`). -/
def devNoRef : Instrument := fun _ c =>
  match c with
  | SsCmd.so_do_WhiteReferenceRequest _ =>
      { code := 0x040031, af := 0, spec := fun _ => 0, id := "" }
  | _ => { code := 0, af := 1, spec := fun _ => 1, id := "" }

/-- The abstract class constants `hcfr_interp_code` combines with a subcode,
in source order. -/
def Consts.classes (K : Consts) : List Int :=
  [K.inst_internal_error, K.inst_coms_fail, K.inst_unknown_model, K.inst_protocol_error,
   K.inst_user_abort, K.inst_user_term, K.inst_user_trig, K.inst_user_cmnd,
   K.inst_misread, K.inst_hardware_fail, K.inst_other_error]

/-- The layout of `inst_code` in `inst.h`: the abstract class constants have no
bit inside `inst_imask`, and the low bits of `inst_ok` are `HCFR_OK`. -/
def Consts.Split (K : Consts) : Prop :=
  iand K.inst_ok K.inst_imask = K.HCFR_OK ∧ ∀ c ∈ K.classes, iand c K.inst_imask = 0

instance (K : Consts) : Decidable K.Split := by
  unfold Consts.Split; exact inferInstance

/-- A handle in keyboard-trigger mode, as `hcfr_init_inst` leaves it. -/
def hcfrKeyb : hcfr where
  gotcoms := 1
  trig := inst_opt_mode.inst_opt_trig_keyb
  cal_mode := 2
  crt := fun _ _ => 0
  lcd := fun _ _ => 0

/-- A patch value with every field zero. -/
def ipatch0 : ipatch where
  XYZ_v := 0
  XYZ := fun _ => 0
  aXYZ_v := 0
  aXYZ := fun _ => 0
  Lab_v := 0
  sp := { spec_n := 0, spec_wl_short := 0, spec_wl_long := 0, norm := 0, spec := fun _ => 0 }
  duration := 0

/-- The matrix by vector product, for test inputs. -/
def mul3x3 (m : Nat → Nat → ℚ) (v : Nat → ℚ) : Nat → ℚ :=
  fun i => m i 0 * v 0 + m i 1 * v 1 + m i 2 * v 2

/-- The nine geometries `ss_set_mode` knows, each with its capability bit, in
source order. -/
def geometries (K : SsConsts) : List (Int × Int) :=
  [(K.inst_mode_ref_spot, K.inst_ref_spot), (K.inst_mode_ref_strip, K.inst_ref_strip),
   (K.inst_mode_ref_xy, K.inst_ref_xy), (K.inst_mode_trans_spot, K.inst_trans_spot),
   (K.inst_mode_trans_strip, K.inst_trans_strip), (K.inst_mode_trans_xy, K.inst_trans_xy),
   (K.inst_mode_emis_spot, K.inst_emis_spot), (K.inst_mode_emis_disp, K.inst_emis_disp),
   (K.inst_mode_emis_illum, K.inst_emis_illum)]

/-- The capability bit of a geometry: that of the first entry of
`geometries` with this geometry, `none` for an unknown geometry. -/
def geometry_cap (K : SsConsts) (mm : Int) : Option Int :=
  ((geometries K).find? fun g => decide (mm = g.1)).map fun g => g.2

/-- The layout of `inst_mode` in `inst.h`: the illumination mask lies inside
the measurement mask, and the illumination class of each of the nine
geometries is reflection, transmission or emission. -/
def SsConsts.Classed (K : SsConsts) : Prop :=
  iand K.inst_mode_measurement_mask K.inst_mode_illum_mask = K.inst_mode_illum_mask
    ∧ ∀ g ∈ geometries K,
        iand g.1 K.inst_mode_illum_mask = K.inst_mode_reflection
          ∨ iand g.1 K.inst_mode_illum_mask = K.inst_mode_transmission
          ∨ iand g.1 K.inst_mode_illum_mask = K.inst_mode_emission

instance (K : SsConsts) : Decidable K.Classed := by
  unfold SsConsts.Classed; exact inferInstance

/-- A filter file reader for test inputs: the file `"f40"` holds 40 samples
from 380 to 730 nm, every other file 36 samples from 380 to 730 nm, all of
value one half. -/
def readSample (name : String) : Int × xspect :=
  (0, { spec_n := if name = "f40" then 40 else 36, spec_wl_short := 380, spec_wl_long := 730,
        norm := 1, spec := fun _ => 1 / 2 })

/-- The geometry check of `ss_set_mode`, lines 1616 to 1645, said with the
table: the function goes on exactly when the geometry is known and its
capability bit is in the mask. -/
def geomOk (K : SsConsts) (cap mm : Int) : Bool :=
  match geometry_cap K mm with
  | none => false
  | some c => decide (iand cap c ≠ 0)

/-- Round `t` of a serpentine walk over rows of length `n`: the row `t / n`
and the place in it, counted from the left in even rows and from the right in
odd ones. -/
def serp (n t : Int) : Int × Int :=
  (t / n, if (t / n) % 2 = 0 then t % n else n - 1 - t % n)

/-- The round in which a serpentine walk over rows of length `n` is at place
`c.2` of row `c.1`. -/
def serpIdx (n : Int) (c : Int × Int) : Int :=
  c.1 * n + (if c.1 % 2 = 0 then c.2 else n - 1 - c.2)

/-- The counters `(step, pass)` of `ss_read_xy` at the start of round `t`. -/
def xy_counters (a : XyArgs) (fs : Bool) (t : Int) : Int × Int :=
  if fs then (t % a.sip, t / a.sip) else (t / a.pis, t % a.pis)

/-- The cell `(apass, astep)` of round `t`. -/
def xy_cell (a : XyArgs) (fs : Bool) (t : Int) : Int × Int :=
  (apass a fs (xy_counters a fs t).1 (xy_counters a fs t).2,
   astep a fs (xy_counters a fs t).1 (xy_counters a fs t).2)

/-- Source: `ss_read_xy`, line 627: the patch index of a cell. -/
def patchOf (a : XyArgs) (c : Int × Int) : Int := c.1 * a.sip + c.2

/-- Two cells next to each other: same pass and steps one apart, or same step
and passes one apart. -/
def Adjacent (c d : Int × Int) : Prop :=
  (c.1 = d.1 ∧ |c.2 - d.2| = 1) ∨ (c.2 = d.2 ∧ |c.1 - d.1| = 1)

/-- The two commands of a measurement succeed whenever they are sent. -/
def ScanOk (K : SsConsts) (dev : Instrument) : Prop :=
  (∀ log ix iy, (dev log (SsCmd.ss_do_MoveAndMeasure ix iy)).code = K.inst_ok)
    ∧ ∀ log, (dev log SsCmd.so_do_CParameterRequest).code = K.inst_ok

/-- No calibration is stale before any of the first `n` measurements. -/
def Fresh (K : SsConsts) (p : ss) (n : Int) : Prop :=
  ∀ k : Nat, (k : Int) < n →
    ((inc_calcount K)^[k] p).need_w_cal = 0 ∧ ((inc_calcount K)^[k] p).need_t_cal = 0

/-- A scanning table in reflective grid mode, freshly calibrated. -/
def pXY : ss := ssHandle instType.instSpectroScan 0x31

/-- The 2 by 2 grid with origin `(0,0)`, step increment `(1,0)` and pass
increment `(0,1)`, all four patches wanted. -/
def a22 : XyArgs where
  pis := 2
  sip := 2
  npatch := 4
  ox := 0
  oy := 0
  ax := 0
  ay := 1
  aax := 0
  aay := 0
  px := 1
  py := 0

/-- An array of patch values with every field zero. -/
def vals0 : Int → ipatch := fun _ => ipatch0

/-- An instrument that answers every command with the code `0x0F0000`, the
value of `inst_cal_setup`. -/
def devSetup : Instrument := fun _ _ =>
  { code := 0x0F0000, af := 0, spec := fun _ => 0, id := "" }

/-- The four user keys of `icoms.h`, in the order `icoms2hcfr_err` tests
them. -/
def Consts.keys (K : Consts) : List Int :=
  [K.ICOM_USER, K.ICOM_TERM, K.ICOM_TRIG, K.ICOM_CMND]

/-- The layout of the transport status in `icoms.h`: `ICOM_OK` is zero, and the
four user keys are distinct non-zero values inside `ICOM_USERM`. -/
def Consts.IcomWF (K : Consts) : Prop :=
  K.ICOM_OK = 0 ∧ K.keys.Nodup ∧ ∀ c ∈ K.keys, iand c K.ICOM_USERM = c ∧ c ≠ 0

instance (K : Consts) : Decidable K.IcomWF := by
  unfold Consts.IcomWF; exact inferInstance

/-- The layout of `inst_code` under the abstract class mask `inst_mask`:
`inst_ok` and the class constants are pairwise distinct, each class constant
lies inside the mask and no subcode has a bit inside it. -/
def Consts.Masked (K : Consts) : Prop :=
  (K.inst_ok :: K.classes).Nodup ∧ (∀ c ∈ K.classes, iand c K.inst_mask = c)
    ∧ ∀ e ∈ K.labels, iand e K.inst_mask = 0

instance (K : Consts) : Decidable K.Masked := by
  unfold Consts.Masked; exact inferInstance

/-- A handle before communications are established. -/
def hcfrNew : hcfr where
  gotcoms := 0
  trig := inst_opt_mode.inst_opt_trig_prog
  cal_mode := 0
  crt := fun _ _ => 0
  lcd := fun _ _ => 0

/-- Determinant of a 3 by 3 array. -/
def det3 (m : Nat → Nat → ℚ) : ℚ :=
  m 0 0 * (m 1 1 * m 2 2 - m 1 2 * m 2 1) - m 0 1 * (m 1 0 * m 2 2 - m 1 2 * m 2 0)
    + m 0 2 * (m 1 0 * m 2 1 - m 1 1 * m 2 0)

/-- Product of two 3 by 3 arrays. -/
def mul3 (a b : Nat → Nat → ℚ) : Nat → Nat → ℚ :=
  fun i j => a i 0 * b 0 j + a i 1 * b 1 j + a i 2 * b 2 j

/-- The exact inverse by the adjugate, for test inputs: fails (returns 1) on a
zero determinant. -/
def inv3 (m : Nat → Nat → ℚ) : Int × (Nat → Nat → ℚ) :=
  if det3 m = 0 then (1, m)
  else
    (0, mat3
      [(m 1 1 * m 2 2 - m 1 2 * m 2 1) / det3 m, (m 0 2 * m 2 1 - m 0 1 * m 2 2) / det3 m,
        (m 0 1 * m 1 2 - m 0 2 * m 1 1) / det3 m]
      [(m 1 2 * m 2 0 - m 1 0 * m 2 2) / det3 m, (m 0 0 * m 2 2 - m 0 2 * m 2 0) / det3 m,
        (m 0 2 * m 1 0 - m 0 0 * m 1 2) / det3 m]
      [(m 1 0 * m 2 1 - m 1 1 * m 2 0) / det3 m, (m 0 1 * m 2 0 - m 0 0 * m 2 1) / det3 m,
        (m 0 0 * m 1 1 - m 0 1 * m 1 0) / det3 m])

/-- What `hcfr_comp_matrix` relies on in the library: `icmInverse3x3` fails
only on a matrix whose determinant is smaller than one in magnitude and
otherwise fills a left inverse, and `icmMul3x3_2` fills the product of its two
sources. -/
def MatLib (icmInverse3x3 : (Nat → Nat → ℚ) → Int × (Nat → Nat → ℚ))
    (icmMul3x3_2 : (Nat → Nat → ℚ) → (Nat → Nat → ℚ) → (Nat → Nat → ℚ)) : Prop :=
  (∀ m, (icmInverse3x3 m).1 ≠ 0 → |det3 m| < 1)
    ∧ (∀ m, (icmInverse3x3 m).1 = 0 → ∀ i j, i < 3 → j < 3 →
        mul3 (icmInverse3x3 m).2 m i j = if i = j then 1 else 0)
    ∧ ∀ a b i j, i < 3 → j < 3 → icmMul3x3_2 a b i j = mul3 a b i j

/-- The handle of a SpectroScanT that was put in transmissive spot mode
(`0x12`) and then in reflective spot mode (`0x11`), starting from a fresh
handle in no mode. -/
def pTransThenRef : ss :=
  (ss_set_mode sampleSs (ss_set_mode sampleSs (ssHandle instType.instSpectroScanT 0) 0x12).2
    0x11).2

/-- Source: `ss_read_xy`, lines 631 to 637: the position `(ix, iy)` computed
in the round with counters `step` and `pass`. -/
def xy_pos (a : XyArgs) (fs : Bool) (step pass : Int) : ℚ × ℚ :=
  (if iand step 1 = 1 then
      a.ox + (apass a fs step pass : ℚ) * a.ax + (astep a fs step pass : ℚ) * a.px + a.aax
    else a.ox + (apass a fs step pass : ℚ) * a.ax + (astep a fs step pass : ℚ) * a.px,
   if iand step 1 = 1 then
      a.oy + (apass a fs step pass : ℚ) * a.ay + (astep a fs step pass : ℚ) * a.py + a.aay
    else a.oy + (apass a fs step pass : ℚ) * a.ay + (astep a fs step pass : ℚ) * a.py)

/-- The commands of round `t` of a scan in which nothing fails and nothing is
stale. -/
def xy_cmds (a : XyArgs) (fs : Bool) (t : Int) : List SsCmd :=
  if patchOf a (xy_cell a fs t) < a.npatch then
    [SsCmd.ss_do_MoveAndMeasure
        (xy_pos a fs (xy_counters a fs t).1 (xy_counters a fs t).2).1
        (xy_pos a fs (xy_counters a fs t).1 (xy_counters a fs t).2).2,
      SsCmd.so_do_CParameterRequest]
  else []

/-- The 2 by 2 grid of `a22` with an odd offset of one half along x. -/
def a22hex : XyArgs := { a22 with aax := 1 / 2 }

/-- Source: `ss_init_coms`, lines 202 and 203: the index tried after `i`. -/
def nxt (i : Nat) : Nat := if i + 1 ≥ 7 then 0 else i + 1

/-- The port setting made before the probes of table entry `i`. -/
def probe_port (i : Nat) : ComEv :=
  ComEv.set_ser_port flow_control.fc_none (brt.getD i baud_rate.baud_9600)

/-- The actions of `r` rounds of the negotiation loop without a recognised
reply, starting at table entry `i`. -/
def rounds_log (i : Nat) : Nat → List ComEv
  | 0 => []
  | r + 1 => [probe_port i, ComEv.ss_OutputStatus, ComEv.ss_ParameterRequest]
      ++ rounds_log (nxt i) r

/-- The first probe of table entry `i`, made after the actions `log`, gets a
recognised reply. -/
def Recognised1 (K : SsConsts) (line : Line) (log : List ComEv) (i : Nat) : Prop :=
  (line (log ++ [probe_port i]) ComEv.ss_OutputStatus).sub1 = K.ss_AnsPFX

/-- The second probe of table entry `i` gets a recognised reply. -/
def Recognised2 (K : SsConsts) (line : Line) (log : List ComEv) (i : Nat) : Prop :=
  (line (log ++ [probe_port i, ComEv.ss_OutputStatus]) ComEv.ss_ParameterRequest).sub1
    = K.ss_ParameterAnswer

instance (K : SsConsts) (line : Line) (log : List ComEv) (i : Nat) :
    Decidable (Recognised1 K line log i) := by
  unfold Recognised1; exact inferInstance

instance (K : SsConsts) (line : Line) (log : List ComEv) (i : Nat) :
    Decidable (Recognised2 K line log i) := by
  unfold Recognised2; exact inferInstance

/-- The actions of the round that binds at table entry `i`: the port setting
and the first probe, and the second probe when the first was not
recognised. -/
def bind_log (K : SsConsts) (line : Line) (log : List ComEv) (i : Nat) : List ComEv :=
  if Recognised1 K line log i then [probe_port i, ComEv.ss_OutputStatus]
  else [probe_port i, ComEv.ss_OutputStatus, ComEv.ss_ParameterRequest]

/-- An action of the part of `ss_init_coms` that follows the negotiation: not
a probe, and if it is a port setting then one to the flow control `fc` and the
requested baud rate, entry `bi` of the table. -/
def FinEv (fc : flow_control) (bi : Nat) (ev : ComEv) : Prop :=
  match ev with
  | ComEv.set_ser_port f b => f = fc ∧ b = brt.getD bi baud_rate.baud_9600
  | ComEv.ss_OutputStatus => False
  | ComEv.ss_ParameterRequest => False
  | _ => True

/-- The baud rate of the last port setting among the actions `log`. -/
def lastBaud (log : List ComEv) : Option baud_rate :=
  log.foldl (fun acc ev =>
    match ev with
    | ComEv.set_ser_port _ b => some b
    | _ => acc) none

/-- A bare Spectrolino whose line runs at the baud rate `b`: the SpectroScan
probe is never answered, the Spectrolino probe is answered when the port was
last set to `b`, the SpectroScan type query fails, and every other command
succeeds; the device reports the name `Spectrolino`. -/
def lineAt (b : baud_rate) : Line := fun log ev =>
  match ev with
  | ComEv.ss_OutputStatus => { code := 0, sub1 := 0, snerr := 0x10, devn := [], tt := ss_ttt.ss_ttt_Spectrolino }
  | ComEv.ss_ParameterRequest =>
      if lastBaud log = some b then
        { code := 0, sub1 := 0x0B, snerr := 0, devn := [], tt := ss_ttt.ss_ttt_Spectrolino }
      else { code := 0, sub1 := 0, snerr := 0x10, devn := [], tt := ss_ttt.ss_ttt_Spectrolino }
  | ComEv.ss_do_OutputType =>
      { code := 0x040031, sub1 := 0, snerr := 0x10, devn := [], tt := ss_ttt.ss_ttt_Spectrolino }
  | _ =>
      { code := 0, sub1 := 0, snerr := 0, devn := "Spectrolino".toList,
        tt := ss_ttt.ss_ttt_Spectrolino }

/-- A handle before communications are established. -/
def ssNew : ss := ssHandle instType.instUnknown 0

/-- A clock that stands still. -/
def clk0 : Nat → Int := fun _ => 0

/-- A bare Spectrolino at the transport's baud rate whose identity queries
both fail: it answers the Spectrolino probe and accepts the commands that
finalise the link, it does not know the SpectroScan type query
`ss_do_OutputType` (no reply: `inst_coms_fail` with a sub-code), and its reply
to `so_do_TargetIdRequest` is lost as well. -/
def lineIdFail : Line := fun _ ev =>
  match ev with
  | ComEv.ss_OutputStatus =>
      { code := 0x040031, sub1 := 0, snerr := 0x31, devn := [], tt := ss_ttt.ss_ttt_Spectrolino }
  | ComEv.ss_ParameterRequest =>
      { code := 0, sub1 := 0x0B, snerr := 0, devn := [], tt := ss_ttt.ss_ttt_Spectrolino }
  | ComEv.ss_do_OutputType =>
      { code := 0x040031, sub1 := 0, snerr := 0x31, devn := [], tt := ss_ttt.ss_ttt_Spectrolino }
  | ComEv.so_do_TargetIdRequest =>
      { code := 0x040031, sub1 := 0, snerr := 0x31, devn := [], tt := ss_ttt.ss_ttt_Spectrolino }
  | _ =>
      { code := 0, sub1 := 0, snerr := 0, devn := [], tt := ss_ttt.ss_ttt_Spectrolino }

/-- A SpectroScan-like device that reports a type string matching none of
the expected patterns, and whose reply to `so_do_TargetIdRequest` is lost. -/
def lineOddName : Line := fun _ ev =>
  match ev with
  | ComEv.ss_OutputStatus =>
      { code := 0, sub1 := 0xD1, snerr := 0, devn := [], tt := ss_ttt.ss_ttt_Spectrolino }
  | ComEv.ss_do_OutputType =>
      { code := 0, sub1 := 0, snerr := 0, devn := "SpectroPlot".toList,
        tt := ss_ttt.ss_ttt_Spectrolino }
  | ComEv.so_do_TargetIdRequest =>
      { code := 0x040031, sub1 := 0, snerr := 0x31, devn := [], tt := ss_ttt.ss_ttt_Spectrolino }
  | _ =>
      { code := 0, sub1 := 0, snerr := 0, devn := [], tt := ss_ttt.ss_ttt_Spectrolino }

/-- Every code a piece of the calibration can end with satisfies `Q`: the
value of each `return`, and the local `rv` where it falls through. -/
def Flow.Codes (Q : Int → Prop) (f : Flow) : Prop :=
  f.Sat (fun code _ => Q code) (fun t => Q t.rv)

/-- A property of every way a piece of `ss_read_sample` can end: `R` for each
`return`, `G` for falling through. -/
def RsFlow.Sat (R : Int → RsSt → Prop) (G : RsSt → Prop) : RsFlow → Prop
  | RsFlow.ret code s => R code s
  | RsFlow.go s => G s

/-- A return code other than the two that report a measurement. -/
def Failed (K : SsConsts) (code : Int) : Prop :=
  code ≠ K.inst_ok ∧ code ≠ K.inst_user_trig

instance (K : SsConsts) (code : Int) : Decidable (Failed K code) := by
  unfold Failed; exact inferInstance

/-- The codes the driver itself returns are pairwise distinct, and so are the
emission and transmission classes of a mode (`inst.h`). -/
def SsConsts.Codes (K : SsConsts) : Prop :=
  [K.inst_ok, K.inst_user_trig, K.inst_internal_error, K.inst_needs_cal,
    K.inst_unsupported, K.inst_cal_setup].Nodup
    ∧ K.inst_mode_emission ≠ K.inst_mode_transmission

instance (K : SsConsts) : Decidable K.Codes := by
  unfold SsConsts.Codes; exact inferInstance

/-- What the steps of `ss_read_sample` before the conversion leave alone: the
mode, the instrument type and `*val`. -/
def Kept (p : ss) (v0 : ipatch) (t : RsSt) : Prop :=
  t.p.mode = p.mode ∧ t.p.itype = p.itype ∧ t.val = v0

/-- A piece of `ss_read_sample` before the conversion: every `return` in it
gives a failure code, and falling through leaves mode, type and `*val` as
they were. -/
def Step (K : SsConsts) (p : ss) (v0 : ipatch) (f : RsFlow) : Prop :=
  f.Sat (fun code _ => Failed K code) (Kept p v0)

/-- The value `ss_read_sample` clears `*val` to before anything else. -/
def cleared (v : ipatch) : ipatch :=
  { v with
    XYZ_v := 0, aXYZ_v := 0, Lab_v := 0, sp := { v.sp with spec_n := 0 }, duration := 0 }

/-- The flags of a patch measured in full by `ss_read_xy`: relative value
valid, absolute value not. -/
def RelOnly (v : ipatch) : Prop := v.XYZ_v = 1 ∧ v.aXYZ_v = 0

instance (v : ipatch) : Decidable (RelOnly v) := by
  unfold RelOnly; exact inferInstance

/-- A Spectrolino in emission spot mode, freshly calibrated, software
trigger. -/
def pEmis : ss := ssHandle instType.instSpectrolino 0x13

/-- A Spectrolino in transmission spot mode with the transmission reference
and the illuminant table both 1 at every sample, freshly calibrated, software
trigger. -/
def pTrans : ss :=
  { ssHandle instType.instSpectrolino 0x12 with tref := fun _ => 1, cill := fun _ => 1 }

/-- What `ss_read_sample` returns for `pTrans` on the instrument `devGood`,
whose spectra are 1 at every sample. -/
def outTrans : RsOut where
  code := 0
  val := some
    { cleared ipatch0 with
      XYZ := trans_XYZ 0 (fun _ => 1) (fun _ => 1) (trans_spec (fun _ => 1) (fun _ => 1))
        (fun _ => 0),
      XYZ_v := 1 }
  p := { pTrans with calcount := 1 }
  log := [SsCmd.so_do_ExecMeasurement, SsCmd.so_do_NewMeasureRequest,
    SsCmd.so_do_SpecParameterRequest]

/-! # Theorems -/

/-! ## Lemmas on the reply decoder -/

theorem decode_den_eq (bp : List Char) :
    decode_den bp
      = u32 (field bp 0 * 16777216 + field bp 3 * 65536 + field bp 6 * 256 + field bp 9) := by
  simp only [decode_den, u32]; omega

theorem decode_num_eq (bp : List Char) :
    decode_num bp = u32 (field bp 12 * 256 + field bp 15) := by
  simp only [decode_num, u32]; omega

set_option maxRecDepth 1000000 in
theorem atoi_enc3 : ∀ b : Fin 256, atoi (cstr (enc3 b.val)) = Int.ofNat b.val := by decide

theorem enc3_length (b : Nat) : (enc3 b).length = 3 := rfl

theorem field_enc3 (pre rest : List Char) (b : Nat) (hb : b < 256) :
    field (pre ++ (enc3 b ++ rest)) pre.length = (b : Int) := by
  have h := atoi_enc3 ⟨b, hb⟩
  simp only [field, strncpy3, List.drop_left, List.take_left' (enc3_length b)]
  simpa using h

theorem hcfr_interp_bad_reading (K : Consts) (hK : K.WF) :
    hcfr_interp_code K K.HCFR_BAD_READING = ior K.inst_misread K.HCFR_BAD_READING := by
  obtain ⟨hnd, hin⟩ := hK
  have hm : iand K.HCFR_BAD_READING K.inst_imask = K.HCFR_BAD_READING :=
    hin _ (by simp [Consts.labels])
  simp only [Consts.labels, List.nodup_cons, List.mem_cons, List.mem_singleton, not_or] at hnd
  simp only [hcfr_interp_code, hm]
  obtain ⟨h0, h1, h2, h3, h4, h5, h6, h7, h8, -⟩ := hnd
  rw [if_neg (Ne.symm h0.2.2.2.2.2.2.2.2.1), if_neg (Ne.symm h1.2.2.2.2.2.2.2.1),
    if_neg (Ne.symm h2.2.2.2.2.2.2.1), if_neg (Ne.symm h3.2.2.2.2.2.1),
    if_neg (Ne.symm h4.2.2.2.2.1), if_neg (Ne.symm h5.2.2.2.1), if_neg (Ne.symm h6.2.2.1),
    if_neg (Ne.symm h7.2.1), if_neg (Ne.symm h8.1)]
  simp

/-! ## Results on hcfr.c -/

/-- C1 (as stated, refuted): the reply `replyWrap` is accepted with tag `RGB_1:`
and its denominator for channel 0 is non-zero, both as the code decodes it and
as the plain big-endian value of the fields, yet `rgb[0]` is not
`1e6 * num * mul * div / den` with `den` the big-endian base 256 value of the
four denominator fields: the fields `256 000 000 001` have the value `2^32 + 1`,
which the unsigned 32 bit accumulation reduces to 1. -/
theorem hcfr_get_rgb_formula_unreduced_fails :
    strlen replyWrap = 156 ∧ strncmp_eq replyWrap tagRGB1 6 = true
      ∧ (hcfr_get_rgb sampleConsts 1 0 replyWrap rgb0).1 = sampleConsts.inst_ok
      ∧ decode_den (replyWrap.drop 12) ≠ 0
      ∧ be_den replyWrap 0 ≠ 0
      ∧ (hcfr_get_rgb sampleConsts 1 0 replyWrap rgb0).2 0
          ≠ 1000000 * (be_num replyWrap 0 : ℚ) * (hcfr_mul replyWrap : ℚ)
              * (hcfr_div replyWrap : ℚ) / (be_den replyWrap 0 : ℚ) := by
  have hd : decode_den (replyWrap.drop 12) = 1 := by
    set_option maxRecDepth 1000000 in decide
  have hn : decode_num (replyWrap.drop 12) = 1 := by
    set_option maxRecDepth 1000000 in decide
  have hm : hcfr_mul replyWrap = 1 := by
    set_option maxRecDepth 1000000 in decide
  have hv : hcfr_div replyWrap = 1 := by
    set_option maxRecDepth 1000000 in decide
  have hbd : be_den replyWrap 0 = 4294967297 := by
    set_option maxRecDepth 1000000 in decide
  have hbn : be_num replyWrap 0 = 1 := by
    set_option maxRecDepth 1000000 in decide
  have hl : strlen replyWrap = 156 := by
    set_option maxRecDepth 1000000 in decide
  have ht : strncmp_eq replyWrap tagRGB1 6 = true := by
    set_option maxRecDepth 1000000 in decide
  have hc : hcfr_command sampleConsts 0 = sampleConsts.inst_ok := by decide
  refine ⟨hl, ht, ?_, ?_, ?_, ?_⟩
  · simp [hcfr_get_rgb, hc, hl, ht]
  · rw [hd]; decide
  · rw [hbd]; decide
  · simp only [hcfr_get_rgb, hc, hl, ht, hcfr_vals, hm, hv, hbd, hbn]
    norm_num
    rw [hd, hn]
    norm_num

/-- C1 (amended): for every reply that reaches the parser with tag `RGB_1:`
and every channel `i < 3`, with `den` and `num` the big-endian base 256 values
of the four / two fields of group `i` reduced modulo `2^32`: if `den` is not
zero then `rgb[i] = 1e6 * num * mul * div / den`; and when each of the six
fields lies in `0 .. 255` the reduction changes nothing. -/
theorem hcfr_get_rgb_formula (K : Consts) (gotcoms se : Int) (buf : List Char)
    (rgb : Nat → ℚ) (i : Nat)
    (hg : gotcoms ≠ 0) (hc : hcfr_command K se = K.inst_ok) (hlen : 156 ≤ strlen buf)
    (htag : strncmp_eq buf tagRGB1 6 = true) (hi : i < 3)
    (hden : u32 (be_den buf i) ≠ 0) :
    (hcfr_get_rgb K gotcoms se buf rgb).1 = K.inst_ok
      ∧ (hcfr_get_rgb K gotcoms se buf rgb).2 i
          = 1000000 * (u32 (be_num buf i) : ℚ) * (hcfr_mul buf : ℚ) * (hcfr_div buf : ℚ)
              / (u32 (be_den buf i) : ℚ)
      ∧ ((∀ j ∈ [0, 3, 6, 9, 12, 15],
            0 ≤ field (buf.drop (12 + 18 * i)) j ∧ field (buf.drop (12 + 18 * i)) j ≤ 255) →
          u32 (be_den buf i) = be_den buf i ∧ u32 (be_num buf i) = be_num buf i) := by
  have hl : ¬ strlen buf < 156 := not_lt.mpr hlen
  have hd : decode_den (buf.drop (12 + 18 * i)) = u32 (be_den buf i) := by
    rw [decode_den_eq]; rfl
  have hn : decode_num (buf.drop (12 + 18 * i)) = u32 (be_num buf i) := by
    rw [decode_num_eq]; rfl
  refine ⟨?_, ?_, ?_⟩
  · simp only [hcfr_get_rgb, if_neg hg, hc, ne_eq, not_true_eq_false, if_false, if_neg hl, htag,
      if_true]
  · simp only [hcfr_get_rgb, if_neg hg, hc, ne_eq, not_true_eq_false, if_false, if_neg hl, htag,
      if_true, if_pos hi, hcfr_vals, hd, hn, if_neg hden]
  · intro hb
    have b0 := hb 0 (by simp)
    have b3 := hb 3 (by simp)
    have b6 := hb 6 (by simp)
    have b9 := hb 9 (by simp)
    have b12 := hb 12 (by simp)
    have b15 := hb 15 (by simp)
    simp only [be_den, be_num, u32]
    constructor <;> omega

/-- C1 (amended), instance: the reply `replyWrap`, channel 0. -/
theorem hcfr_get_rgb_formula_witness :
    (hcfr_get_rgb sampleConsts 1 0 replyWrap rgb0).1 = sampleConsts.inst_ok
      ∧ (hcfr_get_rgb sampleConsts 1 0 replyWrap rgb0).2 0
          = 1000000 * (u32 (be_num replyWrap 0) : ℚ) * (hcfr_mul replyWrap : ℚ)
              * (hcfr_div replyWrap : ℚ) / (u32 (be_den replyWrap 0) : ℚ) :=
  ⟨(hcfr_get_rgb_formula sampleConsts 1 0 replyWrap rgb0 0 (by decide) (by decide)
      (by set_option maxRecDepth 1000000 in decide)
      (by set_option maxRecDepth 1000000 in decide) (by decide)
      (by set_option maxRecDepth 1000000 in decide)).1,
   (hcfr_get_rgb_formula sampleConsts 1 0 replyWrap rgb0 0 (by decide) (by decide)
      (by set_option maxRecDepth 1000000 in decide)
      (by set_option maxRecDepth 1000000 in decide) (by decide)
      (by set_option maxRecDepth 1000000 in decide)).2.1⟩

/-- C2 (one-sensor path): for every reply that reaches the parser with tag
`RGB_1:` and every channel `i < 3` whose decoded denominator is zero,
`rgb[i]` is the sentinel `-1`. -/
theorem hcfr_get_rgb_sentinel_one_sensor (K : Consts) (gotcoms se : Int) (buf : List Char)
    (rgb : Nat → ℚ) (i : Nat)
    (hg : gotcoms ≠ 0) (hc : hcfr_command K se = K.inst_ok) (hlen : 156 ≤ strlen buf)
    (htag : strncmp_eq buf tagRGB1 6 = true) (hi : i < 3)
    (hden : decode_den (buf.drop (12 + 18 * i)) = 0) :
    (hcfr_get_rgb K gotcoms se buf rgb).2 i = -1 := by
  have hl : ¬ strlen buf < 156 := not_lt.mpr hlen
  simp only [hcfr_get_rgb, if_neg hg, hc, ne_eq, not_true_eq_false, if_false, if_neg hl, htag,
    if_true, if_pos hi, hcfr_vals, hden]

/-- C2 (two-sensor path, the code at the failing input): the reply
`replyTwoSensor` is accepted with tag `RGB_2:`, the denominator decoded for
channel 0 from the first sensor is zero, and the returned `rgb[0]` is
`499999.5`, the mean of the sentinel `-1` and the second sensor's `1000000`,
not the sentinel. -/
theorem hcfr_get_rgb_two_sensor_sentinel_lost :
    strlen replyTwoSensor = 156 ∧ strncmp_eq replyTwoSensor tagRGB2 6 = true
      ∧ (hcfr_get_rgb sampleConsts 1 0 replyTwoSensor rgb0).1 = sampleConsts.inst_ok
      ∧ decode_den (replyTwoSensor.drop (12 + 18 * 0)) = 0
      ∧ hcfr_vals replyTwoSensor 0 = -1
      ∧ (hcfr_get_rgb sampleConsts 1 0 replyTwoSensor rgb0).2 0 = 999999 / 2
      ∧ (hcfr_get_rgb sampleConsts 1 0 replyTwoSensor rgb0).2 0 ≠ -1 := by
  have hd0 : decode_den (replyTwoSensor.drop 12) = 0 := by
    set_option maxRecDepth 1000000 in decide
  have hd4 : decode_den (replyTwoSensor.drop 84) = 1 := by
    set_option maxRecDepth 1000000 in decide
  have hn4 : decode_num (replyTwoSensor.drop 84) = 1 := by
    set_option maxRecDepth 1000000 in decide
  have hm : hcfr_mul replyTwoSensor = 1 := by
    set_option maxRecDepth 1000000 in decide
  have hv : hcfr_div replyTwoSensor = 1 := by
    set_option maxRecDepth 1000000 in decide
  have hl : strlen replyTwoSensor = 156 := by
    set_option maxRecDepth 1000000 in decide
  have ht1 : strncmp_eq replyTwoSensor tagRGB1 6 = false := by
    set_option maxRecDepth 1000000 in decide
  have ht : strncmp_eq replyTwoSensor tagRGB2 6 = true := by
    set_option maxRecDepth 1000000 in decide
  have hc : hcfr_command sampleConsts 0 = sampleConsts.inst_ok := by decide
  have h0 : hcfr_vals replyTwoSensor 0 = -1 := by
    simp only [hcfr_vals]
    norm_num
    intro h
    exact absurd hd0 h
  have h4 : hcfr_vals replyTwoSensor (0 + 4) = 1000000 := by
    simp only [hcfr_vals, hm, hv]
    norm_num
    rw [hd4, hn4]
    norm_num
  have hr : (hcfr_get_rgb sampleConsts 1 0 replyTwoSensor rgb0).2 0 = 999999 / 2 := by
    simp only [hcfr_get_rgb, hc, hl, ht1, ht]
    norm_num
    rw [h0, h4]
    norm_num
  refine ⟨hl, ht, ?_, hd0, h0, hr, ?_⟩
  · simp [hcfr_get_rgb, hc, hl, ht1, ht]
  · rw [hr]; norm_num

/-- C3: once the command exchange has succeeded, a reply of length exactly
156 starting with `RGB_1:` or `RGB_2:` is accepted with `inst_ok`, and a reply
of length 155 or less is answered with `inst_misread | HCFR_BAD_READING`,
whatever it contains, the array `rgb` being left as it was. -/
theorem hcfr_get_rgb_min_length (K : Consts) (gotcoms se : Int) (buf : List Char)
    (rgb : Nat → ℚ)
    (hK : K.WF) (hg : gotcoms ≠ 0) (hc : hcfr_command K se = K.inst_ok) :
    (strlen buf = 156 →
        (strncmp_eq buf tagRGB1 6 = true ∨ strncmp_eq buf tagRGB2 6 = true) →
        (hcfr_get_rgb K gotcoms se buf rgb).1 = K.inst_ok)
      ∧ (strlen buf ≤ 155 →
          hcfr_get_rgb K gotcoms se buf rgb
            = (ior K.inst_misread K.HCFR_BAD_READING, rgb)) := by
  constructor
  · intro hl htag
    have hl2 : ¬ strlen buf < 156 := by omega
    simp only [hcfr_get_rgb, if_neg hg, hc, ne_eq, not_true_eq_false, if_false, if_neg hl2]
    rcases htag with h | h
    · simp [h]
    · by_cases h1 : strncmp_eq buf tagRGB1 6 = true <;> simp [h, h1]
  · intro hl
    have hl2 : strlen buf < 156 := by omega
    simp only [hcfr_get_rgb, if_neg hg, hc, ne_eq, not_true_eq_false, if_false, if_pos hl2,
      hcfr_interp_bad_reading K hK]

/-- C3, instance: `reply156` (length 156, tag `RGB_2:`) is accepted, and
`reply155` (length 155, tag `RGB_1:`) gets the code `0x0B0001`, which is not
`inst_ok`. -/
theorem hcfr_get_rgb_min_length_witness :
    (hcfr_get_rgb sampleConsts 1 0 reply156 rgb0).1 = sampleConsts.inst_ok
      ∧ hcfr_get_rgb sampleConsts 1 0 reply155 rgb0
          = (ior sampleConsts.inst_misread sampleConsts.HCFR_BAD_READING, rgb0)
      ∧ ior sampleConsts.inst_misread sampleConsts.HCFR_BAD_READING = 0x0B0001
      ∧ ior sampleConsts.inst_misread sampleConsts.HCFR_BAD_READING ≠ sampleConsts.inst_ok :=
  ⟨(hcfr_get_rgb_min_length sampleConsts 1 0 reply156 rgb0 (by decide) (by decide)
      (by decide)).1 (by set_option maxRecDepth 1000000 in decide)
      (Or.inr (by set_option maxRecDepth 1000000 in decide)),
   (hcfr_get_rgb_min_length sampleConsts 1 0 reply155 rgb0 (by decide) (by decide)
      (by decide)).2 (by set_option maxRecDepth 1000000 in decide),
   by decide, by decide⟩

/-- C4: for every denominator `d < 2^32` and numerator `n < 2^16`, the six
three digit fields of `encode_group d n`, decoded by the loop body of
`hcfr_get_rgb`, give `d` and `n` again, whatever follows them in the reply. -/
theorem hcfr_field_round_trip (d n : Nat) (rest : List Char)
    (hd : d < 4294967296) (hn : n < 65536) :
    decode_den (encode_group d n ++ rest) = (d : Int)
      ∧ decode_num (encode_group d n ++ rest) = (n : Int) := by
  have e0 : d / 16777216 % 256 < 256 := Nat.mod_lt _ (by decide)
  have e1 : d / 65536 % 256 < 256 := Nat.mod_lt _ (by decide)
  have e2 : d / 256 % 256 < 256 := Nat.mod_lt _ (by decide)
  have e3 : d % 256 < 256 := Nat.mod_lt _ (by decide)
  have e4 : n / 256 % 256 < 256 := Nat.mod_lt _ (by decide)
  have e5 : n % 256 < 256 := Nat.mod_lt _ (by decide)
  have f0 := field_enc3 [] (enc3 (d / 65536 % 256) ++ (enc3 (d / 256 % 256) ++ (enc3 (d % 256)
    ++ (enc3 (n / 256 % 256) ++ (enc3 (n % 256) ++ rest))))) _ e0
  have f1 := field_enc3 (enc3 (d / 16777216 % 256)) (enc3 (d / 256 % 256) ++ (enc3 (d % 256)
    ++ (enc3 (n / 256 % 256) ++ (enc3 (n % 256) ++ rest)))) _ e1
  have f2 := field_enc3 (enc3 (d / 16777216 % 256) ++ enc3 (d / 65536 % 256)) (enc3 (d % 256)
    ++ (enc3 (n / 256 % 256) ++ (enc3 (n % 256) ++ rest))) _ e2
  have f3 := field_enc3 (enc3 (d / 16777216 % 256) ++ enc3 (d / 65536 % 256)
    ++ enc3 (d / 256 % 256)) (enc3 (n / 256 % 256) ++ (enc3 (n % 256) ++ rest)) _ e3
  have f4 := field_enc3 (enc3 (d / 16777216 % 256) ++ enc3 (d / 65536 % 256)
    ++ enc3 (d / 256 % 256) ++ enc3 (d % 256)) (enc3 (n % 256) ++ rest) _ e4
  have f5 := field_enc3 (enc3 (d / 16777216 % 256) ++ enc3 (d / 65536 % 256)
    ++ enc3 (d / 256 % 256) ++ enc3 (d % 256) ++ enc3 (n / 256 % 256)) rest _ e5
  simp only [List.length_append, enc3_length, List.length_nil, List.nil_append,
    List.append_assoc] at f0 f1 f2 f3 f4 f5
  norm_num at f1 f2 f3 f4 f5
  rw [decode_den_eq, decode_num_eq]
  simp only [encode_group, List.append_assoc, f0, f1, f2, f3, f4, f5, u32]
  constructor <;> omega

/-- C4, instance: denominator `0x01020304`, numerator `0x0506`. -/
theorem hcfr_field_round_trip_witness :
    decode_den (encode_group 16909060 1286 ++ []) = 16909060
      ∧ decode_num (encode_group 16909060 1286 ++ []) = 1286 :=
  hcfr_field_round_trip 16909060 1286 [] (by decide) (by decide)

/-- C5 (as stated, refuted): the reply `replyLetters` has length 156 and a
valid tag, its `div` field is `abc`, and `hcfr_get_rgb` returns `inst_ok`
with `rgb[0] = 0`, computed from `div` read as 0. -/
theorem hcfr_get_rgb_accepts_letters :
    strlen replyLetters = 156 ∧ strncmp_eq replyLetters tagRGB1 6 = true
      ∧ strncpy3 (replyLetters.drop 6) = "abc".toList
      ∧ hcfr_div replyLetters = 0
      ∧ (hcfr_get_rgb sampleConsts 1 0 replyLetters rgb0).1 = sampleConsts.inst_ok
      ∧ (hcfr_get_rgb sampleConsts 1 0 replyLetters rgb0).2 0 = 0 := by
  have hl : strlen replyLetters = 156 := by
    set_option maxRecDepth 1000000 in decide
  have ht : strncmp_eq replyLetters tagRGB1 6 = true := by
    set_option maxRecDepth 1000000 in decide
  have hf : strncpy3 (replyLetters.drop 6) = "abc".toList := by
    set_option maxRecDepth 1000000 in decide
  have hv : hcfr_div replyLetters = 0 := by
    set_option maxRecDepth 1000000 in decide
  have hd : decode_den (replyLetters.drop 12) = 1 := by
    set_option maxRecDepth 1000000 in decide
  have hc : hcfr_command sampleConsts 0 = sampleConsts.inst_ok := by decide
  refine ⟨hl, ht, hf, hv, ?_, ?_⟩
  · simp [hcfr_get_rgb, hc, hl, ht]
  · simp only [hcfr_get_rgb, hc, hl, ht, hcfr_vals, hv]
    norm_num
    rw [hd]
    decide

/-- C5 (amended): every reply of length at least 156 with a valid tag is
accepted with `inst_ok` whatever its fields hold; a field is whatever `atoi`
makes of its three characters, and a field whose first character is neither
white space, a sign nor a digit is read as 0. -/
theorem hcfr_get_rgb_no_field_check (K : Consts) (gotcoms se : Int) (buf : List Char)
    (rgb : Nat → ℚ)
    (hg : gotcoms ≠ 0) (hc : hcfr_command K se = K.inst_ok) (hlen : 156 ≤ strlen buf)
    (htag : strncmp_eq buf tagRGB1 6 = true ∨ strncmp_eq buf tagRGB2 6 = true) :
    (hcfr_get_rgb K gotcoms se buf rgb).1 = K.inst_ok
      ∧ ∀ (off : Nat) (c : Char) (cs : List Char), strncpy3 (buf.drop off) = c :: cs →
          isspace c = false → isdigit c = false → c.toNat ≠ 45 → c.toNat ≠ 43 →
          field buf off = 0 := by
  constructor
  · have hl2 : ¬ strlen buf < 156 := by omega
    simp only [hcfr_get_rgb, if_neg hg, hc, ne_eq, not_true_eq_false, if_false, if_neg hl2]
    rcases htag with h | h
    · simp [h]
    · by_cases h1 : strncmp_eq buf tagRGB1 6 = true <;> simp [h, h1]
  · intro off c cs hf hs hdg hm hp
    have hcs : cstr (c :: cs) = c :: cs := by
      rw [← hf, strncpy3, cstr, cstr, List.takeWhile_idem]
    simp only [field, atoi, hf, hcs, List.dropWhile_cons, hs, Bool.false_eq_true, if_false,
      atoi_signed, if_neg hm, if_neg hp, atoi_digits, hdg]
    rfl

/-- C5 (amended), instance: the reply `replyLetters` and its `div` field at
offset 6. -/
theorem hcfr_get_rgb_no_field_check_witness :
    (hcfr_get_rgb sampleConsts 1 0 replyLetters rgb0).1 = sampleConsts.inst_ok
      ∧ field replyLetters 6 = 0 :=
  ⟨(hcfr_get_rgb_no_field_check sampleConsts 1 0 replyLetters rgb0 (by decide) (by decide)
      (by set_option maxRecDepth 1000000 in decide)
      (Or.inl (by set_option maxRecDepth 1000000 in decide))).1,
   (hcfr_get_rgb_no_field_check sampleConsts 1 0 replyLetters rgb0 (by decide) (by decide)
      (by set_option maxRecDepth 1000000 in decide)
      (Or.inl (by set_option maxRecDepth 1000000 in decide))).2 6 (Char.ofNat 97)
      [Char.ofNat 98, Char.ofNat 99] (by set_option maxRecDepth 1000000 in decide)
      (by decide) (by decide) (by decide) (by decide)⟩

/-! ## Lemmas on the calibration bookkeeping -/

theorem inc_calcount_mode (K : SsConsts) (p : ss) : (inc_calcount K p).mode = p.mode := by
  simp only [inc_calcount]
  split_ifs <;> simp

theorem inc_calcount_calcount (K : SsConsts) (p : ss) :
    (inc_calcount K p).calcount = s32 (p.calcount + 1) := by
  unfold inc_calcount
  by_cases h1 : iand p.mode K.inst_mode_illum_mask = K.inst_mode_reflection
      ∧ 50 ≤ s32 (p.calcount + 1)
  · rw [if_pos h1]
  · rw [if_neg h1]
    by_cases h2 : iand p.mode K.inst_mode_illum_mask = K.inst_mode_transmission
        ∧ iand p.mode K.inst_mode_sub_mask ≠ K.inst_mode_spot
        ∧ 10 ≤ s32 (p.calcount + 1)
    · rw [if_pos h2]
    · rw [if_neg h2]

theorem inc_calcount_need_w (K : SsConsts) (p : ss) :
    (inc_calcount K p).need_w_cal
      = if iand p.mode K.inst_mode_illum_mask = K.inst_mode_reflection
            ∧ 50 ≤ s32 (p.calcount + 1) then 1 else p.need_w_cal := by
  simp only [inc_calcount]
  split_ifs <;> simp

theorem inc_calcount_need_t (K : SsConsts) (p : ss) :
    (inc_calcount K p).need_t_cal
      = if iand p.mode K.inst_mode_illum_mask = K.inst_mode_reflection
            ∧ 50 ≤ s32 (p.calcount + 1) then p.need_t_cal
        else if iand p.mode K.inst_mode_illum_mask = K.inst_mode_transmission
            ∧ iand p.mode K.inst_mode_sub_mask ≠ K.inst_mode_spot
            ∧ 10 ≤ s32 (p.calcount + 1) then 1 else p.need_t_cal := by
  simp only [inc_calcount]
  split_ifs <;> simp

theorem s32_small (x : Int) (h0 : 0 ≤ x) (h1 : x < 2147483648) : s32 x = x := by
  unfold s32 u32
  split_ifs <;> omega

theorem iterate_inc_mode (K : SsConsts) (p : ss) (k : Nat) :
    ((inc_calcount K)^[k] p).mode = p.mode := by
  induction k with
  | zero => rfl
  | succ n ih => rw [Function.iterate_succ_apply', inc_calcount_mode, ih]

theorem iterate_inc_need_w (K : SsConsts) (p : ss) (k : Nat)
    (hc : p.calcount = 0) (hw : p.need_w_cal = 0)
    (hm : iand p.mode K.inst_mode_illum_mask = K.inst_mode_reflection) :
    (k < 50 ∧ ((inc_calcount K)^[k] p).calcount = k ∧ ((inc_calcount K)^[k] p).need_w_cal = 0)
      ∨ (50 ≤ k ∧ ((inc_calcount K)^[k] p).need_w_cal = 1) := by
  induction k with
  | zero => left; exact ⟨by decide, by simpa using hc, by simpa using hw⟩
  | succ n ih =>
    rw [Function.iterate_succ_apply', inc_calcount_need_w, inc_calcount_calcount,
      iterate_inc_mode]
    rcases ih with ⟨hn, hcn, hwn⟩ | ⟨hn, hwn⟩
    · have hs : s32 (((inc_calcount K)^[n] p).calcount + 1) = (n : Int) + 1 := by
        rw [hcn]; apply s32_small <;> omega
      rw [hs, hwn]
      by_cases h49 : n + 1 < 50
      · left
        refine ⟨h49, by push_cast; rfl, ?_⟩
        rw [if_neg]; omega
      · right
        refine ⟨by omega, ?_⟩
        rw [if_pos]; exact ⟨hm, by omega⟩
    · right
      refine ⟨by omega, ?_⟩
      rw [hwn]; split_ifs <;> rfl

theorem iterate_inc_need_t_spot (K : SsConsts) (p : ss) (k : Nat)
    (hs : iand p.mode K.inst_mode_sub_mask = K.inst_mode_spot) :
    ((inc_calcount K)^[k] p).need_t_cal = p.need_t_cal := by
  induction k with
  | zero => rfl
  | succ n ih =>
    rw [Function.iterate_succ_apply', inc_calcount_need_t, iterate_inc_mode, ih]
    split_ifs with h1 h2
    · rfl
    · exact absurd hs h2.2.1
    · rfl

theorem iterate_inc_need_t (K : SsConsts) (p : ss) (k : Nat)
    (hc : p.calcount = 0) (ht : p.need_t_cal = 0)
    (hm : iand p.mode K.inst_mode_illum_mask = K.inst_mode_transmission)
    (hs : iand p.mode K.inst_mode_sub_mask ≠ K.inst_mode_spot) :
    (k < 10 ∧ ((inc_calcount K)^[k] p).calcount = k ∧ ((inc_calcount K)^[k] p).need_t_cal = 0)
      ∨ (10 ≤ k ∧ ((inc_calcount K)^[k] p).need_t_cal = 1) := by
  induction k with
  | zero => left; exact ⟨by decide, by simpa using hc, by simpa using ht⟩
  | succ n ih =>
    rw [Function.iterate_succ_apply', inc_calcount_need_t, inc_calcount_calcount,
      iterate_inc_mode]
    rcases ih with ⟨hn, hcn, htn⟩ | ⟨hn, htn⟩
    · have hs32 : s32 (((inc_calcount K)^[n] p).calcount + 1) = (n : Int) + 1 := by
        rw [hcn]; apply s32_small <;> omega
      rw [hs32, htn]
      have h50 : ¬ (iand p.mode K.inst_mode_illum_mask = K.inst_mode_reflection
          ∧ (50 : Int) ≤ (n : Int) + 1) := by
        intro h; omega
      rw [if_neg h50]
      by_cases h9 : n + 1 < 10
      · left
        refine ⟨h9, by push_cast; rfl, ?_⟩
        rw [if_neg]; omega
      · right
        refine ⟨by omega, ?_⟩
        rw [if_pos]; exact ⟨hm, hs, by omega⟩
    · right
      refine ⟨by omega, ?_⟩
      rw [htn]; split_ifs <;> rfl

/-! ## Results on the calibration bookkeeping -/

/-- C6: starting from `calcount = 0` and `need_w_cal = 0` with the active
mode in the reflection class, after `k` calls of `inc_calcount` the flag
`need_w_cal` is set if and only if `k >= 50`. -/
theorem inc_calcount_reflective_threshold (K : SsConsts) (p : ss) (k : Nat)
    (hc : p.calcount = 0) (hw : p.need_w_cal = 0)
    (hm : iand p.mode K.inst_mode_illum_mask = K.inst_mode_reflection) :
    ((inc_calcount K)^[k] p).need_w_cal ≠ 0 ↔ 50 ≤ k := by
  rcases iterate_inc_need_w K p k hc hw hm with ⟨hk, -, h0⟩ | ⟨hk, h1⟩
  · rw [h0]; constructor
    · intro h; exact absurd rfl h
    · intro h; omega
  · rw [h1]; constructor
    · intro _; exact hk
    · intro _; decide

/-- C6, instance: a reflective spot handle; the flag is clear after 49
measurements and set after 50. -/
theorem inc_calcount_reflective_threshold_witness :
    ((inc_calcount sampleSs)^[50] (ssHandle instType.instSpectroScan 0x11)).need_w_cal ≠ 0
      ∧ ¬ ((inc_calcount sampleSs)^[49] (ssHandle instType.instSpectroScan 0x11)).need_w_cal ≠ 0 :=
  ⟨(inc_calcount_reflective_threshold sampleSs (ssHandle instType.instSpectroScan 0x11) 50
      rfl rfl (by decide)).mpr (by decide),
   fun h => absurd ((inc_calcount_reflective_threshold sampleSs
      (ssHandle instType.instSpectroScan 0x11) 49 rfl rfl (by decide)).mp h) (by decide)⟩

/-- C9 (as stated, refuted): transmission spot, mode `0x12`, is a transmissive
mode that `ss_set_mode` accepts on a Spectrolino, and starting from
`calcount = 0` and `need_t_cal = 0` in that mode the flag `need_t_cal` is
still clear after 10 and after 50 measurements. -/
theorem inc_calcount_trans_spot_never_stale :
    (ss_set_mode sampleSs (ssHandle instType.instSpectrolino 0x11) 0x12).1 = sampleSs.inst_ok
      ∧ (ss_set_mode sampleSs (ssHandle instType.instSpectrolino 0x11) 0x12).2.mode = 0x12
      ∧ iand 0x12 sampleSs.inst_mode_illum_mask = sampleSs.inst_mode_transmission
      ∧ (ssHandle instType.instSpectrolino 0x12).calcount = 0
      ∧ (ssHandle instType.instSpectrolino 0x12).need_t_cal = 0
      ∧ ((inc_calcount sampleSs)^[10] (ssHandle instType.instSpectrolino 0x12)).need_t_cal = 0
      ∧ ((inc_calcount sampleSs)^[50] (ssHandle instType.instSpectrolino 0x12)).need_t_cal = 0 := by
  refine ⟨by decide, by decide, by decide, rfl, rfl, ?_, ?_⟩
  · exact iterate_inc_need_t_spot sampleSs _ 10 (by decide)
  · exact iterate_inc_need_t_spot sampleSs _ 50 (by decide)

/-- C9 (amended): starting from `calcount = 0` and `need_t_cal = 0` with the
active mode in the transmission class, after `k` calls of `inc_calcount` the
flag `need_t_cal` is set if and only if `k >= 10` and the access sub-mode of
the active mode is not spot; in a transmission spot mode it is never set. -/
theorem inc_calcount_transmissive_threshold (K : SsConsts) (p : ss) (k : Nat)
    (hc : p.calcount = 0) (ht : p.need_t_cal = 0)
    (hm : iand p.mode K.inst_mode_illum_mask = K.inst_mode_transmission) :
    ((inc_calcount K)^[k] p).need_t_cal ≠ 0
      ↔ (10 ≤ k ∧ iand p.mode K.inst_mode_sub_mask ≠ K.inst_mode_spot) := by
  by_cases hs : iand p.mode K.inst_mode_sub_mask = K.inst_mode_spot
  · rw [iterate_inc_need_t_spot K p k hs, ht]
    constructor
    · intro h; exact absurd rfl h
    · intro h; exact absurd hs h.2
  · rcases iterate_inc_need_t K p k hc ht hm hs with ⟨hk, -, h0⟩ | ⟨hk, h1⟩
    · rw [h0]; constructor
      · intro h; exact absurd rfl h
      · intro h; omega
    · rw [h1]; constructor
      · intro _; exact ⟨hk, hs⟩
      · intro _; decide

/-- C9 (amended), instance: mode `0x22` (transmission, sub-mode strip) gets
the flag after 10 measurements and not after 9; mode `0x12` (transmission
spot) does not get it after 10. -/
theorem inc_calcount_transmissive_threshold_witness :
    ((inc_calcount sampleSs)^[10] (ssHandle instType.instSpectroScanT 0x22)).need_t_cal ≠ 0
      ∧ ¬ ((inc_calcount sampleSs)^[9] (ssHandle instType.instSpectroScanT 0x22)).need_t_cal ≠ 0
      ∧ ¬ ((inc_calcount sampleSs)^[10] (ssHandle instType.instSpectrolino 0x12)).need_t_cal ≠ 0 :=
  ⟨(inc_calcount_transmissive_threshold sampleSs (ssHandle instType.instSpectroScanT 0x22) 10
      rfl rfl (by decide)).mpr ⟨by decide, by decide⟩,
   fun h => absurd ((inc_calcount_transmissive_threshold sampleSs
      (ssHandle instType.instSpectroScanT 0x22) 9 rfl rfl (by decide)).mp h).1 (by decide),
   fun h => ((inc_calcount_transmissive_threshold sampleSs
      (ssHandle instType.instSpectrolino 0x12) 10 rfl rfl (by decide)).mp h).2 (by decide)⟩

/-! ## Lemmas on the calibration procedure -/

theorem Flow.Sat.bind {R : Int → CalSt → Prop} {G G2 : CalSt → Prop} {f : Flow}
    {k : CalSt → Flow} (hf : f.Sat R G) (hk : ∀ s, G s → (k s).Sat R G2) :
    (f.bind k).Sat R G2 := by
  cases f with
  | ret code s => exact hf
  | go s => exact hk s hf

theorem Flow.Sat.mono {R R2 : Int → CalSt → Prop} {G G2 : CalSt → Prop} {f : Flow}
    (hf : f.Sat R G) (hR : ∀ c s, R c s → R2 c s) (hG : ∀ s, G s → G2 s) : f.Sat R2 G2 := by
  cases f with
  | ret code s => exact hR _ _ hf
  | go s => exact hG _ hf

theorem Frame.refl (s : CalSt) : Frame s s :=
  ⟨rfl, rfl, rfl, rfl, rfl, Or.inl rfl, Or.inl rfl, Or.inl rfl, ⟨[], by simp⟩⟩

theorem Frame.trans {s t u : CalSt} (h1 : Frame s t) (h2 : Frame t u) : Frame s u := by
  obtain ⟨l1, hl1⟩ := h1.log
  obtain ⟨l2, hl2⟩ := h2.log
  refine ⟨h2.itype.trans h1.itype, h2.mode.trans h1.mode, h2.nextmode.trans h1.nextmode,
    h2.noautocalib.trans h1.noautocalib, h2.cap.trans h1.cap, ?_, ?_, ?_,
    ⟨l1 ++ l2, by rw [hl2, hl1, List.append_assoc]⟩⟩
  · rcases h2.need_w with h | h
    · rcases h1.need_w with h' | h'
      · exact Or.inl (h.trans h')
      · exact Or.inr (h.trans h')
    · exact Or.inr h
  · rcases h2.need_t with h | h
    · rcases h1.need_t with h' | h'
      · exact Or.inl (h.trans h')
      · exact Or.inr (h.trans h')
    · exact Or.inr h
  · rcases h2.calcount with h | h
    · rcases h1.calcount with h' | h'
      · exact Or.inl (h.trans h')
      · exact Or.inr (h.trans h')
    · exact Or.inr h

theorem Frame.send (dev : Instrument) (c : SsCmd) (s : CalSt) : Frame s (send dev c s).2 :=
  ⟨rfl, rfl, rfl, rfl, rfl, Or.inl rfl, Or.inl rfl, Or.inl rfl, ⟨[c], rfl⟩⟩

/-- A change of `cond`, `id` and `rv` only. -/
theorem Frame.of_p_log {s t : CalSt} (hp : t.p = s.p) (hl : t.log = s.log) : Frame s t :=
  ⟨by rw [hp], by rw [hp], by rw [hp], by rw [hp], by rw [hp], Or.inl (by rw [hp]),
    Or.inl (by rw [hp]), Or.inl (by rw [hp]), ⟨[], by simp [hl]⟩⟩

theorem Blk.go {K : SsConsts} {H : Prop} {s t : CalSt} (h : Frame s t) :
    Blk K H s (Flow.go t) := h

theorem Blk.ret {K : SsConsts} {H : Prop} {s t : CalSt} {code : Int} (h : Frame s t)
    (hc : H → code ≠ K.inst_ok) : Blk K H s (Flow.ret code t) := ⟨h, hc⟩

theorem Blk.seq {K : SsConsts} {H : Prop} {s : CalSt} {f : Flow} {k : CalSt → Flow}
    (hf : Blk K H s f) (hk : ∀ t, Frame s t → Blk K H s (k t)) : Blk K H s (f.bind k) :=
  Flow.Sat.bind hf hk

theorem Blk.shift {K : SsConsts} {H : Prop} {s s1 : CalSt} {f : Flow} (h1 : Frame s s1)
    (hf : Blk K H s1 f) : Blk K H s f :=
  Flow.Sat.mono hf (fun _ _ h => ⟨h1.trans h.1, h.2⟩) (fun _ h => h1.trans h)

theorem Blk.ite {K : SsConsts} {H : Prop} {s : CalSt} {c : Prop} [Decidable c] {a b : Flow}
    (ha : c → Blk K H s a) (hb : ¬ c → Blk K H s b) : Blk K H s (if c then a else b) := by
  split_ifs with h
  · exact ha h
  · exact hb h

theorem Blk.of_cmd_ok (K : SsConsts) (H : Prop) (dev : Instrument) (c : SsCmd) (s : CalSt) :
    Blk K H s (cmd_ok K dev c s) := by
  unfold cmd_ok cmd_expect
  split_ifs with h
  · exact ⟨Frame.send dev c s, fun _ => h⟩
  · exact Frame.send dev c s

theorem Blk.of_cmd_ref (K : SsConsts) (H : Prop) (dev : Instrument) (mm : ss_mmt) (e : Int)
    (s : CalSt) (hH : H → RefNeverOk K dev) :
    Blk K H s (cmd_expect dev (SsCmd.so_do_ExecRefMeasurement mm) e s) := by
  unfold cmd_expect
  split_ifs with h
  · exact ⟨Frame.send dev _ s, fun hh => hH hh s.log mm⟩
  · exact Frame.send dev _ s

theorem cal_white_loop_blk (K : SsConsts) (H : Prop) (dev : Instrument) (s : CalSt)
    (hH : H → RefNeverOk K dev) (hS : H → K.inst_cal_setup ≠ K.inst_ok) :
    Blk K H s (cal_white_loop K dev s) := by
  unfold cal_white_loop
  refine Blk.seq (Blk.ite (fun _ => Blk.seq (Blk.of_cmd_ok K H dev _ s) ?_)
    (fun _ => Blk.go (Frame.refl s))) ?_
  · intro t ht
    exact Blk.shift ht (Blk.of_cmd_ok K H dev _ t)
  intro s1 h1
  refine Blk.seq (Blk.shift h1 (Blk.of_cmd_ref K H dev _ _ s1 hH)) ?_
  intro s2 h2
  refine Blk.seq (Blk.ite (fun _ => Blk.shift (h2.trans (Frame.of_p_log rfl rfl))
    (Blk.of_cmd_ok K H dev _ _)) (fun _ => Blk.go (h2.trans (Frame.of_p_log rfl rfl)))) ?_
  intro s3 h3
  split_ifs with ha hb
  · exact Blk.ret (h3.trans (Frame.send dev _ s3)) (fun _ => ha)
  · exact Blk.go (h3.trans (Frame.send dev _ s3))
  · exact Blk.ret (h3.trans ((Frame.send dev _ s3).trans (Frame.of_p_log rfl rfl))) hS

theorem cal_dark_blk (K : SsConsts) (H : Prop) (dev : Instrument) (s : CalSt)
    (hH : H → RefNeverOk K dev) : Blk K H s (cal_dark K dev s) := by
  unfold cal_dark
  refine Blk.ite (fun _ => ?_) (fun _ => Blk.go (Frame.refl s))
  refine Blk.seq (Blk.of_cmd_ok K H dev _ s) ?_
  intro s1 h1
  refine Blk.seq (Blk.ite (fun _ => Blk.shift h1 (Blk.of_cmd_ref K H dev _ _ s1 hH))
    (fun _ => Blk.go h1)) ?_
  intro s2 h2
  exact Blk.go (h2.trans (Frame.of_p_log rfl rfl))

/-- A change of the handle that clears or keeps flags and count and touches
none of the identifying fields. -/
theorem Frame.of_fields {s t : CalSt} (h1 : t.p.itype = s.p.itype) (h2 : t.p.mode = s.p.mode)
    (h3 : t.p.nextmode = s.p.nextmode) (h4 : t.p.noautocalib = s.p.noautocalib)
    (h5 : t.p.cap = s.p.cap) (h6 : t.p.need_w_cal = s.p.need_w_cal ∨ t.p.need_w_cal = 0)
    (h7 : t.p.need_t_cal = s.p.need_t_cal ∨ t.p.need_t_cal = 0)
    (h8 : t.p.calcount = s.p.calcount ∨ t.p.calcount = 0) (h9 : t.log = s.log) : Frame s t :=
  ⟨h1, h2, h3, h4, h5, h6, h7, h8, ⟨[], by simp [h9]⟩⟩

theorem cal_trans_white_blk (K : SsConsts) (dev : Instrument) (s : CalSt) :
    Blk K False s (cal_trans_white K dev s) := by
  unfold cal_trans_white
  refine Blk.ite (fun _ => Blk.ite (fun _ => Blk.ret (Frame.of_p_log rfl rfl) False.elim)
    (fun _ => ?_)) (fun _ => ?_)
  · refine Blk.seq (Blk.of_cmd_ok K False dev _ s) ?_
    intro s1 h1
    have hs1 : Frame s1 { (send dev SsCmd.so_do_SpecParameterRequest s1).2 with
        p := { s1.p with tref := (send dev SsCmd.so_do_SpecParameterRequest s1).1.spec } } :=
      ⟨rfl, rfl, rfl, rfl, rfl, Or.inl rfl, Or.inl rfl, Or.inl rfl, ⟨[_], rfl⟩⟩
    refine Blk.seq (Blk.ite (fun _ => Blk.ret (h1.trans hs1) False.elim)
      (fun _ => Blk.go (h1.trans hs1))) ?_
    intro s2 h2
    have h3 : Frame s2 (if tref_low s2.p.tref then
          { s2 with
            cond := inst_cal_cond.inst_calc_message,
            id := "Warning: Transmission light source is low at some wavelengths!",
            rv := K.inst_ok }
        else s2) := by
      split_ifs
      · exact Frame.of_p_log rfl rfl
      · exact Frame.refl s2
    simp only
    generalize (if tref_low s2.p.tref then
          ({ s2 with
            cond := inst_cal_cond.inst_calc_message,
            id := "Warning: Transmission light source is low at some wavelengths!",
            rv := K.inst_ok } : CalSt)
        else s2) = s3 at h3 ⊢
    have hs3 : Frame s3 { (send dev (SsCmd.so_do_IllumTabRequest s3.p.illum) s3).2 with
        p := { s3.p with
          cill := (send dev (SsCmd.so_do_IllumTabRequest s3.p.illum) s3).1.spec } } :=
      ⟨rfl, rfl, rfl, rfl, rfl, Or.inl rfl, Or.inl rfl, Or.inl rfl, ⟨[_], rfl⟩⟩
    refine Blk.seq (Blk.ite (fun _ => Blk.ret ((h2.trans h3).trans hs3) False.elim)
      (fun _ => Blk.go ((h2.trans h3).trans hs3))) ?_
    intro s4 h4
    exact Blk.go (h4.trans (Frame.of_fields rfl rfl rfl rfl rfl (Or.inl rfl) (Or.inr rfl)
      (Or.inr rfl) rfl))
  · refine Blk.seq (Blk.of_cmd_ref K False dev _ _ s False.elim) ?_
    intro s1 h1
    exact Blk.go (h1.trans (Frame.of_fields rfl rfl rfl rfl rfl (Or.inl rfl) (Or.inr rfl)
      (Or.inr rfl) rfl))

theorem cmd_ok_sat (K : SsConsts) (dev : Instrument) (c : SsCmd) (s : CalSt) :
    (cmd_ok K dev c s).Sat
      (fun code t => code ≠ K.inst_ok ∧ t.p = s.p ∧ t.log = s.log ++ [c])
      (fun t => t.p = s.p ∧ t.log = s.log ++ [c]) := by
  unfold cmd_ok cmd_expect
  split_ifs with h
  · exact ⟨h, rfl, rfl⟩
  · exact ⟨rfl, rfl⟩

/-- Lines 1193 to 1297 of `ss_calibrate_imp`, everything of the reflective
white calibration after its first command, started in state `t1`. -/
theorem cal_ref_white_rest (K : SsConsts) (H : Prop) (dev : Instrument) (t1 : CalSt)
    (hH : H → RefNeverOk K dev) (hS : H → K.inst_cal_setup ≠ K.inst_ok) :
    ((cmd_ok K dev (SsCmd.so_do_ParameterDownload t1.p.dstd ss_wbt.ss_wbt_Abs t1.p.illum
        t1.p.obsv) t1).bind fun s2 =>
      (if (send dev (SsCmd.so_do_WhiteReferenceRequest s2.p.filt) s2).1.code ≠ K.inst_ok then
          Flow.ret (send dev (SsCmd.so_do_WhiteReferenceRequest s2.p.filt) s2).1.code
            { (send dev (SsCmd.so_do_WhiteReferenceRequest s2.p.filt) s2).2 with
              id := (send dev (SsCmd.so_do_WhiteReferenceRequest s2.p.filt) s2).1.id }
        else
          Flow.go
            { (send dev (SsCmd.so_do_WhiteReferenceRequest s2.p.filt) s2).2 with
              id := (send dev (SsCmd.so_do_WhiteReferenceRequest s2.p.filt) s2).1.id }).bind
      fun s3 =>
      (if s3.p.noautocalib = 0 then
          if s3.p.itype = instType.instSpectrolino
              ∧ s3.cond ≠ inst_cal_cond.inst_calc_man_ref_white then
            Flow.ret K.inst_cal_setup { s3 with cond := inst_cal_cond.inst_calc_man_ref_white }
          else
            (cal_white_loop K dev s3).bind fun s4 =>
            (cal_dark K dev s4).bind fun s5 =>
            Flow.go { s5 with p := { s5.p with calcount := 0, need_w_cal := 0 } }
        else Flow.go s3).bind fun s6 =>
      if illum_class K s6.p = K.inst_mode_transmission
          ∧ s6.p.itype = instType.instSpectroScanT then
        if illum_class K s6.p = K.inst_mode_transmission then
          cmd_ok K dev (SsCmd.ss_do_SetTableMode ss_tmt.ss_tmt_Transmission) s6
        else Flow.go s6
      else Flow.go s6).Sat
      (fun code t => Frame t1 t ∧ (H → code ≠ K.inst_ok))
      (fun t => Frame t1 t
        ∧ (t1.p.noautocalib = 0 → t.p.calcount = 0 ∧ t.p.need_w_cal = 0)) := by
  refine Flow.Sat.bind (Blk.of_cmd_ok K H dev _ t1) ?_
  intro s2 h2
  have hw : Frame s2 { (send dev (SsCmd.so_do_WhiteReferenceRequest s2.p.filt) s2).2 with
      id := (send dev (SsCmd.so_do_WhiteReferenceRequest s2.p.filt) s2).1.id } :=
    ⟨rfl, rfl, rfl, rfl, rfl, Or.inl rfl, Or.inl rfl, Or.inl rfl, ⟨[_], rfl⟩⟩
  refine Flow.Sat.bind (G := fun t => Frame t1 t) ?_ ?_
  · split_ifs with hc
    · exact ⟨h2.trans hw, fun _ => hc⟩
    · exact h2.trans hw
  intro s3 h3
  refine Flow.Sat.bind (G := fun t => Frame t1 t
      ∧ (t1.p.noautocalib = 0 → t.p.calcount = 0 ∧ t.p.need_w_cal = 0)) ?_ ?_
  · split_ifs with ha hb
    · exact ⟨h3.trans (Frame.of_p_log rfl rfl), hS⟩
    · refine Flow.Sat.bind (Blk.shift h3 (cal_white_loop_blk K H dev s3 hH hS)) ?_
      intro s4 h4
      refine Flow.Sat.bind (Blk.shift h4 (cal_dark_blk K H dev s4 hH)) ?_
      intro s5 h5
      exact ⟨h5.trans (Frame.of_fields rfl rfl rfl rfl rfl (Or.inr rfl) (Or.inl rfl)
        (Or.inr rfl) rfl), fun _ => ⟨rfl, rfl⟩⟩
    · exact ⟨h3, fun h0 => absurd (h3.noautocalib.trans h0) ha⟩
  intro s6 h6
  split_ifs with ha hb
  · refine Flow.Sat.mono (cmd_ok_sat K dev _ s6) ?_ ?_
    · intro code t h
      exact ⟨h6.1.trans ⟨by rw [h.2.1], by rw [h.2.1], by rw [h.2.1], by rw [h.2.1],
        by rw [h.2.1], Or.inl (by rw [h.2.1]), Or.inl (by rw [h.2.1]), Or.inl (by rw [h.2.1]),
        ⟨_, h.2.2⟩⟩, fun _ => h.1⟩
    · intro t h
      exact ⟨h6.1.trans ⟨by rw [h.1], by rw [h.1], by rw [h.1], by rw [h.1],
        by rw [h.1], Or.inl (by rw [h.1]), Or.inl (by rw [h.1]), Or.inl (by rw [h.1]),
        ⟨_, h.2⟩⟩, fun h0 => by rw [h.1]; exact h6.2 h0⟩
  · exact h6
  · exact h6

theorem cal_ref_white_spec (K : SsConsts) (H : Prop) (dev : Instrument) (s : CalSt)
    (hH : H → RefNeverOk K dev) (hS : H → K.inst_cal_setup ≠ K.inst_ok) :
    (cal_ref_white K dev s).Sat
      (fun code t => Frame s t ∧ (∃ l, t.log = s.log ++ firstRefCmd s.p.itype :: l)
        ∧ (H → code ≠ K.inst_ok))
      (fun t => Frame s t ∧ (∃ l, t.log = s.log ++ firstRefCmd s.p.itype :: l)
        ∧ (s.p.noautocalib = 0 → t.p.calcount = 0 ∧ t.p.need_w_cal = 0)) := by
  unfold cal_ref_white
  simp only
  have h0 : Frame s (if illum_class K s.p = K.inst_mode_emission then
      ({ s with p := { s.p with filt := K.ss_aft_NoFilter } } : CalSt) else s) := by
    split_ifs
    · exact Frame.of_fields rfl rfl rfl rfl rfl (Or.inl rfl) (Or.inl rfl) (Or.inl rfl) rfl
    · exact Frame.refl s
  have hl0 : (if illum_class K s.p = K.inst_mode_emission then
      ({ s with p := { s.p with filt := K.ss_aft_NoFilter } } : CalSt) else s).log = s.log := by
    split_ifs <;> rfl
  generalize (if illum_class K s.p = K.inst_mode_emission then
      ({ s with p := { s.p with filt := K.ss_aft_NoFilter } } : CalSt) else s) = s0 at h0 hl0 ⊢
  refine Flow.Sat.bind (G := fun t => Frame s t ∧ t.log = s.log ++ [firstRefCmd s.p.itype]) ?_ ?_
  · unfold firstRefCmd
    rw [← h0.itype]
    split_ifs with hi
    · refine Flow.Sat.mono (cmd_ok_sat K dev _ s0) ?_ ?_
      · intro code t h
        have hf : Frame s0 t := ⟨by rw [h.2.1], by rw [h.2.1], by rw [h.2.1], by rw [h.2.1],
          by rw [h.2.1], Or.inl (by rw [h.2.1]), Or.inl (by rw [h.2.1]),
          Or.inl (by rw [h.2.1]), ⟨_, h.2.2⟩⟩
        exact ⟨h0.trans hf, ⟨[], by rw [h.2.2, hl0]⟩, fun _ => h.1⟩
      · intro t h
        have hf : Frame s0 t := ⟨by rw [h.1], by rw [h.1], by rw [h.1], by rw [h.1],
          by rw [h.1], Or.inl (by rw [h.1]), Or.inl (by rw [h.1]),
          Or.inl (by rw [h.1]), ⟨_, h.2⟩⟩
        exact ⟨h0.trans hf, by rw [h.2, hl0]⟩
    · refine Flow.Sat.mono (cmd_ok_sat K dev _ s0) ?_ ?_
      · intro code t h
        have hf : Frame s0 t := ⟨by rw [h.2.1], by rw [h.2.1], by rw [h.2.1], by rw [h.2.1],
          by rw [h.2.1], Or.inl (by rw [h.2.1]), Or.inl (by rw [h.2.1]),
          Or.inl (by rw [h.2.1]), ⟨_, h.2.2⟩⟩
        exact ⟨h0.trans hf, ⟨[], by rw [h.2.2, hl0]⟩, fun _ => h.1⟩
      · intro t h
        have hf : Frame s0 t := ⟨by rw [h.1], by rw [h.1], by rw [h.1], by rw [h.1],
          by rw [h.1], Or.inl (by rw [h.1]), Or.inl (by rw [h.1]),
          Or.inl (by rw [h.1]), ⟨_, h.2⟩⟩
        exact ⟨h0.trans hf, by rw [h.2, hl0]⟩
  intro t1 h1
  have hext : ∀ t, Frame t1 t → ∃ l, t.log = s.log ++ firstRefCmd s.p.itype :: l := by
    intro t ht
    obtain ⟨l, hl⟩ := ht.log
    exact ⟨l, by rw [hl, h1.2]; simp⟩
  refine Flow.Sat.mono (cal_ref_white_rest K H dev t1 hH hS) ?_ ?_
  · intro code t h
    exact ⟨h1.1.trans h.1, hext t h.1, h.2⟩
  · intro t h
    exact ⟨h1.1.trans h.1, hext t h.1, fun hn => h.2 (h1.1.noautocalib.trans hn)⟩

theorem Flow.Sat.finish {R : Int → CalSt → Prop} {G : CalSt → Prop} {f : Flow}
    {P : CalSt → Prop} (hf : f.Sat R G) (hR : ∀ c t, R c t → P { t with rv := c })
    (hG : ∀ t, G t → P t) : P f.finish := by
  cases f with
  | ret code s => exact hR _ _ hf
  | go s => exact hG _ hf

/-- Flags and count that are zero stay zero across a framed step. -/
theorem Frame.keeps_done {s t : CalSt} (h : Frame s t)
    (hd : s.p.calcount = 0 ∧ s.p.need_w_cal = 0) : t.p.calcount = 0 ∧ t.p.need_w_cal = 0 := by
  rcases h.calcount with hc | hc <;> rcases h.need_w with hw | hw
  · exact ⟨hc.trans hd.1, hw.trans hd.2⟩
  · exact ⟨hc.trans hd.1, hw⟩
  · exact ⟨hc, hw.trans hd.2⟩
  · exact ⟨hc, hw⟩

/-- The calibration entered with a request that stands for reflective
white: the result is framed by the entry state, the log has grown by the
opening command of the reflective white calibration and whatever followed, and,
granted `H` and auto-calibration, a result `inst_ok` comes with count and
white flag zeroed. -/
theorem ss_calibrate_imp_ref (K : SsConsts) (H : Prop) (dev : Instrument) (p : ss)
    (caltp : inst_cal_type) (cond : inst_cal_cond) (log : List SsCmd)
    (hres : resolve_calt K p caltp = inst_cal_type.inst_calt_ref_white)
    (hH : H → RefNeverOk K dev) (hS : H → K.inst_cal_setup ≠ K.inst_ok) :
    Frame { p := p, cond := cond, id := "", rv := K.inst_ok, log := log }
        (ss_calibrate_imp K dev p caltp cond log)
      ∧ (∃ l, (ss_calibrate_imp K dev p caltp cond log).log = log ++ firstRefCmd p.itype :: l)
      ∧ (H → p.noautocalib = 0 → (ss_calibrate_imp K dev p caltp cond log).rv = K.inst_ok →
          (ss_calibrate_imp K dev p caltp cond log).p.calcount = 0
            ∧ (ss_calibrate_imp K dev p caltp cond log).p.need_w_cal = 0) := by
  unfold ss_calibrate_imp
  simp only [hres, ne_eq, not_true_eq_false, false_and, if_false, if_true]
  generalize hs0 : ({ p := p, cond := cond, id := "", rv := K.inst_ok, log := log } : CalSt) = s0
  have hp : s0.p = p := by rw [← hs0]
  have hlog : s0.log = log := by rw [← hs0]
  refine Flow.Sat.finish (P := fun r => Frame s0 r
      ∧ (∃ l, r.log = log ++ firstRefCmd p.itype :: l)
      ∧ (H → p.noautocalib = 0 → r.rv = K.inst_ok → r.p.calcount = 0 ∧ r.p.need_w_cal = 0))
    (R := fun code t => Frame s0 t ∧ (∃ l, t.log = log ++ firstRefCmd p.itype :: l)
      ∧ (H → p.noautocalib = 0 → code = K.inst_ok → t.p.calcount = 0 ∧ t.p.need_w_cal = 0))
    (G := fun t => Frame s0 t ∧ (∃ l, t.log = log ++ firstRefCmd p.itype :: l)
      ∧ (p.noautocalib = 0 → t.p.calcount = 0 ∧ t.p.need_w_cal = 0)) ?_ ?_ ?_
  · refine Flow.Sat.bind (G := fun t => Frame s0 t
        ∧ (∃ l, t.log = log ++ firstRefCmd p.itype :: l)
        ∧ (p.noautocalib = 0 → t.p.calcount = 0 ∧ t.p.need_w_cal = 0)) ?_ ?_
    · refine Flow.Sat.mono (cal_ref_white_spec K H dev s0 hH hS) ?_ ?_
      · intro code t h
        rw [hp, hlog] at h
        exact ⟨h.1, h.2.1, fun hh _ hc => absurd hc (h.2.2 hh)⟩
      · intro t h
        rw [hp, hlog] at h
        exact h
    · intro s1 h1
      have hext : ∀ t, Frame s1 t → ∃ l, t.log = log ++ firstRefCmd p.itype :: l := by
        intro t ht
        obtain ⟨l, hl⟩ := ht.log
        obtain ⟨l1, hl1⟩ := h1.2.1
        exact ⟨l1 ++ l, by rw [hl, hl1]; simp⟩
      have hb : Blk K False s1 (if illum_class K s1.p = K.inst_mode_transmission
          ∧ (if caltp = inst_cal_type.inst_calt_all
                ∧ illum_class K s1.p = K.inst_mode_transmission ∧ s1.p.need_t_cal ≠ 0 then
              inst_cal_type.inst_calt_trans_white
            else inst_cal_type.inst_calt_ref_white) = inst_cal_type.inst_calt_trans_white
          then cal_trans_white K dev s1 else Flow.go s1) :=
        Blk.ite (fun _ => cal_trans_white_blk K dev s1) (fun _ => Blk.go (Frame.refl s1))
      refine Flow.Sat.mono hb ?_ ?_
      · intro code t h
        exact ⟨h1.1.trans h.1, hext t h.1, fun _ hn _ => h.1.keeps_done (h1.2.2 hn)⟩
      · intro t h
        exact ⟨h1.1.trans h, hext t h, fun hn => h.keeps_done (h1.2.2 hn)⟩
  · intro c t h
    exact ⟨h.1.trans (Frame.of_p_log rfl rfl), h.2.1, h.2.2⟩
  · intro t h
    exact ⟨h.1, h.2.1, fun _ hn _ => h.2.2 hn⟩

/-! ## Results on the calibration procedure -/

theorem devGood_refNeverOk : RefNeverOk sampleSs devGood := by
  intro log mm
  cases mm
  · show ((0x010013 : Int) ≠ 0); decide
  · show ((0x010019 : Int) ≠ 0); decide

/-- C7 (as stated, refuted): with auto-calibration disabled (`noautocalib = 1`)
an explicit reflective white request on a SpectroScan in reflective mode, every
command succeeding, returns `inst_ok` and leaves `calcount = 7` and
`need_w_cal = 1` as they were. -/
theorem ss_calibrate_noautocalib_keeps_stale :
    (ss_calibrate sampleSs devGood
        { ssHandle instType.instSpectroScan 0x11 with
          calcount := 7, need_w_cal := 1, noautocalib := 1 }
        inst_cal_type.inst_calt_ref_white inst_cal_cond.inst_calc_none []).rv = sampleSs.inst_ok
      ∧ (ss_calibrate sampleSs devGood
        { ssHandle instType.instSpectroScan 0x11 with
          calcount := 7, need_w_cal := 1, noautocalib := 1 }
        inst_cal_type.inst_calt_ref_white inst_cal_cond.inst_calc_none []).p.calcount = 7
      ∧ (ss_calibrate sampleSs devGood
        { ssHandle instType.instSpectroScan 0x11 with
          calcount := 7, need_w_cal := 1, noautocalib := 1 }
        inst_cal_type.inst_calt_ref_white inst_cal_cond.inst_calc_none []).p.need_w_cal = 1 := by
  decide

/-- C7 (amended): with auto-calibration enabled, on an instrument whose
reference measurements never answer plain `inst_ok`, whenever `ss_calibrate`
for reflective white (requested explicitly, or `inst_calt_all` resolved to
it) returns `inst_ok`, on return `calcount = 0` and `need_w_cal = 0`. -/
theorem ss_calibrate_ref_white_resets (K : SsConsts) (dev : Instrument) (p : ss)
    (caltp : inst_cal_type) (cond : inst_cal_cond) (log : List SsCmd)
    (hres : resolve_calt K p caltp = inst_cal_type.inst_calt_ref_white)
    (hauto : p.noautocalib = 0) (hdev : RefNeverOk K dev)
    (hsetup : K.inst_cal_setup ≠ K.inst_ok)
    (hok : (ss_calibrate K dev p caltp cond log).rv = K.inst_ok) :
    (ss_calibrate K dev p caltp cond log).p.calcount = 0
      ∧ (ss_calibrate K dev p caltp cond log).p.need_w_cal = 0 :=
  (ss_calibrate_imp_ref K True dev p caltp cond log hres (fun _ => hdev)
    (fun _ => hsetup)).2.2 trivial hauto hok

/-- C7 (amended), instance: a SpectroScan in reflective mode with
`calcount = 7` and `need_w_cal = 1`, request `inst_calt_all`, every command
succeeding. -/
theorem ss_calibrate_ref_white_resets_witness :
    (ss_calibrate sampleSs devGood
        { ssHandle instType.instSpectroScan 0x11 with calcount := 7, need_w_cal := 1 }
        inst_cal_type.inst_calt_all inst_cal_cond.inst_calc_none []).p.calcount = 0
      ∧ (ss_calibrate sampleSs devGood
        { ssHandle instType.instSpectroScan 0x11 with calcount := 7, need_w_cal := 1 }
        inst_cal_type.inst_calt_all inst_cal_cond.inst_calc_none []).p.need_w_cal = 0 :=
  ss_calibrate_ref_white_resets sampleSs devGood
    { ssHandle instType.instSpectroScan 0x11 with calcount := 7, need_w_cal := 1 }
    inst_cal_type.inst_calt_all inst_cal_cond.inst_calc_none [] (by decide) rfl
    devGood_refNeverOk (by decide) (by decide)

/-- A reference measurement answered with plain `inst_ok` (auto-calibration
enabled): the `return rv` taken for an unexpected answer returns `inst_ok`
with `calcount = 7` and `need_w_cal = 1` untouched. -/
theorem ss_calibrate_ref_measurement_plain_ok :
    (ss_calibrate sampleSs devPlainOk
        { ssHandle instType.instSpectroScan 0x11 with calcount := 7, need_w_cal := 1 }
        inst_cal_type.inst_calt_ref_white inst_cal_cond.inst_calc_none []).rv = sampleSs.inst_ok
      ∧ (ss_calibrate sampleSs devPlainOk
        { ssHandle instType.instSpectroScan 0x11 with calcount := 7, need_w_cal := 1 }
        inst_cal_type.inst_calt_ref_white inst_cal_cond.inst_calc_none []).p.calcount = 7
      ∧ (ss_calibrate sampleSs devPlainOk
        { ssHandle instType.instSpectroScan 0x11 with calcount := 7, need_w_cal := 1 }
        inst_cal_type.inst_calt_ref_white inst_cal_cond.inst_calc_none []).p.need_w_cal = 1 := by
  decide

/-- C8 (as stated, refuted): with `need_w_cal = 0` and `need_t_cal = 0`,
`ss_calibrate` with `inst_calt_all` on a SpectroScan sends eight commands and
zeroes `calcount` (7 before), and on a Spectrolino returns `inst_cal_setup`
and changes the caller's condition to `inst_calc_man_ref_white`. -/
theorem ss_calibrate_all_not_idle :
    (ss_calibrate sampleSs devGood { ssHandle instType.instSpectroScan 0x11 with calcount := 7 }
        inst_cal_type.inst_calt_all inst_cal_cond.inst_calc_none []).rv = sampleSs.inst_ok
      ∧ (ss_calibrate sampleSs devGood
          { ssHandle instType.instSpectroScan 0x11 with calcount := 7 }
          inst_cal_type.inst_calt_all inst_cal_cond.inst_calc_none []).log.length = 8
      ∧ (ss_calibrate sampleSs devGood
          { ssHandle instType.instSpectroScan 0x11 with calcount := 7 }
          inst_cal_type.inst_calt_all inst_cal_cond.inst_calc_none []).p.calcount = 0
      ∧ (ss_calibrate sampleSs devGood (ssHandle instType.instSpectrolino 0x11)
          inst_cal_type.inst_calt_all inst_cal_cond.inst_calc_none []).rv
          = sampleSs.inst_cal_setup
      ∧ (ss_calibrate sampleSs devGood (ssHandle instType.instSpectrolino 0x11)
          inst_cal_type.inst_calt_all inst_cal_cond.inst_calc_none []).cond
          = inst_cal_cond.inst_calc_man_ref_white
      ∧ (ss_calibrate sampleSs devGood (ssHandle instType.instSpectrolino 0x11)
          inst_cal_type.inst_calt_all inst_cal_cond.inst_calc_none []).log.length = 3 := by
  decide

/-- C8 (amended): with `need_w_cal` and `need_t_cal` both false,
`ss_calibrate` with `inst_calt_all` stands for reflective white and sends the
instrument at least the command that opens that calibration; whatever it
returns, both flags are still false, the mode, next mode, instrument type,
capabilities and auto-calibration setting are unchanged, and `calcount` is
unchanged or zero. -/
theorem ss_calibrate_all_when_fresh (K : SsConsts) (dev : Instrument) (p : ss)
    (cond : inst_cal_cond) (log : List SsCmd)
    (hw : p.need_w_cal = 0) (ht : p.need_t_cal = 0) :
    resolve_calt K p inst_cal_type.inst_calt_all = inst_cal_type.inst_calt_ref_white
      ∧ (∃ l, (ss_calibrate K dev p inst_cal_type.inst_calt_all cond log).log
          = log ++ firstRefCmd p.itype :: l)
      ∧ (ss_calibrate K dev p inst_cal_type.inst_calt_all cond log).p.need_w_cal = 0
      ∧ (ss_calibrate K dev p inst_cal_type.inst_calt_all cond log).p.need_t_cal = 0
      ∧ (ss_calibrate K dev p inst_cal_type.inst_calt_all cond log).p.mode = p.mode
      ∧ (ss_calibrate K dev p inst_cal_type.inst_calt_all cond log).p.nextmode = p.nextmode
      ∧ (ss_calibrate K dev p inst_cal_type.inst_calt_all cond log).p.itype = p.itype
      ∧ (ss_calibrate K dev p inst_cal_type.inst_calt_all cond log).p.cap = p.cap
      ∧ (ss_calibrate K dev p inst_cal_type.inst_calt_all cond log).p.noautocalib
          = p.noautocalib
      ∧ ((ss_calibrate K dev p inst_cal_type.inst_calt_all cond log).p.calcount = p.calcount
          ∨ (ss_calibrate K dev p inst_cal_type.inst_calt_all cond log).p.calcount = 0) := by
  have hres : resolve_calt K p inst_cal_type.inst_calt_all
      = inst_cal_type.inst_calt_ref_white := by
    simp [resolve_calt, hw, ht]
  obtain ⟨hf, hl, -⟩ := ss_calibrate_imp_ref K False dev p inst_cal_type.inst_calt_all cond log
    hres False.elim False.elim
  refine ⟨hres, hl, ?_, ?_, hf.mode, hf.nextmode, hf.itype, hf.cap, hf.noautocalib, hf.calcount⟩
  · rcases hf.need_w with h | h
    · exact h.trans hw
    · exact h
  · rcases hf.need_t with h | h
    · exact h.trans ht
    · exact h

/-- C8 (amended), instance: a SpectroScan in reflective mode with
`calcount = 7` and nothing stale. -/
theorem ss_calibrate_all_when_fresh_witness :
    resolve_calt sampleSs { ssHandle instType.instSpectroScan 0x11 with calcount := 7 }
        inst_cal_type.inst_calt_all = inst_cal_type.inst_calt_ref_white
      ∧ (∃ l, (ss_calibrate sampleSs devGood
          { ssHandle instType.instSpectroScan 0x11 with calcount := 7 }
          inst_cal_type.inst_calt_all inst_cal_cond.inst_calc_none []).log
          = [] ++ firstRefCmd instType.instSpectroScan :: l) :=
  ⟨(ss_calibrate_all_when_fresh sampleSs devGood
      { ssHandle instType.instSpectroScan 0x11 with calcount := 7 }
      inst_cal_cond.inst_calc_none [] rfl rfl).1,
   (ss_calibrate_all_when_fresh sampleSs devGood
      { ssHandle instType.instSpectroScan 0x11 with calcount := 7 }
      inst_cal_cond.inst_calc_none [] rfl rfl).2.1⟩

/-- C10: with auto-calibration enabled, `ss_needs_calibration` answers
reflective white whenever `need_w_cal` is set, transmissive white exactly when
`need_w_cal` is clear and `need_t_cal` set, and none exactly when both are
clear; and whenever `need_w_cal` is set, `ss_calibrate_imp` with
`inst_calt_all` stands for reflective white and opens with the reflective
white calibration, on every instrument. -/
theorem ss_calibration_target (K : SsConsts) (p : ss) (hauto : p.noautocalib = 0) :
    (p.need_w_cal ≠ 0 → ss_needs_calibration p = inst_cal_type.inst_calt_ref_white)
      ∧ (ss_needs_calibration p = inst_cal_type.inst_calt_trans_white
          ↔ p.need_w_cal = 0 ∧ p.need_t_cal ≠ 0)
      ∧ (ss_needs_calibration p = inst_cal_type.inst_calt_none
          ↔ p.need_w_cal = 0 ∧ p.need_t_cal = 0)
      ∧ (p.need_w_cal ≠ 0 →
          resolve_calt K p inst_cal_type.inst_calt_all = inst_cal_type.inst_calt_ref_white
            ∧ ∀ (dev : Instrument) (cond : inst_cal_cond) (log : List SsCmd),
                ∃ l, (ss_calibrate_imp K dev p inst_cal_type.inst_calt_all cond log).log
                  = log ++ firstRefCmd p.itype :: l) := by
  refine ⟨?_, ?_, ?_, ?_⟩
  · intro hw
    simp [ss_needs_calibration, hw, hauto]
  · by_cases hw : p.need_w_cal = 0 <;> by_cases ht : p.need_t_cal = 0 <;>
      simp [ss_needs_calibration, hw, ht, hauto]
  · by_cases hw : p.need_w_cal = 0 <;> by_cases ht : p.need_t_cal = 0 <;>
      simp [ss_needs_calibration, hw, ht, hauto]
  · intro hw
    have hres : resolve_calt K p inst_cal_type.inst_calt_all
        = inst_cal_type.inst_calt_ref_white := by
      simp [resolve_calt, hw]
    exact ⟨hres, fun dev cond log =>
      (ss_calibrate_imp_ref K False dev p inst_cal_type.inst_calt_all cond log hres
        False.elim False.elim).2.1⟩

/-- C10, instance: a SpectroScanT in transmission mode with both flags set:
the need reported is reflective white, and `inst_calt_all` stands for
reflective white. -/
theorem ss_calibration_target_witness :
    ss_needs_calibration
        { ssHandle instType.instSpectroScanT 0x12 with need_w_cal := 1, need_t_cal := 1 }
        = inst_cal_type.inst_calt_ref_white
      ∧ resolve_calt sampleSs
          { ssHandle instType.instSpectroScanT 0x12 with need_w_cal := 1, need_t_cal := 1 }
          inst_cal_type.inst_calt_all = inst_cal_type.inst_calt_ref_white :=
  ⟨(ss_calibration_target sampleSs
      { ssHandle instType.instSpectroScanT 0x12 with need_w_cal := 1, need_t_cal := 1 }
      rfl).1 (by decide),
   ((ss_calibration_target sampleSs
      { ssHandle instType.instSpectroScanT 0x12 with need_w_cal := 1, need_t_cal := 1 }
      rfl).2.2.2 (by decide)).1⟩

/-! ## Lemmas on calibration credit -/

theorem Flow.bind_assoc (f : Flow) (g h : CalSt → Flow) :
    (f.bind g).bind h = f.bind fun s => (g s).bind h := by
  cases f <;> rfl

theorem cal_ref_white_split (K : SsConsts) (dev : Instrument) (s : CalSt) :
    cal_ref_white K dev s = (cal_ref_white_core K dev s).bind (cal_ref_white_restore K dev) := by
  unfold cal_ref_white cal_ref_white_core cal_ref_white_restore
  simp only [Flow.bind_assoc]

theorem Same.self (s : CalSt) : Same s s := ⟨rfl, rfl, rfl⟩

theorem Same.step {s t u : CalSt} (h1 : Same s t) (h2 : Same t u) : Same s u :=
  ⟨h2.1.trans h1.1, h2.2.1.trans h1.2.1, h2.2.2.trans h1.2.2⟩

theorem Same.of_p {s t : CalSt} (hp : t.p = s.p) : Same s t :=
  ⟨by rw [hp], by rw [hp], by rw [hp]⟩

theorem NoCredit.pass {K : SsConsts} {dev : Instrument} {s t : CalSt} (h : Same s t) :
    NoCredit K dev s (Flow.go t) := h

theorem NoCredit.chain {K : SsConsts} {dev : Instrument} {s : CalSt} {f : Flow}
    {k : CalSt → Flow} (hf : NoCredit K dev s f)
    (hk : ∀ t, Same s t → NoCredit K dev s (k t)) : NoCredit K dev s (f.bind k) :=
  Flow.Sat.bind hf hk

theorem NoCredit.from {K : SsConsts} {dev : Instrument} {s s1 : CalSt} {f : Flow}
    (h1 : Same s s1) (hf : NoCredit K dev s1 f) : NoCredit K dev s f :=
  Flow.Sat.mono hf (fun _ _ h => ⟨h1.step h.1, h.2⟩) (fun _ h => h1.step h)

theorem NoCredit.cases {K : SsConsts} {dev : Instrument} {s : CalSt} {c : Prop} [Decidable c]
    {a b : Flow} (ha : c → NoCredit K dev s a) (hb : ¬ c → NoCredit K dev s b) :
    NoCredit K dev s (if c then a else b) := by
  split_ifs with h
  · exact ha h
  · exact hb h

theorem NoCredit.of_cmd (K : SsConsts) (dev : Instrument) (c : SsCmd) (e : Int) (s : CalSt) :
    NoCredit K dev s (cmd_expect dev c e s) := by
  unfold cmd_expect
  split_ifs with h
  · exact ⟨Same.of_p rfl, Or.inr ⟨s.log, c, rfl, rfl⟩⟩
  · exact Same.of_p rfl

theorem cal_white_loop_nocredit (K : SsConsts) (dev : Instrument) (s : CalSt) :
    NoCredit K dev s (cal_white_loop K dev s) := by
  unfold cal_white_loop cmd_ok
  refine NoCredit.chain (NoCredit.cases (fun _ => NoCredit.chain (NoCredit.of_cmd K dev _ _ s) ?_)
    (fun _ => NoCredit.pass (Same.self s))) ?_
  · intro t ht
    exact NoCredit.from ht (NoCredit.of_cmd K dev _ _ t)
  intro s1 h1
  refine NoCredit.chain (NoCredit.from h1 (NoCredit.of_cmd K dev _ _ s1)) ?_
  intro s2 h2
  refine NoCredit.chain (NoCredit.cases (fun _ => NoCredit.from (h2.step (Same.of_p rfl))
    (NoCredit.of_cmd K dev _ _ _)) (fun _ => NoCredit.pass (h2.step (Same.of_p rfl)))) ?_
  intro s3 h3
  split_ifs with ha hb
  · exact ⟨h3.step (Same.of_p rfl), Or.inr ⟨s3.log, _, rfl, rfl⟩⟩
  · exact h3.step (Same.of_p rfl)
  · exact ⟨h3.step (Same.of_p rfl), Or.inl rfl⟩

theorem cal_dark_nocredit (K : SsConsts) (dev : Instrument) (s : CalSt) :
    NoCredit K dev s (cal_dark K dev s) := by
  unfold cal_dark cmd_ok
  refine NoCredit.cases (fun _ => ?_) (fun _ => NoCredit.pass (Same.self s))
  refine NoCredit.chain (NoCredit.of_cmd K dev _ _ s) ?_
  intro s1 h1
  refine NoCredit.chain (NoCredit.cases (fun _ => NoCredit.from h1 (NoCredit.of_cmd K dev _ _ s1))
    (fun _ => NoCredit.pass h1)) ?_
  intro s2 h2
  exact NoCredit.pass (h2.step (Same.of_p rfl))

/-- No `return` inside the reflective white calibration before its reset gives
any credit; falling through it leaves `need_t_cal` as it was. -/
theorem cal_ref_white_core_nocredit (K : SsConsts) (dev : Instrument) (s : CalSt) :
    (cal_ref_white_core K dev s).Sat (fun code t => Same s t ∧ RetOf K dev code t)
      (fun t => t.p.need_t_cal = s.p.need_t_cal) := by
  unfold cal_ref_white_core cmd_ok
  simp only
  have h0 : Same s (if illum_class K s.p = K.inst_mode_emission then
      ({ s with p := { s.p with filt := K.ss_aft_NoFilter } } : CalSt) else s) := by
    split_ifs
    · exact ⟨rfl, rfl, rfl⟩
    · exact Same.self s
  generalize (if illum_class K s.p = K.inst_mode_emission then
      ({ s with p := { s.p with filt := K.ss_aft_NoFilter } } : CalSt) else s) = s0 at h0 ⊢
  refine Flow.Sat.bind (G := fun t => Same s t) ?_ ?_
  · exact NoCredit.cases (fun _ => NoCredit.from h0 (NoCredit.of_cmd K dev _ _ s0))
      (fun _ => NoCredit.from h0 (NoCredit.of_cmd K dev _ _ s0))
  intro s1 h1
  refine Flow.Sat.bind (G := fun t => Same s t) (NoCredit.from h1 (NoCredit.of_cmd K dev _ _ s1)) ?_
  intro s2 h2
  refine Flow.Sat.bind (G := fun t => Same s t) ?_ ?_
  · split_ifs with hc
    · exact ⟨h2.step (Same.of_p rfl), Or.inr ⟨s2.log, _, rfl, rfl⟩⟩
    · exact h2.step (Same.of_p rfl)
  intro s3 h3
  split_ifs with ha hb
  · exact ⟨h3.step (Same.of_p rfl), Or.inl rfl⟩
  · refine Flow.Sat.bind (G := fun t => Same s t)
      (NoCredit.from h3 (cal_white_loop_nocredit K dev s3)) ?_
    intro s4 h4
    refine Flow.Sat.bind (G := fun t => Same s t)
      (NoCredit.from h4 (cal_dark_nocredit K dev s4)) ?_
    intro s5 h5
    exact h5.2.1
  · exact h3.2.1

/-- No `return` inside the transmission white calibration gives any credit. -/
theorem cal_trans_white_nocredit (K : SsConsts) (dev : Instrument) (s : CalSt) :
    (cal_trans_white K dev s).Sat (fun code t => Same s t ∧ RetOf K dev code t)
      (fun _ => True) := by
  unfold cal_trans_white cmd_ok
  split_ifs with hi hc
  · exact ⟨Same.of_p rfl, Or.inl rfl⟩
  · refine Flow.Sat.bind (G := fun t => Same s t) (NoCredit.of_cmd K dev _ _ s) ?_
    intro s1 h1
    refine Flow.Sat.bind (G := fun t => Same s t) ?_ ?_
    · split_ifs with h
      · exact ⟨h1.step ⟨rfl, rfl, rfl⟩, Or.inr ⟨s1.log, _, rfl, rfl⟩⟩
      · exact h1.step ⟨rfl, rfl, rfl⟩
    intro s2 h2
    have h3 : Same s2 (if tref_low s2.p.tref then
          { s2 with
            cond := inst_cal_cond.inst_calc_message,
            id := "Warning: Transmission light source is low at some wavelengths!",
            rv := K.inst_ok }
        else s2) := by
      split_ifs
      · exact Same.of_p rfl
      · exact Same.self s2
    simp only
    generalize (if tref_low s2.p.tref then
          ({ s2 with
            cond := inst_cal_cond.inst_calc_message,
            id := "Warning: Transmission light source is low at some wavelengths!",
            rv := K.inst_ok } : CalSt)
        else s2) = s3 at h3 ⊢
    refine Flow.Sat.bind (G := fun _ => True) ?_ ?_
    · split_ifs with h
      · exact ⟨(h2.step h3).step ⟨rfl, rfl, rfl⟩, Or.inr ⟨s3.log, _, rfl, rfl⟩⟩
      · trivial
    intro s4 _
    trivial
  · refine Flow.Sat.bind (G := fun _ => True) ?_ ?_
    · exact Flow.Sat.mono (NoCredit.of_cmd K dev _ _ s) (fun _ _ h => h) (fun _ _ => trivial)
    intro s1 _
    trivial

/-! ## Results on calibration set-up and credit -/

theorem ss_calibrate_imp_ref_core_ret (K : SsConsts) (dev : Instrument) (p : ss)
    (caltp : inst_cal_type) (cond : inst_cal_cond) (log : List SsCmd) (c : Int) (t : CalSt)
    (hres : resolve_calt K p caltp = inst_cal_type.inst_calt_ref_white)
    (hcore : cal_ref_white_core K dev
      { p := p, cond := cond, id := "", rv := K.inst_ok, log := log } = Flow.ret c t) :
    ss_calibrate_imp K dev p caltp cond log = { t with rv := c } := by
  unfold ss_calibrate_imp
  simp only [hres, ne_eq, not_true_eq_false, false_and, if_false, if_true]
  rw [cal_ref_white_split, hcore]
  rfl

theorem ss_calibrate_imp_trans_direct (K : SsConsts) (dev : Instrument) (p : ss)
    (caltp : inst_cal_type) (cond : inst_cal_cond) (log : List SsCmd)
    (hres : resolve_calt K p caltp = inst_cal_type.inst_calt_trans_white)
    (hm : illum_class K p = K.inst_mode_transmission) :
    ss_calibrate_imp K dev p caltp cond log
      = (cal_trans_white K dev
          { p := p, cond := cond, id := "", rv := K.inst_ok, log := log }).finish := by
  unfold ss_calibrate_imp
  simp [hres, hm, Flow.bind]

theorem cal_ref_white_restore_p (K : SsConsts) (dev : Instrument) (s : CalSt) :
    (cal_ref_white_restore K dev s).Sat (fun _ t => t.p = s.p) (fun t => t.p = s.p) := by
  unfold cal_ref_white_restore
  split_ifs
  · exact Flow.Sat.mono (cmd_ok_sat K dev _ s) (fun _ _ h => h.2.1) (fun _ h => h.1)
  · rfl
  · rfl

theorem cal_ref_white_go_need_t (K : SsConsts) (dev : Instrument) (s s1 : CalSt)
    (h : cal_ref_white K dev s = Flow.go s1) : s1.p.need_t_cal = s.p.need_t_cal := by
  rw [cal_ref_white_split] at h
  have hc := cal_ref_white_core_nocredit K dev s
  cases hcore : cal_ref_white_core K dev s with
  | ret c t => rw [hcore] at h; exact Flow.noConfusion h
  | go s6 =>
    rw [hcore] at h hc
    have hr := cal_ref_white_restore_p K dev s6
    change cal_ref_white_restore K dev s6 = Flow.go s1 at h
    rw [h] at hr
    have hr2 : s1.p = s6.p := hr
    rw [hr2]
    exact hc

theorem ss_calibrate_imp_trans_after_ref (K : SsConsts) (dev : Instrument) (p : ss)
    (cond : inst_cal_cond) (log : List SsCmd) (s1 : CalSt)
    (hw : p.need_w_cal ≠ 0) (ht : p.need_t_cal ≠ 0)
    (hm : illum_class K p = K.inst_mode_transmission)
    (hgo : cal_ref_white K dev
      { p := p, cond := cond, id := "", rv := K.inst_ok, log := log } = Flow.go s1) :
    ss_calibrate_imp K dev p inst_cal_type.inst_calt_all cond log
      = (cal_trans_white K dev s1).finish := by
  have hres : resolve_calt K p inst_cal_type.inst_calt_all
      = inst_cal_type.inst_calt_ref_white := by
    simp [resolve_calt, hw]
  have hsp := cal_ref_white_spec K False dev
    { p := p, cond := cond, id := "", rv := K.inst_ok, log := log } False.elim False.elim
  rw [hgo] at hsp
  have hmode : illum_class K s1.p = K.inst_mode_transmission := by
    unfold illum_class at hm ⊢
    rw [hsp.1.mode]; exact hm
  have hnt : s1.p.need_t_cal ≠ 0 := by
    rw [cal_ref_white_go_need_t K dev _ s1 hgo]; exact ht
  unfold ss_calibrate_imp
  simp only [hres, ne_eq, not_true_eq_false, false_and, if_false, if_true]
  rw [hgo]
  simp [Flow.bind, hmode, hnt]

/-- C11 (as stated, refuted): on a Spectrolino with auto-calibration enabled,
a reflective white request with condition `inst_calc_none`, made while the
instrument does not answer, returns the communication failure code
`0x040031`, not `inst_cal_setup`, and leaves the condition at
`inst_calc_none`. -/
theorem ss_calibrate_setup_needs_commands :
    (ss_calibrate sampleSs devDown
        { ssHandle instType.instSpectrolino 0x11 with need_w_cal := 1 }
        inst_cal_type.inst_calt_ref_white inst_cal_cond.inst_calc_none []).rv = 0x040031
      ∧ (ss_calibrate sampleSs devDown
        { ssHandle instType.instSpectrolino 0x11 with need_w_cal := 1 }
        inst_cal_type.inst_calt_ref_white inst_cal_cond.inst_calc_none []).rv
          ≠ sampleSs.inst_cal_setup
      ∧ (ss_calibrate sampleSs devDown
        { ssHandle instType.instSpectrolino 0x11 with need_w_cal := 1 }
        inst_cal_type.inst_calt_ref_white inst_cal_cond.inst_calc_none []).cond
          = inst_cal_cond.inst_calc_none := by
  decide

theorem execRef_not_mem_prep (K : SsConsts) (p : ss) (mm : ss_mmt) (n : Nat) :
    SsCmd.so_do_ExecRefMeasurement mm ∉ (refPrepCmds K p).take n := by
  intro h
  have h2 := List.mem_of_mem_take h
  unfold refPrepCmds firstRefCmd at h2
  split_ifs at h2 <;> simp at h2

/-- The reflective white calibration on a Spectrolino whose caller has not yet
signalled `inst_calc_man_ref_white`, auto-calibration enabled: it always ends
in a `return`, after at most the three preparatory commands. -/
theorem cal_ref_white_core_setup (K : SsConsts) (dev : Instrument) (p : ss)
    (cond : inst_cal_cond) (log : List SsCmd)
    (hi : p.itype = instType.instSpectrolino) (hauto : p.noautocalib = 0)
    (hcond : cond ≠ inst_cal_cond.inst_calc_man_ref_white) :
    (cal_ref_white_core K dev
        { p := p, cond := cond, id := "", rv := K.inst_ok, log := log }).Sat
      (fun c t => (∃ n, t.log = log ++ (refPrepCmds K p).take n)
        ∧ ((dev log (firstRefCmd p.itype)).code = K.inst_ok →
          (dev (log ++ [firstRefCmd p.itype])
            (SsCmd.so_do_ParameterDownload p.dstd ss_wbt.ss_wbt_Abs p.illum p.obsv)).code
            = K.inst_ok →
          (dev (log ++ [firstRefCmd p.itype,
              SsCmd.so_do_ParameterDownload p.dstd ss_wbt.ss_wbt_Abs p.illum p.obsv])
            (SsCmd.so_do_WhiteReferenceRequest
              (if illum_class K p = K.inst_mode_emission then K.ss_aft_NoFilter
                else p.filt))).code = K.inst_ok →
          c = K.inst_cal_setup ∧ t.cond = inst_cal_cond.inst_calc_man_ref_white
            ∧ t.log = log ++ refPrepCmds K p))
      (fun _ => False) := by
  simp only [refPrepCmds, firstRefCmd, hi, reduceCtorEq, if_false, illum_class]
  by_cases he : iand p.mode K.inst_mode_illum_mask = K.inst_mode_emission
  · simp only [he, if_true]
    by_cases h1 : (dev log (SsCmd.so_do_MeasControlDownload ss_ctt.ss_ctt_RemissionMeas)).code
        = K.inst_ok
    · by_cases h2 : (dev (log ++ [SsCmd.so_do_MeasControlDownload ss_ctt.ss_ctt_RemissionMeas])
          (SsCmd.so_do_ParameterDownload p.dstd ss_wbt.ss_wbt_Abs p.illum p.obsv)).code
          = K.inst_ok
      · by_cases h3 : (dev (log ++ [SsCmd.so_do_MeasControlDownload ss_ctt.ss_ctt_RemissionMeas,
            SsCmd.so_do_ParameterDownload p.dstd ss_wbt.ss_wbt_Abs p.illum p.obsv])
            (SsCmd.so_do_WhiteReferenceRequest K.ss_aft_NoFilter)).code = K.inst_ok
        · simp [cal_ref_white_core, cmd_ok, cmd_expect, send, Flow.bind, Flow.Sat, hi, hauto,
            hcond, he, h1, h2, h3, illum_class]
          exact ⟨3, le_refl 3⟩
        · simp [cal_ref_white_core, cmd_ok, cmd_expect, send, Flow.bind, Flow.Sat, hi, hauto,
            hcond, he, h1, h2, h3, illum_class]
          exact ⟨3, le_refl 3⟩
      · simp [cal_ref_white_core, cmd_ok, cmd_expect, send, Flow.bind, Flow.Sat, hi, hauto,
          hcond, he, h1, h2, illum_class]
        exact ⟨2, rfl⟩
    · simp [cal_ref_white_core, cmd_ok, cmd_expect, send, Flow.bind, Flow.Sat, hi, hauto,
        hcond, he, h1, illum_class]
      exact ⟨1, rfl⟩
  · simp only [he, if_false]
    by_cases h1 : (dev log (SsCmd.so_do_MeasControlDownload ss_ctt.ss_ctt_RemissionMeas)).code
        = K.inst_ok
    · by_cases h2 : (dev (log ++ [SsCmd.so_do_MeasControlDownload ss_ctt.ss_ctt_RemissionMeas])
          (SsCmd.so_do_ParameterDownload p.dstd ss_wbt.ss_wbt_Abs p.illum p.obsv)).code
          = K.inst_ok
      · by_cases h3 : (dev (log ++ [SsCmd.so_do_MeasControlDownload ss_ctt.ss_ctt_RemissionMeas,
            SsCmd.so_do_ParameterDownload p.dstd ss_wbt.ss_wbt_Abs p.illum p.obsv])
            (SsCmd.so_do_WhiteReferenceRequest p.filt)).code = K.inst_ok
        · simp [cal_ref_white_core, cmd_ok, cmd_expect, send, Flow.bind, Flow.Sat, hi, hauto,
            hcond, he, h1, h2, h3, illum_class]
          exact ⟨3, le_refl 3⟩
        · simp [cal_ref_white_core, cmd_ok, cmd_expect, send, Flow.bind, Flow.Sat, hi, hauto,
            hcond, he, h1, h2, h3, illum_class]
          exact ⟨3, le_refl 3⟩
      · simp [cal_ref_white_core, cmd_ok, cmd_expect, send, Flow.bind, Flow.Sat, hi, hauto,
          hcond, he, h1, h2, illum_class]
        exact ⟨2, rfl⟩
    · simp [cal_ref_white_core, cmd_ok, cmd_expect, send, Flow.bind, Flow.Sat, hi, hauto,
        hcond, he, h1, illum_class]
      exact ⟨1, rfl⟩

/-- The same calibration when a preparatory command fails: the `return` gives
the code of the first of the three commands that does not answer `inst_ok`,
with the caller's condition untouched and nothing sent after that command. -/
theorem cal_ref_white_core_fail (K : SsConsts) (dev : Instrument) (p : ss)
    (cond : inst_cal_cond) (log : List SsCmd)
    (hi : p.itype = instType.instSpectrolino) (hauto : p.noautocalib = 0)
    (hcond : cond ≠ inst_cal_cond.inst_calc_man_ref_white) :
    (cal_ref_white_core K dev
        { p := p, cond := cond, id := "", rv := K.inst_ok, log := log }).Sat
      (fun c t =>
        ((dev log (firstRefCmd p.itype)).code ≠ K.inst_ok →
            c = (dev log (firstRefCmd p.itype)).code ∧ t.cond = cond
              ∧ t.log = log ++ [firstRefCmd p.itype])
          ∧ ((dev log (firstRefCmd p.itype)).code = K.inst_ok →
            (dev (log ++ [firstRefCmd p.itype])
              (SsCmd.so_do_ParameterDownload p.dstd ss_wbt.ss_wbt_Abs p.illum p.obsv)).code
              ≠ K.inst_ok →
            c = (dev (log ++ [firstRefCmd p.itype])
                (SsCmd.so_do_ParameterDownload p.dstd ss_wbt.ss_wbt_Abs p.illum p.obsv)).code
              ∧ t.cond = cond
              ∧ t.log = log ++ [firstRefCmd p.itype,
                  SsCmd.so_do_ParameterDownload p.dstd ss_wbt.ss_wbt_Abs p.illum p.obsv])
          ∧ ((dev log (firstRefCmd p.itype)).code = K.inst_ok →
            (dev (log ++ [firstRefCmd p.itype])
              (SsCmd.so_do_ParameterDownload p.dstd ss_wbt.ss_wbt_Abs p.illum p.obsv)).code
              = K.inst_ok →
            (dev (log ++ [firstRefCmd p.itype,
                SsCmd.so_do_ParameterDownload p.dstd ss_wbt.ss_wbt_Abs p.illum p.obsv])
              (SsCmd.so_do_WhiteReferenceRequest
                (if illum_class K p = K.inst_mode_emission then K.ss_aft_NoFilter
                  else p.filt))).code ≠ K.inst_ok →
            c = (dev (log ++ [firstRefCmd p.itype,
                  SsCmd.so_do_ParameterDownload p.dstd ss_wbt.ss_wbt_Abs p.illum p.obsv])
                (SsCmd.so_do_WhiteReferenceRequest
                  (if illum_class K p = K.inst_mode_emission then K.ss_aft_NoFilter
                    else p.filt))).code
              ∧ t.cond = cond ∧ t.log = log ++ refPrepCmds K p))
      (fun _ => False) := by
  simp only [refPrepCmds, firstRefCmd, hi, reduceCtorEq, if_false, illum_class]
  by_cases he : iand p.mode K.inst_mode_illum_mask = K.inst_mode_emission
  · simp only [he, if_true]
    by_cases h1 : (dev log (SsCmd.so_do_MeasControlDownload ss_ctt.ss_ctt_RemissionMeas)).code
        = K.inst_ok
    · by_cases h2 : (dev (log ++ [SsCmd.so_do_MeasControlDownload ss_ctt.ss_ctt_RemissionMeas])
          (SsCmd.so_do_ParameterDownload p.dstd ss_wbt.ss_wbt_Abs p.illum p.obsv)).code
          = K.inst_ok
      · by_cases h3 : (dev (log ++ [SsCmd.so_do_MeasControlDownload ss_ctt.ss_ctt_RemissionMeas,
            SsCmd.so_do_ParameterDownload p.dstd ss_wbt.ss_wbt_Abs p.illum p.obsv])
            (SsCmd.so_do_WhiteReferenceRequest K.ss_aft_NoFilter)).code = K.inst_ok
        · simp [cal_ref_white_core, cmd_ok, cmd_expect, send, Flow.bind, Flow.Sat, hi, hauto,
            hcond, he, h1, h2, h3, illum_class]
        · simp [cal_ref_white_core, cmd_ok, cmd_expect, send, Flow.bind, Flow.Sat, hi, hauto,
            hcond, he, h1, h2, h3, illum_class]
      · simp [cal_ref_white_core, cmd_ok, cmd_expect, send, Flow.bind, Flow.Sat, hi, hauto,
          hcond, he, h1, h2, illum_class]
    · simp [cal_ref_white_core, cmd_ok, cmd_expect, send, Flow.bind, Flow.Sat, hi, hauto,
        hcond, he, h1, illum_class]
  · simp only [he, if_false]
    by_cases h1 : (dev log (SsCmd.so_do_MeasControlDownload ss_ctt.ss_ctt_RemissionMeas)).code
        = K.inst_ok
    · by_cases h2 : (dev (log ++ [SsCmd.so_do_MeasControlDownload ss_ctt.ss_ctt_RemissionMeas])
          (SsCmd.so_do_ParameterDownload p.dstd ss_wbt.ss_wbt_Abs p.illum p.obsv)).code
          = K.inst_ok
      · by_cases h3 : (dev (log ++ [SsCmd.so_do_MeasControlDownload ss_ctt.ss_ctt_RemissionMeas,
            SsCmd.so_do_ParameterDownload p.dstd ss_wbt.ss_wbt_Abs p.illum p.obsv])
            (SsCmd.so_do_WhiteReferenceRequest p.filt)).code = K.inst_ok
        · simp [cal_ref_white_core, cmd_ok, cmd_expect, send, Flow.bind, Flow.Sat, hi, hauto,
            hcond, he, h1, h2, h3, illum_class]
        · simp [cal_ref_white_core, cmd_ok, cmd_expect, send, Flow.bind, Flow.Sat, hi, hauto,
            hcond, he, h1, h2, h3, illum_class]
      · simp [cal_ref_white_core, cmd_ok, cmd_expect, send, Flow.bind, Flow.Sat, hi, hauto,
          hcond, he, h1, h2, illum_class]
    · simp [cal_ref_white_core, cmd_ok, cmd_expect, send, Flow.bind, Flow.Sat, hi, hauto,
        hcond, he, h1, illum_class]

/-- C11 (amended): on a Spectrolino with auto-calibration enabled, a
reflective white request whose condition is not `inst_calc_man_ref_white`
sends at most the three preparatory commands, sends no reference
measurement command and leaves `calcount` and `need_w_cal` unchanged; when
those three commands succeed it returns `inst_cal_setup` with the condition
set to `inst_calc_man_ref_white`; when one of them fails, it returns the code
of the first that fails, with the condition as the caller passed it and
nothing sent after the failing command.  A transmissive white request in
transmission mode whose condition is not `inst_calc_man_trans_white` sends
nothing and returns `inst_cal_setup` with the condition set to
`inst_calc_man_trans_white` and `need_t_cal` and `calcount` unchanged. -/
theorem ss_calibrate_needs_setup (K : SsConsts) (dev : Instrument) (p : ss)
    (caltp : inst_cal_type) (cond : inst_cal_cond) (log : List SsCmd)
    (hi : p.itype = instType.instSpectrolino) :
    (resolve_calt K p caltp = inst_cal_type.inst_calt_ref_white → p.noautocalib = 0 →
        cond ≠ inst_cal_cond.inst_calc_man_ref_white →
        (∃ n, (ss_calibrate K dev p caltp cond log).log = log ++ (refPrepCmds K p).take n)
          ∧ (∀ mm l, (ss_calibrate K dev p caltp cond log).log = log ++ l →
              SsCmd.so_do_ExecRefMeasurement mm ∉ l)
          ∧ (ss_calibrate K dev p caltp cond log).p.calcount = p.calcount
          ∧ (ss_calibrate K dev p caltp cond log).p.need_w_cal = p.need_w_cal
          ∧ ((dev log (firstRefCmd p.itype)).code = K.inst_ok →
              (dev (log ++ [firstRefCmd p.itype])
                (SsCmd.so_do_ParameterDownload p.dstd ss_wbt.ss_wbt_Abs p.illum p.obsv)).code
                = K.inst_ok →
              (dev (log ++ [firstRefCmd p.itype,
                  SsCmd.so_do_ParameterDownload p.dstd ss_wbt.ss_wbt_Abs p.illum p.obsv])
                (SsCmd.so_do_WhiteReferenceRequest
                  (if illum_class K p = K.inst_mode_emission then K.ss_aft_NoFilter
                    else p.filt))).code = K.inst_ok →
              (ss_calibrate K dev p caltp cond log).rv = K.inst_cal_setup
                ∧ (ss_calibrate K dev p caltp cond log).cond
                    = inst_cal_cond.inst_calc_man_ref_white
                ∧ (ss_calibrate K dev p caltp cond log).log = log ++ refPrepCmds K p)
          ∧ ((dev log (firstRefCmd p.itype)).code ≠ K.inst_ok →
              (ss_calibrate K dev p caltp cond log).rv = (dev log (firstRefCmd p.itype)).code
                ∧ (ss_calibrate K dev p caltp cond log).cond = cond
                ∧ (ss_calibrate K dev p caltp cond log).log = log ++ [firstRefCmd p.itype])
          ∧ ((dev log (firstRefCmd p.itype)).code = K.inst_ok →
              (dev (log ++ [firstRefCmd p.itype])
                (SsCmd.so_do_ParameterDownload p.dstd ss_wbt.ss_wbt_Abs p.illum p.obsv)).code
                ≠ K.inst_ok →
              (ss_calibrate K dev p caltp cond log).rv
                  = (dev (log ++ [firstRefCmd p.itype])
                      (SsCmd.so_do_ParameterDownload p.dstd ss_wbt.ss_wbt_Abs p.illum
                        p.obsv)).code
                ∧ (ss_calibrate K dev p caltp cond log).cond = cond
                ∧ (ss_calibrate K dev p caltp cond log).log
                    = log ++ [firstRefCmd p.itype,
                        SsCmd.so_do_ParameterDownload p.dstd ss_wbt.ss_wbt_Abs p.illum p.obsv])
          ∧ ((dev log (firstRefCmd p.itype)).code = K.inst_ok →
              (dev (log ++ [firstRefCmd p.itype])
                (SsCmd.so_do_ParameterDownload p.dstd ss_wbt.ss_wbt_Abs p.illum p.obsv)).code
                = K.inst_ok →
              (dev (log ++ [firstRefCmd p.itype,
                  SsCmd.so_do_ParameterDownload p.dstd ss_wbt.ss_wbt_Abs p.illum p.obsv])
                (SsCmd.so_do_WhiteReferenceRequest
                  (if illum_class K p = K.inst_mode_emission then K.ss_aft_NoFilter
                    else p.filt))).code ≠ K.inst_ok →
              (ss_calibrate K dev p caltp cond log).rv
                  = (dev (log ++ [firstRefCmd p.itype,
                        SsCmd.so_do_ParameterDownload p.dstd ss_wbt.ss_wbt_Abs p.illum p.obsv])
                      (SsCmd.so_do_WhiteReferenceRequest
                        (if illum_class K p = K.inst_mode_emission then K.ss_aft_NoFilter
                          else p.filt))).code
                ∧ (ss_calibrate K dev p caltp cond log).cond = cond
                ∧ (ss_calibrate K dev p caltp cond log).log = log ++ refPrepCmds K p))
      ∧ (resolve_calt K p caltp = inst_cal_type.inst_calt_trans_white →
          illum_class K p = K.inst_mode_transmission →
          cond ≠ inst_cal_cond.inst_calc_man_trans_white →
          (ss_calibrate K dev p caltp cond log).rv = K.inst_cal_setup
            ∧ (ss_calibrate K dev p caltp cond log).cond
                = inst_cal_cond.inst_calc_man_trans_white
            ∧ (ss_calibrate K dev p caltp cond log).p.need_t_cal = p.need_t_cal
            ∧ (ss_calibrate K dev p caltp cond log).p.calcount = p.calcount
            ∧ (ss_calibrate K dev p caltp cond log).log = log) := by
  constructor
  · intro hres hauto hcond
    have hs := cal_ref_white_core_setup K dev p cond log hi hauto hcond
    have hf := cal_ref_white_core_fail K dev p cond log hi hauto hcond
    have hn := cal_ref_white_core_nocredit K dev
      { p := p, cond := cond, id := "", rv := K.inst_ok, log := log }
    cases hcore : cal_ref_white_core K dev
        { p := p, cond := cond, id := "", rv := K.inst_ok, log := log } with
    | go t => rw [hcore] at hs; exact absurd hs id
    | ret c t =>
      rw [hcore] at hs hf hn
      have hr : ss_calibrate K dev p caltp cond log = { t with rv := c } :=
        ss_calibrate_imp_ref_core_ret K dev p caltp cond log c t hres hcore
      rw [hr]
      obtain ⟨⟨n, hlog⟩, hok⟩ := hs
      obtain ⟨f1, f2, f3⟩ := hf
      refine ⟨⟨n, hlog⟩, ?_, hn.1.2.2, hn.1.1, hok, f1, f2, f3⟩
      intro mm l hl
      have hl2 : l = (refPrepCmds K p).take n :=
        List.append_cancel_left (hl.symm.trans hlog)
      rw [hl2]
      exact execRef_not_mem_prep K p mm n
  · intro hres hm hcond
    have hr : ss_calibrate K dev p caltp cond log
        = (cal_trans_white K dev
            { p := p, cond := cond, id := "", rv := K.inst_ok, log := log }).finish :=
      ss_calibrate_imp_trans_direct K dev p caltp cond log hres hm
    rw [hr]
    simp [cal_trans_white, hi, hcond, Flow.finish]

/-- C11 (amended), instance: a Spectrolino that answers every command, with
the reflective request in reflective mode and the transmissive request in
transmission mode, both made with condition `inst_calc_none`; the reflective
request on an instrument that does not answer at all, which returns the code
`0x040031` of the first command, and on one that fails the third command
only, which returns that command's code; the condition stays
`inst_calc_none` in both. -/
theorem ss_calibrate_needs_setup_witness :
    ((ss_calibrate sampleSs devGood { ssHandle instType.instSpectrolino 0x11 with need_w_cal := 1 }
        inst_cal_type.inst_calt_ref_white inst_cal_cond.inst_calc_none []).rv
        = sampleSs.inst_cal_setup
      ∧ (ss_calibrate sampleSs devGood
          { ssHandle instType.instSpectrolino 0x11 with need_w_cal := 1 }
          inst_cal_type.inst_calt_ref_white inst_cal_cond.inst_calc_none []).cond
          = inst_cal_cond.inst_calc_man_ref_white
      ∧ (ss_calibrate sampleSs devGood
          { ssHandle instType.instSpectrolino 0x11 with need_w_cal := 1 }
          inst_cal_type.inst_calt_ref_white inst_cal_cond.inst_calc_none []).log
          = [] ++ refPrepCmds sampleSs
              { ssHandle instType.instSpectrolino 0x11 with need_w_cal := 1 })
      ∧ (ss_calibrate sampleSs devGood
          { ssHandle instType.instSpectrolino 0x12 with need_t_cal := 1 }
          inst_cal_type.inst_calt_trans_white inst_cal_cond.inst_calc_none []).rv
          = sampleSs.inst_cal_setup
      ∧ ((ss_calibrate sampleSs devDown
          { ssHandle instType.instSpectrolino 0x11 with need_w_cal := 1 }
          inst_cal_type.inst_calt_ref_white inst_cal_cond.inst_calc_none []).rv
          = (devDown [] (firstRefCmd instType.instSpectrolino)).code
        ∧ (ss_calibrate sampleSs devDown
          { ssHandle instType.instSpectrolino 0x11 with need_w_cal := 1 }
          inst_cal_type.inst_calt_ref_white inst_cal_cond.inst_calc_none []).cond
          = inst_cal_cond.inst_calc_none
        ∧ (ss_calibrate sampleSs devDown
          { ssHandle instType.instSpectrolino 0x11 with need_w_cal := 1 }
          inst_cal_type.inst_calt_ref_white inst_cal_cond.inst_calc_none []).log
          = [] ++ [firstRefCmd instType.instSpectrolino])
      ∧ (ss_calibrate sampleSs devNoRef
          { ssHandle instType.instSpectrolino 0x11 with need_w_cal := 1 }
          inst_cal_type.inst_calt_ref_white inst_cal_cond.inst_calc_none []).rv = 0x040031 :=
  ⟨((ss_calibrate_needs_setup sampleSs devGood
      { ssHandle instType.instSpectrolino 0x11 with need_w_cal := 1 }
      inst_cal_type.inst_calt_ref_white inst_cal_cond.inst_calc_none [] rfl).1
      (by decide) rfl (by decide)).2.2.2.2.1 (by decide) (by decide) (by decide),
   ((ss_calibrate_needs_setup sampleSs devGood
      { ssHandle instType.instSpectrolino 0x12 with need_t_cal := 1 }
      inst_cal_type.inst_calt_trans_white inst_cal_cond.inst_calc_none [] rfl).2
      (by decide) (by decide) (by decide)).1,
   ((ss_calibrate_needs_setup sampleSs devDown
      { ssHandle instType.instSpectrolino 0x11 with need_w_cal := 1 }
      inst_cal_type.inst_calt_ref_white inst_cal_cond.inst_calc_none [] rfl).1
      (by decide) rfl (by decide)).2.2.2.2.2.1 (by decide),
   (((ss_calibrate_needs_setup sampleSs devNoRef
      { ssHandle instType.instSpectrolino 0x11 with need_w_cal := 1 }
      inst_cal_type.inst_calt_ref_white inst_cal_cond.inst_calc_none [] rfl).1
      (by decide) rfl (by decide)).2.2.2.2.2.2.2 (by decide) (by decide) (by decide)).1⟩

/-- C12 (as stated, refuted): a SpectroScanT in transmission mode with
`need_w_cal = 1`, `need_t_cal = 1` and `calcount = 7` is asked for
`inst_calt_all`; the reflective white calibration succeeds, the white
measurement of the transmissive calibration is interrupted.  `ss_calibrate`
returns the interrupt code and `need_t_cal` is still 1, but `calcount` is 0,
not 7. -/
theorem ss_calibrate_trans_abort_after_ref :
    (ss_calibrate sampleSs devTransAbort
        { ssHandle instType.instSpectroScanT 0x12 with
          calcount := 7, need_w_cal := 1, need_t_cal := 1 }
        inst_cal_type.inst_calt_all inst_cal_cond.inst_calc_none []).rv = 0x070035
      ∧ (ss_calibrate sampleSs devTransAbort
        { ssHandle instType.instSpectroScanT 0x12 with
          calcount := 7, need_w_cal := 1, need_t_cal := 1 }
        inst_cal_type.inst_calt_all inst_cal_cond.inst_calc_none []).p.need_t_cal = 1
      ∧ (ss_calibrate sampleSs devTransAbort
        { ssHandle instType.instSpectroScanT 0x12 with
          calcount := 7, need_w_cal := 1, need_t_cal := 1 }
        inst_cal_type.inst_calt_all inst_cal_cond.inst_calc_none []).p.calcount = 0
      ∧ (ss_calibrate sampleSs devTransAbort
        { ssHandle instType.instSpectroScanT 0x12 with
          calcount := 7, need_w_cal := 1, need_t_cal := 1 }
        inst_cal_type.inst_calt_all inst_cal_cond.inst_calc_none []).p.need_w_cal = 0
      ∧ (ss_calibrate sampleSs devTransAbort
        { ssHandle instType.instSpectroScanT 0x12 with
          calcount := 7, need_w_cal := 1, need_t_cal := 1 }
        inst_cal_type.inst_calt_all inst_cal_cond.inst_calc_none []).log.getLast?
          = some (SsCmd.so_do_ExecRefMeasurement ss_mmt.ss_mmt_WhiteCalWithWarn) := by
  decide

/-- C12 (amended): no `return` inside a calibration gives credit for it.
(A) Whatever ends the reflective white calibration before its reset
(lines 1177 to 1276) is what `ss_calibrate` returns, and `need_w_cal`,
`need_t_cal` and `calcount` are as on entry.  (B) The same holds for a
transmissive white calibration performed on its own.  (C) When
`inst_calt_all` performs the transmissive calibration after a reflective one
that ran to its end, a `return` inside the transmissive part is what
`ss_calibrate` returns and `need_t_cal` is as on entry, while `calcount` and
`need_w_cal` are as the reflective calibration left them: zero when
auto-calibration is enabled.  Each value returned is `inst_cal_setup` or the
code the instrument gave to the last command sent. -/
theorem ss_calibrate_no_partial_credit (K : SsConsts) (dev : Instrument) (p : ss)
    (caltp : inst_cal_type) (cond : inst_cal_cond) (log : List SsCmd) :
    (resolve_calt K p caltp = inst_cal_type.inst_calt_ref_white →
        ∀ c t, cal_ref_white_core K dev
            { p := p, cond := cond, id := "", rv := K.inst_ok, log := log } = Flow.ret c t →
          (ss_calibrate K dev p caltp cond log).rv = c
            ∧ RetOf K dev c (ss_calibrate K dev p caltp cond log)
            ∧ (ss_calibrate K dev p caltp cond log).p.need_w_cal = p.need_w_cal
            ∧ (ss_calibrate K dev p caltp cond log).p.need_t_cal = p.need_t_cal
            ∧ (ss_calibrate K dev p caltp cond log).p.calcount = p.calcount)
      ∧ (resolve_calt K p caltp = inst_cal_type.inst_calt_trans_white →
          illum_class K p = K.inst_mode_transmission →
          ∀ c t, cal_trans_white K dev
              { p := p, cond := cond, id := "", rv := K.inst_ok, log := log } = Flow.ret c t →
            (ss_calibrate K dev p caltp cond log).rv = c
              ∧ RetOf K dev c (ss_calibrate K dev p caltp cond log)
              ∧ (ss_calibrate K dev p caltp cond log).p.need_w_cal = p.need_w_cal
              ∧ (ss_calibrate K dev p caltp cond log).p.need_t_cal = p.need_t_cal
              ∧ (ss_calibrate K dev p caltp cond log).p.calcount = p.calcount)
      ∧ (p.need_w_cal ≠ 0 → p.need_t_cal ≠ 0 → illum_class K p = K.inst_mode_transmission →
          ∀ s1 c t, cal_ref_white K dev
              { p := p, cond := cond, id := "", rv := K.inst_ok, log := log } = Flow.go s1 →
            cal_trans_white K dev s1 = Flow.ret c t →
            (ss_calibrate K dev p inst_cal_type.inst_calt_all cond log).rv = c
              ∧ RetOf K dev c (ss_calibrate K dev p inst_cal_type.inst_calt_all cond log)
              ∧ (ss_calibrate K dev p inst_cal_type.inst_calt_all cond log).p.need_t_cal
                  = p.need_t_cal
              ∧ (ss_calibrate K dev p inst_cal_type.inst_calt_all cond log).p.calcount
                  = s1.p.calcount
              ∧ (ss_calibrate K dev p inst_cal_type.inst_calt_all cond log).p.need_w_cal
                  = s1.p.need_w_cal
              ∧ (p.noautocalib = 0 →
                  (ss_calibrate K dev p inst_cal_type.inst_calt_all cond log).p.calcount = 0
                    ∧ (ss_calibrate K dev p inst_cal_type.inst_calt_all cond log).p.need_w_cal
                        = 0)) := by
  refine ⟨?_, ?_, ?_⟩
  · intro hres c t hcore
    have hn := cal_ref_white_core_nocredit K dev
      { p := p, cond := cond, id := "", rv := K.inst_ok, log := log }
    rw [hcore] at hn
    have hr : ss_calibrate K dev p caltp cond log = { t with rv := c } :=
      ss_calibrate_imp_ref_core_ret K dev p caltp cond log c t hres hcore
    rw [hr]
    exact ⟨rfl, hn.2, hn.1.1, hn.1.2.1, hn.1.2.2⟩
  · intro hres hm c t htr
    have hn := cal_trans_white_nocredit K dev
      { p := p, cond := cond, id := "", rv := K.inst_ok, log := log }
    rw [htr] at hn
    have hr : ss_calibrate K dev p caltp cond log
        = (cal_trans_white K dev
            { p := p, cond := cond, id := "", rv := K.inst_ok, log := log }).finish :=
      ss_calibrate_imp_trans_direct K dev p caltp cond log hres hm
    rw [hr, htr]
    exact ⟨rfl, hn.2, hn.1.1, hn.1.2.1, hn.1.2.2⟩
  · intro hw ht hm s1 c t hgo htr
    have hn := cal_trans_white_nocredit K dev s1
    rw [htr] at hn
    have hr : ss_calibrate K dev p inst_cal_type.inst_calt_all cond log
        = (cal_trans_white K dev s1).finish :=
      ss_calibrate_imp_trans_after_ref K dev p cond log s1 hw ht hm hgo
    have hsp := cal_ref_white_spec K False dev
      { p := p, cond := cond, id := "", rv := K.inst_ok, log := log } False.elim False.elim
    rw [hgo] at hsp
    rw [hr, htr]
    refine ⟨rfl, hn.2, ?_, hn.1.2.2, hn.1.1, ?_⟩
    · exact hn.1.2.1.trans (cal_ref_white_go_need_t K dev _ s1 hgo)
    · intro hauto
      have hd := hsp.2.2 hauto
      exact ⟨hn.1.2.2.trans hd.1, hn.1.1.trans hd.2⟩

/-- C12 (amended), instance: an instrument that does not answer.  A
SpectroScan asked for a reflective white calibration and a SpectroScanT in
transmission mode asked for the transmissive one both get the failure code
back, with flags and count as on entry; and `devTransAbort`, where the
transmissive part of `inst_calt_all` is interrupted after the reflective part
has completed. -/
theorem ss_calibrate_no_partial_credit_witness :
    ((ss_calibrate sampleSs devDown
          { ssHandle instType.instSpectroScan 0x11 with calcount := 7, need_w_cal := 1 }
          inst_cal_type.inst_calt_ref_white inst_cal_cond.inst_calc_none []).rv = 0x040031
      ∧ (ss_calibrate sampleSs devDown
          { ssHandle instType.instSpectroScan 0x11 with calcount := 7, need_w_cal := 1 }
          inst_cal_type.inst_calt_ref_white inst_cal_cond.inst_calc_none []).p.need_w_cal = 1
      ∧ (ss_calibrate sampleSs devDown
          { ssHandle instType.instSpectroScan 0x11 with calcount := 7, need_w_cal := 1 }
          inst_cal_type.inst_calt_ref_white inst_cal_cond.inst_calc_none []).p.calcount = 7)
      ∧ ((ss_calibrate sampleSs devDown
          { ssHandle instType.instSpectroScanT 0x12 with calcount := 7, need_t_cal := 1 }
          inst_cal_type.inst_calt_trans_white inst_cal_cond.inst_calc_none []).rv = 0x040031
        ∧ (ss_calibrate sampleSs devDown
          { ssHandle instType.instSpectroScanT 0x12 with calcount := 7, need_t_cal := 1 }
          inst_cal_type.inst_calt_trans_white inst_cal_cond.inst_calc_none []).p.need_t_cal = 1
        ∧ (ss_calibrate sampleSs devDown
          { ssHandle instType.instSpectroScanT 0x12 with calcount := 7, need_t_cal := 1 }
          inst_cal_type.inst_calt_trans_white inst_cal_cond.inst_calc_none []).p.calcount = 7)
      ∧ ((ss_calibrate sampleSs devTransAbort
          { ssHandle instType.instSpectroScanT 0x12 with
            calcount := 7, need_w_cal := 1, need_t_cal := 1 }
          inst_cal_type.inst_calt_all inst_cal_cond.inst_calc_none []).rv = 0x070035
        ∧ (ss_calibrate sampleSs devTransAbort
          { ssHandle instType.instSpectroScanT 0x12 with
            calcount := 7, need_w_cal := 1, need_t_cal := 1 }
          inst_cal_type.inst_calt_all inst_cal_cond.inst_calc_none []).p.need_t_cal = 1
        ∧ (ss_calibrate sampleSs devTransAbort
          { ssHandle instType.instSpectroScanT 0x12 with
            calcount := 7, need_w_cal := 1, need_t_cal := 1 }
          inst_cal_type.inst_calt_all inst_cal_cond.inst_calc_none []).p.calcount = 0) :=
  ⟨(fun h => ⟨h.1, h.2.2.1, h.2.2.2.2⟩)
      ((ss_calibrate_no_partial_credit sampleSs devDown
        { ssHandle instType.instSpectroScan 0x11 with calcount := 7, need_w_cal := 1 }
        inst_cal_type.inst_calt_ref_white inst_cal_cond.inst_calc_none []).1
        (by decide) 0x040031 _ rfl),
    (fun h => ⟨h.1, h.2.2.2.1, h.2.2.2.2⟩)
      ((ss_calibrate_no_partial_credit sampleSs devDown
        { ssHandle instType.instSpectroScanT 0x12 with calcount := 7, need_t_cal := 1 }
        inst_cal_type.inst_calt_trans_white inst_cal_cond.inst_calc_none []).2.1
        (by decide) (by decide) 0x040031 _ rfl),
    (fun h => ⟨h.1, h.2.2.1, (h.2.2.2.2.2 rfl).1⟩)
      ((ss_calibrate_no_partial_credit sampleSs devTransAbort
        { ssHandle instType.instSpectroScanT 0x12 with
          calcount := 7, need_w_cal := 1, need_t_cal := 1 }
        inst_cal_type.inst_calt_all inst_cal_cond.inst_calc_none []).2.2
        (by decide) (by decide) (by decide) _ 0x070035 _ rfl rfl)⟩

/-! ## Lemmas on the bit operations -/

theorem int_eq_of_testBit {m n : Int} (h : ∀ k, Int.testBit m k = Int.testBit n k) : m = n := by
  cases m with
  | ofNat a =>
    cases n with
    | ofNat b =>
      congr 1
      exact Nat.eq_of_testBit_eq h
    | negSucc b =>
      exfalso
      have h1 := h (max a b)
      have ha : Nat.testBit a (max a b) = false :=
        Nat.testBit_lt_two_pow (lt_of_lt_of_le (Nat.lt_two_pow a)
          (Nat.pow_le_pow_right (by decide) (le_max_left a b)))
      have hb : Nat.testBit b (max a b) = false :=
        Nat.testBit_lt_two_pow (lt_of_lt_of_le (Nat.lt_two_pow b)
          (Nat.pow_le_pow_right (by decide) (le_max_right a b)))
      simp [Int.testBit, ha, hb] at h1
  | negSucc a =>
    cases n with
    | ofNat b =>
      exfalso
      have h1 := h (max a b)
      have ha : Nat.testBit a (max a b) = false :=
        Nat.testBit_lt_two_pow (lt_of_lt_of_le (Nat.lt_two_pow a)
          (Nat.pow_le_pow_right (by decide) (le_max_left a b)))
      have hb : Nat.testBit b (max a b) = false :=
        Nat.testBit_lt_two_pow (lt_of_lt_of_le (Nat.lt_two_pow b)
          (Nat.pow_le_pow_right (by decide) (le_max_right a b)))
      simp [Int.testBit, ha, hb] at h1
    | negSucc b =>
      congr 1
      apply Nat.eq_of_testBit_eq
      intro k
      have h1 := h k
      simpa [Int.testBit] using h1

theorem iand_right_idem (a m : Int) : iand (iand a m) m = iand a m := by
  apply int_eq_of_testBit
  intro k
  simp [iand, Int.testBit_land, Bool.and_assoc]

theorem iand_assoc (a b c : Int) : iand (iand a b) c = iand a (iand b c) := by
  apply int_eq_of_testBit
  intro k
  simp [iand, Int.testBit_land, Bool.and_assoc]

theorem iand_ior (a b m : Int) : iand (ior a b) m = ior (iand a m) (iand b m) := by
  apply int_eq_of_testBit
  intro k
  simp [iand, ior, Int.testBit_land, Int.testBit_lor, Bool.and_or_distrib_right]

theorem ior_zero_left (a : Int) : ior 0 a = a := by
  apply int_eq_of_testBit
  intro k
  have h0 : Int.testBit 0 k = false := by
    show Nat.testBit 0 k = false
    exact Nat.zero_testBit k
  simp [ior, Int.testBit_lor, h0]

theorem iand_one (x : Int) (h : 0 ≤ x) : iand x 1 = x % 2 := by
  obtain ⟨n, rfl⟩ := Int.eq_ofNat_of_zero_le h
  show Int.land (Int.ofNat n) (Int.ofNat 1) = _
  simp only [Int.land]
  rw [Nat.and_one_is_mod]
  rfl

/-! ## Results on hcfr.c: trigger and error codes -/

theorem hcfr_interp_user_abort (K : Consts) (hK : K.WF) :
    hcfr_interp_code K K.HCFR_USER_ABORT = ior K.inst_user_abort K.HCFR_USER_ABORT := by
  obtain ⟨hnd, hin⟩ := hK
  have hm : iand K.HCFR_USER_ABORT K.inst_imask = K.HCFR_USER_ABORT :=
    hin _ (by simp [Consts.labels])
  simp only [Consts.labels, List.nodup_cons, List.mem_cons, List.mem_singleton, not_or] at hnd
  simp only [hcfr_interp_code, hm]
  obtain ⟨h0, h1, h2, h3, h4, -⟩ := hnd
  rw [if_neg (Ne.symm h0.2.2.2.2.1), if_neg (Ne.symm h1.2.2.2.1),
    if_neg (Ne.symm h2.2.2.1), if_neg (Ne.symm h3.2.1), if_neg (Ne.symm h4.1)]
  simp

/-- C19: in keyboard-trigger mode, when `icoms_poll_user` reports the abort
key (`ICOM_USER`), `hcfr_read_sample` returns `inst_user_abort |
HCFR_USER_ABORT`, sends no command and leaves `*val` as it was; and for every
poll result other than `ICOM_TRIG` it returns the interpreted poll result,
sends no command and leaves `*val` as it was.  The hypotheses on the header:
the `switch` labels are distinct and inside `inst_imask`, and `ICOM_USER` is
a non-zero value inside `ICOM_USERM`, other than `ICOM_TRIG`. -/
theorem hcfr_read_sample_keyb_abort (K : Consts)
    (icmMulBy3x3 : (Nat → Nat → ℚ) → (Nat → ℚ) → (Nat → ℚ))
    (p : hcfr) (poll se : Int) (buf : List Char) (rgb : Nat → ℚ) (val : ipatch)
    (hK : K.WF) (hu : iand K.ICOM_USER K.ICOM_USERM = K.ICOM_USER) (hu0 : K.ICOM_USER ≠ 0)
    (hut : K.ICOM_USER ≠ K.ICOM_TRIG)
    (ht : p.trig = inst_opt_mode.inst_opt_trig_keyb) :
    (poll = K.ICOM_USER →
        hcfr_read_sample K icmMulBy3x3 p poll se buf rgb val
          = { code := ior K.inst_user_abort K.HCFR_USER_ABORT, val := val, cmds := 0 })
      ∧ (poll ≠ K.ICOM_TRIG →
          hcfr_read_sample K icmMulBy3x3 p poll se buf rgb val
            = { code := hcfr_interp_code K (icoms2hcfr_err K poll), val := val, cmds := 0 }) := by
  constructor
  · intro hp
    subst hp
    have he : icoms2hcfr_err K K.ICOM_USER = K.HCFR_USER_ABORT := by
      simp [icoms2hcfr_err, hu, hu0]
    simp only [hcfr_read_sample, ht, true_and, ne_eq, hut, not_false_eq_true, if_true, he,
      hcfr_interp_user_abort K hK]
  · intro hp
    simp only [hcfr_read_sample, ht, true_and, ne_eq, hp, not_false_eq_true, if_true]

/-- C19, instance: the abort key in keyboard-trigger mode gives `0x070065`,
which is not `inst_ok`, no command and an untouched `*val`; the terminate key
(`ICOM_TERM`) gives no command either. -/
theorem hcfr_read_sample_keyb_abort_witness :
    hcfr_read_sample sampleConsts mul3x3 hcfrKeyb sampleConsts.ICOM_USER 0 reply156 rgb0 ipatch0
        = { code := ior sampleConsts.inst_user_abort sampleConsts.HCFR_USER_ABORT,
            val := ipatch0, cmds := 0 }
      ∧ ior sampleConsts.inst_user_abort sampleConsts.HCFR_USER_ABORT = 0x070065
      ∧ (hcfr_read_sample sampleConsts mul3x3 hcfrKeyb sampleConsts.ICOM_TERM 0 reply156 rgb0
          ipatch0).cmds = 0 :=
  ⟨(hcfr_read_sample_keyb_abort sampleConsts mul3x3 hcfrKeyb sampleConsts.ICOM_USER 0 reply156
      rgb0 ipatch0 (by decide) (by decide) (by decide) (by decide) rfl).1 rfl,
   by decide,
   congrArg ReadOut.cmds
     ((hcfr_read_sample_keyb_abort sampleConsts mul3x3 hcfrKeyb sampleConsts.ICOM_TERM 0
      reply156 rgb0 ipatch0 (by decide) (by decide) (by decide) (by decide) rfl).2
      (by decide))⟩

/-- C20: under the `inst.h` layout (class constants outside `inst_imask`, low
bits of `inst_ok` equal to `HCFR_OK`), for every code `ec` the bits of
`hcfr_interp_code ec` inside `inst_imask` are `ec & inst_imask`; two codes
with the same masked value get the same result, class bits included; and the
result is `inst_ok` exactly when the masked value is `HCFR_OK`. -/
theorem hcfr_interp_code_keeps_subcode (K : Consts) (hK : K.Split) (ec : Int) :
    iand (hcfr_interp_code K ec) K.inst_imask = iand ec K.inst_imask
      ∧ (∀ ec2, iand ec2 K.inst_imask = iand ec K.inst_imask →
          hcfr_interp_code K ec2 = hcfr_interp_code K ec)
      ∧ (hcfr_interp_code K ec = K.inst_ok ↔ iand ec K.inst_imask = K.HCFR_OK) := by
  obtain ⟨hok, hcls⟩ := hK
  simp only [Consts.classes, List.mem_cons, List.mem_singleton, forall_eq_or_imp, forall_eq,
    List.not_mem_nil, false_implies, implies_true, and_true] at hcls
  obtain ⟨c1, c2, c3, c4, c5, c6, c7, c8, c9, c10, c11⟩ := hcls
  have he : iand (iand ec K.inst_imask) K.inst_imask = iand ec K.inst_imask :=
    iand_right_idem ec K.inst_imask
  have h1 : iand (hcfr_interp_code K ec) K.inst_imask = iand ec K.inst_imask := by
    unfold hcfr_interp_code
    generalize iand ec K.inst_imask = e at he
    have key : ∀ c, iand c K.inst_imask = 0 → iand (ior c e) K.inst_imask = e := by
      intro c hc
      rw [iand_ior, hc, he, ior_zero_left]
    show iand (if e = K.HCFR_OK then K.inst_ok else _) K.inst_imask = e
    by_cases g0 : e = K.HCFR_OK
    · rw [if_pos g0, hok, g0]
    rw [if_neg g0]
    by_cases g1 : e = K.HCFR_CALIB_CALC
    · rw [if_pos g1]; exact g1 ▸ key _ c1
    rw [if_neg g1]
    by_cases g2 : e = K.HCFR_COMS_FAIL
    · rw [if_pos g2]; exact g2 ▸ key _ c2
    rw [if_neg g2]
    by_cases g3 : e = K.HCFR_UNKNOWN_MODEL
    · rw [if_pos g3]; exact g3 ▸ key _ c3
    rw [if_neg g3]
    by_cases g4 : e = K.HCFR_DATA_PARSE_ERROR
    · rw [if_pos g4]; exact g4 ▸ key _ c4
    rw [if_neg g4]
    by_cases g5 : e = K.HCFR_USER_ABORT
    · rw [if_pos g5]; exact g5 ▸ key _ c5
    rw [if_neg g5]
    by_cases g6 : e = K.HCFR_USER_TERM
    · rw [if_pos g6]; exact g6 ▸ key _ c6
    rw [if_neg g6]
    by_cases g7 : e = K.HCFR_USER_TRIG
    · rw [if_pos g7]; exact g7 ▸ key _ c7
    rw [if_neg g7]
    by_cases g8 : e = K.HCFR_USER_CMND
    · rw [if_pos g8]; exact g8 ▸ key _ c8
    rw [if_neg g8]
    by_cases g9 : e = K.HCFR_BAD_READING
    · rw [if_pos g9]; exact g9 ▸ key _ c9
    rw [if_neg g9]
    by_cases g10 : e = K.HCFR_BAD_FIRMWARE
    · rw [if_pos g10]; exact g10 ▸ key _ c10
    rw [if_neg g10]
    exact key _ c11
  refine ⟨h1, ?_, ?_⟩
  · intro ec2 h2
    simp only [hcfr_interp_code, h2]
  · constructor
    · intro h
      rw [← h1, h, hok]
    · intro h
      simp only [hcfr_interp_code, h, if_true]

/-- C20, instance: the code `0x120065` has the subcode `HCFR_USER_ABORT`; its
interpretation is `0x070065`, whose low bits are `0x65`. -/
theorem hcfr_interp_code_keeps_subcode_witness :
    iand (hcfr_interp_code sampleConsts 0x120065) sampleConsts.inst_imask
        = iand 0x120065 sampleConsts.inst_imask
      ∧ iand 0x120065 sampleConsts.inst_imask = 0x65
      ∧ hcfr_interp_code sampleConsts 0x120065 = 0x070065 :=
  ⟨(hcfr_interp_code_keeps_subcode sampleConsts (by decide) 0x120065).1, by decide, by decide⟩

/-! ## Results on ss_set_mode and ss_comp_filter -/

theorem ss_set_mode_geom (K : SsConsts) (p : ss) (m : Int) :
    ss_set_mode K p m
      = if geomOk K p.cap (iand m K.inst_mode_measurement_mask) = false then
          (K.inst_unsupported, p)
        else if iand m K.inst_mode_colorimeter ≠ 0 ∧ iand p.cap K.inst_colorimeter = 0 then
          (K.inst_unsupported, p)
        else if iand m K.inst_mode_spectral ≠ 0 ∧ iand p.cap K.inst_spectral = 0 then
          (K.inst_unsupported, p)
        else if (iand m K.inst_mode_illum_mask = K.inst_mode_reflection
              ∧ iand p.mode K.inst_mode_illum_mask ≠ K.inst_mode_reflection)
            ∨ (iand m K.inst_mode_illum_mask = K.inst_mode_emission
              ∧ iand p.mode K.inst_mode_illum_mask ≠ K.inst_mode_emission)
            ∨ (iand m K.inst_mode_illum_mask = K.inst_mode_transmission
              ∧ iand p.mode K.inst_mode_illum_mask ≠ K.inst_mode_transmission) then
          if iand m K.inst_mode_illum_mask = K.inst_mode_transmission then
            (K.inst_ok, { p with nextmode := m, mode := m, need_w_cal := 1, need_t_cal := 1 })
          else (K.inst_ok, { p with nextmode := m, mode := m, need_w_cal := 1 })
        else (K.inst_ok, { p with nextmode := m }) := by
  have hg : geomOk K p.cap (iand m K.inst_mode_measurement_mask)
      = (if iand m K.inst_mode_measurement_mask = K.inst_mode_ref_spot then
          decide (iand p.cap K.inst_ref_spot ≠ 0)
        else if iand m K.inst_mode_measurement_mask = K.inst_mode_ref_strip then
          decide (iand p.cap K.inst_ref_strip ≠ 0)
        else if iand m K.inst_mode_measurement_mask = K.inst_mode_ref_xy then
          decide (iand p.cap K.inst_ref_xy ≠ 0)
        else if iand m K.inst_mode_measurement_mask = K.inst_mode_trans_spot then
          decide (iand p.cap K.inst_trans_spot ≠ 0)
        else if iand m K.inst_mode_measurement_mask = K.inst_mode_trans_strip then
          decide (iand p.cap K.inst_trans_strip ≠ 0)
        else if iand m K.inst_mode_measurement_mask = K.inst_mode_trans_xy then
          decide (iand p.cap K.inst_trans_xy ≠ 0)
        else if iand m K.inst_mode_measurement_mask = K.inst_mode_emis_spot then
          decide (iand p.cap K.inst_emis_spot ≠ 0)
        else if iand m K.inst_mode_measurement_mask = K.inst_mode_emis_disp then
          decide (iand p.cap K.inst_emis_disp ≠ 0)
        else if iand m K.inst_mode_measurement_mask = K.inst_mode_emis_illum then
          decide (iand p.cap K.inst_emis_illum ≠ 0)
        else false) := by
    generalize iand m K.inst_mode_measurement_mask = mm
    unfold geomOk geometry_cap geometries
    by_cases h1 : mm = K.inst_mode_ref_spot
    · simp only [List.find?, decide_eq_true h1, if_pos h1, Option.map]
    by_cases h2 : mm = K.inst_mode_ref_strip
    · simp only [List.find?, decide_eq_false h1, if_neg h1, decide_eq_true h2, if_pos h2,
        Option.map]
    by_cases h3 : mm = K.inst_mode_ref_xy
    · simp only [List.find?, decide_eq_false h1, if_neg h1, decide_eq_false h2, if_neg h2,
        decide_eq_true h3, if_pos h3, Option.map]
    by_cases h4 : mm = K.inst_mode_trans_spot
    · simp only [List.find?, decide_eq_false h1, if_neg h1, decide_eq_false h2, if_neg h2,
        decide_eq_false h3, if_neg h3, decide_eq_true h4, if_pos h4, Option.map]
    by_cases h5 : mm = K.inst_mode_trans_strip
    · simp only [List.find?, decide_eq_false h1, if_neg h1, decide_eq_false h2, if_neg h2,
        decide_eq_false h3, if_neg h3, decide_eq_false h4, if_neg h4, decide_eq_true h5, if_pos
        h5, Option.map]
    by_cases h6 : mm = K.inst_mode_trans_xy
    · simp only [List.find?, decide_eq_false h1, if_neg h1, decide_eq_false h2, if_neg h2,
        decide_eq_false h3, if_neg h3, decide_eq_false h4, if_neg h4, decide_eq_false h5, if_neg
        h5, decide_eq_true h6, if_pos h6, Option.map]
    by_cases h7 : mm = K.inst_mode_emis_spot
    · simp only [List.find?, decide_eq_false h1, if_neg h1, decide_eq_false h2, if_neg h2,
        decide_eq_false h3, if_neg h3, decide_eq_false h4, if_neg h4, decide_eq_false h5, if_neg
        h5, decide_eq_false h6, if_neg h6, decide_eq_true h7, if_pos h7, Option.map]
    by_cases h8 : mm = K.inst_mode_emis_disp
    · simp only [List.find?, decide_eq_false h1, if_neg h1, decide_eq_false h2, if_neg h2,
        decide_eq_false h3, if_neg h3, decide_eq_false h4, if_neg h4, decide_eq_false h5, if_neg
        h5, decide_eq_false h6, if_neg h6, decide_eq_false h7, if_neg h7, decide_eq_true h8,
        if_pos h8, Option.map]
    by_cases h9 : mm = K.inst_mode_emis_illum
    · simp only [List.find?, decide_eq_false h1, if_neg h1, decide_eq_false h2, if_neg h2,
        decide_eq_false h3, if_neg h3, decide_eq_false h4, if_neg h4, decide_eq_false h5, if_neg
        h5, decide_eq_false h6, if_neg h6, decide_eq_false h7, if_neg h7, decide_eq_false h8,
        if_neg h8, decide_eq_true h9, if_pos h9, Option.map]
    simp only [List.find?, decide_eq_false h1, if_neg h1, decide_eq_false h2, if_neg h2,
        decide_eq_false h3, if_neg h3, decide_eq_false h4, if_neg h4, decide_eq_false h5, if_neg
        h5, decide_eq_false h6, if_neg h6, decide_eq_false h7, if_neg h7, decide_eq_false h8,
        if_neg h8, decide_eq_false h9, if_neg h9, Option.map]
  unfold ss_set_mode
  simp only [← hg]

/-- C13: `ss_set_mode` returns `inst_unsupported` whenever the geometry of `m`
(`m & inst_mode_measurement_mask`) is not one of the nine known geometries, or
its capability bit is absent from the capability mask, or `m` carries the
colorimeter or the spectral flag and the mask lacks it; and, the codes
`inst_ok` and `inst_unsupported` being different, whenever it returns
`inst_unsupported` the handle is exactly as it was (`mode`, `nextmode`,
`need_w_cal`, `need_t_cal` and `calcount` included). -/
theorem ss_set_mode_unsupported (K : SsConsts) (p : ss) (m : Int) :
    ((geometry_cap K (iand m K.inst_mode_measurement_mask) = none
          ∨ (∃ c, geometry_cap K (iand m K.inst_mode_measurement_mask) = some c
              ∧ iand p.cap c = 0)
          ∨ (iand m K.inst_mode_colorimeter ≠ 0 ∧ iand p.cap K.inst_colorimeter = 0)
          ∨ (iand m K.inst_mode_spectral ≠ 0 ∧ iand p.cap K.inst_spectral = 0)) →
        (ss_set_mode K p m).1 = K.inst_unsupported)
      ∧ (K.inst_ok ≠ K.inst_unsupported →
          (ss_set_mode K p m).1 = K.inst_unsupported → (ss_set_mode K p m).2 = p) := by
  rw [ss_set_mode_geom]
  constructor
  · intro h
    by_cases g0 : geomOk K p.cap (iand m K.inst_mode_measurement_mask) = false
    · rw [if_pos g0]
    rw [if_neg g0]
    rcases h with h | ⟨c, hc, hz⟩ | h | h
    · exact absurd (by simp [geomOk, h]) g0
    · exact absurd (by simp [geomOk, hc, hz]) g0
    · rw [if_pos h]
    · by_cases g1 : iand m K.inst_mode_colorimeter ≠ 0 ∧ iand p.cap K.inst_colorimeter = 0
      · rw [if_pos g1]
      · rw [if_neg g1, if_pos h]
  · intro hne h
    by_cases g0 : geomOk K p.cap (iand m K.inst_mode_measurement_mask) = false
    · rw [if_pos g0]
    rw [if_neg g0] at h ⊢
    by_cases g1 : iand m K.inst_mode_colorimeter ≠ 0 ∧ iand p.cap K.inst_colorimeter = 0
    · rw [if_pos g1]
    rw [if_neg g1] at h ⊢
    by_cases g2 : iand m K.inst_mode_spectral ≠ 0 ∧ iand p.cap K.inst_spectral = 0
    · rw [if_pos g2]
    rw [if_neg g2] at h ⊢
    exfalso
    split_ifs at h <;> exact hne h

/-- C13, instance: a Spectrolino (no `inst_ref_xy` capability) asked for the
reflective grid mode `0x31`, and asked for the unknown geometry `0x77`: both
requests are refused and the handle, here with `calcount = 7`, is as it was. -/
theorem ss_set_mode_unsupported_witness :
    ((ss_set_mode sampleSs { ssHandle instType.instSpectrolino 0x11 with calcount := 7 } 0x31).1
        = sampleSs.inst_unsupported
      ∧ (ss_set_mode sampleSs { ssHandle instType.instSpectrolino 0x11 with calcount := 7 }
          0x31).2 = { ssHandle instType.instSpectrolino 0x11 with calcount := 7 })
      ∧ (ss_set_mode sampleSs { ssHandle instType.instSpectrolino 0x11 with calcount := 7 }
          0x77).1 = sampleSs.inst_unsupported :=
  ⟨⟨(ss_set_mode_unsupported sampleSs
        { ssHandle instType.instSpectrolino 0x11 with calcount := 7 } 0x31).1
      (Or.inr (Or.inl ⟨sampleSs.inst_ref_xy, by decide, by decide⟩)),
    (ss_set_mode_unsupported sampleSs
        { ssHandle instType.instSpectrolino 0x11 with calcount := 7 } 0x31).2
      (by decide) (by decide)⟩,
   (ss_set_mode_unsupported sampleSs
        { ssHandle instType.instSpectrolino 0x11 with calcount := 7 } 0x77).1
      (Or.inl (by decide))⟩

theorem geomOk_class (K : SsConsts) (hK : K.Classed) (cap m : Int)
    (h : geomOk K cap (iand m K.inst_mode_measurement_mask) ≠ false) :
    iand m K.inst_mode_illum_mask = K.inst_mode_reflection
      ∨ iand m K.inst_mode_illum_mask = K.inst_mode_transmission
      ∨ iand m K.inst_mode_illum_mask = K.inst_mode_emission := by
  obtain ⟨hmask, hgeo⟩ := hK
  have hm : iand m K.inst_mode_illum_mask
      = iand (iand m K.inst_mode_measurement_mask) K.inst_mode_illum_mask := by
    rw [iand_assoc, hmask]
  rw [hm]
  unfold geomOk geometry_cap at h
  cases hf : (geometries K).find? fun g => decide (iand m K.inst_mode_measurement_mask = g.1) with
  | none => rw [hf] at h; exact absurd rfl h
  | some g =>
    have hmem := List.mem_of_find?_eq_some hf
    have heq := List.find?_some hf
    simp only [decide_eq_true_eq] at heq
    rw [heq]
    exact hgeo g hmem

/-- C14: under the `inst.h` layout of modes, for every mode `m` that
`ss_set_mode` accepts (it returns `inst_ok`, a code other than
`inst_unsupported`): if the illumination class of `m` is that of the active
mode then `need_w_cal`, `need_t_cal` and `calcount` are unchanged; if the
class differs then `need_w_cal` is set, `need_t_cal` is set when the new class
is transmission and unchanged otherwise, and `calcount` is unchanged. -/
theorem ss_set_mode_invalidates (K : SsConsts) (p : ss) (m : Int) (hK : K.Classed)
    (hne : K.inst_ok ≠ K.inst_unsupported) (hs : (ss_set_mode K p m).1 = K.inst_ok) :
    (iand m K.inst_mode_illum_mask = iand p.mode K.inst_mode_illum_mask →
        (ss_set_mode K p m).2.need_w_cal = p.need_w_cal
          ∧ (ss_set_mode K p m).2.need_t_cal = p.need_t_cal
          ∧ (ss_set_mode K p m).2.calcount = p.calcount)
      ∧ (iand m K.inst_mode_illum_mask ≠ iand p.mode K.inst_mode_illum_mask →
          (ss_set_mode K p m).2.need_w_cal = 1
            ∧ (iand m K.inst_mode_illum_mask = K.inst_mode_transmission →
                (ss_set_mode K p m).2.need_t_cal = 1)
            ∧ (iand m K.inst_mode_illum_mask ≠ K.inst_mode_transmission →
                (ss_set_mode K p m).2.need_t_cal = p.need_t_cal)
            ∧ (ss_set_mode K p m).2.calcount = p.calcount) := by
  rw [ss_set_mode_geom] at hs ⊢
  by_cases g0 : geomOk K p.cap (iand m K.inst_mode_measurement_mask) = false
  · rw [if_pos g0] at hs; exact absurd hs.symm hne
  rw [if_neg g0] at hs ⊢
  by_cases g1 : iand m K.inst_mode_colorimeter ≠ 0 ∧ iand p.cap K.inst_colorimeter = 0
  · rw [if_pos g1] at hs; exact absurd hs.symm hne
  rw [if_neg g1] at hs ⊢
  by_cases g2 : iand m K.inst_mode_spectral ≠ 0 ∧ iand p.cap K.inst_spectral = 0
  · rw [if_pos g2] at hs; exact absurd hs.symm hne
  rw [if_neg g2] at hs ⊢
  have hc := geomOk_class K hK p.cap m g0
  constructor
  · intro he
    have hno : ¬ ((iand m K.inst_mode_illum_mask = K.inst_mode_reflection
              ∧ iand p.mode K.inst_mode_illum_mask ≠ K.inst_mode_reflection)
            ∨ (iand m K.inst_mode_illum_mask = K.inst_mode_emission
              ∧ iand p.mode K.inst_mode_illum_mask ≠ K.inst_mode_emission)
            ∨ (iand m K.inst_mode_illum_mask = K.inst_mode_transmission
              ∧ iand p.mode K.inst_mode_illum_mask ≠ K.inst_mode_transmission)) := by
      rw [← he]
      rintro (⟨a, b⟩ | ⟨a, b⟩ | ⟨a, b⟩) <;> exact b a
    rw [if_neg hno]
    exact ⟨rfl, rfl, rfl⟩
  · intro he
    have hyes : (iand m K.inst_mode_illum_mask = K.inst_mode_reflection
              ∧ iand p.mode K.inst_mode_illum_mask ≠ K.inst_mode_reflection)
            ∨ (iand m K.inst_mode_illum_mask = K.inst_mode_emission
              ∧ iand p.mode K.inst_mode_illum_mask ≠ K.inst_mode_emission)
            ∨ (iand m K.inst_mode_illum_mask = K.inst_mode_transmission
              ∧ iand p.mode K.inst_mode_illum_mask ≠ K.inst_mode_transmission) := by
      rcases hc with h | h | h
      · exact Or.inl ⟨h, fun h2 => he (h.trans h2.symm)⟩
      · exact Or.inr (Or.inr ⟨h, fun h2 => he (h.trans h2.symm)⟩)
      · exact Or.inr (Or.inl ⟨h, fun h2 => he (h.trans h2.symm)⟩)
    rw [if_pos hyes]
    by_cases ht : iand m K.inst_mode_illum_mask = K.inst_mode_transmission
    · rw [if_pos ht]
      exact ⟨rfl, fun _ => rfl, fun h => absurd ht h, rfl⟩
    · rw [if_neg ht]
      exact ⟨rfl, fun h => absurd h ht, fun _ => rfl, rfl⟩

/-- C14, instance: a SpectroScanT in reflective spot mode with `calcount = 7`
and nothing stale.  The reflective grid mode `0x31` changes nothing; the
transmissive spot mode `0x12` sets both flags and keeps the count. -/
theorem ss_set_mode_invalidates_witness :
    ((ss_set_mode sampleSs { ssHandle instType.instSpectroScanT 0x11 with calcount := 7 }
          0x31).2.need_w_cal = 0
      ∧ (ss_set_mode sampleSs { ssHandle instType.instSpectroScanT 0x11 with calcount := 7 }
          0x31).2.need_t_cal = 0
      ∧ (ss_set_mode sampleSs { ssHandle instType.instSpectroScanT 0x11 with calcount := 7 }
          0x31).2.calcount = 7)
      ∧ (ss_set_mode sampleSs { ssHandle instType.instSpectroScanT 0x11 with calcount := 7 }
          0x12).2.need_w_cal = 1
      ∧ (ss_set_mode sampleSs { ssHandle instType.instSpectroScanT 0x11 with calcount := 7 }
          0x12).2.need_t_cal = 1
      ∧ (ss_set_mode sampleSs { ssHandle instType.instSpectroScanT 0x11 with calcount := 7 }
          0x12).2.calcount = 7 :=
  ⟨(ss_set_mode_invalidates sampleSs
      { ssHandle instType.instSpectroScanT 0x11 with calcount := 7 } 0x31
      (by decide) (by decide) (by decide)).1 (by decide),
   ((ss_set_mode_invalidates sampleSs
      { ssHandle instType.instSpectroScanT 0x11 with calcount := 7 } 0x12
      (by decide) (by decide) (by decide)).2 (by decide)).1,
   ((ss_set_mode_invalidates sampleSs
      { ssHandle instType.instSpectroScanT 0x11 with calcount := 7 } 0x12
      (by decide) (by decide) (by decide)).2 (by decide)).2.1 (by decide),
   ((ss_set_mode_invalidates sampleSs
      { ssHandle instType.instSpectroScanT 0x11 with calcount := 7 } 0x12
      (by decide) (by decide) (by decide)).2 (by decide)).2.2.2⟩

/-- C18: a filter file that cannot be read, or whose spectrum has a sample
count other than 36 or a range other than 380 to 730 nm, makes
`ss_comp_filter` return `inst_wrong_config` with the handle, `comp` and
`compen` included, exactly as it was; a valid spectrum gives `inst_ok`, its 36
samples in `comp[0..35]` and `compen = 1`; a null name gives `inst_ok` and
`compen = 0`, with `comp` as it was. -/
theorem ss_comp_filter_validates (K : SsConsts) (read_xspect : String → Int × xspect) (p : ss)
    (name : String) :
    (((read_xspect name).1 ≠ 0 ∨ (read_xspect name).2.spec_n ≠ 36
          ∨ (read_xspect name).2.spec_wl_short ≠ 380
          ∨ (read_xspect name).2.spec_wl_long ≠ 730) →
        ss_comp_filter K read_xspect p (some name) = (K.inst_wrong_config, p))
      ∧ ((read_xspect name).1 = 0 → (read_xspect name).2.spec_n = 36 →
          (read_xspect name).2.spec_wl_short = 380 → (read_xspect name).2.spec_wl_long = 730 →
          (ss_comp_filter K read_xspect p (some name)).1 = K.inst_ok
            ∧ (∀ i, i < 36 →
                (ss_comp_filter K read_xspect p (some name)).2.comp i
                  = (read_xspect name).2.spec i)
            ∧ (ss_comp_filter K read_xspect p (some name)).2.compen = 1)
      ∧ (ss_comp_filter K read_xspect p none).1 = K.inst_ok
      ∧ (ss_comp_filter K read_xspect p none).2.compen = 0
      ∧ (ss_comp_filter K read_xspect p none).2.comp = p.comp := by
  refine ⟨?_, ?_, rfl, rfl, rfl⟩
  · intro h
    by_cases h0 : (read_xspect name).1 ≠ 0
    · simp only [ss_comp_filter, if_pos h0]
    · have h1 : (read_xspect name).2.spec_n ≠ 36 ∨ (read_xspect name).2.spec_wl_short ≠ 380
          ∨ (read_xspect name).2.spec_wl_long ≠ 730 := by
        rcases h with h | h
        · exact absurd h h0
        · exact h
      simp only [ss_comp_filter, if_neg h0, if_pos h1]
  · intro h0 h1 h2 h3
    have g0 : ¬ (read_xspect name).1 ≠ 0 := fun h => h h0
    have g1 : ¬ ((read_xspect name).2.spec_n ≠ 36 ∨ (read_xspect name).2.spec_wl_short ≠ 380
          ∨ (read_xspect name).2.spec_wl_long ≠ 730) := by
      rintro (h | h | h)
      · exact h h1
      · exact h h2
      · exact h h3
    simp only [ss_comp_filter, if_neg g0, if_neg g1]
    refine ⟨trivial, ?_, trivial⟩
    intro i hi
    simp only [if_pos hi]

/-- C18, instance: a filter with 40 samples is refused and a handle with
`compen = 1` keeps it; a filter with 36 samples from 380 to 730 nm is
installed. -/
theorem ss_comp_filter_validates_witness :
    ss_comp_filter sampleSs readSample { ssHandle instType.instSpectrolino 0x11 with compen := 1 }
        (some "f40")
        = (sampleSs.inst_wrong_config,
            { ssHandle instType.instSpectrolino 0x11 with compen := 1 })
      ∧ (ss_comp_filter sampleSs readSample (ssHandle instType.instSpectrolino 0x11)
          (some "f36")).2.compen = 1 :=
  ⟨(ss_comp_filter_validates sampleSs readSample
      { ssHandle instType.instSpectrolino 0x11 with compen := 1 } "f40").1
      (Or.inr (Or.inl (by decide))),
   ((ss_comp_filter_validates sampleSs readSample (ssHandle instType.instSpectrolino 0x11)
      "f36").2.1 rfl (by decide) (by norm_num [readSample]) (by norm_num [readSample])).2.2⟩

/-! ## The serpentine order -/

theorem divmod_unique (n q r t : Int) (hn : 0 < n) (h : r + n * q = t) (h0 : 0 ≤ r)
    (h1 : r < n) : t / n = q ∧ t % n = r :=
  (Int.ediv_emod_unique hn).2 ⟨h, h0, h1⟩

theorem divmod_succ (n t : Int) (hn : 0 < n) :
    (t % n + 1 ≥ n → (t + 1) / n = t / n + 1 ∧ (t + 1) % n = 0)
      ∧ (¬ t % n + 1 ≥ n → (t + 1) / n = t / n ∧ (t + 1) % n = t % n + 1) := by
  have h1 := Int.emod_add_ediv t n
  have h2 := Int.emod_nonneg t (ne_of_gt hn)
  have h3 := Int.emod_lt_of_pos t hn
  constructor
  · intro h
    apply divmod_unique n _ _ _ hn _ le_rfl hn
    rw [mul_add]; omega
  · intro h
    apply divmod_unique n _ _ _ hn _ (by omega) (by omega)
    omega

theorem serp_grid (n m t : Int) (hn : 0 < n) (h0 : 0 ≤ t) (h1 : t < m * n) :
    0 ≤ (serp n t).1 ∧ (serp n t).1 < m ∧ 0 ≤ (serp n t).2 ∧ (serp n t).2 < n := by
  have h2 := Int.emod_nonneg t (ne_of_gt hn)
  have h3 := Int.emod_lt_of_pos t hn
  refine ⟨Int.ediv_nonneg h0 (le_of_lt hn), Int.ediv_lt_of_lt_mul hn h1, ?_, ?_⟩
  · simp only [serp]; split_ifs <;> omega
  · simp only [serp]; split_ifs <;> omega

theorem serpIdx_serp (n t : Int) : serpIdx n (serp n t) = t := by
  have h1 := Int.emod_add_ediv t n
  simp only [serpIdx, serp]
  split_ifs
  · rw [mul_comm]; omega
  · rw [mul_comm]; omega

theorem serp_serpIdx (n : Int) (c : Int × Int) (hn : 0 < n) (h0 : 0 ≤ c.2) (h1 : c.2 < n) :
    serp n (serpIdx n c) = c := by
  obtain ⟨s, f⟩ := c
  simp only at h0 h1
  have h : (serpIdx n (s, f)) / n = s
      ∧ (serpIdx n (s, f)) % n = (if s % 2 = 0 then f else n - 1 - f) := by
    apply divmod_unique n _ _ _ hn
    · simp only [serpIdx]; rw [mul_comm]; omega
    · split_ifs <;> omega
    · split_ifs <;> omega
  simp only [serp, h.1, h.2]
  split_ifs
  · rfl
  · congr 1; omega

theorem serpIdx_range (n m : Int) (c : Int × Int) (h0 : 0 ≤ c.1) (h1 : c.1 < m)
    (h2 : 0 ≤ c.2) (h3 : c.2 < n) : 0 ≤ serpIdx n c ∧ serpIdx n c < m * n := by
  have hn : 0 < n := lt_of_le_of_lt h2 h3
  have ha : 0 ≤ c.1 * n := mul_nonneg h0 (le_of_lt hn)
  have hb : (c.1 + 1) * n ≤ m * n := mul_le_mul_of_nonneg_right (by omega) (le_of_lt hn)
  rw [add_mul, one_mul] at hb
  simp only [serpIdx]
  split_ifs <;> constructor <;> omega

theorem serp_adjacent (n t : Int) (hn : 0 < n) :
    ((serp n t).1 = (serp n (t + 1)).1 ∧ |(serp n t).2 - (serp n (t + 1)).2| = 1)
      ∨ ((serp n t).2 = (serp n (t + 1)).2 ∧ |(serp n t).1 - (serp n (t + 1)).1| = 1) := by
  have h2 := Int.emod_nonneg t (ne_of_gt hn)
  have h3 := Int.emod_lt_of_pos t hn
  have hs := divmod_succ n t hn
  by_cases h : t % n + 1 ≥ n
  · obtain ⟨e1, e2⟩ := hs.1 h
    right
    simp only [serp, e1, e2]
    constructor
    · split_ifs <;> omega
    · rw [abs_eq (by decide)]; right; omega
  · obtain ⟨e1, e2⟩ := hs.2 h
    left
    simp only [serp, e1, e2, true_and]
    rw [abs_eq (by decide)]
    split_ifs
    · right; omega
    · left; omega

theorem xy_cell_fast (a : XyArgs) (t : Int) (hs : 0 < a.sip) (h0 : 0 ≤ t) :
    xy_cell a true t = serp a.sip t := by
  have hq : 0 ≤ t / a.sip := Int.ediv_nonneg h0 (le_of_lt hs)
  simp only [xy_cell, xy_counters, apass, astep, serp, if_true, iand_one _ hq]
  congr 1
  split_ifs <;> first | rfl | omega

theorem xy_cell_slow (a : XyArgs) (t : Int) (hp : 0 < a.pis) (h0 : 0 ≤ t) :
    xy_cell a false t = ((serp a.pis t).2, (serp a.pis t).1) := by
  have hq : 0 ≤ t / a.pis := Int.ediv_nonneg h0 (le_of_lt hp)
  simp only [xy_cell, xy_counters, apass, astep, serp, Bool.false_eq_true, if_false,
    iand_one _ hq]
  congr 1
  split_ifs <;> first | rfl | omega

theorem xy_next_counters (a : XyArgs) (fs : Bool) (t : Int) (hs : 0 < a.sip) (hp : 0 < a.pis) :
    xy_next a fs (xy_counters a fs t).1 (xy_counters a fs t).2 = xy_counters a fs (t + 1) := by
  cases fs
  · have h := divmod_succ a.pis t hp
    simp only [xy_next, xy_counters, Bool.false_eq_true, if_false]
    by_cases g : t % a.pis + 1 ≥ a.pis
    · rw [if_pos g, (h.1 g).1, (h.1 g).2]
    · rw [if_neg g, (h.2 g).1, (h.2 g).2]
  · have h := divmod_succ a.sip t hs
    simp only [xy_next, xy_counters, if_true]
    by_cases g : t % a.sip + 1 ≥ a.sip
    · rw [if_pos g, (h.1 g).1, (h.1 g).2]
    · rw [if_neg g, (h.2 g).1, (h.2 g).2]

/-! ## The loop of ss_read_xy -/

theorem xy_measure_cells (K : SsConsts) (dev : Instrument) (st : XySt) (patch : Int)
    (ix iy : ℚ) : (xy_measure K dev st patch ix iy).2.cells = st.cells := by
  unfold xy_measure
  dsimp only
  split_ifs <;> rfl

theorem xy_measure_vals (K : SsConsts) (dev : Instrument) (st : XySt) (patch : Int)
    (ix iy : ℚ) (k : Int) (hk : k ≠ patch) :
    (xy_measure K dev st patch ix iy).2.vals k = st.vals k := by
  unfold xy_measure
  dsimp only
  split_ifs <;> exact Function.update_noteq hk _ _

theorem xy_measure_ok (K : SsConsts) (dev : Instrument) (st : XySt) (patch : Int)
    (ix iy : ℚ) (hdev : ScanOk K dev) :
    (xy_measure K dev st patch ix iy).1 = false
      ∧ (xy_measure K dev st patch ix iy).2.meas = st.meas ++ [patch]
      ∧ (xy_measure K dev st patch ix iy).2.p = inc_calcount K st.p
      ∧ (xy_measure K dev st patch ix iy).2.rv = K.inst_ok := by
  have h1 := hdev.1 st.log ix iy
  have h2 := hdev.2 (st.log ++ [SsCmd.ss_do_MoveAndMeasure ix iy])
  unfold xy_measure
  simp only [h1, h2, ne_eq, not_true_eq_false, if_false, and_self]

theorem xy_body_cells (K : SsConsts) (dev : Instrument) (a : XyArgs) (fs : Bool) (cs : Int)
    (step pass : Int) (st : XySt) :
    (xy_body K dev a fs cs step pass st).2.cells
      = st.cells ++ [(apass a fs step pass, astep a fs step pass)] := by
  unfold xy_body
  simp only
  split_ifs <;> first | rfl | (rw [xy_measure_cells])

theorem xy_body_vals (K : SsConsts) (dev : Instrument) (a : XyArgs) (fs : Bool) (cs : Int)
    (step pass : Int) (st : XySt) (k : Int) (hk : a.npatch ≤ k) :
    (xy_body K dev a fs cs step pass st).2.vals k = st.vals k := by
  unfold xy_body
  simp only
  by_cases h : apass a fs step pass * a.sip + astep a fs step pass < a.npatch
  · have hne : k ≠ apass a fs step pass * a.sip + astep a fs step pass := by omega
    rw [if_pos h]
    split_ifs <;> first | rfl | (rw [xy_measure_vals _ _ _ _ _ _ _ hne])
  · rw [if_neg h]

theorem xy_body_ok (K : SsConsts) (dev : Instrument) (a : XyArgs) (fs : Bool) (cs : Int)
    (step pass : Int) (st : XySt) (hdev : ScanOk K dev) (hw : st.p.need_w_cal = 0)
    (ht : st.p.need_t_cal = 0) :
    (xy_body K dev a fs cs step pass st).1 = false
      ∧ (xy_body K dev a fs cs step pass st).2.meas
          = st.meas ++ (if patchOf a (apass a fs step pass, astep a fs step pass) < a.npatch
              then [patchOf a (apass a fs step pass, astep a fs step pass)] else [])
      ∧ (xy_body K dev a fs cs step pass st).2.p
          = (if patchOf a (apass a fs step pass, astep a fs step pass) < a.npatch
              then inc_calcount K st.p else st.p)
      ∧ (st.rv = K.inst_ok → (xy_body K dev a fs cs step pass st).2.rv = K.inst_ok) := by
  have hno : ¬ ((if fs then astep a fs step pass = cs else apass a fs step pass = cs)
        ∧ (st.p.need_w_cal ≠ 0 ∨ st.p.need_t_cal ≠ 0) ∧ st.p.noautocalib = 0) := by
    rintro ⟨-, h | h, -⟩
    · exact h hw
    · exact h ht
  unfold xy_body
  simp only [patchOf, if_neg hno]
  by_cases h : apass a fs step pass * a.sip + astep a fs step pass < a.npatch
  · simp only [if_pos h]
    obtain ⟨m1, m2, m3, m4⟩ := xy_measure_ok K dev
      { st with cells := st.cells ++ [(apass a fs step pass, astep a fs step pass)] }
      (apass a fs step pass * a.sip + astep a fs step pass)
      (if iand step 1 = 1 then
        a.ox + (apass a fs step pass : ℚ) * a.ax + (astep a fs step pass : ℚ) * a.px + a.aax
       else a.ox + (apass a fs step pass : ℚ) * a.ax + (astep a fs step pass : ℚ) * a.px)
      (if iand step 1 = 1 then
        a.oy + (apass a fs step pass : ℚ) * a.ay + (astep a fs step pass : ℚ) * a.py + a.aay
       else a.oy + (apass a fs step pass : ℚ) * a.ay + (astep a fs step pass : ℚ) * a.py)
      hdev
    exact ⟨m1, m2, m3, fun _ => m4⟩
  · simp only [if_neg h, List.append_nil, true_and]
    exact fun h => h

theorem xy_loop_cells (K : SsConsts) (dev : Instrument) (a : XyArgs) (fs : Bool) (cs : Int)
    (hs : 0 < a.sip) (hp : 0 < a.pis) :
    ∀ (n t : Nat) (st : XySt), ∃ m, m ≤ n
      ∧ (xy_loop K dev a fs cs n (xy_counters a fs t).1 (xy_counters a fs t).2 st).cells
          = st.cells ++ (List.range' t m).map (fun j : Nat => xy_cell a fs (j : Int)) := by
  intro n
  induction n with
  | zero =>
    intro t st
    exact ⟨0, le_rfl, by simp [xy_loop]⟩
  | succ n ih =>
    intro t st
    simp only [xy_loop]
    by_cases hstop : (xy_body K dev a fs cs (xy_counters a fs t).1 (xy_counters a fs t).2 st).1
        = true
    · refine ⟨1, by omega, ?_⟩
      rw [if_pos hstop, xy_body_cells]
      simp [xy_cell]
    · rw [if_neg hstop, xy_next_counters a fs t hs hp]
      have hc : ((t : Int) + 1) = ((t + 1 : Nat) : Int) := by push_cast; rfl
      rw [hc]
      obtain ⟨m, hm, he⟩ := ih (t + 1)
        (xy_body K dev a fs cs (xy_counters a fs t).1 (xy_counters a fs t).2 st).2
      refine ⟨m + 1, by omega, ?_⟩
      rw [he, xy_body_cells, List.range'_succ]
      simp [xy_cell]

theorem xy_loop_vals (K : SsConsts) (dev : Instrument) (a : XyArgs) (fs : Bool) (cs : Int)
    (k : Int) (hk : a.npatch ≤ k) :
    ∀ (n : Nat) (step pass : Int) (st : XySt),
      (xy_loop K dev a fs cs n step pass st).vals k = st.vals k := by
  intro n
  induction n with
  | zero => intro step pass st; rfl
  | succ n ih =>
    intro step pass st
    simp only [xy_loop]
    split_ifs
    · exact xy_body_vals K dev a fs cs step pass st k hk
    · rw [ih, xy_body_vals K dev a fs cs step pass st k hk]

theorem xy_loop_full (K : SsConsts) (dev : Instrument) (a : XyArgs) (fs : Bool) (cs : Int)
    (p0 : ss) (T : Nat) (hs : 0 < a.sip) (hp : 0 < a.pis) (hdev : ScanOk K dev)
    (hf : Fresh K p0 T) :
    ∀ (n t : Nat) (st : XySt) (j : Nat), t + n ≤ T → j ≤ t → st.p = (inc_calcount K)^[j] p0 →
      (xy_loop K dev a fs cs n (xy_counters a fs t).1 (xy_counters a fs t).2 st).cells
          = st.cells ++ (List.range' t n).map (fun j : Nat => xy_cell a fs (j : Int))
        ∧ (xy_loop K dev a fs cs n (xy_counters a fs t).1 (xy_counters a fs t).2 st).meas
          = st.meas ++ (((List.range' t n).map (fun j : Nat => xy_cell a fs (j : Int))).filter
              (fun c => decide (patchOf a c < a.npatch))).map (patchOf a)
        ∧ (st.rv = K.inst_ok →
            (xy_loop K dev a fs cs n (xy_counters a fs t).1 (xy_counters a fs t).2 st).rv
              = K.inst_ok) := by
  intro n
  induction n with
  | zero =>
    intro t st j _ _ _
    simp [xy_loop]
  | succ n ih =>
    intro t st j htn hj hst
    have hfr := hf j (by exact_mod_cast (by omega : j < T))
    rw [← hst] at hfr
    obtain ⟨b1, b2, b3, b4⟩ := xy_body_ok K dev a fs cs (xy_counters a fs t).1
      (xy_counters a fs t).2 st hdev hfr.1 hfr.2
    have bc := xy_body_cells K dev a fs cs (xy_counters a fs t).1 (xy_counters a fs t).2 st
    simp only [xy_loop]
    rw [b1]
    simp only [Bool.false_eq_true, if_false]
    rw [xy_next_counters a fs t hs hp]
    have hc : ((t : Int) + 1) = ((t + 1 : Nat) : Int) := by push_cast; rfl
    rw [hc]
    have hp2 : ∃ j2, j2 ≤ t + 1
        ∧ (xy_body K dev a fs cs (xy_counters a fs t).1 (xy_counters a fs t).2 st).2.p
            = (inc_calcount K)^[j2] p0 := by
      rw [b3]
      split_ifs
      · exact ⟨j + 1, by omega, by rw [Function.iterate_succ_apply', hst]⟩
      · exact ⟨j, by omega, hst⟩
    obtain ⟨j2, hj2, hp2⟩ := hp2
    obtain ⟨i1, i2, i3⟩ := ih (t + 1)
      (xy_body K dev a fs cs (xy_counters a fs t).1 (xy_counters a fs t).2 st).2 j2
      (by omega) hj2 hp2
    refine ⟨?_, ?_, fun h => i3 (b4 h)⟩
    · rw [i1, bc, List.range'_succ]
      simp [xy_cell]
    · rw [i2, b2, List.range'_succ]
      simp only [List.map_cons, List.filter_cons, xy_cell]
      split_ifs with g1 g2 g2
      · simp
      · exact absurd g1 (by simpa using g2)
      · exact absurd (by simpa using g2) g1
      · simp

theorem xy_counters_zero (a : XyArgs) (fs : Bool) : xy_counters a fs 0 = (0, 0) := by
  cases fs <;> simp [xy_counters]

theorem tries_eq (a : XyArgs) (hs : 0 < a.sip) (hp : 0 < a.pis)
    (hov : a.sip * a.pis < 2147483648) :
    (s32 (a.sip * a.pis)).toNat = (a.sip * a.pis).toNat
      ∧ (((a.sip * a.pis).toNat : Nat) : Int) = a.sip * a.pis := by
  have h0 : 0 ≤ a.sip * a.pis := le_of_lt (mul_pos hs hp)
  rw [s32_small _ h0 hov]
  exact ⟨rfl, Int.toNat_of_nonneg h0⟩

theorem ss_read_xy_cells (K : SsConsts) (dev : Instrument) (p : ss) (a : XyArgs)
    (vals : Int → ipatch) (log : List SsCmd) (hs : 0 < a.sip) (hp : 0 < a.pis)
    (hov : a.sip * a.pis < 2147483648) :
    ∃ m, m ≤ (a.sip * a.pis).toNat
      ∧ (ss_read_xy K dev p a vals log).cells
          = (List.range m).map (fun j : Nat => xy_cell a (fstep a) (j : Int)) := by
  unfold ss_read_xy
  split_ifs
  · exact ⟨0, Nat.zero_le _, rfl⟩
  · obtain ⟨m, hm, he⟩ := xy_loop_cells K dev a (fstep a) (cstep a) hs hp
      (s32 (a.sip * a.pis)).toNat 0
      { p := p, vals := vals, rv := K.inst_ok, log := log, cells := [], meas := [] }
    rw [Nat.cast_zero, xy_counters_zero] at he
    rw [(tries_eq a hs hp hov).1] at hm he
    rw [(tries_eq a hs hp hov).1]
    exact ⟨m, hm, by rw [List.range_eq_range']; exact he⟩

theorem ss_read_xy_full (K : SsConsts) (dev : Instrument) (p : ss) (a : XyArgs)
    (vals : Int → ipatch) (log : List SsCmd) (hs : 0 < a.sip) (hp : 0 < a.pis)
    (hov : a.sip * a.pis < 2147483648)
    (hi : p.itype = instType.instSpectroScan ∨ p.itype = instType.instSpectroScanT)
    (hdev : ScanOk K dev) (hf : Fresh K p (a.sip * a.pis)) :
    (ss_read_xy K dev p a vals log).cells
        = (List.range (a.sip * a.pis).toNat).map (fun j : Nat => xy_cell a (fstep a) (j : Int))
      ∧ (ss_read_xy K dev p a vals log).meas
        = (((List.range (a.sip * a.pis).toNat).map
              (fun j : Nat => xy_cell a (fstep a) (j : Int))).filter
            (fun c => decide (patchOf a c < a.npatch))).map (patchOf a)
      ∧ (ss_read_xy K dev p a vals log).rv = K.inst_ok := by
  have hno : ¬ (p.itype ≠ instType.instSpectroScan ∧ p.itype ≠ instType.instSpectroScanT) := by
    rintro ⟨h1, h2⟩
    rcases hi with h | h
    · exact h1 h
    · exact h2 h
  obtain ⟨e1, e2⟩ := tries_eq a hs hp hov
  have hf2 : Fresh K p ((a.sip * a.pis).toNat : Nat) := by rw [e2]; exact hf
  obtain ⟨i1, i2, i3⟩ := xy_loop_full K dev a (fstep a) (cstep a) p (a.sip * a.pis).toNat hs hp
    hdev hf2 (a.sip * a.pis).toNat 0
    { p := p, vals := vals, rv := K.inst_ok, log := log, cells := [], meas := [] } 0
    (by omega) le_rfl rfl
  rw [Nat.cast_zero, xy_counters_zero] at i1 i2 i3
  unfold ss_read_xy
  rw [if_neg hno, e1, List.range_eq_range']
  exact ⟨i1, i2, i3 rfl⟩

theorem devGood_scanOk : ScanOk sampleSs devGood :=
  ⟨fun _ _ _ => rfl, fun _ => rfl⟩

theorem pXY_fresh : Fresh sampleSs pXY 4 := by
  intro k hk
  have h : k < 4 := by omega
  interval_cases k <;> decide

theorem cells_getElem (a : XyArgs) (fs : Bool) (m tc : Nat) (c : Int × Int)
    (h : ((List.range m).map (fun j : Nat => xy_cell a fs (j : Int)))[tc]? = some c) :
    tc < m ∧ c = xy_cell a fs (tc : Int) := by
  rw [List.getElem?_map] at h
  by_cases g : tc < m
  · rw [List.getElem?_range g] at h
    simp only [Option.map_some', Option.some.injEq] at h
    exact ⟨g, h.symm⟩
  · rw [List.getElem?_eq_none (by simpa using g)] at h
    simp at h

theorem xy_cell_adjacent (a : XyArgs) (fs : Bool) (t : Nat) (hs : 0 < a.sip) (hp : 0 < a.pis) :
    Adjacent (xy_cell a fs (t : Int)) (xy_cell a fs ((t + 1 : Nat) : Int)) := by
  have h0 : (0 : Int) ≤ (t : Int) := Int.natCast_nonneg t
  have h1 : (0 : Int) ≤ ((t + 1 : Nat) : Int) := Int.natCast_nonneg (t + 1)
  have hc : ((t + 1 : Nat) : Int) = (t : Int) + 1 := by push_cast; rfl
  cases fs
  · rw [xy_cell_slow a _ hp h0, xy_cell_slow a _ hp h1, hc]
    exact (serp_adjacent a.pis t hp).symm
  · rw [xy_cell_fast a _ hs h0, xy_cell_fast a _ hs h1, hc]
    exact serp_adjacent a.sip t hs

/-- C15: for every `pis ≥ 1` and `sip ≥ 1` whose product fits an `int`, the
cells `(apass, astep)` visited by the rounds of `ss_read_xy`, in order, are
these.  There are at most `sip * pis` of them, and exactly that many when the
instrument type is a scanning table, the measurement commands succeed and no
calibration is stale.  When the step increment is the fast axis
(`|px| > |ax|`) round `tc` is at pass `tc / sip`, with step `tc % sip` on even
passes and `sip - 1 - tc % sip` on odd passes; otherwise round `tc` is at step
`tc / pis`, with pass `tc % pis` on even steps and `pis - 1 - tc % pis` on odd
steps.  In both cases two cells visited one after the other have the same pass
and steps one apart, or the same step and passes one apart. -/
theorem ss_read_xy_serpentine (K : SsConsts) (dev : Instrument) (p : ss) (a : XyArgs)
    (vals : Int → ipatch) (log : List SsCmd) (hs : 0 < a.sip) (hp : 0 < a.pis)
    (hov : a.sip * a.pis < 2147483648) :
    (ss_read_xy K dev p a vals log).cells.length ≤ (a.sip * a.pis).toNat
      ∧ (|a.px| > |a.ax| →
          (ss_read_xy K dev p a vals log).cells
            = (List.range (ss_read_xy K dev p a vals log).cells.length).map
                (fun tc : Nat =>
                  ((tc : Int) / a.sip,
                    if ((tc : Int) / a.sip) % 2 = 0 then (tc : Int) % a.sip
                    else a.sip - 1 - (tc : Int) % a.sip)))
      ∧ (¬ |a.px| > |a.ax| →
          (ss_read_xy K dev p a vals log).cells
            = (List.range (ss_read_xy K dev p a vals log).cells.length).map
                (fun tc : Nat =>
                  (if ((tc : Int) / a.pis) % 2 = 0 then (tc : Int) % a.pis
                    else a.pis - 1 - (tc : Int) % a.pis,
                   (tc : Int) / a.pis)))
      ∧ (∀ tc c d, (ss_read_xy K dev p a vals log).cells[tc]? = some c →
          (ss_read_xy K dev p a vals log).cells[tc + 1]? = some d → Adjacent c d)
      ∧ ((p.itype = instType.instSpectroScan ∨ p.itype = instType.instSpectroScanT) →
          ScanOk K dev → Fresh K p (a.sip * a.pis) →
          (ss_read_xy K dev p a vals log).cells.length = (a.sip * a.pis).toNat) := by
  obtain ⟨m, hm, he⟩ := ss_read_xy_cells K dev p a vals log hs hp hov
  have hl : (ss_read_xy K dev p a vals log).cells.length = m := by
    rw [he, List.length_map, List.length_range]
  refine ⟨by rw [hl]; exact hm, ?_, ?_, ?_, ?_⟩
  · intro hf
    have hfs : fstep a = true := by simp [fstep, hf]
    rw [hl]
    rw [he, hfs]
    apply List.map_congr_left
    intro j _
    rw [xy_cell_fast a _ hs (Int.natCast_nonneg j)]
    rfl
  · intro hf
    have hfs : fstep a = false := by simp only [fstep, decide_eq_false hf]
    rw [hl]
    rw [he, hfs]
    apply List.map_congr_left
    intro j _
    rw [xy_cell_slow a _ hp (Int.natCast_nonneg j)]
    rfl
  · intro tc c d h1 h2
    rw [he] at h1 h2
    obtain ⟨-, e1⟩ := cells_getElem a _ m tc c h1
    obtain ⟨-, e2⟩ := cells_getElem a _ m (tc + 1) d h2
    rw [e1, e2]
    exact xy_cell_adjacent a _ tc hs hp
  · intro hi hdev hfr
    rw [(ss_read_xy_full K dev p a vals log hs hp hov hi hdev hfr).1, List.length_map,
      List.length_range]

/-- C15, instance: the 2 by 2 grid with origin `(0,0)`, step increment `(1,0)`
and pass increment `(0,1)` on an instrument where every command succeeds is
visited in the cells `(0,0), (0,1), (1,1), (1,0)`, that is in the patch
indices `[0,1,3,2]`. -/
theorem ss_read_xy_serpentine_witness :
    (ss_read_xy sampleSs devGood pXY a22 vals0 []).cells = [(0, 0), (0, 1), (1, 1), (1, 0)]
      ∧ (ss_read_xy sampleSs devGood pXY a22 vals0 []).cells.map (patchOf a22)
          = [0, 1, 3, 2] := by
  have h := ss_read_xy_serpentine sampleSs devGood pXY a22 vals0 [] (by decide) (by decide)
    (by decide)
  have hf : |a22.px| > |a22.ax| := by norm_num [a22]
  have hl := h.2.2.2.2 (Or.inl rfl) devGood_scanOk pXY_fresh
  have hc := h.2.1 hf
  rw [hl] at hc
  rw [hc]
  decide

theorem xy_cell_grid (a : XyArgs) (fs : Bool) (t : Int) (hs : 0 < a.sip) (hp : 0 < a.pis)
    (h0 : 0 ≤ t) (h1 : t < a.sip * a.pis) :
    0 ≤ (xy_cell a fs t).1 ∧ (xy_cell a fs t).1 < a.pis
      ∧ 0 ≤ (xy_cell a fs t).2 ∧ (xy_cell a fs t).2 < a.sip := by
  cases fs
  · rw [xy_cell_slow a t hp h0]
    obtain ⟨g1, g2, g3, g4⟩ := serp_grid a.pis a.sip t hp h0 h1
    exact ⟨g3, g4, g1, g2⟩
  · rw [xy_cell_fast a t hs h0]
    exact serp_grid a.sip a.pis t hs h0 (by rw [mul_comm]; exact h1)

theorem xy_cell_inj (a : XyArgs) (fs : Bool) (t u : Int) (hs : 0 < a.sip) (hp : 0 < a.pis)
    (h0 : 0 ≤ t) (h1 : 0 ≤ u) (h : xy_cell a fs t = xy_cell a fs u) : t = u := by
  cases fs
  · rw [xy_cell_slow a t hp h0, xy_cell_slow a u hp h1] at h
    have e : serp a.pis t = serp a.pis u :=
      Prod.ext (congrArg Prod.snd h) (congrArg Prod.fst h)
    rw [← serpIdx_serp a.pis t, ← serpIdx_serp a.pis u, e]
  · rw [xy_cell_fast a t hs h0, xy_cell_fast a u hs h1] at h
    rw [← serpIdx_serp a.sip t, ← serpIdx_serp a.sip u, h]

theorem xy_cell_surj (a : XyArgs) (fs : Bool) (c : Int × Int) (h0 : 0 ≤ c.1) (h1 : c.1 < a.pis)
    (h2 : 0 ≤ c.2) (h3 : c.2 < a.sip) :
    ∃ t, 0 ≤ t ∧ t < a.sip * a.pis ∧ xy_cell a fs t = c := by
  have hs : 0 < a.sip := lt_of_le_of_lt h2 h3
  have hp : 0 < a.pis := lt_of_le_of_lt h0 h1
  cases fs
  · obtain ⟨r0, r1⟩ := serpIdx_range a.pis a.sip (c.2, c.1) h2 h3 h0 h1
    refine ⟨serpIdx a.pis (c.2, c.1), r0, r1, ?_⟩
    rw [xy_cell_slow a _ hp r0, serp_serpIdx a.pis (c.2, c.1) hp h0 h1]
  · obtain ⟨r0, r1⟩ := serpIdx_range a.sip a.pis c h0 h1 h2 h3
    refine ⟨serpIdx a.sip c, r0, by rw [mul_comm]; exact r1, ?_⟩
    rw [xy_cell_fast a _ hs r0, serp_serpIdx a.sip c hs h2 h3]

theorem patchOf_inj (a : XyArgs) (c d : Int × Int) (hc0 : 0 ≤ c.2) (hc1 : c.2 < a.sip)
    (hd0 : 0 ≤ d.2) (hd1 : d.2 < a.sip) (h : patchOf a c = patchOf a d) : c = d := by
  have hs : 0 < a.sip := lt_of_le_of_lt hc0 hc1
  simp only [patchOf] at h
  have e1 := divmod_unique a.sip c.1 c.2 (c.1 * a.sip + c.2) hs (by rw [mul_comm]; omega)
    hc0 hc1
  have e2 := divmod_unique a.sip d.1 d.2 (c.1 * a.sip + c.2) hs (by rw [mul_comm]; omega)
    hd0 hd1
  exact Prod.ext (e1.1.symm.trans e2.1) (e1.2.symm.trans e2.2)

theorem patchOf_range (a : XyArgs) (c : Int × Int) (h0 : 0 ≤ c.1) (h1 : c.1 < a.pis)
    (h2 : 0 ≤ c.2) (h3 : c.2 < a.sip) : 0 ≤ patchOf a c ∧ patchOf a c < a.pis * a.sip := by
  have hn : 0 < a.sip := lt_of_le_of_lt h2 h3
  have ha : 0 ≤ c.1 * a.sip := mul_nonneg h0 (le_of_lt hn)
  have hb : (c.1 + 1) * a.sip ≤ a.pis * a.sip :=
    mul_le_mul_of_nonneg_right (by omega) (le_of_lt hn)
  rw [add_mul, one_mul] at hb
  simp only [patchOf]
  constructor <;> omega

theorem patchOf_surj (a : XyArgs) (k : Int) (hs : 0 < a.sip) (h0 : 0 ≤ k)
    (h1 : k < a.pis * a.sip) :
    0 ≤ k / a.sip ∧ k / a.sip < a.pis ∧ 0 ≤ k % a.sip ∧ k % a.sip < a.sip
      ∧ patchOf a (k / a.sip, k % a.sip) = k := by
  refine ⟨Int.ediv_nonneg h0 (le_of_lt hs), Int.ediv_lt_of_lt_mul hs h1,
    Int.emod_nonneg k (ne_of_gt hs), Int.emod_lt_of_pos k hs, ?_⟩
  have h := Int.emod_add_ediv k a.sip
  simp only [patchOf]
  rw [mul_comm]; omega

/-- C16: for every `pis ≥ 1`, `sip ≥ 1` whose product fits an `int` and every
`npatch ≥ 0`, on a scanning table where the two commands of a measurement
always succeed and no calibration is stale before any of the measurements,
`ss_read_xy` returns `inst_ok`; the cells visited are the `pis * sip` cells of
the grid, each once; `ss_do_MoveAndMeasure` is called for exactly the patch
indices `k` with `0 ≤ k < npatch` and `k < pis * sip`, once each; and no entry
of `vals` with index `npatch` or more is changed. -/
theorem ss_read_xy_coverage (K : SsConsts) (dev : Instrument) (p : ss) (a : XyArgs)
    (vals : Int → ipatch) (log : List SsCmd) (hs : 0 < a.sip) (hp : 0 < a.pis)
    (hov : a.sip * a.pis < 2147483648)
    (hi : p.itype = instType.instSpectroScan ∨ p.itype = instType.instSpectroScanT)
    (hdev : ScanOk K dev) (hf : Fresh K p (a.sip * a.pis)) :
    (ss_read_xy K dev p a vals log).rv = K.inst_ok
      ∧ (ss_read_xy K dev p a vals log).cells.Nodup
      ∧ (∀ c, c ∈ (ss_read_xy K dev p a vals log).cells
          ↔ 0 ≤ c.1 ∧ c.1 < a.pis ∧ 0 ≤ c.2 ∧ c.2 < a.sip)
      ∧ (ss_read_xy K dev p a vals log).cells.length = (a.pis * a.sip).toNat
      ∧ (ss_read_xy K dev p a vals log).meas.Nodup
      ∧ (∀ k, k ∈ (ss_read_xy K dev p a vals log).meas
          ↔ 0 ≤ k ∧ k < a.npatch ∧ k < a.pis * a.sip)
      ∧ (∀ k, a.npatch ≤ k → (ss_read_xy K dev p a vals log).vals k = vals k) := by
  obtain ⟨e1, e2, e3⟩ := ss_read_xy_full K dev p a vals log hs hp hov hi hdev hf
  obtain ⟨-, hT⟩ := tries_eq a hs hp hov
  have hmem : ∀ c, c ∈ (ss_read_xy K dev p a vals log).cells
      ↔ 0 ≤ c.1 ∧ c.1 < a.pis ∧ 0 ≤ c.2 ∧ c.2 < a.sip := by
    intro c
    rw [e1, List.mem_map]
    constructor
    · rintro ⟨j, hj, rfl⟩
      rw [List.mem_range] at hj
      exact xy_cell_grid a _ j hs hp (Int.natCast_nonneg j)
        (by rw [← hT]; exact_mod_cast hj)
    · rintro ⟨h0, h1, h2, h3⟩
      obtain ⟨t, t0, t1, ht⟩ := xy_cell_surj a (fstep a) c h0 h1 h2 h3
      refine ⟨t.toNat, ?_, ?_⟩
      · rw [List.mem_range]
        have : ((t.toNat : Nat) : Int) < (((a.sip * a.pis).toNat : Nat) : Int) := by
          rw [hT, Int.toNat_of_nonneg t0]; exact t1
        exact_mod_cast this
      · rw [Int.toNat_of_nonneg t0]; exact ht
  have hnd : (ss_read_xy K dev p a vals log).cells.Nodup := by
    rw [e1]
    apply List.Nodup.map_on _ (List.nodup_range _)
    intro x _ y _ hxy
    have := xy_cell_inj a _ x y hs hp (Int.natCast_nonneg x) (Int.natCast_nonneg y) hxy
    exact_mod_cast this
  have hmeas : (ss_read_xy K dev p a vals log).meas
      = ((ss_read_xy K dev p a vals log).cells.filter
          (fun c => decide (patchOf a c < a.npatch))).map (patchOf a) := by
    rw [e2, e1]
  refine ⟨e3, hnd, hmem, ?_, ?_, ?_, ?_⟩
  · rw [e1, List.length_map, List.length_range, mul_comm]
  · rw [hmeas]
    apply List.Nodup.map_on _ (hnd.filter _)
    intro c hc d hd hcd
    have gc := (hmem c).1 (List.mem_of_mem_filter hc)
    have gd := (hmem d).1 (List.mem_of_mem_filter hd)
    exact patchOf_inj a c d gc.2.2.1 gc.2.2.2 gd.2.2.1 gd.2.2.2 hcd
  · intro k
    rw [hmeas, List.mem_map]
    constructor
    · rintro ⟨c, hc, rfl⟩
      rw [List.mem_filter] at hc
      have gc := (hmem c).1 hc.1
      have hr := patchOf_range a c gc.1 gc.2.1 gc.2.2.1 gc.2.2.2
      exact ⟨hr.1, by simpa using hc.2, hr.2⟩
    · rintro ⟨k0, k1, k2⟩
      obtain ⟨q0, q1, r0, r1, hk⟩ := patchOf_surj a k hs k0 k2
      refine ⟨(k / a.sip, k % a.sip), ?_, hk⟩
      rw [List.mem_filter]
      exact ⟨(hmem _).2 ⟨q0, q1, r0, r1⟩, by rw [hk]; simpa using k1⟩
  · intro k hk
    unfold ss_read_xy
    split_ifs
    · rfl
    · exact xy_loop_vals K dev a _ _ k hk _ _ _ _

/-- C16, instance: the 2 by 2 grid with only three patches wanted.  All four
cells are visited, `ss_do_MoveAndMeasure` is called for the patches 0, 1 and 2
and not for patch 3, whose entry of `vals` is as it was. -/
theorem ss_read_xy_coverage_witness :
    (ss_read_xy sampleSs devGood pXY { a22 with npatch := 3 } vals0 []).rv = sampleSs.inst_ok
      ∧ (ss_read_xy sampleSs devGood pXY { a22 with npatch := 3 } vals0 []).cells.length = 4
      ∧ (0 : Int) ∈ (ss_read_xy sampleSs devGood pXY { a22 with npatch := 3 } vals0 []).meas
      ∧ (2 : Int) ∈ (ss_read_xy sampleSs devGood pXY { a22 with npatch := 3 } vals0 []).meas
      ∧ (3 : Int) ∉ (ss_read_xy sampleSs devGood pXY { a22 with npatch := 3 } vals0 []).meas
      ∧ (ss_read_xy sampleSs devGood pXY { a22 with npatch := 3 } vals0 []).vals 3
          = vals0 3 := by
  have h := ss_read_xy_coverage sampleSs devGood pXY { a22 with npatch := 3 } vals0 []
    (by decide) (by decide) (by decide) (Or.inl rfl) devGood_scanOk pXY_fresh
  refine ⟨h.1, h.2.2.2.1, (h.2.2.2.2.2.1 0).2 (by decide), (h.2.2.2.2.2.1 2).2 (by decide),
    fun h3 => absurd ((h.2.2.2.2.2.1 3).1 h3) (by decide), h.2.2.2.2.2.2 3 (by decide)⟩

/-! ## Stale calibration during the grid scan -/

theorem inc_calcount_noautocalib (K : SsConsts) (p : ss) :
    (inc_calcount K p).noautocalib = p.noautocalib := by
  unfold inc_calcount
  dsimp only
  split_ifs <;> rfl

theorem xy_measure_manual (K : SsConsts) (dev : Instrument) (st : XySt) (patch : Int)
    (ix iy : ℚ) :
    (xy_measure K dev st patch ix iy).2.p.noautocalib = st.p.noautocalib
      ∧ (st.meas ++ [patch]) <+: (xy_measure K dev st patch ix iy).2.meas
      ∧ (st.log ++ [SsCmd.ss_do_MoveAndMeasure ix iy]) <+: (xy_measure K dev st patch ix iy).2.log := by
  unfold xy_measure
  dsimp only
  split_ifs
  · exact ⟨rfl, List.prefix_rfl, List.prefix_rfl⟩
  · exact ⟨rfl, List.prefix_rfl, List.prefix_append _ _⟩
  · exact ⟨inc_calcount_noautocalib K st.p, List.prefix_rfl, List.prefix_append _ _⟩

theorem xy_body_manual (K : SsConsts) (dev : Instrument) (a : XyArgs) (fs : Bool) (cs : Int)
    (step pass : Int) (st : XySt) (hm : st.p.noautocalib ≠ 0) :
    (xy_body K dev a fs cs step pass st).2.p.noautocalib = st.p.noautocalib
      ∧ st.meas <+: (xy_body K dev a fs cs step pass st).2.meas
      ∧ st.log <+: (xy_body K dev a fs cs step pass st).2.log
      ∧ (patchOf a (apass a fs step pass, astep a fs step pass) < a.npatch →
          (st.meas ++ [patchOf a (apass a fs step pass, astep a fs step pass)])
              <+: (xy_body K dev a fs cs step pass st).2.meas
            ∧ ∃ ix iy, (st.log ++ [SsCmd.ss_do_MoveAndMeasure ix iy])
                <+: (xy_body K dev a fs cs step pass st).2.log) := by
  have hno : ¬ ((if fs then astep a fs step pass = cs else apass a fs step pass = cs)
        ∧ (st.p.need_w_cal ≠ 0 ∨ st.p.need_t_cal ≠ 0) ∧ st.p.noautocalib = 0) := by
    rintro ⟨-, -, h⟩
    exact hm h
  unfold xy_body
  simp only [patchOf, if_neg hno]
  by_cases h : apass a fs step pass * a.sip + astep a fs step pass < a.npatch
  · simp only [if_pos h]
    obtain ⟨m1, m2, m3⟩ := xy_measure_manual K dev
      { st with cells := st.cells ++ [(apass a fs step pass, astep a fs step pass)] }
      (apass a fs step pass * a.sip + astep a fs step pass)
      (if iand step 1 = 1 then
        a.ox + (apass a fs step pass : ℚ) * a.ax + (astep a fs step pass : ℚ) * a.px + a.aax
       else a.ox + (apass a fs step pass : ℚ) * a.ax + (astep a fs step pass : ℚ) * a.px)
      (if iand step 1 = 1 then
        a.oy + (apass a fs step pass : ℚ) * a.ay + (astep a fs step pass : ℚ) * a.py + a.aay
       else a.oy + (apass a fs step pass : ℚ) * a.ay + (astep a fs step pass : ℚ) * a.py)
    exact ⟨m1, (List.prefix_append _ _).trans m2, (List.prefix_append _ _).trans m3,
      fun _ => ⟨m2, _, _, m3⟩⟩
  · simp only [if_neg h]
    exact ⟨trivial, List.prefix_rfl, List.prefix_rfl, fun h2 => absurd h2 h⟩

theorem xy_loop_manual (K : SsConsts) (dev : Instrument) (a : XyArgs) (fs : Bool) (cs : Int) :
    ∀ (n : Nat) (step pass : Int) (st : XySt), st.p.noautocalib ≠ 0 →
      st.meas <+: (xy_loop K dev a fs cs n step pass st).meas
        ∧ st.log <+: (xy_loop K dev a fs cs n step pass st).log := by
  intro n
  induction n with
  | zero => intro step pass st _; exact ⟨List.prefix_rfl, List.prefix_rfl⟩
  | succ n ih =>
    intro step pass st hm
    obtain ⟨b1, b2, b3, -⟩ := xy_body_manual K dev a fs cs step pass st hm
    simp only [xy_loop]
    split_ifs
    · exact ⟨b2, b3⟩
    · obtain ⟨i1, i2⟩ := ih (xy_next a fs step pass).1 (xy_next a fs step pass).2
        (xy_body K dev a fs cs step pass st).2 (by rw [b1]; exact hm)
      exact ⟨b2.trans i1, b3.trans i2⟩

/-- C17 (as stated, refuted): a scanning table with `need_w_cal = 1` and
auto-calibration disabled (`noautocalib = 1`) scans the 2 by 2 grid.  The
first cell, patch 0, is a valid patch at the step nearest the calibration
tile (`astep = cstep = 0`), yet `ss_read_xy` does not return
`inst_needs_cal`: it measures all four patches, patch 0 first, returns
`inst_ok` and leaves `need_w_cal` set. -/
theorem ss_read_xy_noautocalib_measures :
    fstep a22 = true ∧ astep a22 true 0 0 = cstep a22
      ∧ (ss_read_xy sampleSs devGood { pXY with need_w_cal := 1, noautocalib := 1 } a22 vals0
          []).rv = sampleSs.inst_ok
      ∧ sampleSs.inst_ok ≠ sampleSs.inst_needs_cal
      ∧ (ss_read_xy sampleSs devGood { pXY with need_w_cal := 1, noautocalib := 1 } a22 vals0
          []).meas = [0, 1, 3, 2]
      ∧ (ss_read_xy sampleSs devGood { pXY with need_w_cal := 1, noautocalib := 1 } a22 vals0
          []).p.need_w_cal = 1 := by
  have hf : fstep a22 = true := by norm_num [fstep, a22]
  have hc : cstep a22 = 0 := by norm_num [cstep, a22]
  refine ⟨hf, by rw [hc]; decide, ?_, by decide, ?_, ?_⟩
  · simp only [ss_read_xy, hf, hc]
    decide
  · simp only [ss_read_xy, hf, hc]
    decide
  · simp only [ss_read_xy, hf, hc]
    decide

/-- C17 (amended): take any round of the loop of `ss_read_xy` that is at a
valid patch (`patch < npatch`) nearest the calibration tile along the scan
axis while `need_w_cal` or `need_t_cal` is set.  If auto-calibration is
enabled and `ss_calibrate_imp` returns `inst_cal_setup` (a code other than
`inst_ok`), the function returns `inst_needs_cal` in this round without
measuring: no `ss_do_MoveAndMeasure` is sent, `vals` is untouched and the
commands sent are those of the calibration.  If auto-calibration is disabled
(`noautocalib` set), no calibration is attempted: the next command sent is
`ss_do_MoveAndMeasure` for this patch. -/
theorem ss_read_xy_stale_patch (K : SsConsts) (dev : Instrument) (a : XyArgs) (fs : Bool)
    (cs : Int) (n : Nat) (step pass : Int) (st : XySt)
    (hv : patchOf a (apass a fs step pass, astep a fs step pass) < a.npatch)
    (hc : if fs then astep a fs step pass = cs else apass a fs step pass = cs)
    (hstale : st.p.need_w_cal ≠ 0 ∨ st.p.need_t_cal ≠ 0) :
    (st.p.noautocalib = 0 → K.inst_cal_setup ≠ K.inst_ok →
        (ss_calibrate_imp K dev st.p inst_cal_type.inst_calt_all inst_cal_cond.inst_calc_none
          st.log).rv = K.inst_cal_setup →
        (xy_loop K dev a fs cs (n + 1) step pass st).rv = K.inst_needs_cal
          ∧ (xy_loop K dev a fs cs (n + 1) step pass st).meas = st.meas
          ∧ (xy_loop K dev a fs cs (n + 1) step pass st).vals = st.vals
          ∧ (xy_loop K dev a fs cs (n + 1) step pass st).log
              = (ss_calibrate_imp K dev st.p inst_cal_type.inst_calt_all
                  inst_cal_cond.inst_calc_none st.log).log)
      ∧ (st.p.noautocalib ≠ 0 →
          (st.meas ++ [patchOf a (apass a fs step pass, astep a fs step pass)])
              <+: (xy_loop K dev a fs cs (n + 1) step pass st).meas
            ∧ ∃ ix iy, (st.log ++ [SsCmd.ss_do_MoveAndMeasure ix iy])
                <+: (xy_loop K dev a fs cs (n + 1) step pass st).log) := by
  constructor
  · intro hauto hne hcal
    have hyes : (if fs then astep a fs step pass = cs else apass a fs step pass = cs)
        ∧ (st.p.need_w_cal ≠ 0 ∨ st.p.need_t_cal ≠ 0) ∧ st.p.noautocalib = 0 :=
      ⟨hc, hstale, hauto⟩
    have hrv : (ss_calibrate_imp K dev st.p inst_cal_type.inst_calt_all
        inst_cal_cond.inst_calc_none st.log).rv ≠ K.inst_ok := by rw [hcal]; exact hne
    have hb : xy_body K dev a fs cs step pass st
        = (true,
            { st with
              cells := st.cells ++ [(apass a fs step pass, astep a fs step pass)],
              p := (ss_calibrate_imp K dev st.p inst_cal_type.inst_calt_all
                inst_cal_cond.inst_calc_none st.log).p,
              log := (ss_calibrate_imp K dev st.p inst_cal_type.inst_calt_all
                inst_cal_cond.inst_calc_none st.log).log,
              rv := K.inst_needs_cal }) := by
      unfold xy_body
      simp only [patchOf] at hv
      simp only [if_pos hv, if_pos hyes, if_pos hrv, hcal, if_true]
      rw [if_pos hne]
    simp only [xy_loop, hb, if_true]
    exact ⟨trivial, trivial, trivial, trivial⟩
  · intro hm
    obtain ⟨b1, -, -, b4⟩ := xy_body_manual K dev a fs cs step pass st hm
    obtain ⟨m1, ix, iy, m2⟩ := b4 hv
    simp only [xy_loop]
    split_ifs
    · exact ⟨m1, ix, iy, m2⟩
    · obtain ⟨i1, i2⟩ := xy_loop_manual K dev a fs cs n (xy_next a fs step pass).1
        (xy_next a fs step pass).2 (xy_body K dev a fs cs step pass st).2
        (by rw [b1]; exact hm)
      exact ⟨m1.trans i1, ix, iy, m2.trans i2⟩

/-- C17 (amended), instance: the 2 by 2 scan on a table with `need_w_cal = 1`
and auto-calibration enabled, whose calibration comes back with
`inst_cal_setup`: `ss_read_xy` returns `inst_needs_cal` and no patch is
measured.  With auto-calibration disabled on an instrument where every command
succeeds, patch 0 is measured first. -/
theorem ss_read_xy_stale_patch_witness :
    ((ss_read_xy sampleSs devSetup { pXY with need_w_cal := 1 } a22 vals0 []).rv
        = sampleSs.inst_needs_cal
      ∧ (ss_read_xy sampleSs devSetup { pXY with need_w_cal := 1 } a22 vals0 []).meas = [])
      ∧ [0] <+: (ss_read_xy sampleSs devGood { pXY with need_w_cal := 1, noautocalib := 1 }
          a22 vals0 []).meas := by
  have hf : fstep a22 = true := by norm_num [fstep, a22]
  have hc : cstep a22 = 0 := by norm_num [cstep, a22]
  have ht : (s32 (a22.sip * a22.pis)).toNat = 3 + 1 := by decide
  have e1 : ss_read_xy sampleSs devSetup { pXY with need_w_cal := 1 } a22 vals0 []
      = xy_loop sampleSs devSetup a22 true 0 (3 + 1) 0 0
          { p := { pXY with need_w_cal := 1 }, vals := vals0, rv := sampleSs.inst_ok,
            log := [], cells := [], meas := [] } := by
    simp only [ss_read_xy, hf, hc]
    rw [if_neg (by decide), ht]
  have e2 : ss_read_xy sampleSs devGood { pXY with need_w_cal := 1, noautocalib := 1 } a22
        vals0 []
      = xy_loop sampleSs devGood a22 true 0 (3 + 1) 0 0
          { p := { pXY with need_w_cal := 1, noautocalib := 1 }, vals := vals0,
            rv := sampleSs.inst_ok, log := [], cells := [], meas := [] } := by
    simp only [ss_read_xy, hf, hc]
    rw [if_neg (by decide), ht]
  have h1 := (ss_read_xy_stale_patch sampleSs devSetup a22 true 0 3 0 0
    { p := { pXY with need_w_cal := 1 }, vals := vals0, rv := sampleSs.inst_ok,
      log := [], cells := [], meas := [] } (by decide) (by decide) (Or.inl (by decide))).1
    rfl (by decide) (by decide)
  have h2 := (ss_read_xy_stale_patch sampleSs devGood a22 true 0 3 0 0
    { p := { pXY with need_w_cal := 1, noautocalib := 1 }, vals := vals0,
      rv := sampleSs.inst_ok, log := [], cells := [], meas := [] }
    (by decide) (by decide) (Or.inl (by decide))).2 (by decide)
  rw [e1, e2]
  exact ⟨⟨h1.1, h1.2.1⟩, h2.1⟩

/-! ## Results on hcfr.c: transport status and communications -/

theorem hcfr_interp_coms_fail (K : Consts) (hK : K.WF) :
    hcfr_interp_code K K.HCFR_COMS_FAIL = ior K.inst_coms_fail K.HCFR_COMS_FAIL := by
  obtain ⟨hnd, hin⟩ := hK
  have hm : iand K.HCFR_COMS_FAIL K.inst_imask = K.HCFR_COMS_FAIL :=
    hin _ (by simp [Consts.labels])
  simp only [Consts.labels, List.nodup_cons, List.mem_cons, List.mem_singleton, not_or] at hnd
  simp only [hcfr_interp_code, hm]
  obtain ⟨h0, h1, -⟩ := hnd
  rw [if_neg (Ne.symm h0.2.1), if_neg (Ne.symm h1.1)]
  simp

theorem hcfr_interp_unknown_model (K : Consts) (hK : K.WF) :
    hcfr_interp_code K K.HCFR_UNKNOWN_MODEL = ior K.inst_unknown_model K.HCFR_UNKNOWN_MODEL := by
  obtain ⟨hnd, hin⟩ := hK
  have hm : iand K.HCFR_UNKNOWN_MODEL K.inst_imask = K.HCFR_UNKNOWN_MODEL :=
    hin _ (by simp [Consts.labels])
  simp only [Consts.labels, List.nodup_cons, List.mem_cons, List.mem_singleton, not_or] at hnd
  simp only [hcfr_interp_code, hm]
  obtain ⟨h0, h1, h2, -⟩ := hnd
  rw [if_neg (Ne.symm h0.2.2.1), if_neg (Ne.symm h1.2.1), if_neg (Ne.symm h2.1)]
  simp

theorem hcfr_interp_user_term (K : Consts) (hK : K.WF) :
    hcfr_interp_code K K.HCFR_USER_TERM = ior K.inst_user_term K.HCFR_USER_TERM := by
  obtain ⟨hnd, hin⟩ := hK
  have hm : iand K.HCFR_USER_TERM K.inst_imask = K.HCFR_USER_TERM :=
    hin _ (by simp [Consts.labels])
  simp only [Consts.labels, List.nodup_cons, List.mem_cons, List.mem_singleton, not_or] at hnd
  simp only [hcfr_interp_code, hm]
  obtain ⟨h0, h1, h2, h3, h4, h5, -⟩ := hnd
  rw [if_neg (Ne.symm h0.2.2.2.2.2.1), if_neg (Ne.symm h1.2.2.2.2.1), if_neg (Ne.symm
    h2.2.2.2.1), if_neg (Ne.symm h3.2.2.1), if_neg (Ne.symm h4.2.1), if_neg (Ne.symm h5.1)]
  simp

theorem hcfr_interp_user_trig (K : Consts) (hK : K.WF) :
    hcfr_interp_code K K.HCFR_USER_TRIG = ior K.inst_user_trig K.HCFR_USER_TRIG := by
  obtain ⟨hnd, hin⟩ := hK
  have hm : iand K.HCFR_USER_TRIG K.inst_imask = K.HCFR_USER_TRIG :=
    hin _ (by simp [Consts.labels])
  simp only [Consts.labels, List.nodup_cons, List.mem_cons, List.mem_singleton, not_or] at hnd
  simp only [hcfr_interp_code, hm]
  obtain ⟨h0, h1, h2, h3, h4, h5, h6, -⟩ := hnd
  rw [if_neg (Ne.symm h0.2.2.2.2.2.2.1), if_neg (Ne.symm h1.2.2.2.2.2.1), if_neg (Ne.symm
    h2.2.2.2.2.1), if_neg (Ne.symm h3.2.2.2.1), if_neg (Ne.symm h4.2.2.1), if_neg (Ne.symm
    h5.2.1), if_neg (Ne.symm h6.1)]
  simp

theorem hcfr_interp_user_cmnd (K : Consts) (hK : K.WF) :
    hcfr_interp_code K K.HCFR_USER_CMND = ior K.inst_user_cmnd K.HCFR_USER_CMND := by
  obtain ⟨hnd, hin⟩ := hK
  have hm : iand K.HCFR_USER_CMND K.inst_imask = K.HCFR_USER_CMND :=
    hin _ (by simp [Consts.labels])
  simp only [Consts.labels, List.nodup_cons, List.mem_cons, List.mem_singleton, not_or] at hnd
  simp only [hcfr_interp_code, hm]
  obtain ⟨h0, h1, h2, h3, h4, h5, h6, h7, -⟩ := hnd
  rw [if_neg (Ne.symm h0.2.2.2.2.2.2.2.1), if_neg (Ne.symm h1.2.2.2.2.2.2.1), if_neg (Ne.symm
    h2.2.2.2.2.2.1), if_neg (Ne.symm h3.2.2.2.2.1), if_neg (Ne.symm h4.2.2.2.1), if_neg (Ne.symm
    h5.2.2.1), if_neg (Ne.symm h6.2.1), if_neg (Ne.symm h7.1)]
  simp

theorem iand_zero_left (m : Int) : iand 0 m = 0 := by
  apply int_eq_of_testBit
  intro k
  have h0 : Int.testBit 0 k = false := by
    show Nat.testBit 0 k = false
    exact Nat.zero_testBit k
  simp [iand, Int.testBit_land, h0]

theorem ior_zero_right (a : Int) : ior a 0 = a := by
  apply int_eq_of_testBit
  intro k
  have h0 : Int.testBit 0 k = false := by
    show Nat.testBit 0 k = false
    exact Nat.zero_testBit k
  simp [ior, Int.testBit_lor, h0]

theorem class_of_code (K : Consts) (hM : K.Masked) (c e : Int) (hc : c ∈ K.classes)
    (he : e ∈ K.labels) : iand (ior c e) K.inst_mask = c := by
  rw [iand_ior, hM.2.1 c hc, hM.2.2 e he, ior_zero_right]

theorem subcode_of_code (K : Consts) (hK : K.WF) (hS : K.Split) (c e : Int)
    (hc : c ∈ K.classes) (he : e ∈ K.labels) : iand (ior c e) K.inst_imask = e := by
  rw [iand_ior, hS.2 c hc, hK.2 e he, ior_zero_left]

theorem code_ne_ok (K : Consts) (hK : K.WF) (hS : K.Split) (c e : Int) (hc : c ∈ K.classes)
    (he : e ∈ K.labels) (hne : e ≠ K.HCFR_OK) : ior c e ≠ K.inst_ok := by
  intro h
  have h1 := subcode_of_code K hK hS c e hc he
  rw [h, hS.1] at h1
  exact hne h1.symm

theorem icoms2hcfr_err_key (K : Consts) (hI : K.IcomWF) (se : Int) :
    (iand se K.ICOM_USERM = K.ICOM_USER → icoms2hcfr_err K se = K.HCFR_USER_ABORT)
      ∧ (iand se K.ICOM_USERM = K.ICOM_TERM → icoms2hcfr_err K se = K.HCFR_USER_TERM)
      ∧ (iand se K.ICOM_USERM = K.ICOM_TRIG → icoms2hcfr_err K se = K.HCFR_USER_TRIG)
      ∧ (iand se K.ICOM_USERM = K.ICOM_CMND → icoms2hcfr_err K se = K.HCFR_USER_CMND)
      ∧ (se ≠ K.ICOM_OK → iand se K.ICOM_USERM ∉ K.keys →
          icoms2hcfr_err K se = K.HCFR_COMS_FAIL)
      ∧ (se = K.ICOM_OK → icoms2hcfr_err K se = K.HCFR_OK) := by
  obtain ⟨h0, hnd, hk⟩ := hI
  simp only [Consts.keys, List.nodup_cons, List.mem_cons, List.mem_singleton, not_or,
    List.not_mem_nil, not_false_eq_true, List.nodup_nil, and_true, forall_eq_or_imp,
    forall_eq, false_implies, implies_true] at hnd hk
  obtain ⟨⟨n1, n2, n3⟩, ⟨n4, n5⟩, n6⟩ := hnd
  obtain ⟨⟨-, k1⟩, ⟨-, k2⟩, ⟨-, k3⟩, ⟨-, k4⟩⟩ := hk
  refine ⟨?_, ?_, ?_, ?_, ?_, ?_⟩
  · intro h
    simp only [icoms2hcfr_err, h, ne_eq, k1, not_false_eq_true, if_true]
  · intro h
    simp only [icoms2hcfr_err, h, ne_eq, k2, not_false_eq_true, if_true, if_neg (Ne.symm n1)]
  · intro h
    simp only [icoms2hcfr_err, h, ne_eq, k3, not_false_eq_true, if_true, if_neg (Ne.symm n2),
      if_neg (Ne.symm n4)]
  · intro h
    simp only [icoms2hcfr_err, h, ne_eq, k4, not_false_eq_true, if_true, if_neg (Ne.symm n3),
      if_neg (Ne.symm n5), if_neg (Ne.symm n6)]
  · intro hne hnot
    simp only [Consts.keys, List.mem_cons, List.mem_singleton, List.not_mem_nil, or_false,
      not_or] at hnot
    obtain ⟨m1, m2, m3, m4⟩ := hnot
    unfold icoms2hcfr_err
    by_cases hu : iand se K.ICOM_USERM ≠ 0
    · have hu2 : iand se K.ICOM_USERM ≠ K.ICOM_OK := by rw [h0]; exact hu
      simp only [if_pos hu, if_neg m1, if_neg m2, if_neg m3, if_neg m4, if_pos hu2]
    · simp only [if_neg hu, if_pos hne]
  · intro h
    have hu : ¬ iand se K.ICOM_USERM ≠ 0 := by
      rw [h, h0, iand_zero_left]; exact fun g => g rfl
    have hn : ¬ se ≠ K.ICOM_OK := fun g => g h
    simp only [icoms2hcfr_err, if_neg hu, if_neg hn]

theorem hcfr_interp_ok (K : Consts) (hK : K.WF) : hcfr_interp_code K K.HCFR_OK = K.inst_ok := by
  have hm : iand K.HCFR_OK K.inst_imask = K.HCFR_OK := hK.2 _ (by simp [Consts.labels])
  simp only [hcfr_interp_code, hm, if_true]

/-- C21: under the layouts of `icoms.h` and `inst.h`, for every transport
status `se` the code `hcfr_interp_code (icoms2hcfr_err se)` is `inst_ok`
exactly when `se` is `ICOM_OK`; it is `inst_user_abort | HCFR_USER_ABORT`,
`inst_user_term | HCFR_USER_TERM`, `inst_user_trig | HCFR_USER_TRIG` or
`inst_user_cmnd | HCFR_USER_CMND` when the bits of `se` inside `ICOM_USERM`
are `ICOM_USER`, `ICOM_TERM`, `ICOM_TRIG` or `ICOM_CMND`, whatever its other
bits; and it is `inst_coms_fail | HCFR_COMS_FAIL` for every other status.  The
abstract classes of these five codes are the five class constants, which are
pairwise distinct. -/
theorem hcfr_transport_status (K : Consts) (hK : K.WF) (hS : K.Split) (hI : K.IcomWF)
    (hM : K.Masked) (se : Int) :
    (hcfr_interp_code K (icoms2hcfr_err K se) = K.inst_ok ↔ se = K.ICOM_OK)
      ∧ (iand se K.ICOM_USERM = K.ICOM_USER →
          hcfr_interp_code K (icoms2hcfr_err K se) = ior K.inst_user_abort K.HCFR_USER_ABORT)
      ∧ (iand se K.ICOM_USERM = K.ICOM_TERM →
          hcfr_interp_code K (icoms2hcfr_err K se) = ior K.inst_user_term K.HCFR_USER_TERM)
      ∧ (iand se K.ICOM_USERM = K.ICOM_TRIG →
          hcfr_interp_code K (icoms2hcfr_err K se) = ior K.inst_user_trig K.HCFR_USER_TRIG)
      ∧ (iand se K.ICOM_USERM = K.ICOM_CMND →
          hcfr_interp_code K (icoms2hcfr_err K se) = ior K.inst_user_cmnd K.HCFR_USER_CMND)
      ∧ (se ≠ K.ICOM_OK → iand se K.ICOM_USERM ∉ K.keys →
          hcfr_interp_code K (icoms2hcfr_err K se) = ior K.inst_coms_fail K.HCFR_COMS_FAIL)
      ∧ [iand (ior K.inst_user_abort K.HCFR_USER_ABORT) K.inst_mask,
          iand (ior K.inst_user_term K.HCFR_USER_TERM) K.inst_mask,
          iand (ior K.inst_user_trig K.HCFR_USER_TRIG) K.inst_mask,
          iand (ior K.inst_user_cmnd K.HCFR_USER_CMND) K.inst_mask,
          iand (ior K.inst_coms_fail K.HCFR_COMS_FAIL) K.inst_mask]
          = [K.inst_user_abort, K.inst_user_term, K.inst_user_trig, K.inst_user_cmnd,
              K.inst_coms_fail]
      ∧ [K.inst_user_abort, K.inst_user_term, K.inst_user_trig, K.inst_user_cmnd,
          K.inst_coms_fail, K.inst_internal_error, K.inst_unknown_model,
          K.inst_protocol_error, K.inst_misread, K.inst_hardware_fail,
          K.inst_other_error, K.inst_ok].Nodup := by
  obtain ⟨e1, e2, e3, e4, e5, e6⟩ := icoms2hcfr_err_key K hI se
  have r1 : iand se K.ICOM_USERM = K.ICOM_USER →
      hcfr_interp_code K (icoms2hcfr_err K se) = ior K.inst_user_abort K.HCFR_USER_ABORT :=
    fun h => by rw [e1 h, hcfr_interp_user_abort K hK]
  have r2 : iand se K.ICOM_USERM = K.ICOM_TERM →
      hcfr_interp_code K (icoms2hcfr_err K se) = ior K.inst_user_term K.HCFR_USER_TERM :=
    fun h => by rw [e2 h, hcfr_interp_user_term K hK]
  have r3 : iand se K.ICOM_USERM = K.ICOM_TRIG →
      hcfr_interp_code K (icoms2hcfr_err K se) = ior K.inst_user_trig K.HCFR_USER_TRIG :=
    fun h => by rw [e3 h, hcfr_interp_user_trig K hK]
  have r4 : iand se K.ICOM_USERM = K.ICOM_CMND →
      hcfr_interp_code K (icoms2hcfr_err K se) = ior K.inst_user_cmnd K.HCFR_USER_CMND :=
    fun h => by rw [e4 h, hcfr_interp_user_cmnd K hK]
  have r5 : se ≠ K.ICOM_OK → iand se K.ICOM_USERM ∉ K.keys →
      hcfr_interp_code K (icoms2hcfr_err K se) = ior K.inst_coms_fail K.HCFR_COMS_FAIL :=
    fun h g => by rw [e5 h g, hcfr_interp_coms_fail K hK]
  have hlab : ∀ e ∈ [K.HCFR_USER_ABORT, K.HCFR_USER_TERM, K.HCFR_USER_TRIG, K.HCFR_USER_CMND,
      K.HCFR_COMS_FAIL], e ∈ K.labels ∧ e ≠ K.HCFR_OK := by
    have hnd := hK.1
    simp only [Consts.labels, List.nodup_cons, List.mem_cons, List.mem_singleton, not_or]
      at hnd
    obtain ⟨h0, -⟩ := hnd
    intro e he
    simp only [List.mem_cons, List.mem_singleton, List.not_mem_nil, or_false] at he
    rcases he with rfl | rfl | rfl | rfl | rfl
    · exact ⟨by simp [Consts.labels], Ne.symm h0.2.2.2.2.1⟩
    · exact ⟨by simp [Consts.labels], Ne.symm h0.2.2.2.2.2.1⟩
    · exact ⟨by simp [Consts.labels], Ne.symm h0.2.2.2.2.2.2.1⟩
    · exact ⟨by simp [Consts.labels], Ne.symm h0.2.2.2.2.2.2.2.1⟩
    · exact ⟨by simp [Consts.labels], Ne.symm h0.2.1⟩
  have hne : ∀ c ∈ K.classes, ∀ e ∈ [K.HCFR_USER_ABORT, K.HCFR_USER_TERM, K.HCFR_USER_TRIG,
      K.HCFR_USER_CMND, K.HCFR_COMS_FAIL], ior c e ≠ K.inst_ok :=
    fun c hc e he => code_ne_ok K hK hS c e hc (hlab e he).1 (hlab e he).2
  refine ⟨⟨?_, ?_⟩, r1, r2, r3, r4, r5, ?_, ?_⟩
  · intro h
    by_contra hse
    by_cases g1 : iand se K.ICOM_USERM = K.ICOM_USER
    · rw [r1 g1] at h
      exact hne _ (by simp [Consts.classes]) _ (by simp) h
    by_cases g2 : iand se K.ICOM_USERM = K.ICOM_TERM
    · rw [r2 g2] at h
      exact hne _ (by simp [Consts.classes]) _ (by simp) h
    by_cases g3 : iand se K.ICOM_USERM = K.ICOM_TRIG
    · rw [r3 g3] at h
      exact hne _ (by simp [Consts.classes]) _ (by simp) h
    by_cases g4 : iand se K.ICOM_USERM = K.ICOM_CMND
    · rw [r4 g4] at h
      exact hne _ (by simp [Consts.classes]) _ (by simp) h
    rw [r5 hse (by simp [Consts.keys, g1, g2, g3, g4])] at h
    exact hne _ (by simp [Consts.classes]) _ (by simp) h
  · intro h
    rw [e6 h, hcfr_interp_ok K hK]
  · rw [class_of_code K hM _ _ (by simp [Consts.classes]) (hlab _ (by simp)).1,
      class_of_code K hM _ _ (by simp [Consts.classes]) (hlab _ (by simp)).1,
      class_of_code K hM _ _ (by simp [Consts.classes]) (hlab _ (by simp)).1,
      class_of_code K hM _ _ (by simp [Consts.classes]) (hlab _ (by simp)).1,
      class_of_code K hM _ _ (by simp [Consts.classes]) (hlab _ (by simp)).1]
  · have hnd := hM.1
    have hperm : [K.inst_user_abort, K.inst_user_term, K.inst_user_trig, K.inst_user_cmnd,
        K.inst_coms_fail, K.inst_internal_error, K.inst_unknown_model,
        K.inst_protocol_error, K.inst_misread, K.inst_hardware_fail,
        K.inst_other_error, K.inst_ok].Perm (K.inst_ok :: K.classes) := by
      have hidx : [5, 6, 7, 8, 2, 1, 3, 4, 9, 10, 11, 0].Perm
          [0, 1, 2, 3, 4, 5, 6, 7, 8, 9, 10, 11] := by decide
      have hmap := hidx.map (fun i => (K.inst_ok :: K.classes).getD i 0)
      simpa [Consts.classes] using hmap
    exact hperm.nodup_iff.2 hnd

/-- C21, instance: the status `0x123456` has the user bits `0x020000`
(`ICOM_TERM`) and other bits besides; it is classified as user terminate,
`0x080066`.  The status `0x000007` has no user bit; it is a communications
failure, `0x040062`. -/
theorem hcfr_transport_status_witness :
    hcfr_interp_code sampleConsts (icoms2hcfr_err sampleConsts 0x123456)
        = ior sampleConsts.inst_user_term sampleConsts.HCFR_USER_TERM
      ∧ ior sampleConsts.inst_user_term sampleConsts.HCFR_USER_TERM = 0x080066
      ∧ hcfr_interp_code sampleConsts (icoms2hcfr_err sampleConsts 0x000007)
        = ior sampleConsts.inst_coms_fail sampleConsts.HCFR_COMS_FAIL
      ∧ ior sampleConsts.inst_coms_fail sampleConsts.HCFR_COMS_FAIL = 0x040062 :=
  ⟨(hcfr_transport_status sampleConsts (by decide) (by decide) (by decide) (by decide)
      0x123456).2.2.1 (by decide),
   by decide,
   (hcfr_transport_status sampleConsts (by decide) (by decide) (by decide) (by decide)
      0x000007).2.2.2.2.2.1 (by decide) (by decide),
   by decide⟩

/-- C22 (code at the failing input): called for a port that is not a USB port
of a known instrument, `hcfr_init_coms` returns the bare subcode
`HCFR_UNKNOWN_MODEL` (`0x63`), not `hcfr_interp_code (HCFR_UNKNOWN_MODEL)`
(`0x050063`); under the class mask the value returned has the class of
`inst_ok`, not `inst_unknown_model`.  `gotcoms` stays 0. -/
theorem hcfr_init_coms_wrong_port_raw :
    (hcfr_init_coms sampleConsts hcfrNew instType.instUnknown 0).1
        = sampleConsts.HCFR_UNKNOWN_MODEL
      ∧ hcfr_interp_code sampleConsts sampleConsts.HCFR_UNKNOWN_MODEL = 0x050063
      ∧ (hcfr_init_coms sampleConsts hcfrNew instType.instUnknown 0).1
          ≠ hcfr_interp_code sampleConsts sampleConsts.HCFR_UNKNOWN_MODEL
      ∧ iand (hcfr_init_coms sampleConsts hcfrNew instType.instUnknown 0).1
          sampleConsts.inst_mask = iand sampleConsts.inst_ok sampleConsts.inst_mask
      ∧ iand (hcfr_init_coms sampleConsts hcfrNew instType.instUnknown 0).1
          sampleConsts.inst_mask ≠ sampleConsts.inst_unknown_model
      ∧ (hcfr_init_coms sampleConsts hcfrNew instType.instUnknown 0).2.gotcoms = 0 := by
  decide

/-! ## Results on hcfr.c: the calibration matrices -/

theorem det3_tmat_crt : 1 ≤ det3 tmat_crt := by
  norm_num [det3, tmat_crt, mat3]

theorem det3_tmat_lcd : 1 ≤ det3 tmat_lcd := by
  norm_num [det3, tmat_lcd, mat3]

theorem matLib_exact : MatLib inv3 mul3 := by
  refine ⟨?_, ?_, fun _ _ _ _ _ _ => rfl⟩
  · intro m h
    by_cases hd : det3 m = 0
    · rw [hd]; norm_num
    · exact absurd (by simp [inv3, hd]) h
  · intro m h i j hi hj
    by_cases hd : det3 m = 0
    · simp [inv3, hd] at h
    · have hd2 := hd
      unfold det3 at hd2
      interval_cases i <;> interval_cases j <;>
        (simp only [mul3, inv3, if_neg hd, mat3, List.getD_cons_zero, List.getD_cons_succ]
         unfold det3
         field_simp
         ring)

theorem mul3_solve (x it t m : Nat → Nat → ℚ)
    (hm : ∀ i j, i < 3 → j < 3 → m i j = mul3 x it i j)
    (hi : ∀ i j, i < 3 → j < 3 → mul3 it t i j = if i = j then 1 else 0)
    (i j : Nat) (h1 : i < 3) (h2 : j < 3) : mul3 m t i j = x i j := by
  have a0 := hi 0 j (by decide) h2
  have a1 := hi 1 j (by decide) h2
  have a2 := hi 2 j (by decide) h2
  simp only [mul3] at a0 a1 a2 hm ⊢
  rw [hm i 0 h1 (by decide), hm i 1 h1 (by decide), hm i 2 h1 (by decide)]
  interval_cases j
  · simp only [if_true, one_ne_zero, if_false, OfNat.ofNat_ne_zero] at a0 a1 a2
    linear_combination x i 0 * a0 + x i 1 * a1 + x i 2 * a2
  · simp only [if_true, zero_ne_one, if_false, OfNat.ofNat_ne_one] at a0 a1 a2
    linear_combination x i 0 * a0 + x i 1 * a1 + x i 2 * a2
  · simp only [if_true, if_false, OfNat.zero_ne_ofNat, OfNat.one_ne_ofNat] at a0 a1 a2
    linear_combination x i 0 * a0 + x i 1 * a1 + x i 2 * a2

/-- C30: whatever the library routines, provided `icmInverse3x3` fails only on
a determinant of magnitude below one and otherwise gives a left inverse, and
`icmMul3x3_2` gives the product: the determinants of the CRT and LCD sensor
matrices of `hcfr_comp_matrix` are non-zero (at least one, in fact), the
function returns `inst_ok` and never the `HCFR_CALIB_CALC` error, and the
matrices it stores satisfy `crt * tmat = xmat` and `lcd * tmat = xmat`
exactly, each with its own `tmat` and `xmat`. -/
theorem hcfr_comp_matrix_exact (K : Consts)
    (icmInverse3x3 : (Nat → Nat → ℚ) → Int × (Nat → Nat → ℚ))
    (icmMul3x3_2 : (Nat → Nat → ℚ) → (Nat → Nat → ℚ) → (Nat → Nat → ℚ))
    (p : hcfr) (hL : MatLib icmInverse3x3 icmMul3x3_2) :
    det3 tmat_crt ≠ 0 ∧ det3 tmat_lcd ≠ 0
      ∧ (hcfr_comp_matrix K icmInverse3x3 icmMul3x3_2 p).1 = K.inst_ok
      ∧ (∀ i j, i < 3 → j < 3 →
          mul3 (hcfr_comp_matrix K icmInverse3x3 icmMul3x3_2 p).2.crt tmat_crt i j
            = xmat_crt i j)
      ∧ (∀ i j, i < 3 → j < 3 →
          mul3 (hcfr_comp_matrix K icmInverse3x3 icmMul3x3_2 p).2.lcd tmat_lcd i j
            = xmat_lcd i j) := by
  obtain ⟨hfail, hinv, hmul⟩ := hL
  have dc := det3_tmat_crt
  have dl := det3_tmat_lcd
  have c0 : ¬ (icmInverse3x3 tmat_crt).1 ≠ 0 := by
    intro h
    have := hfail _ h
    rw [abs_lt] at this
    linarith [this.2]
  have l0 : ¬ (icmInverse3x3 tmat_lcd).1 ≠ 0 := by
    intro h
    have := hfail _ h
    rw [abs_lt] at this
    linarith [this.2]
  have hc : hcfr_comp_matrix K icmInverse3x3 icmMul3x3_2 p
      = (K.inst_ok,
          { p with
            crt := icmMul3x3_2 xmat_crt (icmInverse3x3 tmat_crt).2,
            lcd := icmMul3x3_2 xmat_lcd (icmInverse3x3 tmat_lcd).2 }) := by
    simp only [hcfr_comp_matrix, if_neg c0, if_neg l0]
  rw [hc]
  refine ⟨by linarith, by linarith, rfl, ?_, ?_⟩
  · intro i j h1 h2
    exact mul3_solve xmat_crt _ tmat_crt _ (fun a b ha hb => hmul _ _ a b ha hb)
      (hinv _ (not_not.1 c0)) i j h1 h2
  · intro i j h1 h2
    exact mul3_solve xmat_lcd _ tmat_lcd _ (fun a b ha hb => hmul _ _ a b ha hb)
      (hinv _ (not_not.1 l0)) i j h1 h2

/-- C30, instance: with the exact inverse and product, `hcfr_comp_matrix`
returns `inst_ok` and the CRT matrix sends the sensor reading of the red test
patch (column 0 of `tmat`) to its reference `X`, `21.988601`. -/
theorem hcfr_comp_matrix_exact_witness :
    (hcfr_comp_matrix sampleConsts inv3 mul3 hcfrNew).1 = sampleConsts.inst_ok
      ∧ mul3 (hcfr_comp_matrix sampleConsts inv3 mul3 hcfrNew).2.crt tmat_crt 0 0
          = 21.988601 :=
  ⟨(hcfr_comp_matrix_exact sampleConsts inv3 mul3 hcfrNew matLib_exact).2.2.1,
   ((hcfr_comp_matrix_exact sampleConsts inv3 mul3 hcfrNew matLib_exact).2.2.2.1 0 0
      (by decide) (by decide)).trans (by norm_num [xmat_crt, mat3])⟩

/-! ## Results on ss.c: mode activation and calibrate-all -/

/-- C27 (code at the failing input): a scanning table whose active mode is
reflective spot (`0x11`) is asked for reflective spot with the spectral flag
(`0x111`), and for the reflective grid with the spectral flag (`0x131`).
Both requests return `inst_ok` and are recorded in `nextmode`, but the active
mode `mode` stays `0x11`: the illumination class has not changed, so the
assignment `p->mode = p->nextmode` is skipped. -/
theorem ss_set_mode_same_class_not_activated :
    ((ss_set_mode sampleSs (ssHandle instType.instSpectroScan 0x11) 0x111).1 = sampleSs.inst_ok
      ∧ (ss_set_mode sampleSs (ssHandle instType.instSpectroScan 0x11) 0x111).2.nextmode = 0x111
      ∧ (ss_set_mode sampleSs (ssHandle instType.instSpectroScan 0x11) 0x111).2.mode = 0x11
      ∧ iand (ss_set_mode sampleSs (ssHandle instType.instSpectroScan 0x11) 0x111).2.mode
          sampleSs.inst_mode_spectral = 0)
      ∧ (ss_set_mode sampleSs (ssHandle instType.instSpectroScan 0x11) 0x131).1
          = sampleSs.inst_ok
      ∧ (ss_set_mode sampleSs (ssHandle instType.instSpectroScan 0x11) 0x131).2.mode = 0x11
      ∧ iand (ss_set_mode sampleSs (ssHandle instType.instSpectroScan 0x11) 0x131).2.mode
          sampleSs.inst_mode_measurement_mask ≠ sampleSs.inst_mode_ref_xy := by
  decide

/-- C29 (code at the failing input): a SpectroScanT is put in transmissive
spot mode and then in reflective spot mode, both accepted.  The handle is
then in reflective mode with `need_w_cal = 1` and `need_t_cal = 1`.
`ss_calibrate` with `inst_calt_all`, every command succeeding, returns
`inst_ok` and clears `need_w_cal`, but `need_t_cal` is still 1, so
`ss_needs_calibration` returns `inst_calt_trans_white`, not `inst_calt_none`;
and that calibration, when asked for, is refused with `inst_unsupported`. -/
theorem ss_calibrate_all_leaves_trans_need :
    (ss_set_mode sampleSs (ssHandle instType.instSpectroScanT 0) 0x12).1 = sampleSs.inst_ok
      ∧ (ss_set_mode sampleSs
          (ss_set_mode sampleSs (ssHandle instType.instSpectroScanT 0) 0x12).2 0x11).1
          = sampleSs.inst_ok
      ∧ pTransThenRef.mode = 0x11 ∧ pTransThenRef.need_w_cal = 1
      ∧ pTransThenRef.need_t_cal = 1 ∧ pTransThenRef.noautocalib = 0
      ∧ (ss_calibrate sampleSs devGood pTransThenRef inst_cal_type.inst_calt_all
          inst_cal_cond.inst_calc_none []).rv = sampleSs.inst_ok
      ∧ (ss_calibrate sampleSs devGood pTransThenRef inst_cal_type.inst_calt_all
          inst_cal_cond.inst_calc_none []).p.need_w_cal = 0
      ∧ (ss_calibrate sampleSs devGood pTransThenRef inst_cal_type.inst_calt_all
          inst_cal_cond.inst_calc_none []).p.need_t_cal = 1
      ∧ ss_needs_calibration (ss_calibrate sampleSs devGood pTransThenRef
          inst_cal_type.inst_calt_all inst_cal_cond.inst_calc_none []).p
          = inst_cal_type.inst_calt_trans_white
      ∧ (ss_calibrate sampleSs devGood
          (ss_calibrate sampleSs devGood pTransThenRef inst_cal_type.inst_calt_all
            inst_cal_cond.inst_calc_none []).p
          inst_cal_type.inst_calt_trans_white inst_cal_cond.inst_calc_none []).rv
          = sampleSs.inst_unsupported := by
  decide

/-! ## Results on ss.c: positions sent by the grid scan -/

theorem xy_measure_log (K : SsConsts) (dev : Instrument) (st : XySt) (patch : Int)
    (ix iy : ℚ) (hdev : ScanOk K dev) :
    (xy_measure K dev st patch ix iy).2.log
      = st.log ++ [SsCmd.ss_do_MoveAndMeasure ix iy, SsCmd.so_do_CParameterRequest] := by
  have h1 := hdev.1 st.log ix iy
  have h2 := hdev.2 (st.log ++ [SsCmd.ss_do_MoveAndMeasure ix iy])
  unfold xy_measure
  simp only [h1, h2, ne_eq, not_true_eq_false, if_false, List.append_assoc,
    List.singleton_append]

theorem xy_body_log (K : SsConsts) (dev : Instrument) (a : XyArgs) (fs : Bool) (cs : Int)
    (step pass : Int) (st : XySt) (hdev : ScanOk K dev) (hw : st.p.need_w_cal = 0)
    (ht : st.p.need_t_cal = 0) :
    (xy_body K dev a fs cs step pass st).2.log
      = st.log ++ (if patchOf a (apass a fs step pass, astep a fs step pass) < a.npatch then
          [SsCmd.ss_do_MoveAndMeasure (xy_pos a fs step pass).1 (xy_pos a fs step pass).2,
            SsCmd.so_do_CParameterRequest]
        else []) := by
  have hno : ¬ ((if fs then astep a fs step pass = cs else apass a fs step pass = cs)
        ∧ (st.p.need_w_cal ≠ 0 ∨ st.p.need_t_cal ≠ 0) ∧ st.p.noautocalib = 0) := by
    rintro ⟨-, h | h, -⟩
    · exact h hw
    · exact h ht
  unfold xy_body
  simp only [patchOf, if_neg hno, xy_pos]
  by_cases h : apass a fs step pass * a.sip + astep a fs step pass < a.npatch
  · simp only [if_pos h]
    rw [xy_measure_log K dev _ _ _ _ hdev]
  · simp only [if_neg h, List.append_nil]

theorem xy_loop_log (K : SsConsts) (dev : Instrument) (a : XyArgs) (fs : Bool) (cs : Int)
    (p0 : ss) (T : Nat) (hs : 0 < a.sip) (hp : 0 < a.pis) (hdev : ScanOk K dev)
    (hf : Fresh K p0 T) :
    ∀ (n t : Nat) (st : XySt) (j : Nat), t + n ≤ T → j ≤ t → st.p = (inc_calcount K)^[j] p0 →
      (xy_loop K dev a fs cs n (xy_counters a fs t).1 (xy_counters a fs t).2 st).log
        = st.log ++ ((List.range' t n).map (fun j : Nat => xy_cmds a fs (j : Int))).flatten := by
  intro n
  induction n with
  | zero =>
    intro t st j _ _ _
    simp [xy_loop]
  | succ n ih =>
    intro t st j htn hj hst
    have hfr := hf j (by exact_mod_cast (by omega : j < T))
    rw [← hst] at hfr
    obtain ⟨b1, -, b3, -⟩ := xy_body_ok K dev a fs cs (xy_counters a fs t).1
      (xy_counters a fs t).2 st hdev hfr.1 hfr.2
    have bl := xy_body_log K dev a fs cs (xy_counters a fs t).1 (xy_counters a fs t).2 st
      hdev hfr.1 hfr.2
    simp only [xy_loop]
    rw [b1]
    simp only [Bool.false_eq_true, if_false]
    rw [xy_next_counters a fs t hs hp]
    have hc : ((t : Int) + 1) = ((t + 1 : Nat) : Int) := by push_cast; rfl
    rw [hc]
    have hp2 : ∃ j2, j2 ≤ t + 1
        ∧ (xy_body K dev a fs cs (xy_counters a fs t).1 (xy_counters a fs t).2 st).2.p
            = (inc_calcount K)^[j2] p0 := by
      rw [b3]
      split_ifs
      · exact ⟨j + 1, by omega, by rw [Function.iterate_succ_apply', hst]⟩
      · exact ⟨j, by omega, hst⟩
    obtain ⟨j2, hj2, hp2⟩ := hp2
    rw [ih (t + 1) _ j2 (by omega) hj2 hp2, bl, List.range'_succ]
    simp only [List.map_cons, List.flatten_cons, List.append_assoc, xy_cmds, xy_cell]

theorem ss_read_xy_log (K : SsConsts) (dev : Instrument) (p : ss) (a : XyArgs)
    (vals : Int → ipatch) (log : List SsCmd) (hs : 0 < a.sip) (hp : 0 < a.pis)
    (hov : a.sip * a.pis < 2147483648)
    (hi : p.itype = instType.instSpectroScan ∨ p.itype = instType.instSpectroScanT)
    (hdev : ScanOk K dev) (hf : Fresh K p (a.sip * a.pis)) :
    (ss_read_xy K dev p a vals log).log
      = log ++ ((List.range (a.sip * a.pis).toNat).map
          (fun j : Nat => xy_cmds a (fstep a) (j : Int))).flatten := by
  have hno : ¬ (p.itype ≠ instType.instSpectroScan ∧ p.itype ≠ instType.instSpectroScanT) := by
    rintro ⟨h1, h2⟩
    rcases hi with h | h
    · exact h1 h
    · exact h2 h
  obtain ⟨e1, e2⟩ := tries_eq a hs hp hov
  have hf2 : Fresh K p ((a.sip * a.pis).toNat : Nat) := by rw [e2]; exact hf
  have h := xy_loop_log K dev a (fstep a) (cstep a) p (a.sip * a.pis).toNat hs hp
    hdev hf2 (a.sip * a.pis).toNat 0
    { p := p, vals := vals, rv := K.inst_ok, log := log, cells := [], meas := [] } 0
    (by omega) le_rfl rfl
  rw [Nat.cast_zero, xy_counters_zero] at h
  unfold ss_read_xy
  rw [if_neg hno, e1, List.range_eq_range']
  exact h

theorem xy_cmds_a22hex :
    xy_cmds a22hex true 0
        = [SsCmd.ss_do_MoveAndMeasure 0 0, SsCmd.so_do_CParameterRequest]
      ∧ xy_cmds a22hex true 1
        = [SsCmd.ss_do_MoveAndMeasure (3 / 2) 0, SsCmd.so_do_CParameterRequest]
      ∧ xy_cmds a22hex true 2
        = [SsCmd.ss_do_MoveAndMeasure 1 1, SsCmd.so_do_CParameterRequest]
      ∧ xy_cmds a22hex true 3
        = [SsCmd.ss_do_MoveAndMeasure (1 / 2) 1, SsCmd.so_do_CParameterRequest] := by
  have c0 : xy_counters a22hex true 0 = (0, 0) := by decide
  have c1 : xy_counters a22hex true 1 = (1, 0) := by decide
  have c2 : xy_counters a22hex true 2 = (0, 1) := by decide
  have c3 : xy_counters a22hex true 3 = (1, 1) := by decide
  have p0 : patchOf a22hex (xy_cell a22hex true 0) < a22hex.npatch := by decide
  have p1 : patchOf a22hex (xy_cell a22hex true 1) < a22hex.npatch := by decide
  have p2 : patchOf a22hex (xy_cell a22hex true 2) < a22hex.npatch := by decide
  have p3 : patchOf a22hex (xy_cell a22hex true 3) < a22hex.npatch := by decide
  have i0 : iand 0 1 = 0 := by decide
  have i1 : iand 1 1 = 1 := by decide
  have s00 : astep a22hex true 0 0 = 0 := by decide
  have s10 : astep a22hex true 1 0 = 1 := by decide
  have s01 : astep a22hex true 0 1 = 1 := by decide
  have s11 : astep a22hex true 1 1 = 0 := by decide
  have a00 : apass a22hex true 0 0 = 0 := by decide
  have a10 : apass a22hex true 1 0 = 0 := by decide
  have a01 : apass a22hex true 0 1 = 1 := by decide
  have a11 : apass a22hex true 1 1 = 1 := by decide
  refine ⟨?_, ?_, ?_, ?_⟩
  · simp only [xy_cmds, if_pos p0, c0, xy_pos, i0, s00, a00]
    norm_num [a22hex, a22]
  · simp only [xy_cmds, if_pos p1, c1, xy_pos, i1, s10, a10]
    norm_num [a22hex, a22]
  · simp only [xy_cmds, if_pos p2, c2, xy_pos, i0, s01, a01]
    norm_num [a22hex, a22]
  · simp only [xy_cmds, if_pos p3, c3, xy_pos, i1, s11, a11]
    norm_num [a22hex, a22]

/-- C28 (code at the failing input): the 2 by 2 grid with origin `(0,0)`, step
increment `(1,0)`, pass increment `(0,1)` and odd offset `(1/2, 0)`, every
command succeeding.  The cells are visited in the order
`(0,0), (0,1), (1,1), (1,0)` (pass, step).  Step 1 of pass 0 is measured at
`x = 3/2`, with the offset; step 1 of pass 1, reached while the loop counter
`step` is 0, is measured at `x = 1`, without it; and step 0 of pass 1, reached
while the counter is 1, is measured at `x = 1/2`, with the offset although its
step index is even. -/
theorem ss_read_xy_offset_follows_counter :
    (ss_read_xy sampleSs devGood pXY a22hex vals0 []).cells
        = [(0, 0), (0, 1), (1, 1), (1, 0)]
      ∧ (ss_read_xy sampleSs devGood pXY a22hex vals0 []).log
        = [SsCmd.ss_do_MoveAndMeasure 0 0, SsCmd.so_do_CParameterRequest,
           SsCmd.ss_do_MoveAndMeasure (3 / 2) 0, SsCmd.so_do_CParameterRequest,
           SsCmd.ss_do_MoveAndMeasure 1 1, SsCmd.so_do_CParameterRequest,
           SsCmd.ss_do_MoveAndMeasure (1 / 2) 1, SsCmd.so_do_CParameterRequest] := by
  have hf : fstep a22hex = true := by norm_num [fstep, a22hex, a22]
  have hfull := ss_read_xy_full sampleSs devGood pXY a22hex vals0 [] (by decide) (by decide)
    (by decide) (Or.inl rfl) devGood_scanOk pXY_fresh
  have hlog := ss_read_xy_log sampleSs devGood pXY a22hex vals0 [] (by decide) (by decide)
    (by decide) (Or.inl rfl) devGood_scanOk pXY_fresh
  have hT : (a22hex.sip * a22hex.pis).toNat = 4 := by decide
  obtain ⟨q0, q1, q2, q3⟩ := xy_cmds_a22hex
  constructor
  · rw [hfull.1, hf, hT]
    decide
  · rw [hlog, hf, hT]
    simp only [List.range, List.range.loop, List.map_cons, List.map_nil, List.flatten_cons,
      List.flatten_nil, List.nil_append, List.append_nil, Nat.cast_zero, Nat.cast_one,
      Nat.cast_ofNat, q0, q1, q2, q3]
    rfl

/-! ## Results on ss_init_coms -/

theorem nxt_iterate (i r : Nat) (hi : i < 7) : nxt^[r] i = (i + r) % 7 := by
  induction r with
  | zero => simp [Nat.mod_eq_of_lt hi]
  | succ r ih =>
    rw [Function.iterate_succ_apply', ih]
    have h := Nat.mod_lt (i + r) (show 7 > 0 by decide)
    unfold nxt
    split_ifs <;> omega

theorem ss_probe_binds (K : SsConsts) (line : Line) (clk : Nat → Int) (et : Int)
    (huser : ∀ log ev, ¬ user_snerr K (line log ev).snerr) :
    ∀ (k extra i : Nat) (st : ComSt),
      (∀ n, st.nclk ≤ n → clk n < et) →
      (∀ r, r < k → ¬ Recognised1 K line (st.log ++ rounds_log i r) (nxt^[r] i)
        ∧ ¬ Recognised2 K line (st.log ++ rounds_log i r) (nxt^[r] i)) →
      (Recognised1 K line (st.log ++ rounds_log i k) (nxt^[k] i)
        ∨ Recognised2 K line (st.log ++ rounds_log i k) (nxt^[k] i)) →
      ∃ st1, ss_probe K line clk et (k + 1 + extra) i st = some st1
        ∧ st1.log = st.log ++ rounds_log i k
            ++ bind_log K line (st.log ++ rounds_log i k) (nxt^[k] i)
        ∧ (st1.p.itype = instType.instSpectroScan ∨ st1.p.itype = instType.instSpectrolino)
        ∧ ¬ user_snerr K st1.p.snerr
        ∧ st1.nclk = st.nclk + k + 1 := by
  intro k
  induction k with
  | zero =>
    intro extra i st hclk _ hhit
    have hc := hclk st.nclk le_rfl
    simp only [rounds_log, List.append_nil, Function.iterate_zero, id_eq] at hhit ⊢
    simp only [Nat.zero_add, Nat.add_comm 1 extra, ss_probe, if_pos hc]
    by_cases h1 : Recognised1 K line st.log i
    · have h1' := h1
      unfold Recognised1 probe_port at h1'
      simp only [h1', true_or, if_true, bind_log, if_pos h1, probe_port]
      exact ⟨_, rfl, by simp, Or.inl rfl, huser _ _, by simp⟩
    · have h2 : Recognised2 K line st.log i := by
        rcases hhit with h | h
        · exact absurd h h1
        · exact h
      have h1' := h1
      have h2' := h2
      unfold Recognised1 probe_port at h1'
      unfold Recognised2 probe_port at h2'
      simp only [h1', huser, or_self, if_false, List.append_assoc, List.singleton_append, h2',
        true_or, if_true, bind_log, if_neg h1, probe_port]
      exact ⟨_, rfl, by simp, Or.inr rfl, huser _ _, by simp⟩
  | succ k ih =>
    intro extra i st hclk hmiss hhit
    have hc := hclk st.nclk le_rfl
    obtain ⟨m1, m2⟩ := hmiss 0 (Nat.succ_pos k)
    simp only [rounds_log, List.append_nil, Function.iterate_zero, id_eq] at m1 m2
    have m1' := m1
    have m2' := m2
    unfold Recognised1 probe_port at m1'
    unfold Recognised2 probe_port at m2'
    have hstep : ∃ st2, ss_probe K line clk et (k + 1 + 1 + extra) i st
          = ss_probe K line clk et (k + 1 + extra) (nxt i) st2
        ∧ st2.log = st.log ++ [probe_port i, ComEv.ss_OutputStatus, ComEv.ss_ParameterRequest]
        ∧ st2.nclk = st.nclk + 1 := by
      have e : k + 1 + 1 + extra = (k + 1 + extra) + 1 := by omega
      rw [e]
      simp only [ss_probe, if_pos hc, m1', huser, or_self, if_false, List.append_assoc,
        List.singleton_append, m2', nxt, probe_port, List.cons_append, List.nil_append]
      exact ⟨_, rfl, rfl, rfl⟩
    obtain ⟨st2, hst2, hlog2, hn2⟩ := hstep
    rw [hst2]
    obtain ⟨st1, g1, g2, g3, g4, g5⟩ := ih extra (nxt i) st2
      (fun n hn => hclk n (by omega))
      (fun r hr => by
        have := hmiss (r + 1) (by omega)
        rw [hlog2]
        simpa only [rounds_log, Function.iterate_succ_apply, List.append_assoc] using this)
      (by
        rw [hlog2]
        simpa only [rounds_log, Function.iterate_succ_apply, List.append_assoc] using hhit)
    refine ⟨st1, g1, ?_, g3, g4, by rw [g5, hn2]; omega⟩
    rw [g2, hlog2]
    simp only [rounds_log, Function.iterate_succ_apply, List.append_assoc]

theorem ss_link_log (K : SsConsts) (line : Line) (fc : flow_control) (fcc1 : ss_ctt)
    (fcc2 : ss_hst) (bi : Nat) (st : ComSt) :
    ∃ fin, (ss_link K line fc fcc1 fcc2 bi st).2 = st.log ++ fin
      ∧ ∀ ev ∈ fin, FinEv fc bi ev := by
  unfold ss_link
  split_ifs <;> exact ⟨_, rfl, by simp [FinEv]⟩

theorem ss_identify_log (K : SsConsts) (line : Line) (st : ComSt) (log : List ComEv) :
    (ss_identify K line st log).2.log
      = log ++ [ComEv.ss_do_OutputType, ComEv.so_do_TargetIdRequest] := by
  unfold ss_identify
  dsimp only
  split_ifs <;> rfl

theorem ss_finalise_log (K : SsConsts) (line : Line) (fc : flow_control) (fcc1 : ss_ctt)
    (fcc2 : ss_hst) (bi : Nat) (st : ComSt) :
    ∃ fin, (ss_finalise K line fc fcc1 fcc2 bi st).2.log = st.log ++ fin
      ∧ ∀ ev ∈ fin, FinEv fc bi ev := by
  obtain ⟨fin, h1, h2⟩ := ss_link_log K line fc fcc1 fcc2 bi st
  unfold ss_finalise
  split_ifs
  · exact ⟨fin, h1, h2⟩
  · refine ⟨fin ++ [ComEv.ss_do_OutputType, ComEv.so_do_TargetIdRequest], ?_, ?_⟩
    · rw [ss_identify_log, h1, List.append_assoc]
    · intro ev hev
      rw [List.mem_append] at hev
      rcases hev with h | h
      · exact h2 ev h
      · simp only [List.mem_cons, List.mem_singleton, List.not_mem_nil, or_false] at h
        rcases h with rfl | rfl <;> simp [FinEv]

theorem brt_index_lt (br : baud_rate) (d : Nat) (hd : d < 7) : brt_index br d < 7 := by
  unfold brt_index
  split_ifs with h
  · exact h
  · exact hd

theorem brt_index_mem (br : baud_rate) (d : Nat) (h : br ∈ brt) :
    brt.getD (brt_index br d) baud_rate.baud_9600 = br := by
  have hlt : brt.indexOf br < 7 := List.indexOf_lt_length.2 h
  have hlt2 : brt.indexOf br < brt.length := List.indexOf_lt_length.2 h
  unfold brt_index
  rw [if_pos hlt, List.getD_eq_getElem _ _ hlt2]
  exact List.getElem_indexOf hlt2

theorem brt_index_not_mem (br : baud_rate) (d : Nat) (h : br ∉ brt) : brt_index br d = d := by
  have hge : ¬ brt.indexOf br < 7 := by
    intro hlt
    exact h (List.indexOf_lt_length.1 hlt)
  unfold brt_index
  rw [if_neg hge]

theorem rounds_log_closed (k : Nat) :
    ∀ i, i < 7 → rounds_log i k
      = ((List.range k).map fun r =>
          [probe_port ((i + r) % 7), ComEv.ss_OutputStatus, ComEv.ss_ParameterRequest]).flatten := by
  induction k with
  | zero => intro i _; rfl
  | succ k ih =>
    intro i hi
    have hn : nxt i < 7 := by unfold nxt; split_ifs <;> omega
    have hstep : ∀ r, (nxt i + r) % 7 = (i + (r + 1)) % 7 := by
      intro r
      unfold nxt
      split_ifs with h
      · have : i = 6 := by omega
        subst this
        omega
      · congr 1; omega
    rw [rounds_log, ih (nxt i) hn, List.range_succ_eq_map, List.map_cons, List.flatten_cons,
      List.map_map]
    simp only [Nat.add_zero, Nat.mod_eq_of_lt hi]
    congr 2
    apply List.map_congr_left
    intro r _
    simp only [Function.comp, hstep, Nat.succ_eq_add_one]

theorem etime_sample : etime sampleSs 0 10 = 10000 := by
  have h : ((sampleSs.CLOCKS_PER_SEC : ℚ) * 10 + 1 / 2) = 20001 / 2 := by
    norm_num [sampleSs]
  have hf : ⌊(20001 / 2 : ℚ)⌋ = 10000 := by
    rw [Int.floor_eq_iff]
    norm_num
  unfold etime ctrunc
  rw [h, if_pos (by norm_num), hf]
  rfl

/-- A run of `ss_init_coms`: the transport is at 9600 baud (table entry 0),
57600 baud (entry 2) is requested, and the instrument answers only at 19200
baud (entry 1); the deadline does not expire and there is no user interrupt.
The negotiation probes entry 0 and binds at entry 1 without touching entry 2;
the link is then moved to the requested rate and the device identified, and
`ss_init_coms` returns `inst_ok`. -/
theorem ss_init_coms_run_19200 :
    (ss_init_coms sampleSs (lineAt baud_rate.baud_19200) clk0 baud_rate.baud_9600 10 ssNew
        baud_rate.baud_57600 flow_control.fc_none 10).map (fun r => (r.1, r.2.log))
      = some (sampleSs.inst_ok,
          [ComEv.set_ser_port flow_control.fc_none baud_rate.baud_9600,
           ComEv.ss_OutputStatus, ComEv.ss_ParameterRequest,
           ComEv.set_ser_port flow_control.fc_none baud_rate.baud_19200,
           ComEv.ss_OutputStatus, ComEv.ss_ParameterRequest,
           ComEv.so_do_MeasControlDownload ss_ctt.ss_ctt_ProtokolWithoutXonXoff,
           ComEv.so_do_MeasControlDownload ss_ctt.ss_ctt_SetBaud57600,
           ComEv.set_ser_port flow_control.fc_none baud_rate.baud_57600,
           ComEv.ss_do_OutputType, ComEv.so_do_TargetIdRequest]) := by
  simp only [ss_init_coms, clk0, etime_sample]
  decide

/-- C23: let `ci` be the index at which the negotiation of `ss_init_coms`
starts: that of the transport's current baud rate when it is in the table,
else that of the requested rate, else 0.  With a deadline that does not
expire, no user interrupt, and the instrument recognising a probe for the
first time in round `k` of the loop (rounds counted from 0, at least `k + 1`
rounds allowed), the negotiation loop ends, and its actions on the line are
exactly: `k` rounds at the table entries `ci, ci + 1, ...` taken modulo 7,
each a port setting and two probes; then the port setting and the probes of
entry `(ci + k) % 7`, where it binds (the second probe only when the first was
not recognised).  No later entry is configured or probed by the negotiation.
The function returns, and what it does on the line after the negotiation
contains no probe at all: it only finalises the link at the requested baud
rate and identifies the device. -/
theorem ss_init_coms_probing (K : SsConsts) (line : Line) (clk : Nat → Int)
    (icom_br : baud_rate) (fuel : Nat) (p : ss) (br : baud_rate) (fc : flow_control)
    (tout : ℚ) (k : Nat) (hfuel : k < fuel)
    (hclk : ∀ n, 0 < n → clk n < etime K (clk 0) tout)
    (huser : ∀ log ev, ¬ user_snerr K (line log ev).snerr)
    (hmiss : ∀ r, r < k →
      ¬ Recognised1 K line (rounds_log (brt_index icom_br (brt_index br 0)) r)
          ((brt_index icom_br (brt_index br 0) + r) % 7)
        ∧ ¬ Recognised2 K line (rounds_log (brt_index icom_br (brt_index br 0)) r)
          ((brt_index icom_br (brt_index br 0) + r) % 7))
    (hhit : Recognised1 K line (rounds_log (brt_index icom_br (brt_index br 0)) k)
          ((brt_index icom_br (brt_index br 0) + k) % 7)
        ∨ Recognised2 K line (rounds_log (brt_index icom_br (brt_index br 0)) k)
          ((brt_index icom_br (brt_index br 0) + k) % 7)) :
    (icom_br ∈ brt →
        brt.getD (brt_index icom_br (brt_index br 0)) baud_rate.baud_9600 = icom_br)
      ∧ (icom_br ∉ brt → br ∈ brt →
        brt.getD (brt_index icom_br (brt_index br 0)) baud_rate.baud_9600 = br)
      ∧ (icom_br ∉ brt → br ∉ brt → brt_index icom_br (brt_index br 0) = 0)
      ∧ rounds_log (brt_index icom_br (brt_index br 0)) k
          = ((List.range k).map fun r =>
              [probe_port ((brt_index icom_br (brt_index br 0) + r) % 7),
                ComEv.ss_OutputStatus, ComEv.ss_ParameterRequest]).flatten
      ∧ ∃ st1 code st fin,
          ss_probe K line clk (etime K (clk 0) tout) fuel
              (brt_index icom_br (brt_index br 0)) { p := p, log := [], nclk := 2 } = some st1
            ∧ st1.log = rounds_log (brt_index icom_br (brt_index br 0)) k
                ++ bind_log K line (rounds_log (brt_index icom_br (brt_index br 0)) k)
                    ((brt_index icom_br (brt_index br 0) + k) % 7)
            ∧ ss_init_coms K line clk icom_br fuel p br fc tout = some (code, st)
            ∧ st.log = st1.log ++ fin
            ∧ ∀ ev ∈ fin, FinEv (flow_codes fc).1 (brt_index br 0) ev := by
  have hbi : brt_index br 0 < 7 := brt_index_lt br 0 (by decide)
  have hci : brt_index icom_br (brt_index br 0) < 7 := brt_index_lt icom_br _ hbi
  refine ⟨fun h => brt_index_mem _ _ h,
    fun h1 h2 => by rw [brt_index_not_mem _ _ h1]; exact brt_index_mem _ _ h2,
    fun h1 h2 => by rw [brt_index_not_mem _ _ h1, brt_index_not_mem _ _ h2],
    rounds_log_closed k _ hci, ?_⟩
  obtain ⟨ci, hcidef⟩ : ∃ ci, ci = brt_index icom_br (brt_index br 0) := ⟨_, rfl⟩
  rw [← hcidef] at hmiss hhit hci ⊢
  obtain ⟨extra, hextra⟩ : ∃ extra, fuel = k + 1 + extra := ⟨fuel - k - 1, by omega⟩
  obtain ⟨st1, g1, g2, -, g4, g5⟩ := ss_probe_binds K line clk (etime K (clk 0) tout) huser
    k extra ci { p := p, log := [], nclk := 2 }
    (fun n hn => hclk n (by simp only at hn; omega))
    (fun r hr => by
      have := hmiss r hr
      simpa only [List.nil_append, nxt_iterate ci r hci] using this)
    (by simpa only [List.nil_append, nxt_iterate ci k hci] using hhit)
  simp only [List.nil_append, nxt_iterate ci k hci] at g2
  simp only [user_snerr, not_or] at g4
  obtain ⟨u1, u2, u3, u4⟩ := g4
  have hc1 : clk 1 < etime K (clk 0) tout := hclk 1 (by decide)
  have hc2 : ¬ clk st1.nclk ≥ etime K (clk 0) tout := by
    have := hclk st1.nclk (by rw [g5]; omega)
    omega
  obtain ⟨fin, f1, f2⟩ := ss_finalise_log K line (flow_codes fc).1 (flow_codes fc).2.1
    (flow_codes fc).2.2 (brt_index br 0) { st1 with nclk := st1.nclk + 1 }
  refine ⟨st1, (ss_finalise K line (flow_codes fc).1 (flow_codes fc).2.1 (flow_codes fc).2.2
      (brt_index br 0) { st1 with nclk := st1.nclk + 1 }).1,
    (ss_finalise K line (flow_codes fc).1 (flow_codes fc).2.1 (flow_codes fc).2.2
      (brt_index br 0) { st1 with nclk := st1.nclk + 1 }).2, fin, ?_, g2, ?_, f1, f2⟩
  · rw [hextra]; exact g1
  · unfold ss_init_coms
    simp only [← hcidef, if_pos hc1, hextra, g1, Option.map_some', if_neg u1, if_neg u2,
      if_neg u3, if_neg u4, if_neg hc2]

theorem lineAt_no_user (b : baud_rate) (log : List ComEv) (ev : ComEv) :
    ¬ user_snerr sampleSs (lineAt b log ev).snerr := by
  cases ev <;> simp only [lineAt] <;> try decide
  split_ifs <;> decide

/-- C23 at a concrete input: the transport is at 9600 baud (entry 0), 57600
baud (entry 2) is requested and the instrument answers only at 19200 baud
(entry 1).  The negotiation makes one round at entry 0, binds at entry 1 on
its second attempt, and never configures or probes entry 2. -/
theorem ss_init_coms_probing_witness :
    ∃ st1 code st fin,
      ss_probe sampleSs (lineAt baud_rate.baud_19200) clk0 (etime sampleSs (clk0 0) 10) 10
          (brt_index baud_rate.baud_9600 (brt_index baud_rate.baud_57600 0))
          { p := ssNew, log := [], nclk := 2 } = some st1
        ∧ st1.log = rounds_log (brt_index baud_rate.baud_9600 (brt_index baud_rate.baud_57600 0)) 1
            ++ bind_log sampleSs (lineAt baud_rate.baud_19200)
                (rounds_log (brt_index baud_rate.baud_9600 (brt_index baud_rate.baud_57600 0)) 1)
                ((brt_index baud_rate.baud_9600 (brt_index baud_rate.baud_57600 0) + 1) % 7)
        ∧ ss_init_coms sampleSs (lineAt baud_rate.baud_19200) clk0 baud_rate.baud_9600 10 ssNew
            baud_rate.baud_57600 flow_control.fc_none 10 = some (code, st)
        ∧ st.log = st1.log ++ fin
        ∧ ∀ ev ∈ fin, FinEv (flow_codes flow_control.fc_none).1
            (brt_index baud_rate.baud_57600 0) ev :=
  (ss_init_coms_probing sampleSs (lineAt baud_rate.baud_19200) clk0 baud_rate.baud_9600 10
    ssNew baud_rate.baud_57600 flow_control.fc_none 10 1 (by decide)
    (fun n _ => by
      show (0 : Int) < etime sampleSs 0 10
      rw [etime_sample]
      decide)
    (lineAt_no_user _)
    (fun r hr => by
      have h0 : r = 0 := by omega
      subst h0
      decide)
    (by decide)).2.2.2.2

/-- C24 (code at the failing input): with the transport and the request at
9600 baud, a deadline that does not expire and no user interrupt,
`ss_init_coms` binds to a device whose two identity queries fail, and to a
device whose type string matches no expected pattern and whose second query
fails.  In both runs it returns `inst_ok` and sets `gotcoms`, with the
identity left at `instUnknown`: the code `ev` of a failed query is dropped,
and only a reply to `so_do_TargetIdRequest` that arrives and mismatches gives
`inst_unknown_model`. -/
theorem ss_init_coms_ok_with_unknown_identity :
    (ss_init_coms sampleSs lineIdFail clk0 baud_rate.baud_9600 10 ssNew
        baud_rate.baud_9600 flow_control.fc_none 10).map
        (fun r => (r.1, r.2.p.itype, r.2.p.gotcoms))
      = some (sampleSs.inst_ok, instType.instUnknown, 1)
    ∧ (ss_init_coms sampleSs lineOddName clk0 baud_rate.baud_9600 10 ssNew
        baud_rate.baud_9600 flow_control.fc_none 10).map
        (fun r => (r.1, r.2.p.itype, r.2.p.gotcoms))
      = some (sampleSs.inst_ok, instType.instUnknown, 1) := by
  constructor
  · simp only [ss_init_coms, clk0, etime_sample]
    decide
  · simp only [ss_init_coms, clk0, etime_sample]
    decide

/-! ## Results on ss_read_sample -/

theorem codes_seq {Q : Int → Prop} {f : Flow} {k : CalSt → Flow} (hf : f.Codes Q)
    (hk : ∀ t, Q t.rv → (k t).Codes Q) : (f.bind k).Codes Q :=
  Flow.Sat.bind hf hk

theorem codes_ite {Q : Int → Prop} {c : Prop} [Decidable c] {a b : Flow}
    (ha : c → a.Codes Q) (hb : ¬ c → b.Codes Q) : (if c then a else b).Codes Q := by
  split_ifs with h
  · exact ha h
  · exact hb h

theorem codes_ret {Q : Int → Prop} {code : Int} (t : CalSt) (h : Q code) :
    (Flow.ret code t).Codes Q := h

theorem codes_go {Q : Int → Prop} {t : CalSt} (h : Q t.rv) : (Flow.go t).Codes Q := h

theorem calst_ite {P : CalSt → Prop} {c : Prop} [Decidable c] {a b : CalSt}
    (ha : c → P a) (hb : ¬ c → P b) : P (if c then a else b) := by
  split_ifs with h
  · exact ha h
  · exact hb h

theorem codes_cmd_expect (Q : Int → Prop) (dev : Instrument)
    (hQ : ∀ log c, Q (dev log c).code) (c : SsCmd) (e : Int) (s : CalSt) :
    (cmd_expect dev c e s).Codes Q := by
  unfold cmd_expect
  split_ifs
  · exact hQ _ _
  · exact hQ _ _

theorem codes_cmd_ok (K : SsConsts) (Q : Int → Prop) (dev : Instrument)
    (hQ : ∀ log c, Q (dev log c).code) (c : SsCmd) (s : CalSt) :
    (cmd_ok K dev c s).Codes Q :=
  codes_cmd_expect Q dev hQ c K.inst_ok s

theorem cal_white_loop_codes (K : SsConsts) (Q : Int → Prop) (dev : Instrument)
    (hQ : ∀ log c, Q (dev log c).code) (hok : Q K.inst_ok) (hsetup : Q K.inst_cal_setup)
    (s : CalSt) (hs : Q s.rv) : (cal_white_loop K dev s).Codes Q := by
  unfold cal_white_loop
  refine codes_seq (codes_ite (fun _ => codes_seq (codes_cmd_ok K Q dev hQ _ s)
    (fun t _ => codes_cmd_ok K Q dev hQ _ t)) (fun _ => codes_go hs)) ?_
  intro s1 _
  refine codes_seq (codes_cmd_expect Q dev hQ _ _ s1) ?_
  intro s2 _
  refine codes_seq (codes_ite (fun _ => codes_cmd_ok K Q dev hQ _ _)
    (fun _ => codes_go hok)) ?_
  intro s3 _
  exact codes_ite (fun _ => codes_ret _ (hQ _ _))
    (fun _ => codes_ite (fun _ => codes_go (hQ _ _)) (fun _ => codes_ret _ hsetup))

theorem cal_dark_codes (K : SsConsts) (Q : Int → Prop) (dev : Instrument)
    (hQ : ∀ log c, Q (dev log c).code) (hok : Q K.inst_ok) (s : CalSt) (hs : Q s.rv) :
    (cal_dark K dev s).Codes Q := by
  unfold cal_dark
  refine codes_ite (fun _ => ?_) (fun _ => codes_go hs)
  refine codes_seq (codes_cmd_ok K Q dev hQ _ s) ?_
  intro s1 h1
  refine codes_seq (codes_ite (fun _ => codes_cmd_expect Q dev hQ _ _ s1)
    (fun _ => codes_go h1)) ?_
  intro s2 _
  exact codes_go hok

theorem cal_ref_white_codes (K : SsConsts) (Q : Int → Prop) (dev : Instrument)
    (hQ : ∀ log c, Q (dev log c).code) (hok : Q K.inst_ok) (hsetup : Q K.inst_cal_setup)
    (s : CalSt) : (cal_ref_white K dev s).Codes Q := by
  unfold cal_ref_white
  simp only
  refine codes_seq (codes_ite (fun _ => codes_cmd_ok K Q dev hQ _ _)
    (fun _ => codes_cmd_ok K Q dev hQ _ _)) ?_
  intro s1 _
  refine codes_seq (codes_cmd_ok K Q dev hQ _ s1) ?_
  intro s2 _
  refine codes_seq (codes_ite (fun _ => codes_ret _ (hQ _ _)) (fun _ => codes_go (hQ _ _))) ?_
  intro s3 h3
  refine codes_seq (codes_ite (fun _ => codes_ite (fun _ => codes_ret _ hsetup)
    (fun _ => ?_)) (fun _ => codes_go h3)) ?_
  · refine codes_seq (cal_white_loop_codes K Q dev hQ hok hsetup s3 h3) ?_
    intro s4 h4
    refine codes_seq (cal_dark_codes K Q dev hQ hok s4 h4) ?_
    intro s5 h5
    exact codes_go h5
  · intro s6 h6
    exact codes_ite (fun _ => codes_ite (fun _ => codes_cmd_ok K Q dev hQ _ s6)
      (fun _ => codes_go h6)) (fun _ => codes_go h6)

theorem cal_trans_white_codes (K : SsConsts) (Q : Int → Prop) (dev : Instrument)
    (hQ : ∀ log c, Q (dev log c).code) (hok : Q K.inst_ok) (hsetup : Q K.inst_cal_setup)
    (s : CalSt) : (cal_trans_white K dev s).Codes Q := by
  unfold cal_trans_white
  refine codes_ite (fun _ => codes_ite (fun _ => codes_ret _ hsetup) (fun _ => ?_))
    (fun _ => ?_)
  · refine codes_seq (codes_cmd_ok K Q dev hQ _ s) ?_
    intro s1 _
    refine codes_seq (codes_ite (fun _ => codes_ret _ (hQ _ _)) (fun _ => codes_go (hQ _ _))) ?_
    intro s2 _
    simp only
    refine codes_seq (codes_ite (fun _ => codes_ret _ (hQ _ _)) (fun _ => codes_go (hQ _ _))) ?_
    intro s4 h4
    exact codes_go h4
  · refine codes_seq (codes_cmd_expect Q dev hQ _ _ s) ?_
    intro s1 _
    exact codes_go hok

/-- The code `ss_calibrate_imp` returns is `inst_ok`, `inst_cal_setup`,
`inst_unsupported` or the code of a command: anything true of these is true of
it. -/
theorem ss_calibrate_imp_codes (K : SsConsts) (Q : Int → Prop) (dev : Instrument)
    (hQ : ∀ log c, Q (dev log c).code) (hok : Q K.inst_ok) (hsetup : Q K.inst_cal_setup)
    (hunsup : Q K.inst_unsupported) (p : ss) (caltp : inst_cal_type) (cond : inst_cal_cond)
    (log : List SsCmd) : Q (ss_calibrate_imp K dev p caltp cond log).rv := by
  unfold ss_calibrate_imp
  dsimp only
  refine calst_ite (P := fun r => Q r.rv) (fun _ => hunsup) (fun _ => ?_)
  refine Flow.Sat.finish (P := fun r => Q r.rv) (R := fun code _ => Q code)
    (G := fun t => Q t.rv) ?_ (fun _ _ h => h) (fun _ h => h)
  refine codes_seq (codes_ite (fun _ => cal_ref_white_codes K Q dev hQ hok hsetup _)
    (fun _ => codes_go hok)) ?_
  intro s1 h1
  exact codes_ite (fun _ => cal_trans_white_codes K Q dev hQ hok hsetup s1)
    (fun _ => codes_go h1)

/-- The calibration leaves the mode and the instrument type alone. -/
theorem ss_calibrate_imp_keeps (K : SsConsts) (dev : Instrument) (p : ss)
    (caltp : inst_cal_type) (cond : inst_cal_cond) (log : List SsCmd) :
    (ss_calibrate_imp K dev p caltp cond log).p.mode = p.mode
      ∧ (ss_calibrate_imp K dev p caltp cond log).p.itype = p.itype := by
  unfold ss_calibrate_imp
  dsimp only
  refine calst_ite (P := fun r => r.p.mode = p.mode ∧ r.p.itype = p.itype)
    (fun _ => ⟨rfl, rfl⟩) (fun _ => ?_)
  generalize hs0 : ({ p := p, cond := cond, id := "", rv := K.inst_ok, log := log } : CalSt)
    = s0
  have hp : s0.p = p := by rw [← hs0]
  refine Flow.Sat.finish (P := fun r => r.p.mode = p.mode ∧ r.p.itype = p.itype)
    (R := fun _ t => Frame s0 t) (G := fun t => Frame s0 t) ?_ ?_ ?_
  · refine Flow.Sat.bind (G := fun t => Frame s0 t) ?_ ?_
    · by_cases hr : resolve_calt K p caltp = inst_cal_type.inst_calt_ref_white
      · rw [if_pos hr]
        exact Flow.Sat.mono (cal_ref_white_spec K False dev s0 False.elim False.elim)
          (fun _ _ h => h.1) (fun _ h => h.1)
      · rw [if_neg hr]
        exact Frame.refl s0
    · intro s1 h1
      generalize (if caltp = inst_cal_type.inst_calt_all
          ∧ illum_class K s1.p = K.inst_mode_transmission ∧ s1.p.need_t_cal ≠ 0 then
          inst_cal_type.inst_calt_trans_white else resolve_calt K p caltp) = calt2
      by_cases ht : illum_class K s1.p = K.inst_mode_transmission
          ∧ calt2 = inst_cal_type.inst_calt_trans_white
      · rw [if_pos ht]
        exact Flow.Sat.mono (cal_trans_white_blk K dev s1) (fun _ _ h => h1.trans h.1)
          (fun _ h => h1.trans h)
      · rw [if_neg ht]
        exact h1
  · intro c t h
    exact ⟨h.mode.trans (by rw [hp]), h.itype.trans (by rw [hp])⟩
  · intro t h
    exact ⟨h.mode.trans (by rw [hp]), h.itype.trans (by rw [hp])⟩

theorem step_seq {K : SsConsts} {p : ss} {v0 : ipatch} {f : RsFlow} {k : RsSt → RsFlow}
    (hf : Step K p v0 f) (hk : ∀ t, Kept p v0 t → Step K p v0 (k t)) :
    Step K p v0 (f.bind k) := by
  cases f with
  | ret code s => exact hf
  | go s => exact hk s hf

theorem step_ite {K : SsConsts} {p : ss} {v0 : ipatch} {c : Prop} [Decidable c]
    {a b : RsFlow} (ha : c → Step K p v0 a) (hb : ¬ c → Step K p v0 b) :
    Step K p v0 (if c then a else b) := by
  split_ifs with h
  · exact ha h
  · exact hb h

theorem step_go {K : SsConsts} {p : ss} {v0 : ipatch} {t : RsSt} (h : Kept p v0 t) :
    Step K p v0 (RsFlow.go t) := h

theorem step_ret {K : SsConsts} {p : ss} {v0 : ipatch} {code : Int} (t : RsSt)
    (h : Failed K code) : Step K p v0 (RsFlow.ret code t) := h

theorem rs_cmd_step (K : SsConsts) (dev : Instrument)
    (hdev : ∀ log c, (dev log c).code ≠ K.inst_user_trig) (p : ss) (v0 : ipatch) (c : SsCmd)
    (st : RsSt) (hst : Kept p v0 st) : Step K p v0 (rs_cmd K dev c st) := by
  unfold rs_cmd
  exact step_ite (fun h => step_ret _ ⟨h, hdev _ _⟩) (fun _ => step_go hst)

theorem rs_calibrate_step (K : SsConsts) (dev : Instrument) (hK : K.Codes)
    (hdev : ∀ log c, (dev log c).code ≠ K.inst_user_trig) (p : ss) (v0 : ipatch)
    (st : RsSt) (hst : Kept p v0 st) : Step K p v0 (rs_calibrate K dev st) := by
  obtain ⟨hnd, -⟩ := hK
  simp only [List.nodup_cons, List.mem_cons, List.mem_singleton, not_or, List.not_mem_nil,
    not_false_eq_true, List.nodup_nil, and_true] at hnd
  obtain ⟨⟨a1, a2, a3, a4, a5⟩, ⟨b2, b3, b4, b5⟩, -⟩ := hnd
  have hc := ss_calibrate_imp_codes K (fun x => x ≠ K.inst_user_trig) dev hdev a1
    (Ne.symm b5) (Ne.symm b4) st.p inst_cal_type.inst_calt_all inst_cal_cond.inst_calc_none
    st.log
  have hk := ss_calibrate_imp_keeps K dev st.p inst_cal_type.inst_calt_all
    inst_cal_cond.inst_calc_none st.log
  unfold rs_calibrate
  refine step_ite (fun _ => step_ite (fun hne => step_ret _ ?_) (fun _ => step_go ?_))
    (fun _ => step_go hst)
  · split_ifs
    · exact ⟨Ne.symm a3, Ne.symm b3⟩
    · exact ⟨hne, hc⟩
  · exact ⟨hk.1.trans hst.1, hk.2.trans hst.2.1, hst.2.2⟩

theorem rs_poll_step (K : SsConsts) (dev : Instrument)
    (hdev : ∀ log c, (dev log c).code ≠ K.inst_user_trig) (p : ss) (v0 : ipatch) :
    ∀ (fuel : Nat) (st : RsSt) (f : RsFlow), Kept p v0 st → rs_poll K dev fuel st = some f →
      Step K p v0 f := by
  intro fuel
  induction fuel with
  | zero =>
    intro st f _ h
    simp [rs_poll] at h
  | succ n ih =>
    intro st f hst h
    simp only [rs_poll] at h
    split_ifs at h with h1 h2 h3
    · rw [← Option.some.inj h]
      exact step_ret _ ⟨h1, hdev _ _⟩
    · rw [← Option.some.inj h]
      exact step_go hst
    · rw [← Option.some.inj h]
      exact step_go hst
    · refine ih _ f ?_ h
      exact hst

theorem rs_trigger_step (K : SsConsts) (dev : Instrument) (icoms2ss_err ss_inst_err : Int → Int)
    (se : Int) (hdev : ∀ log c, (dev log c).code ≠ K.inst_user_trig)
    (hkey : se ≠ K.ICOM_TRIG → Failed K (ss_inst_err (icoms2ss_err se)))
    (p : ss) (v0 : ipatch) (fuel : Nat) (st : RsSt) (f : RsFlow) (hst : Kept p v0 st)
    (h : rs_trigger K dev icoms2ss_err ss_inst_err se fuel st = some f) : Step K p v0 f := by
  unfold rs_trigger at h
  split_ifs at h with h1 h2 h3
  · have hs := rs_cmd_step K dev hdev p v0
      (SsCmd.so_do_TargetOnOffStDownload ss_toost.ss_toost_Activated) st hst
    cases hc : rs_cmd K dev (SsCmd.so_do_TargetOnOffStDownload ss_toost.ss_toost_Activated) st
      with
    | ret code s =>
      rw [hc] at h hs
      rw [← Option.some.inj h]
      exact hs
    | go s1 =>
      rw [hc] at h hs
      simp only [Option.map_eq_some'] at h
      obtain ⟨g, hg, hf⟩ := h
      rw [← hf]
      exact step_seq (rs_poll_step K dev hdev p v0 fuel s1 g hs hg)
        (fun t ht => rs_cmd_step K dev hdev p v0 _ t ht)
  · rw [← Option.some.inj h]
    exact step_ret _ (hkey h3)
  · rw [← Option.some.inj h]
    exact step_go hst
  · rw [← Option.some.inj h]
    exact step_go hst

theorem rs_start_step (K : SsConsts) (dev : Instrument) (icoms2ss_err ss_inst_err : Int → Int)
    (se : Int) (hK : K.Codes) (hdev : ∀ log c, (dev log c).code ≠ K.inst_user_trig)
    (hkey : se ≠ K.ICOM_TRIG → Failed K (ss_inst_err (icoms2ss_err se)))
    (p : ss) (v0 : ipatch) (fuel : Nat) (st : RsSt) (f : RsFlow) (hst : Kept p v0 st)
    (h : rs_start K dev icoms2ss_err ss_inst_err se fuel st = some f) : Step K p v0 f := by
  have hs := rs_calibrate_step K dev hK hdev p v0 st hst
  unfold rs_start at h
  cases hc : rs_calibrate K dev st with
  | ret code s =>
    rw [hc] at h hs
    rw [← Option.some.inj h]
    exact hs
  | go s1 =>
    rw [hc] at h hs
    exact rs_trigger_step K dev icoms2ss_err ss_inst_err se hdev hkey p v0 fuel s1 f hs h

theorem rs_measure_step (K : SsConsts) (dev : Instrument)
    (hdev : ∀ log c, (dev log c).code ≠ K.inst_user_trig) (p : ss) (v0 : ipatch)
    (st : RsSt) (hst : Kept p v0 st) : Step K p v0 (rs_measure K dev st) := by
  unfold rs_measure
  refine step_ite (fun _ => ?_) (fun _ => step_go hst)
  refine step_seq (step_ite (fun _ => ?_) (fun _ => step_go hst)) ?_
  · unfold ss_xy_locate_end
    by_cases hx : iand st.p.cap2 K.inst2_xy_position ≠ 0
    · simp only [if_pos hx]
      exact step_ite (fun h => step_ret _ ⟨h, hdev _ _⟩) (fun _ => step_go hst)
    · simp only [if_neg hx]
      exact step_ite (fun h => absurd rfl h) (fun _ => step_go hst)
  intro s1 h1
  refine step_seq (step_ite (fun _ => rs_cmd_step K dev hdev p v0 _ s1 h1)
    (fun _ => step_go h1)) ?_
  intro s2 h2
  refine step_seq (rs_cmd_step K dev hdev p v0 _ s2 h2) ?_
  intro s3 h3
  refine step_seq (rs_cmd_step K dev hdev p v0 _ s3 h3) ?_
  intro s4 h4
  exact step_ite (fun _ => rs_cmd_step K dev hdev p v0 _ s4 h4) (fun _ => step_go h4)

theorem rs_bind_go (f : RsFlow) (k : RsSt → RsFlow) (t : RsSt) (h : f.bind k = RsFlow.go t) :
    ∃ s, f = RsFlow.go s ∧ k s = RsFlow.go t := by
  cases f with
  | ret code s => simp [RsFlow.bind] at h
  | go s => exact ⟨s, rfl, h⟩

theorem rs_bind_ret (f : RsFlow) (k : RsSt → RsFlow) (c : Int) (t : RsSt)
    (h : f.bind k = RsFlow.ret c t) :
    f = RsFlow.ret c t ∨ ∃ s, f = RsFlow.go s ∧ k s = RsFlow.ret c t := by
  cases f with
  | ret code s => exact Or.inl h
  | go s => exact Or.inr ⟨s, rfl, h⟩

theorem rs_cmd_go (K : SsConsts) (dev : Instrument) (c : SsCmd) (st t : RsSt)
    (h : rs_cmd K dev c st = RsFlow.go t) :
    t = { st with rv := (dev st.log c).code, log := st.log ++ [c] }
      ∧ (dev st.log c).code = K.inst_ok := by
  unfold rs_cmd at h
  split_ifs at h with h1
  exact ⟨(RsFlow.go.inj h).symm, not_not.1 h1⟩

theorem rs_cmd_ret (K : SsConsts) (dev : Instrument)
    (hdev : ∀ log c, (dev log c).code ≠ K.inst_user_trig) (c : SsCmd) (st t : RsSt)
    (code : Int) (h : rs_cmd K dev c st = RsFlow.ret code t) : Failed K code := by
  unfold rs_cmd at h
  split_ifs at h with h1
  obtain ⟨hc, -⟩ := RsFlow.ret.inj h
  rw [← hc]
  exact ⟨h1, hdev _ _⟩

theorem rs_trans_go (K : SsConsts) (dev : Instrument) (s t : RsSt)
    (h : rs_trans K dev s = RsFlow.go t) :
    t.p = s.p ∧ t.log = s.log ++ [SsCmd.so_do_SpecParameterRequest]
      ∧ t.val.XYZ_v = 1 ∧ t.val.aXYZ_v = s.val.aXYZ_v
      ∧ t.val.XYZ = trans_XYZ (if s.p.obsv = K.ss_ot_TenDeg then 1 else 0) s.p.tref s.p.cill
          (trans_spec s.p.tref (dev s.log SsCmd.so_do_SpecParameterRequest).spec) s.val.XYZ := by
  unfold rs_trans at h
  obtain ⟨s1, h1, h2⟩ := rs_bind_go _ _ _ h
  obtain ⟨e1, -⟩ := rs_cmd_go K dev _ _ _ h1
  subst e1
  rw [← RsFlow.go.inj h2]
  exact ⟨rfl, rfl, rfl, rfl, rfl⟩

theorem rs_comp_go (K : SsConsts) (dev : Instrument) (s t : RsSt)
    (h : rs_comp K dev s = RsFlow.go t) :
    t.p = s.p
      ∧ (illum_class K s.p = K.inst_mode_emission →
          t.val.aXYZ_v = 1 ∧ t.val.XYZ_v = s.val.XYZ_v)
      ∧ (illum_class K s.p ≠ K.inst_mode_emission →
          t.val.XYZ_v = 1 ∧ t.val.aXYZ_v = s.val.aXYZ_v) := by
  unfold rs_comp at h
  obtain ⟨s1, h1, h2⟩ := rs_bind_go _ _ _ h
  obtain ⟨e1, -⟩ := rs_cmd_go K dev _ _ _ h1
  subst e1
  obtain ⟨s2, h3, h4⟩ := rs_bind_go _ _ _ h2
  obtain ⟨e2, -⟩ := rs_cmd_go K dev _ _ _ h3
  subst e2
  rw [← RsFlow.go.inj h4]
  refine ⟨rfl, fun he => ?_, fun he => ?_⟩
  · simp only [if_pos he, and_self]
  · simp only [if_neg he, and_self]

theorem rs_plain_go (K : SsConsts) (dev : Instrument) (s t : RsSt)
    (h : rs_plain K dev s = RsFlow.go t) :
    t.p = s.p
      ∧ (illum_class K s.p = K.inst_mode_emission →
          t.val.aXYZ_v = 1 ∧ t.val.XYZ_v = s.val.XYZ_v)
      ∧ (illum_class K s.p ≠ K.inst_mode_emission →
          t.val.XYZ_v = 1 ∧ t.val.aXYZ_v = s.val.aXYZ_v) := by
  unfold rs_plain at h
  obtain ⟨s1, h1, h2⟩ := rs_bind_go _ _ _ h
  obtain ⟨e1, -⟩ := rs_cmd_go K dev _ _ _ h1
  subst e1
  obtain ⟨s2, h3, h4⟩ := rs_bind_go _ _ _ h2
  have e2 := (RsFlow.go.inj h3).symm
  subst e2
  dsimp only at h4
  by_cases hsp : iand s.p.mode K.inst_mode_spectral ≠ 0
  · rw [if_pos hsp] at h4
    obtain ⟨s3, h5, h6⟩ := rs_bind_go _ _ _ h4
    obtain ⟨e3, -⟩ := rs_cmd_go K dev _ _ _ h5
    subst e3
    rw [← RsFlow.go.inj h6]
    refine ⟨rfl, fun he => ?_, fun he => ?_⟩
    · simp only [if_pos he, and_self]
    · simp only [if_neg he, and_self]
  · rw [if_neg hsp] at h4
    rw [← RsFlow.go.inj h4]
    refine ⟨rfl, fun he => ?_, fun he => ?_⟩
    · simp only [if_pos he, and_self]
    · simp only [if_neg he, and_self]

/-- The conversion, where it does not return early: the handle keeps its mode
and type, and exactly one validity flag is raised over the two the state came
with: the absolute one in the emission class, the relative one otherwise. -/
theorem rs_convert_go (K : SsConsts) (dev : Instrument)
    (hne : K.inst_mode_emission ≠ K.inst_mode_transmission) (s t : RsSt)
    (h : rs_convert K dev s = RsFlow.go t) :
    t.p.mode = s.p.mode ∧ t.p.itype = s.p.itype ∧ t.p.tref = s.p.tref ∧ t.p.cill = s.p.cill
      ∧ t.p.obsv = s.p.obsv
      ∧ (illum_class K s.p = K.inst_mode_emission →
          t.val.aXYZ_v = 1 ∧ t.val.XYZ_v = s.val.XYZ_v)
      ∧ (illum_class K s.p ≠ K.inst_mode_emission →
          t.val.XYZ_v = 1 ∧ t.val.aXYZ_v = s.val.aXYZ_v) := by
  unfold rs_convert at h
  split_ifs at h with h1 h2
  · obtain ⟨e1, -, e3, e4, -⟩ := rs_trans_go K dev s t h
    refine ⟨by rw [e1], by rw [e1], by rw [e1], by rw [e1], by rw [e1], fun he => ?_,
      fun _ => ⟨e3, e4⟩⟩
    exact absurd (he.symm.trans h1.1) hne
  · obtain ⟨e1, e2, e3⟩ := rs_comp_go K dev _ t h
    exact ⟨by rw [e1], by rw [e1], by rw [e1], by rw [e1], by rw [e1], e2, e3⟩
  · obtain ⟨e1, e2, e3⟩ := rs_plain_go K dev _ t h
    exact ⟨by rw [e1], by rw [e1], by rw [e1], by rw [e1], by rw [e1], e2, e3⟩

theorem rs_convert_ret (K : SsConsts) (dev : Instrument)
    (hdev : ∀ log c, (dev log c).code ≠ K.inst_user_trig) (s t : RsSt) (code : Int)
    (h : rs_convert K dev s = RsFlow.ret code t) : Failed K code := by
  unfold rs_convert at h
  split_ifs at h with h1 h2
  · unfold rs_trans at h
    rcases rs_bind_ret _ _ _ _ h with g | ⟨s1, -, g⟩
    · exact rs_cmd_ret K dev hdev _ _ _ _ g
    · cases g
  · unfold rs_comp at h
    rcases rs_bind_ret _ _ _ _ h with g | ⟨s1, -, g⟩
    · exact rs_cmd_ret K dev hdev _ _ _ _ g
    · rcases rs_bind_ret _ _ _ _ g with g2 | ⟨s2, -, g2⟩
      · exact rs_cmd_ret K dev hdev _ _ _ _ g2
      · cases g2
  · unfold rs_plain at h
    rcases rs_bind_ret _ _ _ _ h with g | ⟨s1, -, g⟩
    · exact rs_cmd_ret K dev hdev _ _ _ _ g
    · rcases rs_bind_ret _ _ _ _ g with g2 | ⟨s2, -, g2⟩
      · cases g2
      · split_ifs at g2
        · rcases rs_bind_ret _ _ _ _ g2 with g3 | ⟨s3, -, g3⟩
          · exact rs_cmd_ret K dev hdev _ _ _ _ g3
          · cases g3

theorem inc_calcount_itype (K : SsConsts) (p : ss) : (inc_calcount K p).itype = p.itype := by
  simp only [inc_calcount]
  split_ifs <;> simp

/-- A call of `ss_read_sample` that returns `inst_ok` or `inst_user_trig` has
reached the conversion with the mode and type of the handle unchanged and
`*val` cleared, and the conversion has not returned early: the result is what
the conversion leaves. -/
theorem ss_read_sample_success (K : SsConsts) (dev : Instrument)
    (icoms2ss_err ss_inst_err : Int → Int) (se : Int) (fuel : Nat) (p : ss)
    (val : Option ipatch) (log : List SsCmd) (r : RsOut) (hK : K.Codes)
    (hdev : ∀ log c, (dev log c).code ≠ K.inst_user_trig)
    (hkey : se ≠ K.ICOM_TRIG → Failed K (ss_inst_err (icoms2ss_err se)))
    (h : ss_read_sample K dev icoms2ss_err ss_inst_err se fuel p val log = some r)
    (hr : r.code = K.inst_ok ∨ r.code = K.inst_user_trig) :
    ∃ v s t, val = some v ∧ s.p.mode = p.mode ∧ s.p.itype = p.itype ∧ s.val = cleared v
      ∧ rs_convert K dev s = RsFlow.go t
      ∧ r.val = some t.val ∧ r.p = t.p ∧ r.log = t.log := by
  have hfail : ∀ c, Failed K c → c = r.code → False := by
    intro c hc he
    rcases hr with g | g
    · exact hc.1 (he.trans g)
    · exact hc.2 (he.trans g)
  have hnd := hK.1
  simp only [List.nodup_cons, List.mem_cons, List.mem_singleton, not_or, List.not_mem_nil,
    not_false_eq_true, List.nodup_nil, and_true] at hnd
  obtain ⟨⟨-, a2, -⟩, ⟨b2, -⟩, -⟩ := hnd
  cases val with
  | none =>
    simp only [ss_read_sample] at h
    rw [← Option.some.inj h] at hfail
    exact absurd rfl (fun e => hfail K.inst_internal_error ⟨Ne.symm a2, Ne.symm b2⟩ e)
  | some v =>
    simp only [ss_read_sample, Option.map_eq_some'] at h
    obtain ⟨f, hf, hfin⟩ := h
    have hs := rs_start_step K dev icoms2ss_err ss_inst_err se hK hdev hkey p (cleared v) fuel
      _ f ⟨rfl, rfl, rfl⟩ hf
    cases f with
    | ret code s =>
      rw [← hfin] at hfail
      exact absurd rfl (fun e => hfail code hs e)
    | go s2 =>
      have hm := rs_measure_step K dev hdev p (cleared v) s2 hs
      simp only [RsFlow.bind] at hfin
      cases hmc : rs_measure K dev s2 with
      | ret code s =>
        rw [hmc] at hm hfin
        rw [← hfin] at hfail
        exact absurd rfl (fun e => hfail code hm e)
      | go s3 =>
        rw [hmc] at hm hfin
        simp only [RsFlow.bind] at hfin
        cases hcc : rs_convert K dev { s3 with p := inc_calcount K s3.p } with
        | ret code s =>
          rw [hcc] at hfin
          rw [← hfin] at hfail
          exact absurd rfl (fun e => hfail code (rs_convert_ret K dev hdev _ _ _ hcc) e)
        | go t =>
          rw [hcc] at hfin
          refine ⟨v, { s3 with p := inc_calcount K s3.p }, t, rfl, ?_, ?_, hm.2.2, hcc, ?_, ?_,
            ?_⟩
          · exact (inc_calcount_mode K s3.p).trans hm.1
          · exact (inc_calcount_itype K s3.p).trans hm.2.1
          · rw [← hfin]; rfl
          · rw [← hfin]; rfl
          · rw [← hfin]; rfl

/-! ## Validity flags of the three reading functions -/

theorem nodup_ne {l : List Int} (h : l.Nodup) (i j : Nat) (hi : i < l.length)
    (hj : j < l.length) (hij : i ≠ j) : l[i] ≠ l[j] :=
  fun e => hij ((h.getElem_inj_iff).1 e)

/-- Entry `i` of `inst_ok` followed by the class constants is not
`inst_user_trig`, which is entry 7. -/
theorem class_ne_trig (K : Consts) (hM : K.Masked) (i : Nat) (hi : i < 12) (h7 : i ≠ 7) :
    (K.inst_ok :: K.classes).getD i 0 ≠ K.inst_user_trig := by
  have hl : (K.inst_ok :: K.classes).length = 12 := rfl
  have h := nodup_ne hM.1 i 7 (by rw [hl]; exact hi) (by rw [hl]; decide) h7
  rw [List.getD_eq_getElem _ _ (by rw [hl]; exact hi)]
  exact h

theorem hcfr_interp_shape (K : Consts) (hM : K.Masked) (ec : Int) :
    hcfr_interp_code K ec = K.inst_ok
      ∨ ∃ c ∈ K.classes, hcfr_interp_code K ec = ior c (iand ec K.inst_imask)
          ∧ (c = K.inst_user_trig → iand ec K.inst_imask = K.HCFR_USER_TRIG) := by
  unfold hcfr_interp_code
  generalize iand ec K.inst_imask = e
  dsimp only
  by_cases g0 : e = K.HCFR_OK
  · rw [if_pos g0]; exact Or.inl rfl
  rw [if_neg g0]
  by_cases g1 : e = K.HCFR_CALIB_CALC
  · rw [if_pos g1]
    exact Or.inr ⟨K.inst_internal_error, by simp [Consts.classes], rfl,
      fun hc => absurd hc (class_ne_trig K hM 1 (by decide) (by decide))⟩
  rw [if_neg g1]
  by_cases g2 : e = K.HCFR_COMS_FAIL
  · rw [if_pos g2]
    exact Or.inr ⟨K.inst_coms_fail, by simp [Consts.classes], rfl,
      fun hc => absurd hc (class_ne_trig K hM 2 (by decide) (by decide))⟩
  rw [if_neg g2]
  by_cases g3 : e = K.HCFR_UNKNOWN_MODEL
  · rw [if_pos g3]
    exact Or.inr ⟨K.inst_unknown_model, by simp [Consts.classes], rfl,
      fun hc => absurd hc (class_ne_trig K hM 3 (by decide) (by decide))⟩
  rw [if_neg g3]
  by_cases g4 : e = K.HCFR_DATA_PARSE_ERROR
  · rw [if_pos g4]
    exact Or.inr ⟨K.inst_protocol_error, by simp [Consts.classes], rfl,
      fun hc => absurd hc (class_ne_trig K hM 4 (by decide) (by decide))⟩
  rw [if_neg g4]
  by_cases g5 : e = K.HCFR_USER_ABORT
  · rw [if_pos g5]
    exact Or.inr ⟨K.inst_user_abort, by simp [Consts.classes], rfl,
      fun hc => absurd hc (class_ne_trig K hM 5 (by decide) (by decide))⟩
  rw [if_neg g5]
  by_cases g6 : e = K.HCFR_USER_TERM
  · rw [if_pos g6]
    exact Or.inr ⟨K.inst_user_term, by simp [Consts.classes], rfl,
      fun hc => absurd hc (class_ne_trig K hM 6 (by decide) (by decide))⟩
  rw [if_neg g6]
  by_cases g7 : e = K.HCFR_USER_TRIG
  · rw [if_pos g7]
    exact Or.inr ⟨K.inst_user_trig, by simp [Consts.classes], rfl, fun _ => g7⟩
  rw [if_neg g7]
  by_cases g8 : e = K.HCFR_USER_CMND
  · rw [if_pos g8]
    exact Or.inr ⟨K.inst_user_cmnd, by simp [Consts.classes], rfl,
      fun hc => absurd hc (class_ne_trig K hM 8 (by decide) (by decide))⟩
  rw [if_neg g8]
  by_cases g9 : e = K.HCFR_BAD_READING
  · rw [if_pos g9]
    exact Or.inr ⟨K.inst_misread, by simp [Consts.classes], rfl,
      fun hc => absurd hc (class_ne_trig K hM 9 (by decide) (by decide))⟩
  rw [if_neg g9]
  by_cases g10 : e = K.HCFR_BAD_FIRMWARE
  · rw [if_pos g10]
    exact Or.inr ⟨K.inst_hardware_fail, by simp [Consts.classes], rfl,
      fun hc => absurd hc (class_ne_trig K hM 10 (by decide) (by decide))⟩
  rw [if_neg g10]
  exact Or.inr ⟨K.inst_other_error, by simp [Consts.classes], rfl,
    fun hc => absurd hc (class_ne_trig K hM 11 (by decide) (by decide))⟩

/-- No code that `hcfr_interp_code` makes is the bare class `inst_user_trig`:
a user trigger met on the way comes with its subcode. -/
theorem hcfr_interp_ne_trig (K : Consts) (hS : K.Split) (hM : K.Masked)
    (h0 : K.HCFR_USER_TRIG ≠ 0) (ec : Int) : hcfr_interp_code K ec ≠ K.inst_user_trig := by
  intro h
  have htm : iand K.inst_user_trig K.inst_imask = 0 := hS.2 _ (by simp [Consts.classes])
  rcases hcfr_interp_shape K hM ec with g | ⟨c, hc, g, gt⟩
  · rw [g] at h
    exact class_ne_trig K hM 0 (by decide) (by decide) h
  · rw [g] at h
    have h1 : iand (ior c (iand ec K.inst_imask)) K.inst_imask = iand ec K.inst_imask := by
      rw [iand_ior, hS.2 c hc, iand_right_idem, ior_zero_left]
    rw [h, htm] at h1
    rw [← h1, ior_zero_right] at h
    exact h0 ((gt h).symm.trans h1.symm)

theorem hcfr_status_ne_ok (K : Consts) (hK : K.WF) (hS : K.Split) (hI : K.IcomWF) (se : Int)
    (hse : se ≠ K.ICOM_OK) : hcfr_interp_code K (icoms2hcfr_err K se) ≠ K.inst_ok := by
  obtain ⟨e1, e2, e3, e4, e5, -⟩ := icoms2hcfr_err_key K hI se
  have hlab : ∀ e ∈ [K.HCFR_USER_ABORT, K.HCFR_USER_TERM, K.HCFR_USER_TRIG, K.HCFR_USER_CMND,
      K.HCFR_COMS_FAIL], e ∈ K.labels ∧ e ≠ K.HCFR_OK := by
    have hnd := hK.1
    simp only [Consts.labels, List.nodup_cons, List.mem_cons, List.mem_singleton, not_or]
      at hnd
    obtain ⟨h0, -⟩ := hnd
    intro e he
    simp only [List.mem_cons, List.mem_singleton, List.not_mem_nil, or_false] at he
    rcases he with rfl | rfl | rfl | rfl | rfl
    · exact ⟨by simp [Consts.labels], Ne.symm h0.2.2.2.2.1⟩
    · exact ⟨by simp [Consts.labels], Ne.symm h0.2.2.2.2.2.1⟩
    · exact ⟨by simp [Consts.labels], Ne.symm h0.2.2.2.2.2.2.1⟩
    · exact ⟨by simp [Consts.labels], Ne.symm h0.2.2.2.2.2.2.2.1⟩
    · exact ⟨by simp [Consts.labels], Ne.symm h0.2.1⟩
  have hne : ∀ c ∈ K.classes, ∀ e ∈ [K.HCFR_USER_ABORT, K.HCFR_USER_TERM, K.HCFR_USER_TRIG,
      K.HCFR_USER_CMND, K.HCFR_COMS_FAIL], ior c e ≠ K.inst_ok :=
    fun c hc e he => code_ne_ok K hK hS c e hc (hlab e he).1 (hlab e he).2
  intro h
  by_cases g1 : iand se K.ICOM_USERM = K.ICOM_USER
  · rw [e1 g1, hcfr_interp_user_abort K hK] at h
    exact hne _ (by simp [Consts.classes]) _ (by simp) h
  by_cases g2 : iand se K.ICOM_USERM = K.ICOM_TERM
  · rw [e2 g2, hcfr_interp_user_term K hK] at h
    exact hne _ (by simp [Consts.classes]) _ (by simp) h
  by_cases g3 : iand se K.ICOM_USERM = K.ICOM_TRIG
  · rw [e3 g3, hcfr_interp_user_trig K hK] at h
    exact hne _ (by simp [Consts.classes]) _ (by simp) h
  by_cases g4 : iand se K.ICOM_USERM = K.ICOM_CMND
  · rw [e4 g4, hcfr_interp_user_cmnd K hK] at h
    exact hne _ (by simp [Consts.classes]) _ (by simp) h
  rw [e5 hse (by simp [Consts.keys, g1, g2, g3, g4]), hcfr_interp_coms_fail K hK] at h
  exact hne _ (by simp [Consts.classes]) _ (by simp) h

theorem hcfr_get_rgb_ne_trig (K : Consts) (hS : K.Split) (hM : K.Masked)
    (h0 : K.HCFR_USER_TRIG ≠ 0) (gotcoms se : Int) (buf : List Char) (rgb : Nat → ℚ)
    (hne : (hcfr_get_rgb K gotcoms se buf rgb).1 ≠ K.inst_ok) :
    (hcfr_get_rgb K gotcoms se buf rgb).1 ≠ K.inst_user_trig := by
  unfold hcfr_get_rgb at hne ⊢
  split_ifs at hne ⊢
  · exact class_ne_trig K hM 1 (by decide) (by decide)
  · unfold hcfr_command
    split_ifs <;> exact hcfr_interp_ne_trig K hS hM h0 _
  · exact hcfr_interp_ne_trig K hS hM h0 _
  · exact absurd rfl hne
  · exact absurd rfl hne
  · exact hcfr_interp_ne_trig K hS hM h0 _

/-- A call of `hcfr_read_sample` that returns `inst_ok` or `inst_user_trig`
has set the absolute flag and cleared the relative one. -/
theorem hcfr_read_sample_flags (K : Consts)
    (icmMulBy3x3 : (Nat → Nat → ℚ) → (Nat → ℚ) → (Nat → ℚ))
    (p : hcfr) (poll se : Int) (buf : List Char) (rgb : Nat → ℚ) (val : ipatch)
    (hK : K.WF) (hS : K.Split) (hI : K.IcomWF) (hM : K.Masked) (h0 : K.HCFR_USER_TRIG ≠ 0)
    (hpoll : p.trig = inst_opt_mode.inst_opt_trig_keyb → poll ≠ K.ICOM_OK)
    (hr : (hcfr_read_sample K icmMulBy3x3 p poll se buf rgb val).code = K.inst_ok
      ∨ (hcfr_read_sample K icmMulBy3x3 p poll se buf rgb val).code = K.inst_user_trig) :
    (hcfr_read_sample K icmMulBy3x3 p poll se buf rgb val).val.aXYZ_v = 1
      ∧ (hcfr_read_sample K icmMulBy3x3 p poll se buf rgb val).val.XYZ_v = 0 := by
  unfold hcfr_read_sample at hr ⊢
  by_cases h1 : p.trig = inst_opt_mode.inst_opt_trig_keyb ∧ poll ≠ K.ICOM_TRIG
  · rw [if_pos h1] at hr
    exfalso
    rcases hr with g | g
    · exact hcfr_status_ne_ok K hK hS hI poll (hpoll h1.1) g
    · exact hcfr_interp_ne_trig K hS hM h0 _ g
  · rw [if_neg h1] at hr ⊢
    dsimp only at hr ⊢
    by_cases h2 : (hcfr_get_rgb K p.gotcoms se buf rgb).1 ≠ K.inst_ok
    · rw [if_pos h2] at hr
      exfalso
      rcases hr with g | g
      · exact h2 g
      · exact hcfr_get_rgb_ne_trig K hS hM h0 _ _ _ _ h2 g
    · rw [if_neg h2]
      exact ⟨rfl, rfl⟩

theorem xy_measure_flags (K : SsConsts) (dev : Instrument) (st : XySt) (patch : Int)
    (ix iy : ℚ) (hinv : ∀ k ∈ st.meas, RelOnly (st.vals k)) :
    ((xy_measure K dev st patch ix iy).1 = true →
        (xy_measure K dev st patch ix iy).2.rv ≠ K.inst_ok)
      ∧ ((xy_measure K dev st patch ix iy).1 = false →
          ∀ k ∈ (xy_measure K dev st patch ix iy).2.meas,
            RelOnly ((xy_measure K dev st patch ix iy).2.vals k)) := by
  unfold xy_measure
  dsimp only
  by_cases h1 : (dev st.log (SsCmd.ss_do_MoveAndMeasure ix iy)).code ≠ K.inst_ok
  · rw [if_pos h1]
    exact ⟨fun _ => h1, fun h => absurd h (by simp)⟩
  · rw [if_neg h1]
    by_cases h2 : (dev (st.log ++ [SsCmd.ss_do_MoveAndMeasure ix iy])
        SsCmd.so_do_CParameterRequest).code ≠ K.inst_ok
    · rw [if_pos h2]
      exact ⟨fun _ => h2, fun h => absurd h (by simp)⟩
    · rw [if_neg h2]
      refine ⟨fun h => absurd h (by simp), fun _ k hk => ?_⟩
      simp only [List.mem_append, List.mem_singleton] at hk
      by_cases hkp : k = patch
      · subst hkp
        simp only [Function.update_same]
        exact ⟨rfl, rfl⟩
      · simp only [Function.update_noteq hkp]
        rcases hk with hk | hk
        · exact hinv k hk
        · exact absurd hk hkp

theorem xy_body_flags (K : SsConsts) (dev : Instrument) (a : XyArgs) (fs : Bool) (cs : Int)
    (step pass : Int) (st : XySt) (hn : K.inst_needs_cal ≠ K.inst_ok)
    (hinv : ∀ k ∈ st.meas, RelOnly (st.vals k)) :
    ((xy_body K dev a fs cs step pass st).1 = true →
        (xy_body K dev a fs cs step pass st).2.rv ≠ K.inst_ok)
      ∧ ((xy_body K dev a fs cs step pass st).1 = false →
          ∀ k ∈ (xy_body K dev a fs cs step pass st).2.meas,
            RelOnly ((xy_body K dev a fs cs step pass st).2.vals k)) := by
  unfold xy_body
  dsimp only
  by_cases hp : apass a fs step pass * a.sip + astep a fs step pass < a.npatch
  · rw [if_pos hp]
    by_cases hc : (if fs then astep a fs step pass = cs else apass a fs step pass = cs)
        ∧ (st.p.need_w_cal ≠ 0 ∨ st.p.need_t_cal ≠ 0) ∧ st.p.noautocalib = 0
    · rw [if_pos hc]
      by_cases hr : (ss_calibrate_imp K dev st.p inst_cal_type.inst_calt_all
          inst_cal_cond.inst_calc_none st.log).rv ≠ K.inst_ok
      · rw [if_pos hr]
        refine ⟨fun _ => ?_, fun h => absurd h (by simp)⟩
        dsimp only
        split_ifs
        · exact hn
        · exact hr
      · rw [if_neg hr]
        exact xy_measure_flags K dev _ _ _ _ hinv
    · rw [if_neg hc]
      exact xy_measure_flags K dev _ _ _ _ hinv
  · rw [if_neg hp]
    exact ⟨fun h => absurd h (by simp), fun _ => hinv⟩

theorem xy_loop_flags (K : SsConsts) (dev : Instrument) (a : XyArgs) (fs : Bool) (cs : Int)
    (hn : K.inst_needs_cal ≠ K.inst_ok) :
    ∀ (n : Nat) (step pass : Int) (st : XySt), (∀ k ∈ st.meas, RelOnly (st.vals k)) →
      (xy_loop K dev a fs cs n step pass st).rv = K.inst_ok →
      ∀ k ∈ (xy_loop K dev a fs cs n step pass st).meas,
        RelOnly ((xy_loop K dev a fs cs n step pass st).vals k) := by
  intro n
  induction n with
  | zero =>
    intro step pass st hinv _
    exact hinv
  | succ n ih =>
    intro step pass st hinv hrv
    obtain ⟨b1, b2⟩ := xy_body_flags K dev a fs cs step pass st hn hinv
    simp only [xy_loop] at hrv ⊢
    by_cases hb : (xy_body K dev a fs cs step pass st).1 = true
    · rw [if_pos hb] at hrv
      exact absurd hrv (b1 hb)
    · rw [if_neg hb] at hrv ⊢
      exact ih _ _ _ (b2 (by simpa using hb)) hrv

/-- A call of `ss_read_xy` that returns `inst_ok` leaves every patch it has
measured with the relative flag set and the absolute flag clear. -/
theorem ss_read_xy_flags (K : SsConsts) (dev : Instrument) (p : ss) (a : XyArgs)
    (vals : Int → ipatch) (log : List SsCmd) (hn : K.inst_needs_cal ≠ K.inst_ok)
    (hrv : (ss_read_xy K dev p a vals log).rv = K.inst_ok) :
    ∀ k ∈ (ss_read_xy K dev p a vals log).meas,
      RelOnly ((ss_read_xy K dev p a vals log).vals k) := by
  unfold ss_read_xy at hrv ⊢
  split_ifs at hrv ⊢
  · intro k hk
    simp at hk
  · exact xy_loop_flags K dev a (fstep a) (cstep a) hn _ 0 0 _ (fun k hk => by simp at hk) hrv

/-- C25: the three reading functions leave exactly one of the validity flags
`XYZ_v` (relative) and `aXYZ_v` (absolute) set on success.
(1) A call of `ss_read_sample` that returns `inst_ok` or `inst_user_trig` has
left the mode of the handle as it was and written a `*val` in which the
absolute flag is 1 and the relative flag 0 when the active mode is in the
emission class, and the relative flag is 1 and the absolute flag 0 when it is
not.  (2) A call of `hcfr_read_sample` that returns `inst_ok` or
`inst_user_trig` has set the absolute flag to 1 and the relative flag to 0.
(3) A call of `ss_read_xy` that returns `inst_ok` has left every patch it
measured with the relative flag 1 and the absolute flag 0.
Hypotheses, all on what lies outside the source at hand: the codes of `inst.h`
the drivers return are distinct, and so are the emission and transmission
classes; no instrument command returns the bare class `inst_user_trig` (a user
trigger met by a command comes back with its subcode); a key other than the
trigger key is reported by `ss_inst_err` as a failure; the layouts of `icoms.h`,
`hcfr.h` and `inst.h` are as for the status classification, with a non-zero
`HCFR_USER_TRIG`; and `icoms_poll_user`, asked to wait for a key, does not
answer `ICOM_OK`. -/
theorem read_flags_exclusive (S : SsConsts) (dev : Instrument)
    (icoms2ss_err ss_inst_err : Int → Int) (se : Int) (fuel : Nat) (p : ss)
    (val : Option ipatch) (log : List SsCmd) (r : RsOut) (q : ss) (a : XyArgs)
    (vals : Int → ipatch)
    (K : Consts) (icmMulBy3x3 : (Nat → Nat → ℚ) → (Nat → ℚ) → (Nat → ℚ)) (hp : hcfr)
    (poll hse : Int) (buf : List Char) (rgb : Nat → ℚ) (hval : ipatch)
    (hS : S.Codes) (hdev : ∀ log c, (dev log c).code ≠ S.inst_user_trig)
    (hkey : se ≠ S.ICOM_TRIG → Failed S (ss_inst_err (icoms2ss_err se)))
    (hK : K.WF) (hSp : K.Split) (hI : K.IcomWF) (hM : K.Masked) (h0 : K.HCFR_USER_TRIG ≠ 0)
    (hpoll : hp.trig = inst_opt_mode.inst_opt_trig_keyb → poll ≠ K.ICOM_OK) :
    (ss_read_sample S dev icoms2ss_err ss_inst_err se fuel p val log = some r →
        (r.code = S.inst_ok ∨ r.code = S.inst_user_trig) →
        ∃ v, r.val = some v ∧ r.p.mode = p.mode
          ∧ (illum_class S p = S.inst_mode_emission → v.aXYZ_v = 1 ∧ v.XYZ_v = 0)
          ∧ (illum_class S p ≠ S.inst_mode_emission → v.XYZ_v = 1 ∧ v.aXYZ_v = 0))
      ∧ (((hcfr_read_sample K icmMulBy3x3 hp poll hse buf rgb hval).code = K.inst_ok
            ∨ (hcfr_read_sample K icmMulBy3x3 hp poll hse buf rgb hval).code
              = K.inst_user_trig) →
          (hcfr_read_sample K icmMulBy3x3 hp poll hse buf rgb hval).val.aXYZ_v = 1
            ∧ (hcfr_read_sample K icmMulBy3x3 hp poll hse buf rgb hval).val.XYZ_v = 0)
      ∧ ((ss_read_xy S dev q a vals log).rv = S.inst_ok →
          ∀ k ∈ (ss_read_xy S dev q a vals log).meas,
            ((ss_read_xy S dev q a vals log).vals k).XYZ_v = 1
              ∧ ((ss_read_xy S dev q a vals log).vals k).aXYZ_v = 0) := by
  refine ⟨fun h hr => ?_,
    fun hr => hcfr_read_sample_flags K icmMulBy3x3 hp poll hse buf rgb hval hK hSp hI hM h0
      hpoll hr, fun hrv => ?_⟩
  · obtain ⟨v, s, t, -, hm, -, hsv, hc, hrv, hrp, -⟩ := ss_read_sample_success S dev
      icoms2ss_err ss_inst_err se fuel p val log r hS hdev hkey h hr
    obtain ⟨c1, -, -, -, -, c6, c7⟩ := rs_convert_go S dev hS.2 s t hc
    have hcl : illum_class S s.p = illum_class S p := by
      unfold illum_class
      rw [hm]
    rw [hcl, hsv] at c6 c7
    refine ⟨t.val, hrv, ?_, c6, c7⟩
    rw [hrp, c1, hm]
  · have hnd := hS.1
    simp only [List.nodup_cons, List.mem_cons, List.mem_singleton, not_or, List.not_mem_nil,
      not_false_eq_true, List.nodup_nil, and_true] at hnd
    exact ss_read_xy_flags S dev q a vals log (Ne.symm hnd.1.2.2.1) hrv

theorem devGood_no_bare_trig (log : List SsCmd) (c : SsCmd) :
    (devGood log c).code ≠ sampleSs.inst_user_trig := by
  cases c with
  | so_do_ExecRefMeasurement mm => cases mm <;> simp [devGood, sampleSs]
  | _ => simp [devGood, sampleSs]

set_option maxRecDepth 1000000 in
/-- C25, instance: a Spectrolino in emission mode read with the software
trigger returns `inst_ok` with the absolute flag set and the relative flag
clear; the HCFR colorimeter read on the trigger key returns `inst_user_trig`
with the absolute flag set; and the four patches of a 2 by 2 grid scan have
the relative flag set and the absolute flag clear. -/
theorem read_flags_exclusive_witness :
    (∃ r v, ss_read_sample sampleSs devGood id id sampleSs.ICOM_TRIG 1 pEmis (some ipatch0) []
          = some r
        ∧ r.code = sampleSs.inst_ok ∧ r.val = some v ∧ v.aXYZ_v = 1 ∧ v.XYZ_v = 0)
      ∧ ((hcfr_read_sample sampleConsts mul3x3 hcfrKeyb sampleConsts.ICOM_TRIG 0 reply156 rgb0
            ipatch0).code = sampleConsts.inst_user_trig
          ∧ (hcfr_read_sample sampleConsts mul3x3 hcfrKeyb sampleConsts.ICOM_TRIG 0 reply156
            rgb0 ipatch0).val.aXYZ_v = 1
          ∧ (hcfr_read_sample sampleConsts mul3x3 hcfrKeyb sampleConsts.ICOM_TRIG 0 reply156
            rgb0 ipatch0).val.XYZ_v = 0)
      ∧ ((ss_read_xy sampleSs devGood pXY a22 vals0 []).meas = [0, 1, 3, 2]
          ∧ ∀ k ∈ (ss_read_xy sampleSs devGood pXY a22 vals0 []).meas,
            ((ss_read_xy sampleSs devGood pXY a22 vals0 []).vals k).XYZ_v = 1
              ∧ ((ss_read_xy sampleSs devGood pXY a22 vals0 []).vals k).aXYZ_v = 0) := by
  have hcode : (ss_read_sample sampleSs devGood id id sampleSs.ICOM_TRIG 1 pEmis (some ipatch0)
      []).map (fun r => r.code) = some sampleSs.inst_ok := by decide
  obtain ⟨r, hr, hrc⟩ := Option.map_eq_some'.1 hcode
  have htrig : (hcfr_read_sample sampleConsts mul3x3 hcfrKeyb sampleConsts.ICOM_TRIG 0 reply156
      rgb0 ipatch0).code = sampleConsts.inst_user_trig := by decide
  have hf : fstep a22 = true := by norm_num [fstep, a22]
  have hc : cstep a22 = 0 := by norm_num [cstep, a22]
  have hrv : (ss_read_xy sampleSs devGood pXY a22 vals0 []).rv = sampleSs.inst_ok
      ∧ (ss_read_xy sampleSs devGood pXY a22 vals0 []).meas = [0, 1, 3, 2] := by
    simp only [ss_read_xy, hf, hc]
    decide
  have h := read_flags_exclusive sampleSs devGood id id sampleSs.ICOM_TRIG 1 pEmis
    (some ipatch0) [] r pXY a22 vals0 sampleConsts mul3x3 hcfrKeyb sampleConsts.ICOM_TRIG 0
    reply156 rgb0 ipatch0 (by decide) devGood_no_bare_trig (fun h => absurd rfl h) (by decide)
    (by decide) (by decide) (by decide) (by decide) (fun _ => by decide)
  obtain ⟨v, hv, -, he, -⟩ := h.1 hr (Or.inl hrc)
  exact ⟨⟨r, v, hr, hrc, hv, he (by decide)⟩, ⟨htrig, h.2.1 (Or.inr htrig)⟩, hrv.2,
    h.2.2 hrv.1⟩

/-! ## The emulated transmission conversion -/

theorem foldl_cond_add (c : Nat → Prop) [DecidablePred c] (f : Nat → ℚ) (n : Nat) (a0 : ℚ) :
    (List.range n).foldl (fun acc i => if c i then acc + f i else acc) a0
      = a0 + Finset.sum (Finset.range n) (fun i => if c i then f i else 0) := by
  induction n with
  | zero => simp
  | succ n ih =>
    rw [List.range_succ, List.foldl_append, ih, Finset.sum_range_succ]
    simp only [List.foldl_cons, List.foldl_nil]
    split_ifs <;> ring

theorem foldl_cond_add3 (c : Nat → Prop) [DecidablePred c] (g : Nat → Nat → ℚ) (n : Nat)
    (X0 : Nat → ℚ) (j : Nat) (hj : j < 3) :
    (List.range n).foldl
        (fun acc i => if c i then (fun j => if j < 3 then acc j + g j i else acc j) else acc)
        X0 j
      = X0 j + Finset.sum (Finset.range n) (fun i => if c i then g j i else 0) := by
  induction n with
  | zero => simp
  | succ n ih =>
    rw [List.range_succ, List.foldl_append, Finset.sum_range_succ]
    simp only [List.foldl_cons, List.foldl_nil]
    split_ifs
    · simp only [if_pos hj, ih]
      ring
    · rw [ih]
      ring

/-- The conversion of lines 945 to 985 in closed form: component `j` of the
result is the sum over the samples at or above the threshold of
`obsv[tix][j][i] * cill[i] * raw[i] / tref[i]`, times 100 over the sum of
`obsv[tix][1][i] * cill[i]` over the same samples. -/
theorem trans_XYZ_closed (tix : Nat) (tref cill raw XYZ : Nat → ℚ) (j : Nat) (hj : j < 3) :
    trans_XYZ tix tref cill (trans_spec tref raw) XYZ j
      = Finset.sum (Finset.range 36)
          (fun i => if tref i ≥ 1 / 10000 then obsv tix j i * cill i * raw i / tref i else 0)
        * (100 / Finset.sum (Finset.range 36)
          (fun i => if tref i ≥ 1 / 10000 then obsv tix 1 i * cill i else 0)) := by
  unfold trans_XYZ trans_sum trans_norm
  rw [if_pos hj, foldl_cond_add3 (fun i => tref i ≥ 1 / 10000)
    (fun j i => obsv tix j i * cill i * trans_spec tref raw i) 36 _ j hj,
    foldl_cond_add (fun i => tref i ≥ 1 / 10000) (fun i => obsv tix 1 i * cill i) 36 0]
  simp only [if_pos hj, zero_add]
  congr 1
  apply Finset.sum_congr rfl
  intro i hi
  have hi36 : i < 36 := Finset.mem_range.1 hi
  by_cases hc : tref i ≥ 1 / 10000
  · simp only [if_pos hc, trans_spec, if_pos hi36]
    ring
  · simp only [if_neg hc]

theorem rs_convert_trans (K : SsConsts) (dev : Instrument) (s : RsSt)
    (hm : illum_class K s.p = K.inst_mode_transmission)
    (hi : s.p.itype = instType.instSpectrolino) : rs_convert K dev s = rs_trans K dev s := by
  unfold rs_convert
  rw [if_pos ⟨hm, hi⟩]

theorem trans_Y_full (tix : Nat) (tref cill raw : Nat → ℚ)
    (hraw : ∀ i, i < 36 → tref i ≥ 1 / 10000 → raw i = tref i)
    (hN : Finset.sum (Finset.range 36)
      (fun i => if tref i ≥ 1 / 10000 then obsv tix 1 i * cill i else 0) ≠ 0) :
    Finset.sum (Finset.range 36)
        (fun i => if tref i ≥ 1 / 10000 then obsv tix 1 i * cill i * raw i / tref i else 0)
      * (100 / Finset.sum (Finset.range 36)
        (fun i => if tref i ≥ 1 / 10000 then obsv tix 1 i * cill i else 0)) = 100 := by
  have hs : Finset.sum (Finset.range 36)
        (fun i => if tref i ≥ 1 / 10000 then obsv tix 1 i * cill i * raw i / tref i else 0)
      = Finset.sum (Finset.range 36)
        (fun i => if tref i ≥ 1 / 10000 then obsv tix 1 i * cill i else 0) := by
    apply Finset.sum_congr rfl
    intro i hi
    by_cases hc : tref i ≥ 1 / 10000
    · have h0 : tref i ≠ 0 := by
        intro h
        rw [h] at hc
        norm_num at hc
      simp only [if_pos hc, hraw i (Finset.mem_range.1 hi) hc]
      field_simp
    · simp only [if_neg hc]
  rw [hs]
  field_simp

/-- C26: a call of `ss_read_sample` on a Spectrolino in a transmission mode
that returns `inst_ok` or `inst_user_trig` has ended with the spectrum request
and set the relative flag, and with `raw` the spectrum the instrument returned
to that request, `tref` and `cill` the reference and illuminant tables of the
handle on return, and `tix` 1 for the ten degree observer and 0 otherwise: for
`j` = 0, 1, 2, `XYZ[j]` is the sum over the samples `i < 36` with
`tref[i] >= 0.0001` of `obsv[tix][j][i] * cill[i] * raw[i] / tref[i]`, the
samples below the threshold contributing 0 and dividing nothing, times
`100 /` the sum of `obsv[tix][1][i] * cill[i]` over the samples with
`tref[i] >= 0.0001`.  Hence `XYZ[1]` is 100 when `raw` equals `tref` on those
samples and that last sum is not zero.  The hypotheses on the instrument and
the key are those under which a return of `inst_ok` or `inst_user_trig` can
only be the final one. -/
theorem ss_read_sample_emulated_transmission (S : SsConsts) (dev : Instrument)
    (icoms2ss_err ss_inst_err : Int → Int) (se : Int) (fuel : Nat) (p : ss)
    (val : Option ipatch) (log : List SsCmd) (r : RsOut) (hS : S.Codes)
    (hdev : ∀ log c, (dev log c).code ≠ S.inst_user_trig)
    (hkey : se ≠ S.ICOM_TRIG → Failed S (ss_inst_err (icoms2ss_err se)))
    (hm : illum_class S p = S.inst_mode_transmission)
    (hi : p.itype = instType.instSpectrolino)
    (h : ss_read_sample S dev icoms2ss_err ss_inst_err se fuel p val log = some r)
    (hr : r.code = S.inst_ok ∨ r.code = S.inst_user_trig) :
    ∃ v, r.val = some v ∧ v.XYZ_v = 1
      ∧ r.log.getLast? = some SsCmd.so_do_SpecParameterRequest
      ∧ (∀ j, j < 3 →
          v.XYZ j
            = Finset.sum (Finset.range 36)
                (fun i =>
                  if r.p.tref i ≥ 1 / 10000 then
                    obsv (if r.p.obsv = S.ss_ot_TenDeg then 1 else 0) j i * r.p.cill i
                      * (dev r.log.dropLast SsCmd.so_do_SpecParameterRequest).spec i
                      / r.p.tref i
                  else 0)
              * (100 / Finset.sum (Finset.range 36)
                (fun i =>
                  if r.p.tref i ≥ 1 / 10000 then
                    obsv (if r.p.obsv = S.ss_ot_TenDeg then 1 else 0) 1 i * r.p.cill i
                  else 0)))
      ∧ ((∀ i, i < 36 → r.p.tref i ≥ 1 / 10000 →
            (dev r.log.dropLast SsCmd.so_do_SpecParameterRequest).spec i = r.p.tref i) →
          Finset.sum (Finset.range 36)
              (fun i =>
                if r.p.tref i ≥ 1 / 10000 then
                  obsv (if r.p.obsv = S.ss_ot_TenDeg then 1 else 0) 1 i * r.p.cill i
                else 0) ≠ 0 →
          v.XYZ 1 = 100) := by
  obtain ⟨v0, s, t, -, hsm, hsi, -, hc, hrv, hrp, hrl⟩ := ss_read_sample_success S dev
    icoms2ss_err ss_inst_err se fuel p val log r hS hdev hkey h hr
  have hcl : illum_class S s.p = S.inst_mode_transmission := by
    unfold illum_class at hm ⊢
    rw [hsm]
    exact hm
  rw [rs_convert_trans S dev s hcl (hsi.trans hi)] at hc
  obtain ⟨e1, e2, e3, -, e5⟩ := rs_trans_go S dev s t hc
  have hlog : r.log.dropLast = s.log := by
    rw [hrl, e2, List.dropLast_concat]
  have hlast : r.log.getLast? = some SsCmd.so_do_SpecParameterRequest := by
    rw [hrl, e2, List.getLast?_concat]
  have hp : r.p = s.p := hrp.trans e1
  have hform : ∀ j, j < 3 →
      t.val.XYZ j
        = Finset.sum (Finset.range 36)
            (fun i =>
              if r.p.tref i ≥ 1 / 10000 then
                obsv (if r.p.obsv = S.ss_ot_TenDeg then 1 else 0) j i * r.p.cill i
                  * (dev r.log.dropLast SsCmd.so_do_SpecParameterRequest).spec i
                  / r.p.tref i
              else 0)
          * (100 / Finset.sum (Finset.range 36)
            (fun i =>
              if r.p.tref i ≥ 1 / 10000 then
                obsv (if r.p.obsv = S.ss_ot_TenDeg then 1 else 0) 1 i * r.p.cill i
              else 0)) := by
    intro j hj
    rw [e5, trans_XYZ_closed _ _ _ _ _ j hj, hlog, hp]
  refine ⟨t.val, hrv, e3, hlast, hform, fun hraw hN => ?_⟩
  rw [hform 1 (by decide)]
  exact trans_Y_full _ _ _ _ hraw hN

theorem ss_read_sample_pTrans :
    ss_read_sample sampleSs devGood id id sampleSs.ICOM_TRIG 1 pTrans (some ipatch0) []
      = some outTrans := by
  rfl

theorem obsv_Y_sum :
    Finset.sum (Finset.range 36) (fun i => if (1 : ℚ) ≥ 1 / 10000 then obsv 0 1 i * 1 else 0)
      ≠ 0 := by
  have h : (1 : ℚ) ≥ 1 / 10000 := by norm_num
  simp only [if_pos h, mul_one]
  simp only [Finset.sum_range_succ, Finset.sum_range_zero, obsv, obsv_table, List.getD_cons_zero,
    List.getD_cons_succ]
  norm_num

/-- C26, instance: a Spectrolino in transmission spot mode whose reference
and illuminant table are 1 at every sample reads a spectrum equal to the
reference; `ss_read_sample` returns `inst_ok` with the relative flag set and
`Y = 100`. -/
theorem ss_read_sample_emulated_transmission_witness :
    ss_read_sample sampleSs devGood id id sampleSs.ICOM_TRIG 1 pTrans (some ipatch0) []
        = some outTrans
      ∧ outTrans.code = sampleSs.inst_ok
      ∧ ∃ v, outTrans.val = some v ∧ v.XYZ_v = 1 ∧ v.XYZ 1 = 100 := by
  obtain ⟨v, hv, hflag, -, -, hY⟩ := ss_read_sample_emulated_transmission sampleSs devGood id
    id sampleSs.ICOM_TRIG 1 pTrans (some ipatch0) [] outTrans (by decide) devGood_no_bare_trig
    (fun h => absurd rfl h) (by decide) rfl ss_read_sample_pTrans (Or.inl rfl)
  exact ⟨ss_read_sample_pTrans, rfl, v, hv, hflag, hY (fun i _ _ => rfl) obsv_Y_sum⟩

end Argyll
